import Mathlib

/-!
# Scalable Ambient Obscurance pipeline (`src/sao/SAO.h`, `src/sao/SAO.cpp`)

A shallow embedding of the `SAO` class: its members, the buffer life cycle
(`resizeBuffers`), the four passes (`computeCSZ`, `computeRawAO`,
`blurHorizontal`, `blurVertical`), the two `compute` overloads and the
accessors; of `Scene::toAny` (`src/sao/Scene.cpp`); and of the buffer sizes
with which the demo calls `compute` (`src/sao/App.cpp`).

Conventions of the embedding.

* `float` and `double` values are exact rationals (`ℚ`); rounding is ignored.
  The only non-finite value the code tests for, `-inf()`, is a constructor of
  `PlaneZ`.
* A `Texture::Ref` / `Framebuffer::Ref` is an `Option Nat`: `none` is the null
  reference, `some i` refers to object `i` of the graphics heap.  Reference
  counted objects never dangle, so the heap is a total map.
* A `Shader::Ref` member owns its shader (nothing else refers to it), so the
  shader object is stored by value behind an `Option`.
* A member function is a function `World → Outcome`; `Outcome.abort` carries the
  failed assertion or the null dereference together with the state in which it
  happened.
* The G3D library (`RenderDevice`, `Framebuffer`, `Texture`, `Rect2D`) is not
  part of the repository; the few operations the class calls are modelled after
  the library's documented behaviour and each such definition says so.
* The per-pixel programs (`*.pix`) are external: `Env.kernel` is a parameter.
  What the spec says of the minify program, that it reads only the previous
  level, is the predicate `MinifyReadsPreviousLevel`.
-/

namespace SAO

/-! ## Constants -/

/-- The macro `MAX_MIP_LEVEL` of SAO.cpp (line 23). -/
def MAX_MIP_LEVEL : Nat := 5

/-- The macro `Z_COORD` of SAO.cpp (line 26). -/
def Z_COORD : ℚ := -1

/-! ## Plain data -/

/-- G3D `Vector3` over exact arithmetic. -/
structure Vector3 where
  x : ℚ
  y : ℚ
  z : ℚ
  deriving DecidableEq

/-- G3D `Vector4` over exact arithmetic. -/
structure Vector4 where
  x : ℚ
  y : ℚ
  z : ℚ
  w : ℚ
  deriving DecidableEq

/-- G3D `Color3`; a depth texture keeps its depth value in `r`. -/
structure Color3 where
  r : ℚ
  g : ℚ
  b : ℚ
  deriving DecidableEq

/-- The colour `Color3::white()`. -/
def Color3.white : Color3 := ⟨1, 1, 1⟩

/-- G3D `Matrix4`, indexed as `P[row][column]`. -/
abbrev Matrix4 := Fin 4 → Fin 4 → ℚ

/-- G3D `Rect2D` with corners `(x0, y0)` and `(x1, y1)`.  Every rectangle of
this program is built from `int` values, so the corners are integers. -/
structure Rect2D where
  x0 : Int
  y0 : Int
  x1 : Int
  y1 : Int
  deriving DecidableEq

/-- The library constructor `Rect2D::xyxy`: the rectangle whose corners are the
two points; G3D stores the component-wise minimum and maximum. -/
def Rect2D.xyxy (x0 y0 x1 y1 : Int) : Rect2D := ⟨min x0 x1, min y0 y1, max x0 x1, max y0 y1⟩

/-- The library constructor `Rect2D::xywh`, which is `xyxy(x, y, x + w, y + h)`. -/
def Rect2D.xywh (x y w h : Int) : Rect2D := Rect2D.xyxy x y (x + w) (y + h)

/-- The accessor `Rect2D::width`. -/
def Rect2D.width (r : Rect2D) : Int := r.x1 - r.x0

/-- The accessor `Rect2D::height`. -/
def Rect2D.height (r : Rect2D) : Int := r.y1 - r.y0

/-- Pixel `(x, y)` lies inside the rectangle (scissor convention: the lower
edges are included, the upper edges are not). -/
def Rect2D.contains (r : Rect2D) (x y : Int) : Bool :=
  decide (r.x0 ≤ x) && decide (x < r.x1) && decide (r.y0 ≤ y) && decide (y < r.y1)

/-- A value returned by `GCamera::farPlaneZ()`: `-inf()` or a finite depth. -/
inductive PlaneZ where
  | negInf
  | finite (z : ℚ)
  deriving DecidableEq

/-- The part of G3D `GCamera` that `SAO::compute` calls. -/
structure GCamera where
  nearPlaneZ : ℚ
  farPlaneZ : PlaneZ
  getProjectUnitMatrix : Rect2D → Matrix4
  imagePlanePixelsPerMeter : Rect2D → ℚ

/-- The G3D image formats named in this program. -/
inductive ImageFormat where
  | RGB8
  | R8
  | R16F
  | L16F
  | R32F
  | L32F
  | RG32F
  deriving DecidableEq, Repr

/-- The `Texture::InterpolateMode` values named in this program. -/
inductive InterpolateMode where
  | NEAREST_NO_MIPMAP
  | NEAREST_MIPMAP
  deriving DecidableEq, Repr

/-- The fields of `Texture::Settings` that SAO.cpp touches. -/
structure TextureSettings where
  interpolateMode : InterpolateMode
  maxMipMap : Int
  deriving DecidableEq

/-- The library preset `Texture::Settings::buffer()` (no MIP filtering; the
library default of `maxMipMap` is 1000). -/
def TextureSettings.buffer : TextureSettings := ⟨.NEAREST_NO_MIPMAP, 1000⟩

/-- A texture object: its dimensions, format, settings and the texel stored at
each MIP level and pixel. -/
structure Texture where
  name : String
  width : Int
  height : Int
  format : ImageFormat
  settings : TextureSettings
  texel : Nat → Int → Int → Color3

/-- A framebuffer attachment made by `Framebuffer::set(ap, texture, face, mip)`. -/
structure Attachment where
  texture : Nat
  mipLevel : Nat
  deriving DecidableEq

/-- The two attachment points used by SAO.cpp. -/
inductive AttachmentPoint where
  | COLOR0
  | DEPTH
  deriving DecidableEq

/-- A framebuffer object: a name and what is bound to COLOR0 and to DEPTH. -/
structure Framebuffer where
  name : String
  color0 : Option Attachment
  depth : Option Attachment
  deriving DecidableEq

/-- A value stored in a `Shader::ArgList`. -/
inductive Arg where
  | float (v : ℚ)
  | int (v : Int)
  | vector2int16 (x y : Int)
  | vector3 (v : Vector3)
  | vector4 (v : Vector4)
  | texture (t : Option Nat)
  deriving DecidableEq

/-- A shader object: the two source files, the preserve-state flag and the
named arguments (`Shader::args`), which persist between draws. -/
structure Shader where
  vertexFile : String
  pixelFile : String
  preserveState : Bool
  args : String → Option Arg

/-- The library call `Shader::fromFiles` (compilation itself is external). -/
def Shader.fromFiles (vertexFile pixelFile : String) : Shader :=
  ⟨vertexFile, pixelFile, true, fun _ => none⟩

/-- The library call `Shader::setPreserveState`. -/
def Shader.setPreserveState (s : Shader) (b : Bool) : Shader :=
  { s with preserveState := b }

/-- The library call `Shader::ArgList::set`. -/
def Shader.set (s : Shader) (key : String) (v : Arg) : Shader :=
  { s with args := fun k => if k = key then some v else s.args k }

/-- The `RenderDevice::DepthTest` values used here. -/
inductive DepthTest where
  | DEPTH_ALWAYS_PASS
  | DEPTH_GREATER
  | DEPTH_LEQUAL
  deriving DecidableEq, Repr

/-- The part of the render device state that `pushState` saves. -/
structure RenderState where
  framebuffer : Option Nat
  viewport : Rect2D
  clip2D : Rect2D
  depthTest : DepthTest
  depthWrite : Bool
  colorClearValue : Color3
  deriving DecidableEq

/-- The render device: current state, the stack of saved states, and the
hardware framebuffer (colour and depth) that is the target when no
framebuffer object is bound. -/
structure RenderDevice where
  state : RenderState
  stack : List RenderState
  backColor : Texture
  backDepth : Texture

/-- The class `SAO::Settings`. -/
structure Settings where
  radius : ℚ
  bias : ℚ
  intensity : ℚ
  deriving DecidableEq

/-- The constructor `SAO::Settings::Settings()` (SAO.cpp, lines 28-31). -/
def Settings.new : Settings := ⟨1, 12 / 1000, 1⟩

/-- The data members of class `SAO` (SAO.h, lines 98-115). -/
structure Members where
  m_settings : Settings
  m_cszBuffer : Option Nat
  m_reconstructCSZShader : Option Shader
  m_cszFramebuffers : List Nat
  m_cszMinifyShader : Option Shader
  m_rawAOBuffer : Option Nat
  m_rawAOFramebuffer : Option Nat
  m_rawAOShader : Option Shader
  m_hBlurredBuffer : Option Nat
  m_hBlurredFramebuffer : Option Nat
  m_blurShader : Option Shader

/-- The state of `SAO::create()`: default settings, every reference null, the
framebuffer array empty. -/
def Members.new : Members :=
  ⟨Settings.new, none, none, [], none, none, none, none, none, none, none⟩

/-- A record of one member-function entry, with the arguments it received. -/
inductive Call where
  | compute (depthBuffer : Option Nat) (clipConstant : Vector3) (projConstant : Vector4)
      (projScale : ℚ) (guardBandSize : Int)
  | reloadShaders
  | resizeBuffers (width height : Int)
  | computeCSZ (depthBuffer : Option Nat) (clipInfo : Vector3)
  | computeRawAO (depthBuffer : Option Nat) (clipConstant : Vector3) (projConstant : Vector4)
      (projScale : ℚ) (csZBuffer : Option Nat) (guardBandSize : Int)
  | blurHorizontal (depthBuffer : Option Nat) (guardBandSize : Int)
  | blurVertical (depthBuffer : Option Nat) (guardBandSize : Int)
  deriving DecidableEq

/-- A record of one pixel-touching command submitted to the render device,
with the render state in force when it was submitted. -/
inductive Command where
  | clear (state : RenderState) (color depth stencil : Bool)
  | applyRect (state : RenderState) (shader : Shader) (z : ℚ)

/-- Everything a member function can read or change: the graphics heap, the
render device, the members of the one `SAO` instance, and two ghost logs
(member-function entries and submitted device commands). -/
structure World where
  textures : Nat → Texture
  nextTexture : Nat
  framebuffers : Nat → Framebuffer
  nextFramebuffer : Nat
  rd : RenderDevice
  sao : Members
  calls : List Call
  commands : List Command

/-- What is outside the repository and fixed per build or per machine. -/
structure Env where
  /-- The macro `ZBITS` (SAO.cpp line 20; the shipped value is 32). -/
  ZBITS : Int
  /-- Whether `G3D_DEBUG` is defined, that is whether `debugAssert` is compiled in. -/
  debug : Bool
  /-- The capability query `GLCaps::supportsTextureDrawBuffer`. -/
  supportsTextureDrawBuffer : ImageFormat → Bool
  /-- The colour a pixel program writes at a pixel, given the shader object
  (program and arguments) and the textures it may sample. -/
  kernel : Shader → (Nat → Texture) → Int → Int → Color3
  /-- The contents of freshly allocated or resized texture storage. -/
  fresh : Nat → Int → Int → Color3
  /-- The default `zCoord` of `RenderDevice::applyRect`. -/
  defaultZ : ℚ

/-- How a call can stop early. -/
inductive Fault where
  | alwaysAssert (message : String)
  | debugAssert (expression : String)
  | nullDereference
  | arrayBounds (index : Nat)
  deriving DecidableEq, Repr

/-- The result of a member function: it returned, or it stopped at a fault; in
both cases with the state reached. -/
inductive Outcome where
  | ok (w : World)
  | abort (f : Fault) (w : World)

/-- The state an outcome carries. -/
def Outcome.world : Outcome → World
  | .ok w => w
  | .abort _ w => w

/-- Sequencing: continue only after a normal return. -/
def Outcome.andThen (o : Outcome) (k : World → Outcome) : Outcome :=
  match o with
  | .ok w => k w
  | .abort f w => .abort f w

/-- The C loop `for (i = lo; i < lo + n; ++i) body(i)`. -/
def forLoop (body : Nat → World → Outcome) : Nat → Nat → World → Outcome
  | _, 0, w => .ok w
  | lo, n + 1, w => (body lo w).andThen (forLoop body (lo + 1) n)

/-! ## The G3D operations called by SAO.cpp -/

/-- The width of MIP level `level` of a texture. -/
def Texture.levelWidth (t : Texture) (level : Nat) : Int := max 1 (t.width / 2 ^ level)

/-- The height of MIP level `level` of a texture. -/
def Texture.levelHeight (t : Texture) (level : Nat) : Int := max 1 (t.height / 2 ^ level)

/-- Pixel `(x, y)` exists at MIP level `level` of the texture. -/
def Texture.inBounds (t : Texture) (level : Nat) (x y : Int) : Bool :=
  decide (0 ≤ x) && decide (x < t.levelWidth level) && decide (0 ≤ y) && decide (y < t.levelHeight level)

/-- Store `value x y` at every existing pixel of one MIP level that `covers`
selects; every other texel keeps its value. -/
def Texture.write (t : Texture) (level : Nat) (covers : Int → Int → Bool)
    (value : Int → Int → Color3) : Texture :=
  { t with texel := fun l x y =>
      if l = level ∧ covers x y = true ∧ t.inBounds level x y = true then value x y
      else t.texel l x y }

/-- The library call `Texture::createEmpty`: a new texture object with
unspecified contents; its handle is the old value of `nextTexture`. -/
def World.createEmpty (env : Env) (w : World) (name : String) (width height : Int)
    (format : ImageFormat) (settings : TextureSettings) : World :=
  { w with
    textures := Function.update w.textures w.nextTexture
      ⟨name, width, height, format, settings, env.fresh⟩
    nextTexture := w.nextTexture + 1 }

/-- The library call `Texture::resize`: same object, new dimensions,
unspecified contents. -/
def World.resizeTexture (env : Env) (w : World) (t : Nat) (width height : Int) : World :=
  { w with
    textures := Function.update w.textures t
      { w.textures t with width := width, height := height, texel := env.fresh } }

/-- The library call `Framebuffer::create`: a new framebuffer object with
nothing attached; its handle is the old value of `nextFramebuffer`. -/
def World.createFramebuffer (w : World) (name : String) : World :=
  { w with
    framebuffers := Function.update w.framebuffers w.nextFramebuffer ⟨name, none, none⟩
    nextFramebuffer := w.nextFramebuffer + 1 }

/-- The library call `Framebuffer::set(ap, texture, face, mipLevel)` on one
framebuffer object; a null texture clears the attachment point. -/
def Framebuffer.set (f : Framebuffer) (ap : AttachmentPoint) (t : Option Nat) (mip : Nat) :
    Framebuffer :=
  match ap with
  | .COLOR0 => { f with color0 := t.map fun i => ⟨i, mip⟩ }
  | .DEPTH => { f with depth := t.map fun i => ⟨i, mip⟩ }

/-- The call `fb->set(ap, texture, CubeFace::POS_X, mip)` on framebuffer object `fb`. -/
def World.framebufferSet (w : World) (fb : Nat) (ap : AttachmentPoint) (t : Option Nat)
    (mip : Nat) : World :=
  { w with framebuffers := Function.update w.framebuffers fb ((w.framebuffers fb).set ap t mip) }

/-- The library accessor `Framebuffer::rect2DBounds`: the size of the first
attachment (COLOR0 before DEPTH), empty when nothing is attached. -/
def World.rect2DBounds (w : World) (fb : Nat) : Rect2D :=
  match (w.framebuffers fb).color0, (w.framebuffers fb).depth with
  | some a, _ => Rect2D.xywh 0 0 (w.textures a.texture).width (w.textures a.texture).height
  | none, some a => Rect2D.xywh 0 0 (w.textures a.texture).width (w.textures a.texture).height
  | none, none => Rect2D.xywh 0 0 0 0

/-- Replace the current render state. -/
def World.setState (w : World) (s : RenderState) : World :=
  { w with rd := { w.rd with state := s } }

/-- The library call `RenderDevice::push2D(fb, viewport)`: save the state
(`pushState`); when `fb` is not null bind it and reset clip and viewport to its
bounds; then switch depth writing off, let every fragment pass the depth test
and set the viewport. -/
def World.push2DWith (w : World) (fb : Option Nat) (viewport : Rect2D) : World :=
  let saved := w.rd.state
  let bound : RenderState :=
    match fb with
    | some f =>
      { saved with framebuffer := some f, clip2D := w.rect2DBounds f, viewport := w.rect2DBounds f }
    | none => saved
  { w with rd := { w.rd with
      state := { bound with depthWrite := false, depthTest := .DEPTH_ALWAYS_PASS,
                            viewport := viewport }
      stack := saved :: w.rd.stack } }

/-- The library call `RenderDevice::push2D(fb)`: the viewport is the bounds of
`fb`, or the window when `fb` is null. -/
def World.push2D (w : World) (fb : Option Nat) : World :=
  w.push2DWith fb
    (match fb with
     | some f => w.rect2DBounds f
     | none => Rect2D.xywh 0 0 w.rd.backColor.width w.rd.backColor.height)

/-- The library call `RenderDevice::push2D()`: keep the bound framebuffer and
the current viewport. -/
def World.push2DCurrent (w : World) : World :=
  w.push2DWith w.rd.state.framebuffer w.rd.state.viewport

/-- The library call `RenderDevice::pop2D()`: restore the saved state. -/
def World.pop2D (w : World) : World :=
  match w.rd.stack with
  | [] => w
  | s :: rest => { w with rd := { w.rd with state := s, stack := rest } }

/-- The library call `RenderDevice::setDepthTest`. -/
def World.setDepthTest (w : World) (t : DepthTest) : World :=
  w.setState { w.rd.state with depthTest := t }

/-- The library call `RenderDevice::setColorClearValue`. -/
def World.setColorClearValue (w : World) (c : Color3) : World :=
  w.setState { w.rd.state with colorClearValue := c }

/-- The library call `RenderDevice::setClip2D` (the scissor rectangle). -/
def World.setClip2D (w : World) (r : Rect2D) : World :=
  w.setState { w.rd.state with clip2D := r }

/-- Write to the colour target of the bound framebuffer: the texture level
attached to COLOR0, or the hardware colour buffer when none is bound. -/
def World.writeColor (w : World) (covers : Int → Int → Bool) (value : Int → Int → Color3) :
    World :=
  match w.rd.state.framebuffer with
  | none => { w with rd := { w.rd with backColor := w.rd.backColor.write 0 covers value } }
  | some f =>
    match (w.framebuffers f).color0 with
    | none => w
    | some a =>
      { w with
        textures := Function.update w.textures a.texture
          ((w.textures a.texture).write a.mipLevel covers value) }

/-- Write to the depth target of the bound framebuffer: the texture level
attached to DEPTH, or the hardware depth buffer when none is bound. -/
def World.writeDepth (w : World) (covers : Int → Int → Bool) (value : Int → Int → Color3) :
    World :=
  match w.rd.state.framebuffer with
  | none => { w with rd := { w.rd with backDepth := w.rd.backDepth.write 0 covers value } }
  | some f =>
    match (w.framebuffers f).depth with
    | none => w
    | some a =>
      { w with
        textures := Function.update w.textures a.texture
          ((w.textures a.texture).write a.mipLevel covers value) }

/-- The depth stored at each pixel of the bound framebuffer, when it has a
depth target. -/
def World.storedDepth (w : World) : Option (Int → Int → ℚ) :=
  match w.rd.state.framebuffer with
  | none => some fun x y => (w.rd.backDepth.texel 0 x y).r
  | some f =>
    (w.framebuffers f).depth.map fun a => fun x y =>
      ((w.textures a.texture).texel a.mipLevel x y).r

/-- The OpenGL depth comparison of an incoming fragment with the stored depth. -/
def depthPasses (t : DepthTest) (fragment stored : ℚ) : Bool :=
  match t with
  | .DEPTH_ALWAYS_PASS => true
  | .DEPTH_GREATER => decide (stored < fragment)
  | .DEPTH_LEQUAL => decide (fragment ≤ stored)

/-- The window depth of a rectangle drawn at `z` under the orthographic
projection of `push2D` (near -1, far 1): `z = -1` lands on the far plane. -/
def fragmentDepth (z : ℚ) : ℚ := (1 - z) / 2

/-- The library call `RenderDevice::clear(color, depth, stencil)`: inside the
scissor rectangle, set the colour target to the clear colour and the depth
target to the far value 1.  Stencil contents are not modelled. -/
def World.clear (w : World) (color depth stencil : Bool) : World :=
  let st := w.rd.state
  let w1 := if color then w.writeColor st.clip2D.contains (fun _ _ => st.colorClearValue) else w
  let w2 := if depth then w1.writeDepth st.clip2D.contains (fun _ _ => ⟨1, 1, 1⟩) else w1
  { w2 with commands := w2.commands ++ [.clear st color depth stencil] }

/-- The library call `RenderDevice::applyRect(shader, z)`: run the pixel
program over the viewport at depth `z`.  A pixel is written when it lies in the
viewport and in the scissor rectangle and passes the depth test against the
depth target (if there is one). -/
def World.applyRect (env : Env) (w : World) (shader : Shader) (z : ℚ) : World :=
  let st := w.rd.state
  let covers : Int → Int → Bool := fun x y =>
    st.viewport.contains x y && st.clip2D.contains x y &&
      (match w.storedDepth with
       | none => true
       | some d => depthPasses st.depthTest (fragmentDepth z) (d x y))
  let w1 := w.writeColor covers (env.kernel shader w.textures)
  let w2 := if st.depthWrite then w1.writeDepth covers (fun _ _ => ⟨fragmentDepth z, 0, 0⟩) else w1
  { w2 with commands := w2.commands ++ [.applyRect st shader z] }

/-- Append a member-function entry to the call log. -/
def World.enter (w : World) (c : Call) : World := { w with calls := w.calls ++ [c] }

/-- Replace the members of the instance. -/
def World.setSao (w : World) (m : Members) : World := { w with sao := m }

/-! ## The member functions of class `SAO` -/

/-- The member function `SAO::reloadShaders` (SAO.cpp, lines 66-78).
`System::findDataFile` is file lookup and is taken as the identity on names. -/
def reloadShaders (w : World) : World :=
  let w := w.enter .reloadShaders
  let w := w.setSao { w.sao with
    m_rawAOShader := some ((Shader.fromFiles "SAO.vrt" "SAO_AO.pix").setPreserveState false) }
  let w := w.setSao { w.sao with
    m_blurShader := some ((Shader.fromFiles "SAO.vrt" "SAO_blur.pix").setPreserveState false) }
  let w := w.setSao { w.sao with
    m_reconstructCSZShader :=
      some ((Shader.fromFiles "SAO.vrt" "SAO_reconstructCSZ.pix").setPreserveState false) }
  w.setSao { w.sao with
    m_cszMinifyShader := some ((Shader.fromFiles "SAO.vrt" "SAO_minify.pix").setPreserveState false) }

/-- The expression initialising `csZFormat` (SAO.cpp, lines 93-100). -/
def csZFormat (env : Env) : ImageFormat :=
  if env.ZBITS = 16 then
    (if env.supportsTextureDrawBuffer .R16F then .R16F else .L16F)
  else
    (if env.supportsTextureDrawBuffer .R32F then .R32F
     else if env.supportsTextureDrawBuffer .L32F then .L32F
     else .RG32F)

/-- The body of the loop of SAO.cpp lines 109-111: create one pyramid
framebuffer and append it to `m_cszFramebuffers`. -/
def appendCszFramebuffer (i : Nat) (w : World) : Outcome :=
  .ok ((w.createFramebuffer ("cszFramebuffers[" ++ toString i ++ "]")).setSao
    { w.sao with m_cszFramebuffers := w.sao.m_cszFramebuffers ++ [w.nextFramebuffer] })

/-- The body of the loop of SAO.cpp lines 129-131: bind MIP level `i` of the
pyramid buffer to COLOR0 of `m_cszFramebuffers[i]`. -/
def rebindCszFramebuffer (i : Nat) (w : World) : Outcome :=
  match w.sao.m_cszFramebuffers[i]? with
  | none => .abort (.arrayBounds i) w
  | some fb => .ok (w.framebufferSet fb .COLOR0 w.sao.m_cszBuffer i)

/-- The block guarded by `if (rebind)` (SAO.cpp, lines 124-132). -/
def rebindBuffers (w : World) : Outcome :=
  match w.sao.m_rawAOFramebuffer with
  | none => .abort .nullDereference w
  | some rawFb =>
    let w := w.framebufferSet rawFb .COLOR0 w.sao.m_rawAOBuffer 0
    match w.sao.m_hBlurredFramebuffer with
    | none => .abort .nullDereference w
    | some hFb =>
      let w := w.framebufferSet hFb .COLOR0 w.sao.m_hBlurredBuffer 0
      forLoop rebindCszFramebuffer 0 (MAX_MIP_LEVEL + 1) w

/-- The member function `SAO::resizeBuffers` (SAO.cpp, lines 81-133). -/
def resizeBuffers (env : Env) (width height : Int) (w : World) : Outcome :=
  let w := w.enter (.resizeBuffers width height)
  match w.sao.m_rawAOFramebuffer with
  | none =>
    -- Allocate for the first call
    let w := (w.createFramebuffer "rawAOFramebuffer").setSao
      { w.sao with m_rawAOFramebuffer := some w.nextFramebuffer }
    let w := (w.createFramebuffer "hBlurredFramebuffer").setSao
      { w.sao with m_hBlurredFramebuffer := some w.nextFramebuffer }
    let w := (w.createEmpty env "rawAOBuffer" width height .RGB8 .buffer).setSao
      { w.sao with m_rawAOBuffer := some w.nextTexture }
    let w := (w.createEmpty env "hBlurredBuffer" width height .RGB8 .buffer).setSao
      { w.sao with m_hBlurredBuffer := some w.nextTexture }
    if ¬ (env.ZBITS = 16 ∨ env.ZBITS = 32) then
      .abort (.alwaysAssert "Only ZBITS = 16 and 32 are supported.") w
    else
      let cszSettings : TextureSettings :=
        { TextureSettings.buffer with interpolateMode := .NEAREST_MIPMAP, maxMipMap := MAX_MIP_LEVEL }
      if env.debug = true ∧ ¬ (width > 0 ∧ height > 0) then
        .abort (.debugAssert "width > 0 && height > 0") w
      else
        let w := (w.createEmpty env "cszBuffer" width height (csZFormat env) cszSettings).setSao
          { w.sao with m_cszBuffer := some w.nextTexture }
        (forLoop appendCszFramebuffer 0 (MAX_MIP_LEVEL + 1) w).andThen rebindBuffers
  | some _ =>
    match w.sao.m_rawAOBuffer with
    | none => .abort .nullDereference w
    | some raw =>
      if (w.textures raw).width ≠ width ∨ (w.textures raw).height ≠ height then
        -- Resize
        let w := w.resizeTexture env raw width height
        match w.sao.m_hBlurredBuffer with
        | none => .abort .nullDereference w
        | some hBlurred =>
          let w := w.resizeTexture env hBlurred width height
          match w.sao.m_cszBuffer with
          | none => .abort .nullDereference w
          | some csz =>
            let w := w.resizeTexture env csz width height
            rebindBuffers w
      else
        .ok w

/-- The body of the loop of SAO.cpp lines 151-158: generate MIP level `i` of
the pyramid with the minify program. -/
def minifyLevel (env : Env) (i : Nat) (w : World) : Outcome :=
  match w.sao.m_cszMinifyShader with
  | none => .abort .nullDereference w
  | some sh =>
    let sh := sh.set "texture" (.texture w.sao.m_cszBuffer)
    let w := w.setSao { w.sao with m_cszMinifyShader := some sh }
    match w.sao.m_cszFramebuffers[i]? with
    | none => .abort (.arrayBounds i) w
    | some fb =>
      let w := w.push2D (some fb)
      let w := w.clear true true true
      let sh := sh.set "previousMIPNumber" (.int ((i : Int) - 1))
      let w := w.setSao { w.sao with m_cszMinifyShader := some sh }
      let w := w.applyRect env sh env.defaultZ
      .ok w.pop2D

/-- The member function `SAO::computeCSZ` (SAO.cpp, lines 136-159). -/
def computeCSZ (env : Env) (depthBuffer : Option Nat) (clipInfo : Vector3) (w : World) : Outcome :=
  let w := w.enter (.computeCSZ depthBuffer clipInfo)
  -- Generate level 0
  match w.sao.m_cszFramebuffers[0]? with
  | none => .abort (.arrayBounds 0) w
  | some fb0 =>
    let w := w.push2D (some fb0)
    let w := w.clear true true true
    match w.sao.m_reconstructCSZShader with
    | none => .abort .nullDereference w
    | some sh =>
      let sh := sh.set "clipInfo" (.vector3 clipInfo)
      let sh := sh.set "DEPTH_AND_STENCIL_buffer" (.texture depthBuffer)
      let w := w.setSao { w.sao with m_reconstructCSZShader := some sh }
      let w := w.applyRect env sh env.defaultZ
      let w := w.pop2D
      -- Generate the other levels
      forLoop (minifyLevel env) 1 MAX_MIP_LEVEL w

/-- The clip rectangle shared by the estimation pass and the two blur passes
(SAO.cpp, lines 191, 210 and 230). -/
def guardBandClip (w : World) (guardBandSize : Int) : Rect2D :=
  Rect2D.xyxy guardBandSize guardBandSize
    (w.rd.state.viewport.width - guardBandSize) (w.rd.state.viewport.height - guardBandSize)

/-- The member function `SAO::computeRawAO` (SAO.cpp, lines 162-195). -/
def computeRawAO (env : Env) (depthBuffer : Option Nat) (clipConstant : Vector3)
    (projConstant : Vector4) (projScale : ℚ) (csZBuffer : Option Nat) (guardBandSize : Int)
    (w : World) : Outcome :=
  let w := w.enter
    (.computeRawAO depthBuffer clipConstant projConstant projScale csZBuffer guardBandSize)
  if env.debug = true ∧ ¬ (projScale > 0) then
    .abort (.debugAssert "projScale > 0") w
  else
    match w.sao.m_rawAOFramebuffer with
    | none => .abort .nullDereference w
    | some rawFb =>
      let w := w.framebufferSet rawFb .DEPTH depthBuffer 0
      let w := w.push2D (some rawFb)
      -- For quick early-out testing vs. skybox
      let w := w.setDepthTest .DEPTH_GREATER
      -- Values that are never touched due to the depth test will be white
      let w := w.setColorClearValue Color3.white
      let w := w.clear true false false
      match w.sao.m_rawAOShader with
      | none => .abort .nullDereference w
      | some sh =>
        let sh := sh.set "radius" (.float w.sao.m_settings.radius)
        let sh := sh.set "bias" (.float w.sao.m_settings.bias)
        let sh := sh.set "clipInfo" (.vector3 clipConstant)
        let sh := sh.set "projInfo" (.vector4 projConstant)
        let sh := sh.set "projScale" (.float projScale)
        let sh := sh.set "CS_Z_buffer" (.texture csZBuffer)
        let sh := sh.set "intensityDivR6"
          (.float (w.sao.m_settings.intensity / w.sao.m_settings.radius ^ 6))
        let w := w.setSao { w.sao with m_rawAOShader := some sh }
        let w := w.setClip2D (guardBandClip w guardBandSize)
        let w := w.applyRect env sh Z_COORD
        .ok w.pop2D

/-- The member function `SAO::blurHorizontal` (SAO.cpp, lines 198-214). -/
def blurHorizontal (env : Env) (depthBuffer : Option Nat) (guardBandSize : Int) (w : World) :
    Outcome :=
  let w := w.enter (.blurHorizontal depthBuffer guardBandSize)
  let w := w.push2D w.sao.m_hBlurredFramebuffer
  let w := w.setColorClearValue Color3.white
  let w := w.clear true false false
  match w.sao.m_blurShader with
  | none => .abort .nullDereference w
  | some sh =>
    let sh := sh.set "source" (.texture w.sao.m_rawAOBuffer)
    let sh := sh.set "axis" (.vector2int16 1 0)
    let w := w.setSao { w.sao with m_blurShader := some sh }
    let w := w.setClip2D (guardBandClip w guardBandSize)
    let w := w.applyRect env sh Z_COORD
    .ok w.pop2D

/-- The member function `SAO::blurVertical` (SAO.cpp, lines 217-234). -/
def blurVertical (env : Env) (depthBuffer : Option Nat) (guardBandSize : Int) (w : World) :
    Outcome :=
  let w := w.enter (.blurVertical depthBuffer guardBandSize)
  -- Render directly to the currently-bound framebuffer
  let w := w.push2DCurrent
  let w := w.setColorClearValue Color3.white
  let w := w.clear true false false
  match w.sao.m_blurShader with
  | none => .abort .nullDereference w
  | some sh =>
    let sh := sh.set "source" (.texture w.sao.m_hBlurredBuffer)
    let sh := sh.set "axis" (.vector2int16 0 1)
    let w := w.setSao { w.sao with m_blurShader := some sh }
    let w := w.setClip2D (guardBandClip w guardBandSize)
    let w := w.applyRect env sh Z_COORD
    .ok w.pop2D

/-- The lower-level member function `SAO::compute` taking precomputed constants
(SAO.cpp, lines 39-63). -/
def compute (env : Env) (depthBuffer : Option Nat) (clipConstant : Vector3)
    (projConstant : Vector4) (projScale : ℚ) (guardBandSize : Int) (w : World) : Outcome :=
  let w := w.enter (.compute depthBuffer clipConstant projConstant projScale guardBandSize)
  match depthBuffer with
  | none => .abort (.alwaysAssert "Depth buffer is required.") w
  | some depth =>
    let w := if w.sao.m_blurShader.isNone then reloadShaders w else w
    (resizeBuffers env (w.textures depth).width (w.textures depth).height w).andThen fun w =>
    (computeCSZ env depthBuffer clipConstant w).andThen fun w =>
    (computeRawAO env depthBuffer clipConstant projConstant projScale w.sao.m_cszBuffer
      guardBandSize w).andThen fun w =>
    (blurHorizontal env depthBuffer guardBandSize w).andThen fun w =>
    blurVertical env depthBuffer guardBandSize w

/-- The camera-based member function `SAO::compute` (SAO.cpp, lines 237-262).
It reads `depthBuffer->width()` first, so a null depth buffer is dereferenced
before the lower-level overload can check it. -/
def computeCamera (env : Env) (depthBuffer : Option Nat) (camera : GCamera)
    (guardBandSize : Int) (w : World) : Outcome :=
  match depthBuffer with
  | none => .abort .nullDereference w
  | some depth =>
    let width : ℚ := (w.textures depth).width
    let height : ℚ := (w.textures depth).height
    let z_f := camera.farPlaneZ
    let z_n := camera.nearPlaneZ
    let clipConstant : Vector3 :=
      match z_f with
      | .negInf => ⟨z_n, -1, 1⟩
      | .finite f => ⟨z_n * f, z_n - f, f⟩
    let P := camera.getProjectUnitMatrix
      (Rect2D.xywh 0 0 (w.textures depth).width (w.textures depth).height)
    let projConstant : Vector4 :=
      ⟨-2 / (width * P 0 0), -2 / (height * P 1 1), (1 - P 0 2) / P 0 0, (1 + P 1 2) / P 1 1⟩
    compute env depthBuffer clipConstant projConstant
      |camera.imagePlanePixelsPerMeter w.rd.state.viewport| guardBandSize w

/-- The accessor `SAO::setRadius` (SAO.h, lines 223-226). -/
def setRadius (r : ℚ) (w : World) : Outcome :=
  if ¬ (r > 0) then .abort (.alwaysAssert "Radius must be non-negative") w
  else .ok (w.setSao { w.sao with m_settings := { w.sao.m_settings with radius := r } })

/-- The accessor `SAO::radius` (SAO.h, lines 228-230). -/
def radius (w : World) : ℚ := w.sao.m_settings.radius

/-- The accessor `SAO::setBias` (SAO.h, lines 234-236). -/
def setBias (b : ℚ) (w : World) : Outcome :=
  .ok (w.setSao { w.sao with m_settings := { w.sao.m_settings with bias := b } })

/-- The accessor `SAO::bias` (SAO.h, lines 238-240). -/
def bias (w : World) : ℚ := w.sao.m_settings.bias

/-- The accessor `SAO::setIntensity` (SAO.h, lines 243-245). -/
def setIntensity (d : ℚ) (w : World) : Outcome :=
  .ok (w.setSao { w.sao with m_settings := { w.sao.m_settings with intensity := d } })

/-- The accessor `SAO::intensity` (SAO.h, lines 247-249). -/
def intensity (w : World) : ℚ := w.sao.m_settings.intensity

/-! ## Sequences of calls and the class invariant -/

/-- The calls a client (or `compute` itself) makes on the buffer set. -/
inductive Op where
  | resizeBuffers (width height : Int)
  | compute (depthBuffer : Option Nat) (clipConstant : Vector3) (projConstant : Vector4)
      (projScale : ℚ) (guardBandSize : Int)
  | computeCamera (depthBuffer : Option Nat) (camera : GCamera) (guardBandSize : Int)

/-- Run one call. -/
def Op.run (env : Env) : Op → World → Outcome
  | .resizeBuffers width height => SAO.resizeBuffers env width height
  | .compute depthBuffer clipConstant projConstant projScale guardBandSize =>
    SAO.compute env depthBuffer clipConstant projConstant projScale guardBandSize
  | .computeCamera depthBuffer camera guardBandSize =>
    SAO.computeCamera env depthBuffer camera guardBandSize

/-- The state `w'` is reached from `w` by a sequence of calls, each of which
returned normally (a failed assertion ends the run). -/
inductive Reaches (env : Env) : World → World → Prop where
  | refl (w : World) : Reaches env w w
  | step (op : Op) {w w' w'' : World} :
      Reaches env w w' → op.run env w' = .ok w'' → Reaches env w w''

/-- The four shader members hold the programs that `reloadShaders` loads. -/
structure ShadersLoaded (m : Members) : Prop where
  rawAO : ∃ sh, m.m_rawAOShader = some sh ∧ sh.pixelFile = "SAO_AO.pix"
  blur : ∃ sh, m.m_blurShader = some sh ∧ sh.pixelFile = "SAO_blur.pix"
  reconstructCSZ :
    ∃ sh, m.m_reconstructCSZShader = some sh ∧ sh.pixelFile = "SAO_reconstructCSZ.pix"
  cszMinify : ∃ sh, m.m_cszMinifyShader = some sh ∧ sh.pixelFile = "SAO_minify.pix"

/-- The buffer set is allocated and its members are these objects: no
reference is null, there are `MAX_MIP_LEVEL + 1` pyramid framebuffers, and the
framebuffer objects are pairwise distinct. -/
structure AllocatedAs (w : World) (rawFb hFb raw hBlurred csz : Nat) (fbs : List Nat) :
    Prop where
  rawAOFramebuffer : w.sao.m_rawAOFramebuffer = some rawFb
  hBlurredFramebuffer : w.sao.m_hBlurredFramebuffer = some hFb
  rawAOBuffer : w.sao.m_rawAOBuffer = some raw
  hBlurredBuffer : w.sao.m_hBlurredBuffer = some hBlurred
  cszBuffer : w.sao.m_cszBuffer = some csz
  cszFramebuffers : w.sao.m_cszFramebuffers = fbs
  length : fbs.length = MAX_MIP_LEVEL + 1
  nodup : (rawFb :: hFb :: fbs).Nodup

/-- The three targets have the same width and height. -/
structure SameSize (w : World) (raw hBlurred csz : Nat) : Prop where
  hWidth : (w.textures hBlurred).width = (w.textures raw).width
  hHeight : (w.textures hBlurred).height = (w.textures raw).height
  cszWidth : (w.textures csz).width = (w.textures raw).width
  cszHeight : (w.textures csz).height = (w.textures raw).height

/-- COLOR0 of every owned framebuffer is bound to its target: the raw-AO
buffer, the intermediate buffer, and MIP level `i` of the pyramid buffer for
pyramid framebuffer `i`. -/
structure Bound (w : World) (rawFb hFb raw hBlurred csz : Nat) (fbs : List Nat) : Prop where
  rawColor0 : (w.framebuffers rawFb).color0 = some ⟨raw, 0⟩
  hColor0 : (w.framebuffers hFb).color0 = some ⟨hBlurred, 0⟩
  cszColor0 : ∀ i fb, fbs[i]? = some fb → (w.framebuffers fb).color0 = some ⟨csz, i⟩

/-- The class invariant: the shaders are loaded together, and the buffer set
is either not yet allocated or allocated, of one size, and bound. -/
structure Consistent (w : World) : Prop where
  shaders : w.sao.m_blurShader = none ∨ ShadersLoaded w.sao
  buffers :
    (w.sao.m_rawAOFramebuffer = none ∧ w.sao.m_cszFramebuffers = []) ∨
    ∃ rawFb hFb raw hBlurred csz fbs,
      AllocatedAs w rawFb hFb raw hBlurred csz fbs ∧ SameSize w raw hBlurred csz ∧
      Bound w rawFb hFb raw hBlurred csz fbs

/-- What the passes leave alone: the buffer members and the settings of the
instance, the dimensions of every texture, COLOR0 of every framebuffer, the
allocation counters, and the render state and its stack. -/
structure Frame (w w' : World) : Prop where
  settings : w'.sao.m_settings = w.sao.m_settings
  cszBuffer : w'.sao.m_cszBuffer = w.sao.m_cszBuffer
  cszFramebuffers : w'.sao.m_cszFramebuffers = w.sao.m_cszFramebuffers
  rawAOBuffer : w'.sao.m_rawAOBuffer = w.sao.m_rawAOBuffer
  rawAOFramebuffer : w'.sao.m_rawAOFramebuffer = w.sao.m_rawAOFramebuffer
  hBlurredBuffer : w'.sao.m_hBlurredBuffer = w.sao.m_hBlurredBuffer
  hBlurredFramebuffer : w'.sao.m_hBlurredFramebuffer = w.sao.m_hBlurredFramebuffer
  width : ∀ t, (w'.textures t).width = (w.textures t).width
  height : ∀ t, (w'.textures t).height = (w.textures t).height
  color0 : ∀ f, (w'.framebuffers f).color0 = (w.framebuffers f).color0
  nextTexture : w'.nextTexture = w.nextTexture
  nextFramebuffer : w'.nextFramebuffer = w.nextFramebuffer
  state : w'.rd.state = w.rd.state
  stack : w'.rd.stack = w.rd.stack

/-- What `resizeBuffers` leaves alone: the settings, the four shaders, the
render device and the submitted commands. -/
structure ResizeFrame (w w' : World) : Prop where
  settings : w'.sao.m_settings = w.sao.m_settings
  rawAOShader : w'.sao.m_rawAOShader = w.sao.m_rawAOShader
  blurShader : w'.sao.m_blurShader = w.sao.m_blurShader
  reconstructCSZShader : w'.sao.m_reconstructCSZShader = w.sao.m_reconstructCSZShader
  cszMinifyShader : w'.sao.m_cszMinifyShader = w.sao.m_cszMinifyShader
  rd : w'.rd = w.rd
  commands : w'.commands = w.commands

/-- The shader objects with which the estimation program (`SAO_AO.pix`) was
drawn, in submission order. -/
def estimationDraws : List Command → List Shader
  | [] => []
  | .applyRect _ sh _ :: rest =>
    if sh.pixelFile = "SAO_AO.pix" then sh :: estimationDraws rest else estimationDraws rest
  | .clear _ _ _ _ :: rest => estimationDraws rest

/-! ## A small concrete scene -/

/-- A build like the shipped one (`ZBITS` 32) with `debugAssert` compiled in;
the pixel programs write mid grey. -/
def demoEnv : Env :=
  { ZBITS := 32
    debug := true
    supportsTextureDrawBuffer := fun _ => true
    kernel := fun _ _ _ _ => ⟨3, 3, 3⟩
    fresh := fun _ _ _ => ⟨0, 0, 0⟩
    defaultZ := -1 }

/-- The same build without `G3D_DEBUG`. -/
def releaseEnv : Env := { demoEnv with debug := false }

/-- A 4x4 texture filled with one value. -/
def demoTexture (name : String) (v : ℚ) : Texture :=
  ⟨name, 4, 4, .R8, .buffer, fun _ _ _ => ⟨v, v, v⟩⟩

/-- A client state as in `App::onGraphics3D` just before `compute`: texture 0
is the depth buffer (depth 0 everywhere), texture 1 the AO result buffer,
framebuffer 0 the AO result framebuffer, which is bound; the `SAO` instance is
new. -/
def demoWorld : World :=
  { textures := fun i => if i = 0 then demoTexture "depth" 0 else demoTexture "aoBuffer" 0
    nextTexture := 2
    framebuffers := fun _ => ⟨"aoResultFramebuffer", some ⟨1, 0⟩, none⟩
    nextFramebuffer := 1
    rd :=
      { state := ⟨some 0, Rect2D.xywh 0 0 4 4, Rect2D.xywh 0 0 4 4, .DEPTH_LEQUAL, true, ⟨0, 0, 0⟩⟩
        stack := []
        backColor := demoTexture "backColor" 0
        backDepth := demoTexture "backDepth" 1 }
    sao := Members.new
    calls := []
    commands := [] }

/-- The demo state after one `resizeBuffers(4, 4)`: the buffer set is allocated. -/
def demoAllocated : World := (resizeBuffers demoEnv 4 4 demoWorld).world

/-- The allocated demo state with the shaders loaded: every pass can run. -/
def demoReady : World := reloadShaders demoAllocated

/-- A camera with a finite far plane at -100 and near plane at -1. -/
def demoCamera : GCamera :=
  { nearPlaneZ := -1
    farPlaneZ := .finite (-100)
    getProjectUnitMatrix := fun _ => fun i j => if i = j then 1 else 0
    imagePlanePixelsPerMeter := fun _ => -500 }

/-! ## The public interface as a client drives it -/

/-- The shipped value of the macro `ZBITS` (SAO.cpp, line 20). -/
def ZBITS : Int := 32

/-- The factory `SAO::create` (SAO.cpp, lines 34-36): a default-constructed
instance. -/
def create : Members := Members.new

/-- The fault at which an outcome stopped, if it stopped. -/
def Outcome.fault : Outcome → Option Fault
  | .ok _ => none
  | .abort f _ => some f

/-- The public member functions of `SAO` that act on an instance (SAO.h, lines
200-249). -/
inductive Action where
  | setRadius (r : ℚ)
  | setBias (b : ℚ)
  | setIntensity (d : ℚ)
  | compute (depthBuffer : Option Nat) (clipConstant : Vector3) (projConstant : Vector4)
      (projScale : ℚ) (guardBandSize : Int)
  | computeCamera (depthBuffer : Option Nat) (camera : GCamera) (guardBandSize : Int)
  | reloadShaders

/-- Run one public call. -/
def Action.run (env : Env) : Action → World → Outcome
  | .setRadius r => SAO.setRadius r
  | .setBias b => SAO.setBias b
  | .setIntensity d => SAO.setIntensity d
  | .compute depthBuffer clipConstant projConstant projScale guardBandSize =>
    SAO.compute env depthBuffer clipConstant projConstant projScale guardBandSize
  | .computeCamera depthBuffer camera guardBandSize =>
    SAO.computeCamera env depthBuffer camera guardBandSize
  | .reloadShaders => fun w => .ok (SAO.reloadShaders w)

/-- The state `w'` is reached from `w` by a sequence of public calls, none of
which aborted. -/
inductive Runs (env : Env) : World → World → Prop where
  | refl (w : World) : Runs env w w
  | step (a : Action) {w w' w'' : World} :
      Runs env w w' → a.run env w' = .ok w'' → Runs env w w''

/-- The names of the arguments that `computeRawAO` sets on the estimation
program, in the order of SAO.cpp lines 183-189. -/
def estimationArgNames : List String :=
  ["radius", "bias", "clipInfo", "projInfo", "projScale", "CS_Z_buffer", "intensityDivR6"]

/-- The values a shader object holds for the arguments of the estimation program. -/
def estimationInputs (sh : Shader) : List (Option Arg) := estimationArgNames.map sh.args

/-- Texture `d` belongs to the caller and no colour target can alias it: it
was allocated before, it is none of the three targets of the instance, no
framebuffer has it as COLOR0, no pyramid framebuffer has it as DEPTH, and the
framebuffers of the instance are allocated objects with the raw-AO framebuffer
outside the pyramid array. -/
structure NotTarget (w : World) (d : Nat) : Prop where
  below : d < w.nextTexture
  rawAOBuffer : w.sao.m_rawAOBuffer ≠ some d
  hBlurredBuffer : w.sao.m_hBlurredBuffer ≠ some d
  cszBuffer : w.sao.m_cszBuffer ≠ some d
  color0 : ∀ f a, (w.framebuffers f).color0 = some a → a.texture ≠ d
  pyramidDepth : ∀ f a, f ∈ w.sao.m_cszFramebuffers →
    (w.framebuffers f).depth = some a → a.texture ≠ d
  rawAOFramebuffer : ∀ f, w.sao.m_rawAOFramebuffer = some f →
    f < w.nextFramebuffer ∧ f ∉ w.sao.m_cszFramebuffers
  pyramidBelow : ∀ f, f ∈ w.sao.m_cszFramebuffers → f < w.nextFramebuffer

/-- The second state has the allocation counters, the framebuffer objects and
the buffer members of the first. -/
structure SameLayout (w w' : World) : Prop where
  nextTexture : w'.nextTexture = w.nextTexture
  nextFramebuffer : w'.nextFramebuffer = w.nextFramebuffer
  framebuffers : w'.framebuffers = w.framebuffers
  rawAOBuffer : w'.sao.m_rawAOBuffer = w.sao.m_rawAOBuffer
  hBlurredBuffer : w'.sao.m_hBlurredBuffer = w.sao.m_hBlurredBuffer
  cszBuffer : w'.sao.m_cszBuffer = w.sao.m_cszBuffer
  cszFramebuffers : w'.sao.m_cszFramebuffers = w.sao.m_cszFramebuffers
  rawAOFramebuffer : w'.sao.m_rawAOFramebuffer = w.sao.m_rawAOFramebuffer

/-- Texture `d` is no target in state `w` and is the texture object `T` there. -/
def Kept (d : Nat) (T : Texture) (w : World) : Prop := NotTarget w d ∧ w.textures d = T

/-- The demo build with an unsupported precision: `ZBITS` is 8. -/
def demoEnv8 : Env := { demoEnv with ZBITS := 8 }

/-! ## Scene.cpp: writing a scene back to an `Any` -/

/-- A G3D `Any` value as far as `Scene::toAny` looks into it: a table from
keys to values, or any other value, kept as its text. -/
inductive Any where
  | text (value : String)
  | table (entries : List (String × Any))

/-- The table lookup `a[key]` on a table that has the key. -/
def Any.get? : Any → String → Option Any
  | .text _, _ => none
  | .table entries, key => (entries.find? fun e => e.1 == key).map fun e => e.2

/-- The table assignment `a[key] = value`: replace the entry or add it. -/
def Any.set : Any → String → Any → Any
  | .text value, _, _ => .text value
  | .table entries, key, value => .table ((entries.filter fun e => e.1 != key) ++ [(key, value)])

/-- An entity as `Scene::toAny` uses it: the result of `name()` and the `Any`
that the library method `GEntity::toAny` returns for its current frame. -/
structure Entity where
  name : String
  toAny : Any

/-- The members of `Scene` read by `Scene::toAny` (Scene.h). -/
structure Scene where
  m_sourceAny : Any
  m_entityArray : List Entity

/-- The local `entityTable` after the loop of Scene.cpp lines 207-211. -/
def Scene.entityTable (s : Scene) : Any :=
  s.m_entityArray.foldl (fun table entity => table.set entity.name entity.toAny) (.table [])

/-- The member function `Scene::toAny` (Scene.cpp, lines 203-214): the local
`entityTable` is filled and then dropped; the copy `a` of `m_sourceAny` is
returned as it is. -/
def Scene.toAny (s : Scene) : Any :=
  let a := s.m_sourceAny
  let _entityTable := s.entityTable
  a

/-- A scene loaded with one entity at the origin, which has since moved. -/
def demoScene : Scene :=
  { m_sourceAny := .table [("name", .text "demo"),
      ("entities", .table [("box", .text "position = (0, 0, 0)")])]
    m_entityArray := [⟨"box", .text "position = (1, 0, 0)"⟩] }

/-! ## What was drawn, and the demo configuration -/

/-- The draws among the submitted commands, in submission order: the render
state in force, the shader object and the depth of the rectangle. -/
def draws : List Command → List (RenderState × Shader × ℚ)
  | [] => []
  | .applyRect st sh z :: rest => (st, sh, z) :: draws rest
  | .clear _ _ _ _ :: rest => draws rest

/-- The constant `COMPUTE_WIDTH` (App.cpp, line 11). -/
def COMPUTE_WIDTH : Int := 1920

/-- The constant `COMPUTE_HEIGHT` (App.cpp, line 11). -/
def COMPUTE_HEIGHT : Int := 1080

/-- The constant `COMPUTE_GUARD_BAND` (App.cpp, line 11). -/
def COMPUTE_GUARD_BAND : Int := 192

/-- A buffer of the demo: the AO buffer and the G-buffer are both allocated at
the visible size plus twice the guard band (App.cpp, lines 79 and 372). -/
def appTexture (name : String) : Texture :=
  ⟨name, COMPUTE_WIDTH + 2 * COMPUTE_GUARD_BAND, COMPUTE_HEIGHT + 2 * COMPUTE_GUARD_BAND,
    .R8, .buffer, fun _ _ _ => ⟨0, 0, 0⟩⟩

/-- The state in which `App::onGraphics3D` calls `compute` (App.cpp, lines
396-398): texture 0 is the depth buffer of the G-buffer, texture 1 is
`m_aoBuffer`, framebuffer 0 is `m_aoResultFramebuffer`, bound by
`rd->push2D(m_aoResultFramebuffer)`; the `SAO` instance is new. -/
def appWorld : World :=
  World.push2D
    { demoWorld with
      textures := fun i => if i = 0 then appTexture "depth" else appTexture "m_aoBuffer" }
    (some 0)

/-- The demo scene after the client has narrowed the viewport to 2x2 with
`rd->setViewport`; the 4x4 framebuffer 0 is still bound. -/
def demoNarrowViewport : World :=
  demoWorld.setState { demoWorld.rd.state with viewport := Rect2D.xywh 0 0 2 2 }

/-! ## The minify program -/

/-- Modelled from the spec: the minification program `SAO_minify.pix` is not
under src/.  The spec has the levels 1..MAX_MIP_LEVEL "produced by resampling
the previous level" and requires that "pyramid level i must depend only on
level i-1": the value of the program at a pixel is a function of the shader
object and of MIP level `previousMIPNumber` of the texture bound as `texture`
(the texels of that level and the size of the texture), and of nothing else in
the graphics heap. -/
def MinifyReadsPreviousLevel (env : Env) : Prop :=
  ∀ (sh : Shader) (t j : Nat) (T T' : Nat → Texture),
    sh.pixelFile = "SAO_minify.pix" →
    sh.args "texture" = some (.texture (some t)) →
    sh.args "previousMIPNumber" = some (.int (j : Int)) →
    (T t).width = (T' t).width → (T t).height = (T' t).height →
    (∀ x y, (T t).texel j x y = (T' t).texel j x y) →
    ∀ x y, env.kernel sh T x y = env.kernel sh T' x y

/-- A build whose minify program copies texel `(2x, 2y)` of the level
`previousMIPNumber` of its `texture`; the other programs write mid grey. -/
def samplingEnv : Env :=
  { demoEnv with
    kernel := fun sh T x y =>
      match sh.args "texture", sh.args "previousMIPNumber" with
      | some (.texture (some t)), some (.int j) => (T t).texel j.toNat (2 * x) (2 * y)
      | _, _ => ⟨3, 3, 3⟩ }

/-- No pyramid framebuffer has a depth attachment: `Framebuffer::create` makes
them without attachments and the class only ever sets their COLOR0. -/
def NoPyramidDepth (w : World) : Prop :=
  ∀ fb, fb ∈ w.sao.m_cszFramebuffers → (w.framebuffers fb).depth = none

end SAO

namespace SAO

/-! ## Frame lemmas for the library operations -/

section frame
variable (w : World) (covers : Int → Int → Bool) (value : Int → Int → Color3)

@[simp] theorem writeColor_sao : (w.writeColor covers value).sao = w.sao := by
  unfold World.writeColor; split
  · rfl
  · split <;> rfl

@[simp] theorem writeColor_calls : (w.writeColor covers value).calls = w.calls := by
  unfold World.writeColor; split
  · rfl
  · split <;> rfl

@[simp] theorem writeColor_commands : (w.writeColor covers value).commands = w.commands := by
  unfold World.writeColor; split
  · rfl
  · split <;> rfl

@[simp] theorem writeColor_framebuffers :
    (w.writeColor covers value).framebuffers = w.framebuffers := by
  unfold World.writeColor; split
  · rfl
  · split <;> rfl

@[simp] theorem writeColor_nextTexture :
    (w.writeColor covers value).nextTexture = w.nextTexture := by
  unfold World.writeColor; split
  · rfl
  · split <;> rfl

@[simp] theorem writeColor_nextFramebuffer :
    (w.writeColor covers value).nextFramebuffer = w.nextFramebuffer := by
  unfold World.writeColor; split
  · rfl
  · split <;> rfl

@[simp] theorem writeColor_state : (w.writeColor covers value).rd.state = w.rd.state := by
  unfold World.writeColor; split
  · rfl
  · split <;> rfl

@[simp] theorem writeColor_stack : (w.writeColor covers value).rd.stack = w.rd.stack := by
  unfold World.writeColor; split
  · rfl
  · split <;> rfl

@[simp] theorem writeColor_width (t : Nat) :
    ((w.writeColor covers value).textures t).width = (w.textures t).width := by
  unfold World.writeColor; split
  · rfl
  · split
    · rfl
    · rename_i a _
      by_cases h : t = a.texture
      · subst h; simp [Texture.write]
      · simp [Function.update_noteq h]

@[simp] theorem writeColor_height (t : Nat) :
    ((w.writeColor covers value).textures t).height = (w.textures t).height := by
  unfold World.writeColor; split
  · rfl
  · split
    · rfl
    · rename_i a _
      by_cases h : t = a.texture
      · subst h; simp [Texture.write]
      · simp [Function.update_noteq h]

@[simp] theorem writeDepth_sao : (w.writeDepth covers value).sao = w.sao := by
  unfold World.writeDepth; split
  · rfl
  · split <;> rfl

@[simp] theorem writeDepth_calls : (w.writeDepth covers value).calls = w.calls := by
  unfold World.writeDepth; split
  · rfl
  · split <;> rfl

@[simp] theorem writeDepth_commands : (w.writeDepth covers value).commands = w.commands := by
  unfold World.writeDepth; split
  · rfl
  · split <;> rfl

@[simp] theorem writeDepth_framebuffers :
    (w.writeDepth covers value).framebuffers = w.framebuffers := by
  unfold World.writeDepth; split
  · rfl
  · split <;> rfl

@[simp] theorem writeDepth_nextTexture :
    (w.writeDepth covers value).nextTexture = w.nextTexture := by
  unfold World.writeDepth; split
  · rfl
  · split <;> rfl

@[simp] theorem writeDepth_nextFramebuffer :
    (w.writeDepth covers value).nextFramebuffer = w.nextFramebuffer := by
  unfold World.writeDepth; split
  · rfl
  · split <;> rfl

@[simp] theorem writeDepth_state : (w.writeDepth covers value).rd.state = w.rd.state := by
  unfold World.writeDepth; split
  · rfl
  · split <;> rfl

@[simp] theorem writeDepth_stack : (w.writeDepth covers value).rd.stack = w.rd.stack := by
  unfold World.writeDepth; split
  · rfl
  · split <;> rfl

@[simp] theorem writeDepth_width (t : Nat) :
    ((w.writeDepth covers value).textures t).width = (w.textures t).width := by
  unfold World.writeDepth; split
  · rfl
  · split
    · rfl
    · rename_i a _
      by_cases h : t = a.texture
      · subst h; simp [Texture.write]
      · simp [Function.update_noteq h]

@[simp] theorem writeDepth_height (t : Nat) :
    ((w.writeDepth covers value).textures t).height = (w.textures t).height := by
  unfold World.writeDepth; split
  · rfl
  · split
    · rfl
    · rename_i a _
      by_cases h : t = a.texture
      · subst h; simp [Texture.write]
      · simp [Function.update_noteq h]

end frame

section device
variable (env : Env) (w : World) (c d s : Bool) (sh : Shader) (z : ℚ)

@[simp] theorem clear_sao : (w.clear c d s).sao = w.sao := by
  unfold World.clear; cases c <;> cases d <;> simp

@[simp] theorem clear_calls : (w.clear c d s).calls = w.calls := by
  unfold World.clear; cases c <;> cases d <;> simp

@[simp] theorem clear_commands :
    (w.clear c d s).commands = w.commands ++ [.clear w.rd.state c d s] := by
  unfold World.clear; cases c <;> cases d <;> simp

@[simp] theorem clear_state : (w.clear c d s).rd.state = w.rd.state := by
  unfold World.clear; cases c <;> cases d <;> simp

@[simp] theorem clear_stack : (w.clear c d s).rd.stack = w.rd.stack := by
  unfold World.clear; cases c <;> cases d <;> simp

@[simp] theorem clear_framebuffers : (w.clear c d s).framebuffers = w.framebuffers := by
  unfold World.clear; cases c <;> cases d <;> simp

@[simp] theorem clear_nextTexture : (w.clear c d s).nextTexture = w.nextTexture := by
  unfold World.clear; cases c <;> cases d <;> simp

@[simp] theorem clear_nextFramebuffer : (w.clear c d s).nextFramebuffer = w.nextFramebuffer := by
  unfold World.clear; cases c <;> cases d <;> simp

@[simp] theorem clear_width (t : Nat) :
    ((w.clear c d s).textures t).width = (w.textures t).width := by
  unfold World.clear; cases c <;> cases d <;> simp

@[simp] theorem clear_height (t : Nat) :
    ((w.clear c d s).textures t).height = (w.textures t).height := by
  unfold World.clear; cases c <;> cases d <;> simp

@[simp] theorem applyRect_sao : (w.applyRect env sh z).sao = w.sao := by
  unfold World.applyRect; simp only; split <;> simp

@[simp] theorem applyRect_calls : (w.applyRect env sh z).calls = w.calls := by
  unfold World.applyRect; simp only; split <;> simp

@[simp] theorem applyRect_commands :
    (w.applyRect env sh z).commands = w.commands ++ [.applyRect w.rd.state sh z] := by
  unfold World.applyRect; simp only; split <;> simp

@[simp] theorem applyRect_state : (w.applyRect env sh z).rd.state = w.rd.state := by
  unfold World.applyRect; simp only; split <;> simp

@[simp] theorem applyRect_stack : (w.applyRect env sh z).rd.stack = w.rd.stack := by
  unfold World.applyRect; simp only; split <;> simp

@[simp] theorem applyRect_framebuffers :
    (w.applyRect env sh z).framebuffers = w.framebuffers := by
  unfold World.applyRect; simp only; split <;> simp

@[simp] theorem applyRect_nextTexture : (w.applyRect env sh z).nextTexture = w.nextTexture := by
  unfold World.applyRect; simp only; split <;> simp

@[simp] theorem applyRect_nextFramebuffer :
    (w.applyRect env sh z).nextFramebuffer = w.nextFramebuffer := by
  unfold World.applyRect; simp only; split <;> simp

@[simp] theorem applyRect_width (t : Nat) :
    ((w.applyRect env sh z).textures t).width = (w.textures t).width := by
  unfold World.applyRect; simp only; split <;> simp

@[simp] theorem applyRect_height (t : Nat) :
    ((w.applyRect env sh z).textures t).height = (w.textures t).height := by
  unfold World.applyRect; simp only; split <;> simp

@[simp] theorem pop2D_sao : w.pop2D.sao = w.sao := by
  unfold World.pop2D; split <;> rfl

@[simp] theorem pop2D_calls : w.pop2D.calls = w.calls := by
  unfold World.pop2D; split <;> rfl

@[simp] theorem pop2D_framebuffers : w.pop2D.framebuffers = w.framebuffers := by
  unfold World.pop2D; split <;> rfl

@[simp] theorem pop2D_textures : w.pop2D.textures = w.textures := by
  unfold World.pop2D; split <;> rfl

@[simp] theorem pop2D_commands : w.pop2D.commands = w.commands := by
  unfold World.pop2D; split <;> rfl

@[simp] theorem pop2D_nextTexture : w.pop2D.nextTexture = w.nextTexture := by
  unfold World.pop2D; split <;> rfl

@[simp] theorem pop2D_nextFramebuffer : w.pop2D.nextFramebuffer = w.nextFramebuffer := by
  unfold World.pop2D; split <;> rfl

@[simp] theorem pop2D_state : w.pop2D.rd.state = w.rd.stack.head?.getD w.rd.state := by
  unfold World.pop2D; split <;> simp [*]

@[simp] theorem pop2D_stack : w.pop2D.rd.stack = w.rd.stack.tail := by
  unfold World.pop2D; split <;> simp [*]

end device

section setters
variable (w : World)

@[simp] theorem enter_sao (c : Call) : (w.enter c).sao = w.sao := rfl

@[simp] theorem enter_calls (c : Call) : (w.enter c).calls = w.calls ++ [c] := rfl

@[simp] theorem enter_commands (c : Call) : (w.enter c).commands = w.commands := rfl

@[simp] theorem enter_textures (c : Call) : (w.enter c).textures = w.textures := rfl

@[simp] theorem enter_framebuffers (c : Call) : (w.enter c).framebuffers = w.framebuffers := rfl

@[simp] theorem enter_nextTexture (c : Call) : (w.enter c).nextTexture = w.nextTexture := rfl

@[simp] theorem enter_nextFramebuffer (c : Call) : (w.enter c).nextFramebuffer = w.nextFramebuffer := rfl

@[simp] theorem enter_state (c : Call) : (w.enter c).rd.state = w.rd.state := rfl

@[simp] theorem enter_stack (c : Call) : (w.enter c).rd.stack = w.rd.stack := rfl

@[simp] theorem enter_backColor (c : Call) : (w.enter c).rd.backColor = w.rd.backColor := rfl

@[simp] theorem enter_backDepth (c : Call) : (w.enter c).rd.backDepth = w.rd.backDepth := rfl

@[simp] theorem setSao_sao (m : Members) : (w.setSao m).sao = m := rfl

@[simp] theorem setSao_calls (m : Members) : (w.setSao m).calls = w.calls := rfl

@[simp] theorem setSao_commands (m : Members) : (w.setSao m).commands = w.commands := rfl

@[simp] theorem setSao_textures (m : Members) : (w.setSao m).textures = w.textures := rfl

@[simp] theorem setSao_framebuffers (m : Members) : (w.setSao m).framebuffers = w.framebuffers := rfl

@[simp] theorem setSao_nextTexture (m : Members) : (w.setSao m).nextTexture = w.nextTexture := rfl

@[simp] theorem setSao_nextFramebuffer (m : Members) : (w.setSao m).nextFramebuffer = w.nextFramebuffer := rfl

@[simp] theorem setSao_state (m : Members) : (w.setSao m).rd.state = w.rd.state := rfl

@[simp] theorem setSao_stack (m : Members) : (w.setSao m).rd.stack = w.rd.stack := rfl

@[simp] theorem setSao_backColor (m : Members) : (w.setSao m).rd.backColor = w.rd.backColor := rfl

@[simp] theorem setSao_backDepth (m : Members) : (w.setSao m).rd.backDepth = w.rd.backDepth := rfl

@[simp] theorem setState_sao (s : RenderState) : (w.setState s).sao = w.sao := rfl

@[simp] theorem setState_calls (s : RenderState) : (w.setState s).calls = w.calls := rfl

@[simp] theorem setState_commands (s : RenderState) : (w.setState s).commands = w.commands := rfl

@[simp] theorem setState_textures (s : RenderState) : (w.setState s).textures = w.textures := rfl

@[simp] theorem setState_framebuffers (s : RenderState) : (w.setState s).framebuffers = w.framebuffers := rfl

@[simp] theorem setState_nextTexture (s : RenderState) : (w.setState s).nextTexture = w.nextTexture := rfl

@[simp] theorem setState_nextFramebuffer (s : RenderState) : (w.setState s).nextFramebuffer = w.nextFramebuffer := rfl

@[simp] theorem setState_state (s : RenderState) : (w.setState s).rd.state = s := rfl

@[simp] theorem setState_stack (s : RenderState) : (w.setState s).rd.stack = w.rd.stack := rfl

@[simp] theorem setState_backColor (s : RenderState) : (w.setState s).rd.backColor = w.rd.backColor := rfl

@[simp] theorem setState_backDepth (s : RenderState) : (w.setState s).rd.backDepth = w.rd.backDepth := rfl

@[simp] theorem setDepthTest_sao (t : DepthTest) : (w.setDepthTest t).sao = w.sao := rfl

@[simp] theorem setDepthTest_calls (t : DepthTest) : (w.setDepthTest t).calls = w.calls := rfl

@[simp] theorem setDepthTest_commands (t : DepthTest) : (w.setDepthTest t).commands = w.commands := rfl

@[simp] theorem setDepthTest_textures (t : DepthTest) : (w.setDepthTest t).textures = w.textures := rfl

@[simp] theorem setDepthTest_framebuffers (t : DepthTest) : (w.setDepthTest t).framebuffers = w.framebuffers := rfl

@[simp] theorem setDepthTest_nextTexture (t : DepthTest) : (w.setDepthTest t).nextTexture = w.nextTexture := rfl

@[simp] theorem setDepthTest_nextFramebuffer (t : DepthTest) : (w.setDepthTest t).nextFramebuffer = w.nextFramebuffer := rfl

@[simp] theorem setDepthTest_state (t : DepthTest) : (w.setDepthTest t).rd.state = { w.rd.state with depthTest := t } := rfl

@[simp] theorem setDepthTest_stack (t : DepthTest) : (w.setDepthTest t).rd.stack = w.rd.stack := rfl

@[simp] theorem setDepthTest_backColor (t : DepthTest) : (w.setDepthTest t).rd.backColor = w.rd.backColor := rfl

@[simp] theorem setDepthTest_backDepth (t : DepthTest) : (w.setDepthTest t).rd.backDepth = w.rd.backDepth := rfl

@[simp] theorem setColorClearValue_sao (c : Color3) : (w.setColorClearValue c).sao = w.sao := rfl

@[simp] theorem setColorClearValue_calls (c : Color3) : (w.setColorClearValue c).calls = w.calls := rfl

@[simp] theorem setColorClearValue_commands (c : Color3) : (w.setColorClearValue c).commands = w.commands := rfl

@[simp] theorem setColorClearValue_textures (c : Color3) : (w.setColorClearValue c).textures = w.textures := rfl

@[simp] theorem setColorClearValue_framebuffers (c : Color3) : (w.setColorClearValue c).framebuffers = w.framebuffers := rfl

@[simp] theorem setColorClearValue_nextTexture (c : Color3) : (w.setColorClearValue c).nextTexture = w.nextTexture := rfl

@[simp] theorem setColorClearValue_nextFramebuffer (c : Color3) : (w.setColorClearValue c).nextFramebuffer = w.nextFramebuffer := rfl

@[simp] theorem setColorClearValue_state (c : Color3) : (w.setColorClearValue c).rd.state = { w.rd.state with colorClearValue := c } := rfl

@[simp] theorem setColorClearValue_stack (c : Color3) : (w.setColorClearValue c).rd.stack = w.rd.stack := rfl

@[simp] theorem setColorClearValue_backColor (c : Color3) : (w.setColorClearValue c).rd.backColor = w.rd.backColor := rfl

@[simp] theorem setColorClearValue_backDepth (c : Color3) : (w.setColorClearValue c).rd.backDepth = w.rd.backDepth := rfl

@[simp] theorem setClip2D_sao (r : Rect2D) : (w.setClip2D r).sao = w.sao := rfl

@[simp] theorem setClip2D_calls (r : Rect2D) : (w.setClip2D r).calls = w.calls := rfl

@[simp] theorem setClip2D_commands (r : Rect2D) : (w.setClip2D r).commands = w.commands := rfl

@[simp] theorem setClip2D_textures (r : Rect2D) : (w.setClip2D r).textures = w.textures := rfl

@[simp] theorem setClip2D_framebuffers (r : Rect2D) : (w.setClip2D r).framebuffers = w.framebuffers := rfl

@[simp] theorem setClip2D_nextTexture (r : Rect2D) : (w.setClip2D r).nextTexture = w.nextTexture := rfl

@[simp] theorem setClip2D_nextFramebuffer (r : Rect2D) : (w.setClip2D r).nextFramebuffer = w.nextFramebuffer := rfl

@[simp] theorem setClip2D_state (r : Rect2D) : (w.setClip2D r).rd.state = { w.rd.state with clip2D := r } := rfl

@[simp] theorem setClip2D_stack (r : Rect2D) : (w.setClip2D r).rd.stack = w.rd.stack := rfl

@[simp] theorem setClip2D_backColor (r : Rect2D) : (w.setClip2D r).rd.backColor = w.rd.backColor := rfl

@[simp] theorem setClip2D_backDepth (r : Rect2D) : (w.setClip2D r).rd.backDepth = w.rd.backDepth := rfl

@[simp] theorem framebufferSet_sao (fb : Nat) (ap : AttachmentPoint) (t : Option Nat) (mip : Nat) : (w.framebufferSet fb ap t mip).sao = w.sao := rfl

@[simp] theorem framebufferSet_calls (fb : Nat) (ap : AttachmentPoint) (t : Option Nat) (mip : Nat) : (w.framebufferSet fb ap t mip).calls = w.calls := rfl

@[simp] theorem framebufferSet_commands (fb : Nat) (ap : AttachmentPoint) (t : Option Nat) (mip : Nat) : (w.framebufferSet fb ap t mip).commands = w.commands := rfl

@[simp] theorem framebufferSet_textures (fb : Nat) (ap : AttachmentPoint) (t : Option Nat) (mip : Nat) : (w.framebufferSet fb ap t mip).textures = w.textures := rfl

@[simp] theorem framebufferSet_framebuffers (fb : Nat) (ap : AttachmentPoint) (t : Option Nat) (mip : Nat) : (w.framebufferSet fb ap t mip).framebuffers = Function.update w.framebuffers fb ((w.framebuffers fb).set ap t mip) := rfl

@[simp] theorem framebufferSet_nextTexture (fb : Nat) (ap : AttachmentPoint) (t : Option Nat) (mip : Nat) : (w.framebufferSet fb ap t mip).nextTexture = w.nextTexture := rfl

@[simp] theorem framebufferSet_nextFramebuffer (fb : Nat) (ap : AttachmentPoint) (t : Option Nat) (mip : Nat) : (w.framebufferSet fb ap t mip).nextFramebuffer = w.nextFramebuffer := rfl

@[simp] theorem framebufferSet_state (fb : Nat) (ap : AttachmentPoint) (t : Option Nat) (mip : Nat) : (w.framebufferSet fb ap t mip).rd.state = w.rd.state := rfl

@[simp] theorem framebufferSet_stack (fb : Nat) (ap : AttachmentPoint) (t : Option Nat) (mip : Nat) : (w.framebufferSet fb ap t mip).rd.stack = w.rd.stack := rfl

@[simp] theorem framebufferSet_backColor (fb : Nat) (ap : AttachmentPoint) (t : Option Nat) (mip : Nat) : (w.framebufferSet fb ap t mip).rd.backColor = w.rd.backColor := rfl

@[simp] theorem framebufferSet_backDepth (fb : Nat) (ap : AttachmentPoint) (t : Option Nat) (mip : Nat) : (w.framebufferSet fb ap t mip).rd.backDepth = w.rd.backDepth := rfl

@[simp] theorem resizeTexture_sao (env : Env) (t : Nat) (W H : Int) :
    (w.resizeTexture env t W H).sao = w.sao := rfl

@[simp] theorem resizeTexture_calls (env : Env) (t : Nat) (W H : Int) :
    (w.resizeTexture env t W H).calls = w.calls := rfl

@[simp] theorem resizeTexture_commands (env : Env) (t : Nat) (W H : Int) :
    (w.resizeTexture env t W H).commands = w.commands := rfl

@[simp] theorem resizeTexture_textures (env : Env) (t : Nat) (W H : Int) :
    (w.resizeTexture env t W H).textures = Function.update w.textures t { w.textures t with width := W, height := H, texel := env.fresh } := rfl

@[simp] theorem resizeTexture_framebuffers (env : Env) (t : Nat) (W H : Int) :
    (w.resizeTexture env t W H).framebuffers = w.framebuffers := rfl

@[simp] theorem resizeTexture_nextTexture (env : Env) (t : Nat) (W H : Int) :
    (w.resizeTexture env t W H).nextTexture = w.nextTexture := rfl

@[simp] theorem resizeTexture_nextFramebuffer (env : Env) (t : Nat) (W H : Int) :
    (w.resizeTexture env t W H).nextFramebuffer = w.nextFramebuffer := rfl

@[simp] theorem resizeTexture_rd (env : Env) (t : Nat) (W H : Int) :
    (w.resizeTexture env t W H).rd = w.rd := rfl

@[simp] theorem createEmpty_sao (env : Env) (n : String) (W H : Int) (f : ImageFormat) (ts : TextureSettings) :
    (w.createEmpty env n W H f ts).sao = w.sao := rfl

@[simp] theorem createEmpty_calls (env : Env) (n : String) (W H : Int) (f : ImageFormat) (ts : TextureSettings) :
    (w.createEmpty env n W H f ts).calls = w.calls := rfl

@[simp] theorem createEmpty_commands (env : Env) (n : String) (W H : Int) (f : ImageFormat) (ts : TextureSettings) :
    (w.createEmpty env n W H f ts).commands = w.commands := rfl

@[simp] theorem createEmpty_textures (env : Env) (n : String) (W H : Int) (f : ImageFormat) (ts : TextureSettings) :
    (w.createEmpty env n W H f ts).textures = Function.update w.textures w.nextTexture ⟨n, W, H, f, ts, env.fresh⟩ := rfl

@[simp] theorem createEmpty_framebuffers (env : Env) (n : String) (W H : Int) (f : ImageFormat) (ts : TextureSettings) :
    (w.createEmpty env n W H f ts).framebuffers = w.framebuffers := rfl

@[simp] theorem createEmpty_nextTexture (env : Env) (n : String) (W H : Int) (f : ImageFormat) (ts : TextureSettings) :
    (w.createEmpty env n W H f ts).nextTexture = w.nextTexture + 1 := rfl

@[simp] theorem createEmpty_nextFramebuffer (env : Env) (n : String) (W H : Int) (f : ImageFormat) (ts : TextureSettings) :
    (w.createEmpty env n W H f ts).nextFramebuffer = w.nextFramebuffer := rfl

@[simp] theorem createEmpty_rd (env : Env) (n : String) (W H : Int) (f : ImageFormat) (ts : TextureSettings) :
    (w.createEmpty env n W H f ts).rd = w.rd := rfl

@[simp] theorem createFramebuffer_sao (n : String) :
    (w.createFramebuffer n).sao = w.sao := rfl

@[simp] theorem createFramebuffer_calls (n : String) :
    (w.createFramebuffer n).calls = w.calls := rfl

@[simp] theorem createFramebuffer_commands (n : String) :
    (w.createFramebuffer n).commands = w.commands := rfl

@[simp] theorem createFramebuffer_textures (n : String) :
    (w.createFramebuffer n).textures = w.textures := rfl

@[simp] theorem createFramebuffer_framebuffers (n : String) :
    (w.createFramebuffer n).framebuffers = Function.update w.framebuffers w.nextFramebuffer ⟨n, none, none⟩ := rfl

@[simp] theorem createFramebuffer_nextTexture (n : String) :
    (w.createFramebuffer n).nextTexture = w.nextTexture := rfl

@[simp] theorem createFramebuffer_nextFramebuffer (n : String) :
    (w.createFramebuffer n).nextFramebuffer = w.nextFramebuffer + 1 := rfl

@[simp] theorem createFramebuffer_rd (n : String) :
    (w.createFramebuffer n).rd = w.rd := rfl

@[simp] theorem enter_rd (c : Call) : (w.enter c).rd = w.rd := rfl

@[simp] theorem setSao_rd (m : Members) : (w.setSao m).rd = w.rd := rfl

@[simp] theorem framebufferSet_rd (fb : Nat) (ap : AttachmentPoint) (t : Option Nat) (mip : Nat) :
    (w.framebufferSet fb ap t mip).rd = w.rd := rfl

end setters

section push
variable (w : World) (fb : Option Nat) (v : Rect2D)

@[simp] theorem push2DWith_sao : (w.push2DWith fb v).sao = w.sao := rfl

@[simp] theorem push2DWith_calls : (w.push2DWith fb v).calls = w.calls := rfl

@[simp] theorem push2DWith_framebuffers : (w.push2DWith fb v).framebuffers = w.framebuffers := rfl

@[simp] theorem push2DWith_textures : (w.push2DWith fb v).textures = w.textures := rfl

@[simp] theorem push2DWith_commands : (w.push2DWith fb v).commands = w.commands := rfl

@[simp] theorem push2DWith_nextTexture : (w.push2DWith fb v).nextTexture = w.nextTexture := rfl

@[simp] theorem push2DWith_nextFramebuffer :
    (w.push2DWith fb v).nextFramebuffer = w.nextFramebuffer := rfl

@[simp] theorem push2DWith_stack : (w.push2DWith fb v).rd.stack = w.rd.state :: w.rd.stack := rfl

end push

theorem estimationDraws_append (a b : List Command) :
    estimationDraws (a ++ b) = estimationDraws a ++ estimationDraws b := by
  induction a with
  | nil => rfl
  | cons c rest ih =>
    cases c with
    | clear st x y z => simpa [estimationDraws] using ih
    | applyRect st sh z =>
      by_cases h : sh.pixelFile = "SAO_AO.pix" <;> simp [estimationDraws, h, ih]

theorem frame_refl (w : World) : Frame w w := by
  constructor <;> intros <;> rfl

theorem frame_trans {a b c : World} (h1 : Frame a b) (h2 : Frame b c) : Frame a c := by
  constructor
  · rw [h2.settings, h1.settings]
  · rw [h2.cszBuffer, h1.cszBuffer]
  · rw [h2.cszFramebuffers, h1.cszFramebuffers]
  · rw [h2.rawAOBuffer, h1.rawAOBuffer]
  · rw [h2.rawAOFramebuffer, h1.rawAOFramebuffer]
  · rw [h2.hBlurredBuffer, h1.hBlurredBuffer]
  · rw [h2.hBlurredFramebuffer, h1.hBlurredFramebuffer]
  · intro t; rw [h2.width, h1.width]
  · intro t; rw [h2.height, h1.height]
  · intro f; rw [h2.color0, h1.color0]
  · rw [h2.nextTexture, h1.nextTexture]
  · rw [h2.nextFramebuffer, h1.nextFramebuffer]
  · rw [h2.state, h1.state]
  · rw [h2.stack, h1.stack]

/-! ## The passes on a ready instance -/

theorem forLoop_ok (body : Nat → World → Outcome) (I : World → Prop) :
    ∀ (n lo : Nat) (w : World), I w →
      (∀ i w, lo ≤ i → i < lo + n → I w → ∃ w', body i w = .ok w' ∧ I w') →
      ∃ w', forLoop body lo n w = .ok w' ∧ I w' := by
  intro n
  induction n with
  | zero => intro lo w hw _; exact ⟨w, rfl, hw⟩
  | succ n ih =>
    intro lo w hw hbody
    obtain ⟨w1, h1, hI1⟩ := hbody lo w (le_refl _) (by omega) hw
    obtain ⟨w2, h2, hI2⟩ := ih (lo + 1) w1 hI1 (fun i w hi hlt => hbody i w (by omega) (by omega))
    exact ⟨w2, by simp [forLoop, h1, Outcome.andThen, h2], hI2⟩

theorem minifyLevel_ok (env : Env) (i : Nat) (w : World) (hs : ShadersLoaded w.sao)
    (hi : i < w.sao.m_cszFramebuffers.length) :
    ∃ w', minifyLevel env i w = .ok w' ∧ ShadersLoaded w'.sao ∧ Frame w w' ∧
      w'.calls = w.calls ∧ estimationDraws w'.commands = estimationDraws w.commands := by
  obtain ⟨⟨s1, h1, p1⟩, ⟨s2, h2, p2⟩, ⟨s3, h3, p3⟩, ⟨s4, h4, p4⟩⟩ := hs
  obtain ⟨fb, hfb⟩ : ∃ fb, w.sao.m_cszFramebuffers[i]? = some fb :=
    ⟨_, List.getElem?_eq_getElem hi⟩
  simp [minifyLevel, h4, hfb, World.push2D]
  refine ⟨?_, ?_, ?_⟩
  · constructor <;> simp [Shader.set, *]
  · constructor <;> simp
  · simp [estimationDraws_append, estimationDraws, Shader.set, *]

theorem computeCSZ_ok (env : Env) (d : Option Nat) (c : Vector3) (w : World)
    (hs : ShadersLoaded w.sao) (hl : w.sao.m_cszFramebuffers.length = MAX_MIP_LEVEL + 1) :
    ∃ w', computeCSZ env d c w = .ok w' ∧ ShadersLoaded w'.sao ∧ Frame w w' ∧
      w'.calls = w.calls ++ [.computeCSZ d c] ∧
      estimationDraws w'.commands = estimationDraws w.commands := by
  obtain ⟨⟨s1, h1, p1⟩, ⟨s2, h2, p2⟩, ⟨s3, h3, p3⟩, ⟨s4, h4, p4⟩⟩ := hs
  obtain ⟨fb, hfb⟩ : ∃ fb, w.sao.m_cszFramebuffers[0]? = some fb :=
    ⟨_, List.getElem?_eq_getElem (by omega)⟩
  simp only [computeCSZ, enter_sao, hfb, World.push2D, setSao_sao, clear_sao,
    push2DWith_sao, h3]
  refine forLoop_ok (minifyLevel env) (fun w' => ShadersLoaded w'.sao ∧ Frame w w' ∧
      w'.calls = w.calls ++ [Call.computeCSZ d c] ∧
      estimationDraws w'.commands = estimationDraws w.commands) _ _ _ ?_ ?_
  · refine ⟨?_, ?_, ?_, ?_⟩
    · constructor <;> simp [Shader.set, *]
    · constructor <;> simp
    · simp
    · simp [estimationDraws_append, estimationDraws, Shader.set, *]
  · intro i w1 h1i hi5 ⟨hs1, hf1, hc1, he1⟩
    obtain ⟨w2, hw2, hs2, hf2, hc2, he2⟩ := minifyLevel_ok env i w1 hs1
      (by rw [hf1.cszFramebuffers, hl]; simpa [MAX_MIP_LEVEL] using hi5)
    exact ⟨w2, hw2, hs2, frame_trans hf1 hf2, by rw [hc2, hc1], by rw [he2, he1]⟩

theorem update_set_depth_color0 (fbs : Nat → Framebuffer) (fb : Nat) (t : Option Nat)
    (mip f : Nat) :
    (Function.update fbs fb ((fbs fb).set .DEPTH t mip) f).color0 = (fbs f).color0 := by
  by_cases h : f = fb
  · subst h; simp [Framebuffer.set]
  · simp [Function.update_noteq h]

theorem computeRawAO_abort (env : Env) (d : Option Nat) (c : Vector3) (p : Vector4) (ps : ℚ)
    (csz : Option Nat) (g : Int) (w : World) (hd : env.debug = true) (hps : ¬ ps > 0) :
    computeRawAO env d c p ps csz g w =
      .abort (.debugAssert "projScale > 0") (w.enter (.computeRawAO d c p ps csz g)) := by
  simp [computeRawAO, hd, hps]

theorem computeRawAO_ok (env : Env) (d : Option Nat) (c : Vector3) (p : Vector4) (ps : ℚ)
    (csz : Option Nat) (g : Int) (w : World) (hs : ShadersLoaded w.sao)
    (hfb : w.sao.m_rawAOFramebuffer.isSome = true) (hps : env.debug = true → ps > 0) :
    ∃ w', computeRawAO env d c p ps csz g w = .ok w' ∧ ShadersLoaded w'.sao ∧ Frame w w' ∧
      w'.calls = w.calls ++ [.computeRawAO d c p ps csz g] ∧
      (estimationDraws w'.commands).map (fun sh => sh.args "projScale") =
        (estimationDraws w.commands).map (fun sh => sh.args "projScale") ++ [some (.float ps)] := by
  obtain ⟨⟨s1, h1, p1⟩, ⟨s2, h2, p2⟩, ⟨s3, h3, p3⟩, ⟨s4, h4, p4⟩⟩ := hs
  obtain ⟨rawFb, hraw⟩ := Option.isSome_iff_exists.mp hfb
  have hcond : ¬ (env.debug = true ∧ ¬ ps > 0) := fun h => h.2 (hps h.1)
  simp only [computeRawAO, hcond, if_false, enter_sao, hraw, World.push2D, setSao_sao, clear_sao,
    push2DWith_sao, framebufferSet_sao, setDepthTest_sao, setColorClearValue_sao, h1]
  refine ⟨_, rfl, ?_, ?_, ?_, ?_⟩
  · constructor <;> simp [Shader.set, *]
  · constructor <;> simp [update_set_depth_color0, hraw]
  · simp
  · simp [estimationDraws_append, estimationDraws, Shader.set, p1]

theorem blurHorizontal_ok (env : Env) (d : Option Nat) (g : Int) (w : World)
    (hs : ShadersLoaded w.sao) :
    ∃ w', blurHorizontal env d g w = .ok w' ∧ ShadersLoaded w'.sao ∧ Frame w w' ∧
      w'.calls = w.calls ++ [.blurHorizontal d g] ∧
      estimationDraws w'.commands = estimationDraws w.commands := by
  obtain ⟨⟨s1, h1, p1⟩, ⟨s2, h2, p2⟩, ⟨s3, h3, p3⟩, ⟨s4, h4, p4⟩⟩ := hs
  simp only [blurHorizontal, enter_sao, World.push2D, setSao_sao, clear_sao,
    push2DWith_sao, setColorClearValue_sao, h2]
  refine ⟨_, rfl, ?_, ?_, ?_, ?_⟩
  · constructor <;> simp [Shader.set, *]
  · constructor <;> simp
  · simp
  · simp [estimationDraws_append, estimationDraws, Shader.set, p2]

theorem blurVertical_ok (env : Env) (d : Option Nat) (g : Int) (w : World)
    (hs : ShadersLoaded w.sao) :
    ∃ w', blurVertical env d g w = .ok w' ∧ ShadersLoaded w'.sao ∧ Frame w w' ∧
      w'.calls = w.calls ++ [.blurVertical d g] ∧
      estimationDraws w'.commands = estimationDraws w.commands := by
  obtain ⟨⟨s1, h1, p1⟩, ⟨s2, h2, p2⟩, ⟨s3, h3, p3⟩, ⟨s4, h4, p4⟩⟩ := hs
  simp only [blurVertical, enter_sao, World.push2DCurrent, setSao_sao, clear_sao,
    push2DWith_sao, setColorClearValue_sao, h2]
  refine ⟨_, rfl, ?_, ?_, ?_, ?_⟩
  · constructor <;> simp [Shader.set, *]
  · constructor <;> simp
  · simp
  · simp [estimationDraws_append, estimationDraws, Shader.set, p2]

theorem reloadShaders_loaded (w : World) : ShadersLoaded (reloadShaders w).sao := by
  constructor <;> simp [reloadShaders, Shader.fromFiles, Shader.setPreserveState]

theorem reloadShaders_frame (w : World) : Frame w (reloadShaders w) := by
  constructor <;> simp [reloadShaders]

theorem reloadShaders_calls (w : World) :
    (reloadShaders w).calls = w.calls ++ [.reloadShaders] := by
  simp [reloadShaders]

theorem reloadShaders_commands (w : World) : (reloadShaders w).commands = w.commands := by
  simp [reloadShaders]

/-! ## The buffer life cycle -/

theorem forLoop_ind (body : Nat → World → Outcome) (I : Nat → World → Prop) :
    ∀ (n lo : Nat) (w : World), I lo w →
      (∀ i w, lo ≤ i → i < lo + n → I i w → ∃ w', body i w = .ok w' ∧ I (i + 1) w') →
      ∃ w', forLoop body lo n w = .ok w' ∧ I (lo + n) w' := by
  intro n
  induction n with
  | zero => intro lo w hw _; exact ⟨w, rfl, hw⟩
  | succ n ih =>
    intro lo w hw hbody
    obtain ⟨w1, h1, hI1⟩ := hbody lo w (le_refl _) (by omega) hw
    obtain ⟨w2, h2, hI2⟩ := ih (lo + 1) w1 hI1 (fun i w hi hlt => hbody i w (by omega) (by omega))
    refine ⟨w2, by simp [forLoop, h1, Outcome.andThen, h2], ?_⟩
    have : lo + (n + 1) = lo + 1 + n := by omega
    rw [this]; exact hI2

theorem appendLoop_ok (w : World) :
    ∃ w', forLoop appendCszFramebuffer 0 (MAX_MIP_LEVEL + 1) w = .ok w' ∧
      w'.sao = { w.sao with m_cszFramebuffers :=
        w.sao.m_cszFramebuffers ++ List.range' w.nextFramebuffer (MAX_MIP_LEVEL + 1) } ∧
      w'.nextFramebuffer = w.nextFramebuffer + (MAX_MIP_LEVEL + 1) ∧
      w'.textures = w.textures ∧ w'.nextTexture = w.nextTexture ∧ w'.rd = w.rd ∧
      w'.calls = w.calls ∧ w'.commands = w.commands := by
  have h := forLoop_ind appendCszFramebuffer (fun i w' =>
      w'.sao = { w.sao with m_cszFramebuffers :=
        w.sao.m_cszFramebuffers ++ List.range' w.nextFramebuffer i } ∧
      w'.nextFramebuffer = w.nextFramebuffer + i ∧
      w'.textures = w.textures ∧ w'.nextTexture = w.nextTexture ∧ w'.rd = w.rd ∧
      w'.calls = w.calls ∧ w'.commands = w.commands) (MAX_MIP_LEVEL + 1) 0 w
      (by simp) (by
        intro i w1 _ _ ⟨h1, h2, h3, h4, h5, h6, h7⟩
        refine ⟨_, rfl, ?_⟩
        simp [World.createFramebuffer, World.setSao, h1, h2, h3, h4, h5, h6, h7,
          List.range'_concat]
        omega)
  simpa using h

theorem rebindLoop_ok (w : World) (csz : Option Nat) (fbs : List Nat)
    (hcsz : w.sao.m_cszBuffer = csz) (hfbs : w.sao.m_cszFramebuffers = fbs)
    (hlen : fbs.length = MAX_MIP_LEVEL + 1) (hnd : fbs.Nodup) :
    ∃ w', forLoop rebindCszFramebuffer 0 (MAX_MIP_LEVEL + 1) w = .ok w' ∧
      w'.sao = w.sao ∧ w'.textures = w.textures ∧ w'.nextTexture = w.nextTexture ∧
      w'.nextFramebuffer = w.nextFramebuffer ∧ w'.rd = w.rd ∧ w'.calls = w.calls ∧
      w'.commands = w.commands ∧
      (∀ f, (w'.framebuffers f).depth = (w.framebuffers f).depth) ∧
      (∀ f, f ∉ fbs → w'.framebuffers f = w.framebuffers f) ∧
      (∀ i fb, fbs[i]? = some fb →
        (w'.framebuffers fb).color0 = csz.map fun t => ⟨t, i⟩) := by
  have h := forLoop_ind rebindCszFramebuffer (fun n w' =>
      w'.sao = w.sao ∧ w'.textures = w.textures ∧ w'.nextTexture = w.nextTexture ∧
      w'.nextFramebuffer = w.nextFramebuffer ∧ w'.rd = w.rd ∧ w'.calls = w.calls ∧
      w'.commands = w.commands ∧
      (∀ f, (w'.framebuffers f).depth = (w.framebuffers f).depth) ∧
      (∀ f, f ∉ fbs → w'.framebuffers f = w.framebuffers f) ∧
      (∀ i fb, i < n → fbs[i]? = some fb →
        (w'.framebuffers fb).color0 = csz.map fun t => ⟨t, i⟩)) (MAX_MIP_LEVEL + 1) 0 w
      (by simp) (by
        intro i w1 _ hi ⟨h1, h2, h3, h4, h5, h6, h7, h8, h9, h10⟩
        have hi' : i < fbs.length := by omega
        have hget : fbs[i]? = some fbs[i] := List.getElem?_eq_getElem hi'
        refine ⟨w1.framebufferSet fbs[i] .COLOR0 w1.sao.m_cszBuffer i, ?_, ?_⟩
        · simp [rebindCszFramebuffer, h1, hfbs, hget]
        · refine ⟨h1, h2, h3, h4, h5, h6, h7, ?_, ?_, ?_⟩
          · intro f
            by_cases hf : f = fbs[i]
            · subst hf; simp [Framebuffer.set, h8]
            · simp [Function.update_noteq hf, h8]
          · intro f hf
            have : f ≠ fbs[i] := fun h => hf (h ▸ List.getElem_mem hi')
            simp [Function.update_noteq this, h9 f hf]
          · intro j fb hj hjfb
            by_cases hji : j = i
            · subst hji
              rw [hget] at hjfb
              cases hjfb
              simp [Framebuffer.set, h1, hcsz]
            · have hne : fb ≠ fbs[i] := by
                intro h
                apply hji
                have hj' : j < fbs.length := by omega
                have := List.getElem?_inj hj' hnd (hjfb.trans (h ▸ hget.symm))
                exact this
              simp [Function.update_noteq hne]
              exact h10 j fb (by omega) hjfb)
  obtain ⟨w', hw', h1, h2, h3, h4, h5, h6, h7, h8, h9, h10⟩ := h
  refine ⟨w', hw', h1, h2, h3, h4, h5, h6, h7, h8, h9, ?_⟩
  intro i fb hi
  have : i < fbs.length := by
    by_contra hc
    rw [List.getElem?_eq_none (by omega)] at hi
    cases hi
  exact h10 i fb (by omega) hi

theorem rebindBuffers_ok (w : World) (rawFb hFb raw hBlurred csz : Nat) (fbs : List Nat)
    (ha : AllocatedAs w rawFb hFb raw hBlurred csz fbs) :
    ∃ w', rebindBuffers w = .ok w' ∧ Bound w' rawFb hFb raw hBlurred csz fbs ∧
      w'.sao = w.sao ∧ w'.textures = w.textures ∧ w'.nextTexture = w.nextTexture ∧
      w'.nextFramebuffer = w.nextFramebuffer ∧ w'.rd = w.rd ∧ w'.calls = w.calls ∧
      w'.commands = w.commands ∧
      (∀ f, (w'.framebuffers f).depth = (w.framebuffers f).depth) := by
  obtain ⟨h1, h2, h3, h4, h5, h6, h7, h8⟩ := ha
  have hnd : rawFb ∉ hFb :: fbs ∧ hFb ∉ fbs ∧ fbs.Nodup := by
    simpa [List.nodup_cons, and_assoc] using h8
  obtain ⟨hr, hh, hf⟩ := hnd
  have hrh : rawFb ≠ hFb := fun h => hr (h ▸ List.mem_cons_self _ _)
  have hrf : rawFb ∉ fbs := fun h => hr (List.mem_cons_of_mem _ h)
  obtain ⟨w', hw', g1, g2, g3, g4, g5, g6, g7, g8, g9, g10⟩ :=
    rebindLoop_ok ((w.framebufferSet rawFb .COLOR0 w.sao.m_rawAOBuffer 0).framebufferSet hFb
      .COLOR0 w.sao.m_hBlurredBuffer 0) (some csz) fbs (by simpa using h5) (by simpa using h6)
      h7 hf
  refine ⟨w', ?_, ?_, ?_, ?_, ?_, ?_, ?_, ?_, ?_, ?_⟩
  · simp only [rebindBuffers, h1, framebufferSet_sao, h2]
    exact hw'
  · constructor
    · rw [g9 rawFb hrf]
      simp [Function.update_noteq hrh, Framebuffer.set, h3]
    · rw [g9 hFb hh]
      simp [Framebuffer.set, h4]
    · intro i fb hi
      simpa using g10 i fb hi
  · simpa using g1
  · simpa using g2
  · simpa using g3
  · simpa using g4
  · simpa using g5
  · simpa using g6
  · simpa using g7
  · intro f
    rw [g8 f]
    simp only [framebufferSet_framebuffers]
    by_cases a : f = hFb
    · subst a
      simp [Framebuffer.set]
      by_cases b : f = rawFb
      · subst b; simp [Framebuffer.set]
      · simp [Function.update_noteq b]
    · simp [Function.update_noteq a]
      by_cases b : f = rawFb
      · subst b; simp [Framebuffer.set]
      · simp [Function.update_noteq b]

theorem allocateLoops_ok (X : World) (a b r h c : Nat)
    (h1 : X.sao.m_rawAOFramebuffer = some a) (h2 : X.sao.m_hBlurredFramebuffer = some b)
    (h3 : X.sao.m_rawAOBuffer = some r) (h4 : X.sao.m_hBlurredBuffer = some h)
    (h5 : X.sao.m_cszBuffer = some c) (h6 : X.sao.m_cszFramebuffers = [])
    (hab : a < b) (hb : b < X.nextFramebuffer) :
    ∃ w', (forLoop appendCszFramebuffer 0 (MAX_MIP_LEVEL + 1) X).andThen rebindBuffers = .ok w' ∧
      AllocatedAs w' a b r h c (List.range' X.nextFramebuffer (MAX_MIP_LEVEL + 1)) ∧
      Bound w' a b r h c (List.range' X.nextFramebuffer (MAX_MIP_LEVEL + 1)) ∧
      w'.sao = { X.sao with
        m_cszFramebuffers := List.range' X.nextFramebuffer (MAX_MIP_LEVEL + 1) } ∧
      w'.textures = X.textures ∧ w'.rd = X.rd ∧ w'.calls = X.calls ∧
      w'.commands = X.commands := by
  obtain ⟨w1, hw1, a1, a2, a3, a4, a5, a6, a7⟩ := appendLoop_ok X
  have hA : AllocatedAs w1 a b r h c (List.range' X.nextFramebuffer (MAX_MIP_LEVEL + 1)) := by
    constructor
    · simp [a1, h1]
    · simp [a1, h2]
    · simp [a1, h3]
    · simp [a1, h4]
    · simp [a1, h5]
    · simp [a1, h6]
    · simp
    · simp only [List.nodup_cons, List.mem_cons, List.mem_range', not_or, not_exists]
      refine ⟨⟨by omega, fun i hi => by omega⟩, fun i hi => by omega, ?_⟩
      exact List.nodup_range' _ _
  obtain ⟨w2, hw2, hB, b1, b2, b3, b4, b5, b6, b7, _⟩ := rebindBuffers_ok w1 a b r h c _ hA
  refine ⟨w2, by simp [hw1, Outcome.andThen, hw2], ?_, hB, by rw [b1, a1]; simp [h6], by rw [b2, a3],
    by rw [b5, a5], by rw [b6, a6], by rw [b7, a7]⟩
  obtain ⟨c1, c2, c3, c4, c5, c6, c7, c8⟩ := hA
  exact ⟨by rw [b1]; exact c1, by rw [b1]; exact c2, by rw [b1]; exact c3, by rw [b1]; exact c4,
    by rw [b1]; exact c5, by rw [b1]; exact c6, c7, c8⟩

theorem resizeBuffers_first (env : Env) (W H : Int) (w : World)
    (hnone : w.sao.m_rawAOFramebuffer = none) (hnil : w.sao.m_cszFramebuffers = [])
    (hz : env.ZBITS = 16 ∨ env.ZBITS = 32) (hd : env.debug = true → 0 < W ∧ 0 < H) :
    ∃ w', resizeBuffers env W H w = .ok w' ∧
      AllocatedAs w' w.nextFramebuffer (w.nextFramebuffer + 1) w.nextTexture
        (w.nextTexture + 1) (w.nextTexture + 2)
        (List.range' (w.nextFramebuffer + 2) (MAX_MIP_LEVEL + 1)) ∧
      Bound w' w.nextFramebuffer (w.nextFramebuffer + 1) w.nextTexture
        (w.nextTexture + 1) (w.nextTexture + 2)
        (List.range' (w.nextFramebuffer + 2) (MAX_MIP_LEVEL + 1)) ∧
      ((w'.textures w.nextTexture).width = W ∧ (w'.textures w.nextTexture).height = H) ∧
      ((w'.textures (w.nextTexture + 1)).width = W ∧
        (w'.textures (w.nextTexture + 1)).height = H) ∧
      ((w'.textures (w.nextTexture + 2)).width = W ∧
        (w'.textures (w.nextTexture + 2)).height = H) ∧
      ResizeFrame w w' ∧ w'.calls = w.calls ++ [.resizeBuffers W H] := by
  have hcond : ¬ (env.debug = true ∧ ¬ (W > 0 ∧ H > 0)) := fun h => h.2 (hd h.1)
  have hz' : ¬ ¬ (env.ZBITS = 16 ∨ env.ZBITS = 32) := not_not.mpr hz
  simp only [resizeBuffers, enter_sao, hnone, hz', hcond, if_false]
  refine Exists.imp (fun w' hw' => ⟨hw'.1, ?_⟩)
    (allocateLoops_ok _ w.nextFramebuffer (w.nextFramebuffer + 1) w.nextTexture
      (w.nextTexture + 1) (w.nextTexture + 2) ?_ ?_ ?_ ?_ ?_ ?_ ?_ ?_)
  · obtain ⟨-, hA, hB, hs, ht, hrd, hc, hcmd⟩ := hw'
    simp [World.createEmpty, World.createFramebuffer, World.setSao, World.enter] at hA hB hs ht hrd hc hcmd
    have e2 : w.nextFramebuffer + 1 + 1 = w.nextFramebuffer + 2 := by omega
    have e3 : w.nextTexture + 1 + 1 = w.nextTexture + 2 := by omega
    rw [e2] at hA hB hs
    rw [e3] at hA hB
    refine ⟨hA, hB, ?_, ?_, ?_, ?_, hc⟩
    · simp [ht, e3]
    · simp [ht, e3]
    · simp [ht, e3]
    · constructor <;> simp [hs, hrd, hcmd]
  all_goals simp [World.createEmpty, World.createFramebuffer, World.setSao, World.enter, hnil]

theorem resizeBuffers_first_abort (env : Env) (W H : Int) (w : World)
    (hnone : w.sao.m_rawAOFramebuffer = none)
    (hbad : ¬ ((env.ZBITS = 16 ∨ env.ZBITS = 32) ∧ (env.debug = true → 0 < W ∧ 0 < H))) :
    ∃ f w'', resizeBuffers env W H w = .abort f w'' := by
  simp only [resizeBuffers, enter_sao, hnone]
  by_cases hz : env.ZBITS = 16 ∨ env.ZBITS = 32
  · have hd : env.debug = true ∧ ¬ (W > 0 ∧ H > 0) := by
      by_contra hc
      exact hbad ⟨hz, fun h => by_contra fun hn => hc ⟨h, hn⟩⟩
    simp only [not_not.mpr hz, if_false, hd, and_self, if_true]
    exact ⟨_, _, rfl⟩
  · simp only [hz, not_false_eq_true, if_true]
    exact ⟨_, _, rfl⟩

theorem resizeBuffers_same (env : Env) (W H : Int) (w : World) (rawFb raw : Nat)
    (h1 : w.sao.m_rawAOFramebuffer = some rawFb) (h2 : w.sao.m_rawAOBuffer = some raw)
    (hW : (w.textures raw).width = W) (hH : (w.textures raw).height = H) :
    resizeBuffers env W H w = .ok (w.enter (.resizeBuffers W H)) := by
  simp [resizeBuffers, h1, h2, hW, hH]

theorem update_resize_width (T : Nat → Texture) (t u : Nat) (W H : Int)
    (f : Nat → Int → Int → Color3) :
    (Function.update T t { T t with width := W, height := H, texel := f } u).width =
      if u = t then W else (T u).width := by
  by_cases h : u = t
  · subst h; simp
  · simp [Function.update_noteq h, h]

theorem update_resize_height (T : Nat → Texture) (t u : Nat) (W H : Int)
    (f : Nat → Int → Int → Color3) :
    (Function.update T t { T t with width := W, height := H, texel := f } u).height =
      if u = t then H else (T u).height := by
  by_cases h : u = t
  · subst h; simp
  · simp [Function.update_noteq h, h]

theorem resizeBuffers_resize (env : Env) (W H : Int) (w : World)
    (rawFb hFb raw hBlurred csz : Nat) (fbs : List Nat)
    (ha : AllocatedAs w rawFb hFb raw hBlurred csz fbs)
    (hne : (w.textures raw).width ≠ W ∨ (w.textures raw).height ≠ H) :
    ∃ w', resizeBuffers env W H w = .ok w' ∧
      AllocatedAs w' rawFb hFb raw hBlurred csz fbs ∧
      Bound w' rawFb hFb raw hBlurred csz fbs ∧
      ((w'.textures raw).width = W ∧ (w'.textures raw).height = H) ∧
      ((w'.textures hBlurred).width = W ∧ (w'.textures hBlurred).height = H) ∧
      ((w'.textures csz).width = W ∧ (w'.textures csz).height = H) ∧
      ResizeFrame w w' ∧ w'.calls = w.calls ++ [.resizeBuffers W H] := by
  have hA : AllocatedAs ((((w.enter (.resizeBuffers W H)).resizeTexture env raw W H).resizeTexture
      env hBlurred W H).resizeTexture env csz W H) rawFb hFb raw hBlurred csz fbs := by
    obtain ⟨c1, c2, c3, c4, c5, c6, c7, c8⟩ := ha
    exact ⟨c1, c2, c3, c4, c5, c6, c7, c8⟩
  obtain ⟨w', hw', hB, b1, b2, b3, b4, b5, b6, b7, _⟩ := rebindBuffers_ok _ _ _ _ _ _ _ hA
  refine ⟨w', ?_, ?_, hB, ?_, ?_, ?_, ?_, ?_⟩
  · simp only [resizeBuffers, enter_sao, ha.rawAOFramebuffer, ha.rawAOBuffer, enter_textures, hne,
      if_true, resizeTexture_sao, ha.hBlurredBuffer, ha.cszBuffer]
    exact hw'
  · obtain ⟨c1, c2, c3, c4, c5, c6, c7, c8⟩ := hA
    exact ⟨by rw [b1]; exact c1, by rw [b1]; exact c2, by rw [b1]; exact c3, by rw [b1]; exact c4,
      by rw [b1]; exact c5, by rw [b1]; exact c6, c7, c8⟩
  · rw [b2]; simp only [resizeTexture_textures, update_resize_width, update_resize_height]
    constructor <;> split_ifs <;> simp
  · rw [b2]; simp only [resizeTexture_textures, update_resize_width, update_resize_height]
    constructor <;> split_ifs <;> simp
  · rw [b2]; simp only [resizeTexture_textures, update_resize_width, update_resize_height]
    constructor <;> split_ifs <;> simp
  · constructor <;> simp [b1, b5, b7]
  · simp [b6]

theorem resizeBuffers_ok (env : Env) (W H : Int) (w : World) (hc : Consistent w)
    (hfirst : w.sao.m_rawAOFramebuffer = none →
      (env.ZBITS = 16 ∨ env.ZBITS = 32) ∧ (env.debug = true → 0 < W ∧ 0 < H)) :
    ∃ w', resizeBuffers env W H w = .ok w' ∧
      (∃ rawFb hFb raw hBlurred csz fbs,
        AllocatedAs w' rawFb hFb raw hBlurred csz fbs ∧ SameSize w' raw hBlurred csz ∧
        Bound w' rawFb hFb raw hBlurred csz fbs ∧
        (w'.textures raw).width = W ∧ (w'.textures raw).height = H) ∧
      ResizeFrame w w' ∧ w'.calls = w.calls ++ [.resizeBuffers W H] := by
  rcases hc.buffers with ⟨hnone, hnil⟩ | ⟨rawFb, hFb, raw, hBlurred, csz, fbs, hA, hS, hB⟩
  · obtain ⟨hz, hd⟩ := hfirst hnone
    obtain ⟨w', hw', a1, a2, a3, a4, a5, a6, a7⟩ := resizeBuffers_first env W H w hnone hnil hz hd
    exact ⟨w', hw', ⟨_, _, _, _, _, _, a1,
      ⟨by rw [a4.1, a3.1], by rw [a4.2, a3.2], by rw [a5.1, a3.1], by rw [a5.2, a3.2]⟩,
      a2, a3.1, a3.2⟩, a6, a7⟩
  · by_cases hne : (w.textures raw).width ≠ W ∨ (w.textures raw).height ≠ H
    · obtain ⟨w', hw', a1, a2, a3, a4, a5, a6, a7⟩ :=
        resizeBuffers_resize env W H w rawFb hFb raw hBlurred csz fbs hA hne
      exact ⟨w', hw', ⟨_, _, _, _, _, _, a1,
        ⟨by rw [a4.1, a3.1], by rw [a4.2, a3.2], by rw [a5.1, a3.1], by rw [a5.2, a3.2]⟩,
        a2, a3.1, a3.2⟩, a6, a7⟩
    · simp only [not_or, not_not] at hne
      refine ⟨_, resizeBuffers_same env W H w rawFb raw hA.rawAOFramebuffer hA.rawAOBuffer
        hne.1 hne.2, ⟨rawFb, hFb, raw, hBlurred, csz, fbs, ?_, ?_, ?_, hne.1, hne.2⟩, ?_, ?_⟩
      · obtain ⟨c1, c2, c3, c4, c5, c6, c7, c8⟩ := hA
        exact ⟨c1, c2, c3, c4, c5, c6, c7, c8⟩
      · obtain ⟨c1, c2, c3, c4⟩ := hS
        exact ⟨c1, c2, c3, c4⟩
      · obtain ⟨c1, c2, c3⟩ := hB
        exact ⟨c1, c2, c3⟩
      · constructor <;> rfl
      · rfl

/-! ## The class invariant along a run -/

theorem allocatedAs_frame {w w' : World} {rawFb hFb raw hBlurred csz : Nat} {fbs : List Nat}
    (h : AllocatedAs w rawFb hFb raw hBlurred csz fbs) (hf : Frame w w') :
    AllocatedAs w' rawFb hFb raw hBlurred csz fbs := by
  obtain ⟨c1, c2, c3, c4, c5, c6, c7, c8⟩ := h
  exact ⟨by rw [hf.rawAOFramebuffer]; exact c1, by rw [hf.hBlurredFramebuffer]; exact c2,
    by rw [hf.rawAOBuffer]; exact c3, by rw [hf.hBlurredBuffer]; exact c4,
    by rw [hf.cszBuffer]; exact c5, by rw [hf.cszFramebuffers]; exact c6, c7, c8⟩

theorem sameSize_frame {w w' : World} {raw hBlurred csz : Nat}
    (h : SameSize w raw hBlurred csz) (hf : Frame w w') : SameSize w' raw hBlurred csz := by
  obtain ⟨c1, c2, c3, c4⟩ := h
  exact ⟨by rw [hf.width, hf.width]; exact c1, by rw [hf.height, hf.height]; exact c2,
    by rw [hf.width, hf.width]; exact c3, by rw [hf.height, hf.height]; exact c4⟩

theorem bound_frame {w w' : World} {rawFb hFb raw hBlurred csz : Nat} {fbs : List Nat}
    (h : Bound w rawFb hFb raw hBlurred csz fbs) (hf : Frame w w') :
    Bound w' rawFb hFb raw hBlurred csz fbs := by
  obtain ⟨c1, c2, c3⟩ := h
  exact ⟨by rw [hf.color0]; exact c1, by rw [hf.color0]; exact c2,
    fun i fb hi => by rw [hf.color0]; exact c3 i fb hi⟩

theorem enter_frame (w : World) (c : Call) : Frame w (w.enter c) := by
  constructor <;> intros <;> rfl

theorem consistent_new (w : World) (h : w.sao = Members.new) : Consistent w := by
  constructor
  · left; rw [h]; rfl
  · left; rw [h]; exact ⟨rfl, rfl⟩

theorem tail_ok (env : Env) (d : Option Nat) (c : Vector3) (p : Vector4) (ps : ℚ)
    (csz : Option Nat) (g : Int) (w : World) (hs : ShadersLoaded w.sao)
    (hfb : w.sao.m_rawAOFramebuffer.isSome = true) (hps : env.debug = true → ps > 0) :
    ∃ w', ((computeRawAO env d c p ps csz g w).andThen fun w =>
        (blurHorizontal env d g w).andThen fun w => blurVertical env d g w) = .ok w' ∧
      ShadersLoaded w'.sao ∧ Frame w w' ∧
      w'.calls = w.calls ++
        [.computeRawAO d c p ps csz g, .blurHorizontal d g, .blurVertical d g] ∧
      (estimationDraws w'.commands).map (fun sh => sh.args "projScale") =
        (estimationDraws w.commands).map (fun sh => sh.args "projScale") ++
          [some (.float ps)] := by
  obtain ⟨w1, h1, s1, f1, c1, e1⟩ := computeRawAO_ok env d c p ps csz g w hs hfb hps
  obtain ⟨w2, h2, s2, f2, c2, e2⟩ := blurHorizontal_ok env d g w1 s1
  obtain ⟨w3, h3, s3, f3, c3, e3⟩ := blurVertical_ok env d g w2 s2
  refine ⟨w3, by simp [h1, h2, h3, Outcome.andThen], s3, frame_trans (frame_trans f1 f2) f3, ?_, ?_⟩
  · rw [c3, c2, c1]; simp
  · rw [e3, e2, e1]

theorem tail_abort (env : Env) (d : Option Nat) (c : Vector3) (p : Vector4) (ps : ℚ)
    (csz : Option Nat) (g : Int) (w : World) (hd : env.debug = true) (hps : ¬ ps > 0) :
    ((computeRawAO env d c p ps csz g w).andThen fun w =>
        (blurHorizontal env d g w).andThen fun w => blurVertical env d g w) =
      .abort (.debugAssert "projScale > 0") (w.enter (.computeRawAO d c p ps csz g)) := by
  simp [computeRawAO_abort env d c p ps csz g w hd hps, Outcome.andThen]

/-- The state of `compute` after the optional `reloadShaders`. -/
theorem compute_shaders (e : Call) (w : World) (hc : Consistent w) :
    ∃ w1, (if (w.enter e).sao.m_blurShader.isNone then reloadShaders (w.enter e)
        else w.enter e) = w1 ∧
      ShadersLoaded w1.sao ∧ Frame w w1 ∧ w1.textures = w.textures ∧
      w1.commands = w.commands ∧
      w1.calls = w.calls ++ [e] ++
        (if w.sao.m_blurShader.isNone then [.reloadShaders] else []) := by
  by_cases hb : w.sao.m_blurShader.isNone = true
  · refine ⟨_, rfl, ?_, ?_, ?_, ?_, ?_⟩
    · simp only [enter_sao, hb, if_true]; exact reloadShaders_loaded _
    · simp only [enter_sao, hb, if_true]
      exact frame_trans (enter_frame _ _) (reloadShaders_frame _)
    · simp [hb, reloadShaders]
    · simp [hb, reloadShaders]
    · simp [hb, reloadShaders]
  · refine ⟨_, rfl, ?_, ?_, ?_, ?_, ?_⟩
    · simp only [enter_sao, hb]
      rcases hc.shaders with h | h
      · simp [h] at hb
      · simpa using h
    · simp only [enter_sao, hb]; exact enter_frame _ _
    · simp [hb]
    · simp [hb]
    · simp [hb]

/-- The calls logged by `compute` before the estimation pass. -/
theorem compute_to_rawAO (env : Env) (d : Nat) (c : Vector3) (p : Vector4) (ps : ℚ)
    (g : Int) (w : World) (hc : Consistent w)
    (hfirst : w.sao.m_rawAOFramebuffer = none →
      (env.ZBITS = 16 ∨ env.ZBITS = 32) ∧
        (env.debug = true → 0 < (w.textures d).width ∧ 0 < (w.textures d).height)) :
    ∃ w3, compute env (some d) c p ps g w =
        ((computeRawAO env (some d) c p ps w3.sao.m_cszBuffer g w3).andThen fun w =>
          (blurHorizontal env (some d) g w).andThen fun w => blurVertical env (some d) g w) ∧
      ShadersLoaded w3.sao ∧
      (∃ rawFb hFb raw hBlurred csz fbs,
        AllocatedAs w3 rawFb hFb raw hBlurred csz fbs ∧ SameSize w3 raw hBlurred csz ∧
        Bound w3 rawFb hFb raw hBlurred csz fbs ∧
        (w3.textures raw).width = (w.textures d).width ∧
        (w3.textures raw).height = (w.textures d).height) ∧
      w3.calls = w.calls ++ [.compute (some d) c p ps g] ++
        (if w.sao.m_blurShader.isNone then [.reloadShaders] else []) ++
        [.resizeBuffers (w.textures d).width (w.textures d).height, .computeCSZ (some d) c] ∧
      estimationDraws w3.commands = estimationDraws w.commands ∧
      w3.sao.m_settings = w.sao.m_settings := by
  obtain ⟨w1, hw1, hs1, hf1, ht1, hcmd1, hcalls1⟩ :=
    compute_shaders (Call.compute (some d) c p ps g) w hc
  have hc1 : Consistent w1 := by
    refine ⟨Or.inr hs1, ?_⟩
    rcases hc.buffers with ⟨a, b⟩ | ⟨rawFb, hFb, raw, hBlurred, csz, fbs, hA, hS, hB⟩
    · left; exact ⟨by rw [hf1.rawAOFramebuffer]; exact a, by rw [hf1.cszFramebuffers]; exact b⟩
    · right; exact ⟨_, _, _, _, _, _, allocatedAs_frame hA hf1, sameSize_frame hS hf1, bound_frame hB hf1⟩
  obtain ⟨w2, hw2, ⟨rawFb, hFb, raw, hBlurred, csz, fbs, hA, hS, hB, hW, hH⟩, hrf, hcalls2⟩ :=
    resizeBuffers_ok env (w.textures d).width (w.textures d).height w1 hc1
      (fun h => hfirst (by rw [← hf1.rawAOFramebuffer]; exact h))
  have hs2 : ShadersLoaded w2.sao := by
    obtain ⟨a, b, c', d'⟩ := hs1
    exact ⟨by rw [hrf.rawAOShader]; exact a, by rw [hrf.blurShader]; exact b,
      by rw [hrf.reconstructCSZShader]; exact c', by rw [hrf.cszMinifyShader]; exact d'⟩
  obtain ⟨w3, hw3, hs3, hf3, hcalls3, he3⟩ := computeCSZ_ok env (some d) c w2 hs2
    (by rw [hA.cszFramebuffers]; exact hA.length)
  refine ⟨w3, ?_, hs3, ⟨rawFb, hFb, raw, hBlurred, csz, fbs, allocatedAs_frame hA hf3, sameSize_frame hS hf3,
    bound_frame hB hf3, by rw [hf3.width]; exact hW, by rw [hf3.height]; exact hH⟩, ?_, ?_, ?_⟩
  · simp only [compute]
    rw [hw1, ht1, hw2]
    simp only [Outcome.andThen, hw3]
  · rw [hcalls3, hcalls2, hcalls1]; simp
  · rw [he3, hrf.commands, hcmd1]
  · rw [hf3.settings, hrf.settings, hf1.settings]

theorem compute_abort_first (env : Env) (d : Nat) (c : Vector3) (p : Vector4) (ps : ℚ)
    (g : Int) (w : World) (hc : Consistent w) (hnone : w.sao.m_rawAOFramebuffer = none)
    (hbad : ¬ ((env.ZBITS = 16 ∨ env.ZBITS = 32) ∧
      (env.debug = true → 0 < (w.textures d).width ∧ 0 < (w.textures d).height))) :
    ∃ f w'', compute env (some d) c p ps g w = .abort f w'' := by
  obtain ⟨w1, hw1, hs1, hf1, ht1, hcmd1, hcalls1⟩ :=
    compute_shaders (Call.compute (some d) c p ps g) w hc
  obtain ⟨f, w'', h⟩ := resizeBuffers_first_abort env (w.textures d).width (w.textures d).height
    w1 (by rw [hf1.rawAOFramebuffer]; exact hnone) hbad
  refine ⟨f, w'', ?_⟩
  simp only [compute]
  rw [hw1, ht1, h]
  rfl

theorem compute_ok (env : Env) (d : Nat) (c : Vector3) (p : Vector4) (ps : ℚ)
    (g : Int) (w : World) (hc : Consistent w)
    (hfirst : w.sao.m_rawAOFramebuffer = none →
      (env.ZBITS = 16 ∨ env.ZBITS = 32) ∧
        (env.debug = true → 0 < (w.textures d).width ∧ 0 < (w.textures d).height))
    (hps : env.debug = true → ps > 0) :
    ∃ w', compute env (some d) c p ps g w = .ok w' ∧ Consistent w' ∧
      w'.sao.m_rawAOFramebuffer.isSome = true ∧
      w'.calls = w.calls ++ [.compute (some d) c p ps g] ++
        (if w.sao.m_blurShader.isNone then [.reloadShaders] else []) ++
        [.resizeBuffers (w.textures d).width (w.textures d).height, .computeCSZ (some d) c,
          .computeRawAO (some d) c p ps w'.sao.m_cszBuffer g, .blurHorizontal (some d) g,
          .blurVertical (some d) g] ∧
      (estimationDraws w'.commands).map (fun sh => sh.args "projScale") =
        (estimationDraws w.commands).map (fun sh => sh.args "projScale") ++
          [some (.float ps)] := by
  obtain ⟨w3, h3, hs3, ⟨rawFb, hFb, raw, hBlurred, csz, fbs, hA, hS, hB, -, -⟩, hcalls3, he3, -⟩ :=
    compute_to_rawAO env d c p ps g w hc hfirst
  obtain ⟨w', hw', hs', hf', hcalls', he'⟩ := tail_ok env (some d) c p ps w3.sao.m_cszBuffer g w3
    hs3 (by rw [hA.rawAOFramebuffer]; rfl) hps
  refine ⟨w', by rw [h3, hw'], ⟨Or.inr hs', Or.inr ⟨_, _, _, _, _, _, allocatedAs_frame hA hf', sameSize_frame hS hf',
    bound_frame hB hf'⟩⟩, ?_, ?_, ?_⟩
  · rw [hf'.rawAOFramebuffer, hA.rawAOFramebuffer]; rfl
  · rw [hcalls', hcalls3, hf'.cszBuffer]; simp
  · rw [he', he3]

theorem compute_consistent (env : Env) (depth : Option Nat) (c : Vector3) (p : Vector4)
    (ps : ℚ) (g : Int) (w w' : World) (hc : Consistent w)
    (h : compute env depth c p ps g w = .ok w') :
    Consistent w' ∧ w'.sao.m_rawAOFramebuffer.isSome = true := by
  cases depth with
  | none => simp [compute] at h
  | some d =>
    by_cases hfirst : w.sao.m_rawAOFramebuffer = none →
        (env.ZBITS = 16 ∨ env.ZBITS = 32) ∧
          (env.debug = true → 0 < (w.textures d).width ∧ 0 < (w.textures d).height)
    · by_cases hps : env.debug = true → ps > 0
      · obtain ⟨w'', h1, h2, h3, -⟩ := compute_ok env d c p ps g w hc hfirst hps
        rw [h1] at h
        cases h
        exact ⟨h2, h3⟩
      · obtain ⟨w3, h3, -⟩ := compute_to_rawAO env d c p ps g w hc hfirst
        have hd : env.debug = true := by
          by_contra hn; exact hps (fun h => absurd h hn)
        have hn : ¬ ps > 0 := fun hp => hps (fun _ => hp)
        rw [h3, tail_abort env (some d) c p ps _ g w3 hd hn] at h
        cases h
    · have hnone : w.sao.m_rawAOFramebuffer = none := by
        by_contra hn; exact hfirst (fun h => absurd h hn)
      have hbad : ¬ ((env.ZBITS = 16 ∨ env.ZBITS = 32) ∧
          (env.debug = true → 0 < (w.textures d).width ∧ 0 < (w.textures d).height)) :=
        fun hb => hfirst (fun _ => hb)
      obtain ⟨f, w'', h1⟩ := compute_abort_first env d c p ps g w hc hnone hbad
      rw [h1] at h
      cases h

theorem resizeBuffers_consistent (env : Env) (W H : Int) (w w' : World) (hc : Consistent w)
    (h : resizeBuffers env W H w = .ok w') :
    Consistent w' ∧ w'.sao.m_rawAOFramebuffer.isSome = true := by
  by_cases hfirst : w.sao.m_rawAOFramebuffer = none →
      (env.ZBITS = 16 ∨ env.ZBITS = 32) ∧ (env.debug = true → 0 < W ∧ 0 < H)
  · obtain ⟨w'', h1, ⟨rawFb, hFb, raw, hBlurred, csz, fbs, hA, hS, hB, -, -⟩, hrf, -⟩ :=
      resizeBuffers_ok env W H w hc hfirst
    rw [h1] at h
    cases h
    refine ⟨⟨?_, Or.inr ⟨_, _, _, _, _, _, hA, hS, hB⟩⟩, by rw [hA.rawAOFramebuffer]; rfl⟩
    rcases hc.shaders with hn | ⟨a, b, c', d'⟩
    · left; rw [hrf.blurShader]; exact hn
    · right
      exact ⟨by rw [hrf.rawAOShader]; exact a, by rw [hrf.blurShader]; exact b,
        by rw [hrf.reconstructCSZShader]; exact c', by rw [hrf.cszMinifyShader]; exact d'⟩
  · have hnone : w.sao.m_rawAOFramebuffer = none := by
      by_contra hn; exact hfirst (fun h => absurd h hn)
    obtain ⟨f, w'', h1⟩ := resizeBuffers_first_abort env W H w hnone (fun hb => hfirst (fun _ => hb))
    rw [h1] at h
    cases h

theorem run_consistent (env : Env) (op : Op) (w w' : World) (hc : Consistent w)
    (h : op.run env w = .ok w') :
    Consistent w' ∧ w'.sao.m_rawAOFramebuffer.isSome = true := by
  cases op with
  | resizeBuffers W H => exact resizeBuffers_consistent env W H w w' hc h
  | compute depth c p ps g => exact compute_consistent env depth c p ps g w w' hc h
  | computeCamera depth camera g =>
    cases depth with
    | none => simp [Op.run, computeCamera] at h
    | some d => exact compute_consistent env (some d) _ _ _ g w w' hc h

theorem reaches_consistent (env : Env) (w0 w : World) (h0 : Consistent w0)
    (h : Reaches env w0 w) : Consistent w := by
  induction h with
  | refl => exact h0
  | step op _ hrun ih => exact (run_consistent env op _ _ (ih h0) hrun).1

/-! ## The call log only grows -/

theorem andThen_calls (w : World) (o : Outcome) (k : World → Outcome)
    (h1 : w.calls <+: o.world.calls) (h2 : ∀ w1, w1.calls <+: (k w1).world.calls) :
    w.calls <+: (o.andThen k).world.calls := by
  cases o with
  | ok w1 => exact h1.trans (h2 w1)
  | abort f w1 => exact h1

theorem forLoop_calls (body : Nat → World → Outcome)
    (hb : ∀ i w, w.calls <+: (body i w).world.calls) :
    ∀ (n lo : Nat) (w : World), w.calls <+: (forLoop body lo n w).world.calls := by
  intro n
  induction n with
  | zero => intro lo w; exact List.prefix_refl _
  | succ n ih =>
    intro lo w
    exact andThen_calls w _ _ (hb lo w) (fun w1 => ih (lo + 1) w1)

theorem rebindBuffers_calls (w : World) : w.calls <+: (rebindBuffers w).world.calls := by
  unfold rebindBuffers
  split
  · exact List.prefix_refl _
  · simp only
    split
    · exact List.prefix_refl _
    · refine List.IsPrefix.trans ?_ (forLoop_calls _ ?_ _ _ _)
      · exact List.prefix_refl _
      · intro i w1
        unfold rebindCszFramebuffer
        split <;> exact List.prefix_refl _

theorem resizeBuffers_calls (env : Env) (W H : Int) (w : World) :
    w.calls ++ [.resizeBuffers W H] <+: (resizeBuffers env W H w).world.calls := by
  unfold resizeBuffers
  simp only
  split
  · split
    · exact List.prefix_refl _
    · split
      · exact List.prefix_refl _
      · refine List.IsPrefix.trans ?_ (andThen_calls _ _ _ (forLoop_calls _ ?_ _ _ _)
          rebindBuffers_calls)
        · exact List.prefix_refl _
        · intro i w1; exact List.prefix_refl _
  · split
    · exact List.prefix_refl _
    · split
      · split
        · exact List.prefix_refl _
        · split
          · exact List.prefix_refl _
          · refine List.IsPrefix.trans ?_ (rebindBuffers_calls _)
            exact List.prefix_refl _
      · exact List.prefix_refl _

theorem minifyLevel_calls (env : Env) (i : Nat) (w : World) :
    w.calls <+: (minifyLevel env i w).world.calls := by
  unfold minifyLevel
  split
  · exact List.prefix_refl _
  · simp only
    split
    · exact List.prefix_refl _
    · simp [Outcome.world, World.push2D]

theorem computeCSZ_calls (env : Env) (d : Option Nat) (c : Vector3) (w : World) :
    w.calls <+: (computeCSZ env d c w).world.calls := by
  unfold computeCSZ
  simp only
  split
  · simp [Outcome.world]
  · split
    · simp [Outcome.world, World.push2D]
    · refine List.IsPrefix.trans ?_ (forLoop_calls _ (minifyLevel_calls env) _ _ _)
      simp [World.push2D]

theorem computeRawAO_calls (env : Env) (d : Option Nat) (c : Vector3) (p : Vector4) (ps : ℚ)
    (csz : Option Nat) (g : Int) (w : World) :
    w.calls <+: (computeRawAO env d c p ps csz g w).world.calls := by
  unfold computeRawAO
  simp only
  split
  · simp [Outcome.world]
  · split
    · simp [Outcome.world]
    · split <;> simp [Outcome.world, World.push2D]

theorem blurHorizontal_calls (env : Env) (d : Option Nat) (g : Int) (w : World) :
    w.calls <+: (blurHorizontal env d g w).world.calls := by
  unfold blurHorizontal
  simp only
  split <;> simp [Outcome.world, World.push2D]

theorem blurVertical_calls (env : Env) (d : Option Nat) (g : Int) (w : World) :
    w.calls <+: (blurVertical env d g w).world.calls := by
  unfold blurVertical
  simp only
  split <;> simp [Outcome.world, World.push2DCurrent]

/-- The first entry `compute` logs is its own, with the arguments it was given. -/
theorem compute_calls (env : Env) (d : Option Nat) (c : Vector3) (p : Vector4) (ps : ℚ)
    (g : Int) (w : World) :
    w.calls ++ [.compute d c p ps g] <+: (compute env d c p ps g w).world.calls := by
  cases d with
  | none => exact List.prefix_refl _
  | some d =>
    unfold compute
    simp only
    have h0 : w.calls ++ [Call.compute (some d) c p ps g] <+:
        (if (w.enter (.compute (some d) c p ps g)).sao.m_blurShader.isNone = true
          then reloadShaders (w.enter (.compute (some d) c p ps g))
          else w.enter (.compute (some d) c p ps g)).calls := by
      split
      · simp [reloadShaders]
      · exact List.prefix_refl _
    refine h0.trans (andThen_calls _ _ _ ?_ ?_)
    · exact (List.prefix_append _ _).trans (resizeBuffers_calls env _ _ _)
    · intro w1
      refine andThen_calls _ _ _ (computeCSZ_calls env _ c w1) ?_
      intro w2
      refine andThen_calls _ _ _ (computeRawAO_calls env _ c p ps _ g w2) ?_
      intro w3
      exact andThen_calls _ _ _ (blurHorizontal_calls env _ g w3) (blurVertical_calls env _ g)

/-! ## What a completed `resizeBuffers` leaves behind, from any state -/

theorem forLoop_preserves {α : Type} (body : Nat → World → Outcome) (f : World → α)
    (hb : ∀ i w w', body i w = .ok w' → f w' = f w) :
    ∀ (n lo : Nat) (w w' : World), forLoop body lo n w = .ok w' → f w' = f w := by
  intro n
  induction n with
  | zero =>
    intro lo w w' h
    simp only [forLoop, Outcome.ok.injEq] at h
    rw [h]
  | succ n ih =>
    intro lo w w' h
    simp only [forLoop] at h
    cases hbody : body lo w with
    | ok w1 =>
      rw [hbody] at h
      simp only [Outcome.andThen] at h
      rw [ih (lo + 1) w1 w' h, hb lo w w1 hbody]
    | abort f1 w1 =>
      rw [hbody] at h
      simp [Outcome.andThen] at h

theorem rebindBuffers_preserves (w w' : World) (h : rebindBuffers w = .ok w') :
    w'.sao = w.sao ∧ w'.textures = w.textures := by
  unfold rebindBuffers at h
  split at h
  · cases h
  · simp only at h
    split at h
    · cases h
    · have := forLoop_preserves rebindCszFramebuffer (fun w => (w.sao, w.textures))
        (by
          intro i w1 w2 h1
          unfold rebindCszFramebuffer at h1
          split at h1
          · cases h1
          · cases h1; rfl) _ _ _ _ h
      simpa using this

theorem append_rebind_post (X w1 : World)
    (h : (forLoop appendCszFramebuffer 0 (MAX_MIP_LEVEL + 1) X).andThen rebindBuffers = .ok w1) :
    w1.sao.m_rawAOFramebuffer = X.sao.m_rawAOFramebuffer ∧
      w1.sao.m_rawAOBuffer = X.sao.m_rawAOBuffer ∧ w1.textures = X.textures := by
  obtain ⟨w2, hw2, a1, -, a3, -⟩ := appendLoop_ok X
  rw [hw2] at h
  simp only [Outcome.andThen] at h
  obtain ⟨b1, b2⟩ := rebindBuffers_preserves _ _ h
  exact ⟨by rw [b1, a1], by rw [b1, a1], by rw [b2, a3]⟩

theorem resizeBuffers_post (env : Env) (W H : Int) (w w1 : World)
    (h : resizeBuffers env W H w = .ok w1) :
    ∃ rawFb raw, w1.sao.m_rawAOFramebuffer = some rawFb ∧ w1.sao.m_rawAOBuffer = some raw ∧
      (w1.textures raw).width = W ∧ (w1.textures raw).height = H := by
  unfold resizeBuffers at h
  simp only at h
  split at h
  · split at h
    · cases h
    · split at h
      · cases h
      · obtain ⟨b1, b2, b3⟩ := append_rebind_post _ _ h
        have e1 : w.nextTexture ≠ w.nextTexture + 1 + 1 := by omega
        have e2 : w.nextTexture ≠ w.nextTexture + 1 := by omega
        refine ⟨w.nextFramebuffer, w.nextTexture, ?_, ?_, ?_, ?_⟩
        · rw [b1]; simp
        · rw [b2]; simp
        · rw [b3]; simp [Function.update_noteq e1, Function.update_noteq e2]
        · rw [b3]; simp [Function.update_noteq e1, Function.update_noteq e2]
  · rename_i rawFb hraw
    split at h
    · cases h
    · rename_i raw hrawB
      split at h
      · split at h
        · cases h
        · split at h
          · cases h
          · obtain ⟨b1, b2⟩ := rebindBuffers_preserves _ _ h
            refine ⟨rawFb, raw, ?_, ?_, ?_, ?_⟩
            · rw [b1]; simpa using hraw
            · rw [b1]; simpa using hrawB
            · rw [b2]
              simp only [resizeTexture_textures, update_resize_width]
              split_ifs <;> simp
            · rw [b2]
              simp only [resizeTexture_textures, update_resize_height]
              split_ifs <;> simp
      · rename_i hsame
        cases h
        simp only [not_or, not_not] at hsame
        exact ⟨rawFb, raw, by simpa using hraw, by simpa using hrawB,
          by simpa using hsame.1, by simpa using hsame.2⟩

/-! ## Pixels written by a pass -/

theorem writeColor_textures_of_bound (w : World) (f : Nat) (a : Attachment)
    (covers : Int → Int → Bool) (value : Int → Int → Color3)
    (hfb : w.rd.state.framebuffer = some f) (hc : (w.framebuffers f).color0 = some a) :
    (w.writeColor covers value).textures =
      Function.update w.textures a.texture
        ((w.textures a.texture).write a.mipLevel covers value) := by
  simp [World.writeColor, hfb, hc]

theorem bounds_contains (W H x y : Int) (hx0 : 0 ≤ x) (hx : x < W) (hy0 : 0 ≤ y) (hy : y < H) :
    (Rect2D.xywh 0 0 W H).contains x y = true := by
  have hW : (0 : Int) ≤ W := by omega
  have hH : (0 : Int) ≤ H := by omega
  simp [Rect2D.xywh, Rect2D.xyxy, Rect2D.contains, min_eq_left hW, min_eq_left hH,
    max_eq_right hW, max_eq_right hH, hx0, hx, hy0, hy]

theorem bounds_width (W H : Int) (hW : 0 ≤ W) : (Rect2D.xywh 0 0 W H).width = W := by
  simp [Rect2D.xywh, Rect2D.xyxy, Rect2D.width, min_eq_left hW, max_eq_right hW]

theorem bounds_height (W H : Int) (hH : 0 ≤ H) : (Rect2D.xywh 0 0 W H).height = H := by
  simp [Rect2D.xywh, Rect2D.xyxy, Rect2D.height, min_eq_left hH, max_eq_right hH]

theorem inBounds_level0 (t : Texture) (x y : Int) (hx0 : 0 ≤ x) (hx : x < t.width)
    (hy0 : 0 ≤ y) (hy : y < t.height) : t.inBounds 0 x y = true := by
  have h1 : x < max 1 t.width := lt_of_lt_of_le hx (le_max_right _ _)
  have h2 : y < max 1 t.height := lt_of_lt_of_le hy (le_max_right _ _)
  simp [Texture.inBounds, Texture.levelWidth, Texture.levelHeight, hx0, hy0, h1, h2]

/-- A colour-only clear stores the clear colour at every existing pixel of the
colour target that lies in the scissor rectangle. -/
theorem clear_texel (w : World) (f t l : Nat) (x y : Int)
    (hfb : w.rd.state.framebuffer = some f) (hc : (w.framebuffers f).color0 = some ⟨t, l⟩)
    (hin : w.rd.state.clip2D.contains x y = true) (hb : (w.textures t).inBounds l x y = true) :
    ((w.clear true false false).textures t).texel l x y = w.rd.state.colorClearValue := by
  simp [World.clear, writeColor_textures_of_bound w f ⟨t, l⟩ _ _ hfb hc, Texture.write, hin, hb]

/-- A draw with depth writing off leaves every pixel outside the scissor
rectangle as it was. -/
theorem applyRect_texel_outside (env : Env) (w : World) (sh : Shader) (z : ℚ) (f t l : Nat)
    (x y : Int) (hfb : w.rd.state.framebuffer = some f)
    (hc : (w.framebuffers f).color0 = some ⟨t, l⟩) (hdw : w.rd.state.depthWrite = false)
    (hout : w.rd.state.clip2D.contains x y = false) :
    ((w.applyRect env sh z).textures t).texel l x y = (w.textures t).texel l x y := by
  simp [World.applyRect, hdw, writeColor_textures_of_bound w f ⟨t, l⟩ _ _ hfb hc, Texture.write,
    hout]

theorem computeRawAO_guard (env : Env) (d : Option Nat) (c : Vector3) (p : Vector4) (ps : ℚ)
    (csz : Option Nat) (g : Int) (w : World) (rawFb raw : Nat) (x y : Int)
    (hs : w.sao.m_rawAOShader.isSome = true)
    (hfb : w.sao.m_rawAOFramebuffer = some rawFb)
    (hcol : (w.framebuffers rawFb).color0 = some ⟨raw, 0⟩)
    (hps : env.debug = true → ps > 0)
    (hx0 : 0 ≤ x) (hx : x < (w.textures raw).width)
    (hy0 : 0 ≤ y) (hy : y < (w.textures raw).height)
    (hout : (Rect2D.xyxy g g ((w.textures raw).width - g)
      ((w.textures raw).height - g)).contains x y = false) :
    ∃ w', computeRawAO env d c p ps csz g w = .ok w' ∧
      (w'.textures raw).texel 0 x y = Color3.white := by
  obtain ⟨sh, hsh⟩ := Option.isSome_iff_exists.mp hs
  have hcond : ¬ (env.debug = true ∧ ¬ ps > 0) := fun h => h.2 (hps h.1)
  have hW : 0 ≤ (w.textures raw).width := by omega
  have hH : 0 ≤ (w.textures raw).height := by omega
  simp only [computeRawAO, hcond, if_false, enter_sao, hfb, World.push2D, setSao_sao, clear_sao,
    push2DWith_sao, framebufferSet_sao, setDepthTest_sao, setColorClearValue_sao, hsh]
  refine ⟨_, rfl, ?_⟩
  have hcol' : ∀ W : World, W.framebuffers = (w.framebufferSet rawFb .DEPTH d 0).framebuffers →
      (W.framebuffers rawFb).color0 = some ⟨raw, 0⟩ := by
    intro W hWf
    rw [hWf]
    simp [Framebuffer.set, hcol]
  have hbounds : ((w.enter (Call.computeRawAO d c p ps csz g)).framebufferSet rawFb
      .DEPTH d 0).rect2DBounds rawFb =
      Rect2D.xywh 0 0 (w.textures raw).width (w.textures raw).height := by
    simp [World.rect2DBounds, Framebuffer.set, hcol]
  rw [pop2D_textures, applyRect_texel_outside env _ _ _ rawFb raw 0 x y]
  · simp only [setClip2D_textures, setSao_textures]
    rw [clear_texel _ rawFb raw 0 x y]
    · simp
    · simp [World.push2DWith]
    · exact hcol' _ (by simp)
    · simp [World.push2DWith, hbounds, bounds_contains _ _ x y hx0 hx hy0 hy]
    · simpa using inBounds_level0 _ x y hx0 hx hy0 hy
  · simp [World.push2DWith]
  · exact hcol' _ (by simp)
  · simp [World.push2DWith]
  · simp [World.push2DWith, guardBandClip, hbounds, bounds_width _ _ hW, bounds_height _ _ hH,
      hout]

theorem blurHorizontal_guard (env : Env) (d : Option Nat) (g : Int) (w : World)
    (hFb hBlurred : Nat) (x y : Int)
    (hs : w.sao.m_blurShader.isSome = true)
    (hfb : w.sao.m_hBlurredFramebuffer = some hFb)
    (hcol : (w.framebuffers hFb).color0 = some ⟨hBlurred, 0⟩)
    (hx0 : 0 ≤ x) (hx : x < (w.textures hBlurred).width)
    (hy0 : 0 ≤ y) (hy : y < (w.textures hBlurred).height)
    (hout : (Rect2D.xyxy g g ((w.textures hBlurred).width - g)
      ((w.textures hBlurred).height - g)).contains x y = false) :
    ∃ w', blurHorizontal env d g w = .ok w' ∧
      (w'.textures hBlurred).texel 0 x y = Color3.white := by
  obtain ⟨sh, hsh⟩ := Option.isSome_iff_exists.mp hs
  have hW : 0 ≤ (w.textures hBlurred).width := by omega
  have hH : 0 ≤ (w.textures hBlurred).height := by omega
  simp only [blurHorizontal, enter_sao, hfb, World.push2D, setSao_sao, clear_sao,
    push2DWith_sao, setColorClearValue_sao, hsh]
  refine ⟨_, rfl, ?_⟩
  have hbounds : (w.enter (Call.blurHorizontal d g)).rect2DBounds hFb =
      Rect2D.xywh 0 0 (w.textures hBlurred).width (w.textures hBlurred).height := by
    simp [World.rect2DBounds, hcol]
  rw [pop2D_textures, applyRect_texel_outside env _ _ _ hFb hBlurred 0 x y]
  · simp only [setClip2D_textures, setSao_textures]
    rw [clear_texel _ hFb hBlurred 0 x y]
    · simp
    · simp [World.push2DWith]
    · simpa using hcol
    · simp [World.push2DWith, hbounds, bounds_contains _ _ x y hx0 hx hy0 hy]
    · simpa using inBounds_level0 _ x y hx0 hx hy0 hy
  · simp [World.push2DWith]
  · simpa using hcol
  · simp [World.push2DWith]
  · simp [World.push2DWith, guardBandClip, hbounds, bounds_width _ _ hW, bounds_height _ _ hH,
      hout]

theorem blurVertical_guard (env : Env) (d : Option Nat) (g : Int) (w : World)
    (f t : Nat) (x y : Int)
    (hs : w.sao.m_blurShader.isSome = true)
    (hfb : w.rd.state.framebuffer = some f)
    (hcol : (w.framebuffers f).color0 = some ⟨t, 0⟩)
    (hview : w.rd.state.viewport = Rect2D.xywh 0 0 (w.textures t).width (w.textures t).height)
    (hx0 : 0 ≤ x) (hx : x < (w.textures t).width)
    (hy0 : 0 ≤ y) (hy : y < (w.textures t).height)
    (hout : (Rect2D.xyxy g g ((w.textures t).width - g)
      ((w.textures t).height - g)).contains x y = false) :
    ∃ w', blurVertical env d g w = .ok w' ∧
      (w'.textures t).texel 0 x y = Color3.white := by
  obtain ⟨sh, hsh⟩ := Option.isSome_iff_exists.mp hs
  have hW : 0 ≤ (w.textures t).width := by omega
  have hH : 0 ≤ (w.textures t).height := by omega
  simp only [blurVertical, enter_sao, World.push2DCurrent, setSao_sao, clear_sao,
    push2DWith_sao, setColorClearValue_sao, hsh]
  refine ⟨_, rfl, ?_⟩
  have hbounds : (w.enter (Call.blurVertical d g)).rect2DBounds f =
      Rect2D.xywh 0 0 (w.textures t).width (w.textures t).height := by
    simp [World.rect2DBounds, hcol]
  rw [pop2D_textures, applyRect_texel_outside env _ _ _ f t 0 x y]
  · simp only [setClip2D_textures, setSao_textures]
    rw [clear_texel _ f t 0 x y]
    · simp
    · simp [World.push2DWith, hfb]
    · simpa using hcol
    · simp [World.push2DWith, hfb, hbounds, bounds_contains _ _ x y hx0 hx hy0 hy]
    · simpa using inBounds_level0 _ x y hx0 hx hy0 hy
  · simp [World.push2DWith, hfb]
  · simpa using hcol
  · simp [World.push2DWith, hfb]
  · simp [World.push2DWith, hfb, guardBandClip, hview, bounds_width _ _ hW,
      bounds_height _ _ hH, hout]

theorem guardClip_contains (g W H x y : Int) (hW : 2 * g ≤ W) (hH : 2 * g ≤ H) :
    (Rect2D.xyxy g g (W - g) (H - g)).contains x y = true ↔
      (g ≤ x ∧ x < W - g) ∧ (g ≤ y ∧ y < H - g) := by
  have h1 : g ≤ W - g := by omega
  have h2 : g ≤ H - g := by omega
  simp [Rect2D.xyxy, Rect2D.contains, min_eq_left h1, min_eq_left h2, max_eq_right h1,
    max_eq_right h2, and_assoc]

/-! ## The claims -/

/-- C1: for every near/far pair the camera-based `compute` enters the lower-level
`compute` with `clipConstant = (near, -1, 1)` when the far plane is `-inf()` and
with `(near*far, near-far, far)` otherwise: it is that call, and the logged
entry of the lower-level overload carries exactly that vector. -/
theorem C1_camera_clipConstant (env : Env) (depth : Nat) (g : Int) (w : World)
    (near : ℚ) (P : Rect2D → Matrix4) (ppm : Rect2D → ℚ) :
    (∃ proj ps,
      computeCamera env (some depth) ⟨near, .negInf, P, ppm⟩ g w =
        compute env (some depth) ⟨near, -1, 1⟩ proj ps g w ∧
      ∃ rest, (computeCamera env (some depth) ⟨near, .negInf, P, ppm⟩ g w).world.calls =
        w.calls ++ Call.compute (some depth) ⟨near, -1, 1⟩ proj ps g :: rest) ∧
    (∀ far : ℚ, ∃ proj ps,
      computeCamera env (some depth) ⟨near, .finite far, P, ppm⟩ g w =
        compute env (some depth) ⟨near * far, near - far, far⟩ proj ps g w ∧
      ∃ rest, (computeCamera env (some depth) ⟨near, .finite far, P, ppm⟩ g w).world.calls =
        w.calls ++ Call.compute (some depth) ⟨near * far, near - far, far⟩ proj ps g :: rest) := by
  constructor
  · refine ⟨_, _, rfl, ?_⟩
    obtain ⟨rest, hr⟩ := compute_calls env (some depth) ⟨near, -1, 1⟩ _ _ g w
    exact ⟨rest, by simp only [computeCamera]; rw [← hr]; simp⟩
  · intro far
    refine ⟨_, _, rfl, ?_⟩
    obtain ⟨rest, hr⟩ := compute_calls env (some depth) ⟨near * far, near - far, far⟩ _ _ g w
    exact ⟨rest, by simp only [computeCamera]; rw [← hr]; simp⟩

/-- C2: for a depth buffer of width `W > 0` and height `H > 0` and a unit
projection matrix `P` over the rectangle `(0, 0, W, H)` with `P00 ≠ 0` and
`P11 ≠ 0`, the camera-based `compute` enters the lower-level `compute` with
`projConstant = (-2/(W*P00), -2/(H*P11), (1-P02)/P00, (1+P12)/P11)`; the
quotients are exact: multiplied back by their divisors they give the dividends. -/
theorem C2_camera_projConstant (env : Env) (depth : Nat) (camera : GCamera) (g : Int)
    (w : World) (W H : Int) (P : Matrix4)
    (hWidth : (w.textures depth).width = W) (hHeight : (w.textures depth).height = H)
    (hP : camera.getProjectUnitMatrix (Rect2D.xywh 0 0 W H) = P)
    (hW : 0 < W) (hH : 0 < H) (hP00 : P 0 0 ≠ 0) (hP11 : P 1 1 ≠ 0) :
    ∃ clip proj ps,
      computeCamera env (some depth) camera g w = compute env (some depth) clip proj ps g w ∧
      (∃ rest, (computeCamera env (some depth) camera g w).world.calls =
        w.calls ++ Call.compute (some depth) clip proj ps g :: rest) ∧
      proj = ⟨-2 / ((W : ℚ) * P 0 0), -2 / ((H : ℚ) * P 1 1), (1 - P 0 2) / P 0 0,
        (1 + P 1 2) / P 1 1⟩ ∧
      proj.x * ((W : ℚ) * P 0 0) = -2 ∧ proj.y * ((H : ℚ) * P 1 1) = -2 ∧
      proj.z * P 0 0 = 1 - P 0 2 ∧ proj.w * P 1 1 = 1 + P 1 2 := by
  have hWq : (W : ℚ) ≠ 0 := by exact_mod_cast hW.ne'
  have hHq : (H : ℚ) ≠ 0 := by exact_mod_cast hH.ne'
  have hrun : computeCamera env (some depth) camera g w =
      compute env (some depth)
        (match camera.farPlaneZ with
          | .negInf => ⟨camera.nearPlaneZ, -1, 1⟩
          | .finite far => ⟨camera.nearPlaneZ * far, camera.nearPlaneZ - far, far⟩)
        ⟨-2 / ((W : ℚ) * P 0 0), -2 / ((H : ℚ) * P 1 1), (1 - P 0 2) / P 0 0,
          (1 + P 1 2) / P 1 1⟩
        |camera.imagePlanePixelsPerMeter w.rd.state.viewport| g w := by
    simp only [computeCamera, hWidth, hHeight, hP]
  refine ⟨_, _, _, hrun, ?_, rfl, ?_, ?_, ?_, ?_⟩
  · obtain ⟨rest, hr⟩ := compute_calls env (some depth) _ _ _ g w
    refine ⟨rest, ?_⟩
    rw [hrun, ← hr]; simp
  · exact div_mul_cancel₀ _ (mul_ne_zero hWq hP00)
  · exact div_mul_cancel₀ _ (mul_ne_zero hHq hP11)
  · exact div_mul_cancel₀ _ hP00
  · exact div_mul_cancel₀ _ hP11

/-- Witness of C2: the demo camera (identity projection) on the 4x4 demo depth buffer. -/
theorem C2_camera_projConstant_witness :
    ∃ clip proj ps,
      computeCamera demoEnv (some 0) demoCamera 1 demoWorld =
        compute demoEnv (some 0) clip proj ps 1 demoWorld ∧
      (∃ rest, (computeCamera demoEnv (some 0) demoCamera 1 demoWorld).world.calls =
        demoWorld.calls ++ Call.compute (some 0) clip proj ps 1 :: rest) ∧
      proj = ⟨-2 / (((4 : Int) : ℚ) * (1 : ℚ)), -2 / (((4 : Int) : ℚ) * (1 : ℚ)),
        (1 - (0 : ℚ)) / (1 : ℚ), (1 + (0 : ℚ)) / (1 : ℚ)⟩ ∧
      proj.x * (((4 : Int) : ℚ) * (1 : ℚ)) = -2 ∧ proj.y * (((4 : Int) : ℚ) * (1 : ℚ)) = -2 ∧
      proj.z * (1 : ℚ) = 1 - (0 : ℚ) ∧ proj.w * (1 : ℚ) = 1 + (0 : ℚ) :=
  C2_camera_projConstant demoEnv 0 demoCamera 1 demoWorld 4 4
    (fun i j => if i = j then 1 else 0) rfl rfl rfl (by decide) (by decide)
    (by simp) (by simp)

/-- C3: on every depth buffer the camera-based `compute` is one call of the
lower-level `compute` with the same depth buffer and guard band, the derived
`clipConstant` and `projConstant`, and `projScale = |imagePlanePixelsPerMeter(viewport)|`,
which is never negative. -/
theorem C3_camera_delegates (env : Env) (depth : Nat) (camera : GCamera) (g : Int)
    (w : World) :
    ∃ clip proj ps,
      computeCamera env (some depth) camera g w = compute env (some depth) clip proj ps g w ∧
      (∃ rest, (computeCamera env (some depth) camera g w).world.calls =
        w.calls ++ Call.compute (some depth) clip proj ps g :: rest) ∧
      clip = (match camera.farPlaneZ with
        | .negInf => ⟨camera.nearPlaneZ, -1, 1⟩
        | .finite far => ⟨camera.nearPlaneZ * far, camera.nearPlaneZ - far, far⟩) ∧
      proj =
        ⟨-2 / (((w.textures depth).width : ℚ) *
            camera.getProjectUnitMatrix
              (Rect2D.xywh 0 0 (w.textures depth).width (w.textures depth).height) 0 0),
          -2 / (((w.textures depth).height : ℚ) *
            camera.getProjectUnitMatrix
              (Rect2D.xywh 0 0 (w.textures depth).width (w.textures depth).height) 1 1),
          (1 - camera.getProjectUnitMatrix
              (Rect2D.xywh 0 0 (w.textures depth).width (w.textures depth).height) 0 2) /
            camera.getProjectUnitMatrix
              (Rect2D.xywh 0 0 (w.textures depth).width (w.textures depth).height) 0 0,
          (1 + camera.getProjectUnitMatrix
              (Rect2D.xywh 0 0 (w.textures depth).width (w.textures depth).height) 1 2) /
            camera.getProjectUnitMatrix
              (Rect2D.xywh 0 0 (w.textures depth).width (w.textures depth).height) 1 1⟩ ∧
      ps = |camera.imagePlanePixelsPerMeter w.rd.state.viewport| ∧ 0 ≤ ps := by
  refine ⟨_, _, _, rfl, ?_, rfl, rfl, rfl, abs_nonneg _⟩
  obtain ⟨rest, hr⟩ := compute_calls env (some depth) _ _ _ g w
  refine ⟨rest, ?_⟩
  simp only [computeCamera]
  rw [← hr]; simp

/-- C4: from a consistent state, a lower-level `compute` call with a depth buffer
of positive size and `projScale > 0` returns normally and runs, once each and in
this order: `resizeBuffers` with the depth buffer's width and height,
`computeCSZ`, `computeRawAO` (given the pyramid buffer `m_cszBuffer`),
`blurHorizontal`, `blurVertical`; the only other entry is the shader load of the
first call. -/
theorem C4_stage_order (env : Env) (depth : Nat) (c : Vector3) (p : Vector4) (ps : ℚ)
    (g : Int) (w : World) (hc : Consistent w) (hz : env.ZBITS = 16 ∨ env.ZBITS = 32)
    (hW : 0 < (w.textures depth).width) (hH : 0 < (w.textures depth).height)
    (hps : 0 < ps) :
    ∃ w' csz, compute env (some depth) c p ps g w = .ok w' ∧
      w'.sao.m_cszBuffer = some csz ∧
      w'.calls = w.calls ++ [.compute (some depth) c p ps g] ++
        (if w.sao.m_blurShader.isNone then [.reloadShaders] else []) ++
        [.resizeBuffers (w.textures depth).width (w.textures depth).height,
          .computeCSZ (some depth) c,
          .computeRawAO (some depth) c p ps (some csz) g,
          .blurHorizontal (some depth) g,
          .blurVertical (some depth) g] := by
  obtain ⟨w', h1, h2, h3, h4, -⟩ := compute_ok env depth c p ps g w hc
    (fun _ => ⟨hz, fun _ => ⟨hW, hH⟩⟩) (fun _ => hps)
  rcases h2.buffers with ⟨hn, -⟩ | ⟨rawFb, hFb, raw, hBlurred, csz, fbs, hA, -, -⟩
  · rw [hn] at h3; cases h3
  · exact ⟨w', csz, h1, hA.cszBuffer, by rw [h4, hA.cszBuffer]⟩

/-- Witness of C4: the first `compute` of the demo scene. -/
theorem C4_stage_order_witness :
    Consistent demoWorld ∧
    ∃ w' csz, compute demoEnv (some 0) ⟨100, 99, -100⟩ ⟨1, 1, 1, 1⟩ 500 1 demoWorld = .ok w' ∧
      w'.sao.m_cszBuffer = some csz ∧
      w'.calls = demoWorld.calls ++ [.compute (some 0) ⟨100, 99, -100⟩ ⟨1, 1, 1, 1⟩ 500 1] ++
        (if demoWorld.sao.m_blurShader.isNone then [.reloadShaders] else []) ++
        [.resizeBuffers (demoWorld.textures 0).width (demoWorld.textures 0).height,
          .computeCSZ (some 0) ⟨100, 99, -100⟩,
          .computeRawAO (some 0) ⟨100, 99, -100⟩ ⟨1, 1, 1, 1⟩ 500 (some csz) 1,
          .blurHorizontal (some 0) 1,
          .blurVertical (some 0) 1] :=
  ⟨consistent_new demoWorld rfl,
    C4_stage_order demoEnv 0 ⟨100, 99, -100⟩ ⟨1, 1, 1, 1⟩ 500 1 demoWorld
      (consistent_new demoWorld rfl) (Or.inr rfl) (by decide) (by decide) (by norm_num)⟩

/-- C5: `resizeBuffers` is idempotent: after a call that returned, a second call
with the same width and height returns the same state (only the ghost call log
has the new entry): nothing is allocated, resized or rebound. -/
theorem C5_resizeBuffers_idempotent (env : Env) (W H : Int) (w w1 : World)
    (h : resizeBuffers env W H w = .ok w1) :
    ∃ w2, resizeBuffers env W H w1 = .ok w2 ∧
      w2 = w1.enter (.resizeBuffers W H) ∧
      w2.textures = w1.textures ∧ w2.nextTexture = w1.nextTexture ∧
      w2.framebuffers = w1.framebuffers ∧ w2.nextFramebuffer = w1.nextFramebuffer ∧
      w2.sao = w1.sao ∧ w2.rd = w1.rd ∧ w2.commands = w1.commands := by
  obtain ⟨rawFb, raw, h1, h2, h3, h4⟩ := resizeBuffers_post env W H w w1 h
  exact ⟨_, resizeBuffers_same env W H w1 rawFb raw h1 h2 h3 h4, rfl, rfl, rfl, rfl, rfl, rfl,
    rfl, rfl⟩

theorem demoAllocated_ok : resizeBuffers demoEnv 4 4 demoWorld = .ok demoAllocated := by
  obtain ⟨w', h, -⟩ := resizeBuffers_first demoEnv 4 4 demoWorld rfl rfl (Or.inr rfl)
    (fun _ => ⟨by decide, by decide⟩)
  rw [demoAllocated, h]
  rfl

/-- Witness of C5: the first allocation of the demo scene, then the same size again. -/
theorem C5_resizeBuffers_idempotent_witness :
    resizeBuffers demoEnv 4 4 demoWorld = .ok demoAllocated ∧
    ∃ w2, resizeBuffers demoEnv 4 4 demoAllocated = .ok w2 ∧
      w2 = demoAllocated.enter (.resizeBuffers 4 4) ∧
      w2.textures = demoAllocated.textures ∧ w2.nextTexture = demoAllocated.nextTexture ∧
      w2.framebuffers = demoAllocated.framebuffers ∧
      w2.nextFramebuffer = demoAllocated.nextFramebuffer ∧
      w2.sao = demoAllocated.sao ∧ w2.rd = demoAllocated.rd ∧
      w2.commands = demoAllocated.commands :=
  ⟨demoAllocated_ok,
    C5_resizeBuffers_idempotent demoEnv 4 4 demoWorld demoAllocated demoAllocated_ok⟩

theorem demoAllocated_as :
    AllocatedAs demoAllocated 1 2 2 3 4 [3, 4, 5, 6, 7, 8] ∧
      (demoAllocated.textures 2).width = 4 ∧ (demoAllocated.textures 2).height = 4 := by
  obtain ⟨w', h, hA, -, hd, -⟩ := resizeBuffers_first demoEnv 4 4 demoWorld rfl rfl (Or.inr rfl)
    (fun _ => ⟨by decide, by decide⟩)
  have e : demoAllocated = w' := by rw [demoAllocated, h]; rfl
  rw [e]
  exact ⟨hA, hd.1, hd.2⟩

/-- C6: when the buffer set is allocated and the requested size differs from the
raw-AO buffer's, `resizeBuffers` returns with the same objects, all three targets
at the requested size, and COLOR0 of the raw-AO framebuffer, of the intermediate
framebuffer and of pyramid framebuffer `i` (for `i = 0 .. MAX_MIP_LEVEL`) bound
to the raw-AO buffer, the intermediate buffer and MIP level `i` of the pyramid
buffer. -/
theorem C6_resize_rebinds (env : Env) (W H : Int) (w : World)
    (rawFb hFb raw hBlurred csz : Nat) (fbs : List Nat)
    (ha : AllocatedAs w rawFb hFb raw hBlurred csz fbs)
    (hne : (w.textures raw).width ≠ W ∨ (w.textures raw).height ≠ H) :
    ∃ w', resizeBuffers env W H w = .ok w' ∧
      AllocatedAs w' rawFb hFb raw hBlurred csz fbs ∧
      ((w'.textures raw).width = W ∧ (w'.textures raw).height = H) ∧
      ((w'.textures hBlurred).width = W ∧ (w'.textures hBlurred).height = H) ∧
      ((w'.textures csz).width = W ∧ (w'.textures csz).height = H) ∧
      (w'.framebuffers rawFb).color0 = some ⟨raw, 0⟩ ∧
      (w'.framebuffers hFb).color0 = some ⟨hBlurred, 0⟩ ∧
      ∀ i, i ≤ MAX_MIP_LEVEL →
        ∃ fb, w'.sao.m_cszFramebuffers[i]? = some fb ∧
          (w'.framebuffers fb).color0 = some ⟨csz, i⟩ := by
  obtain ⟨w', h, hA, hB, d1, d2, d3, -, -⟩ :=
    resizeBuffers_resize env W H w rawFb hFb raw hBlurred csz fbs ha hne
  refine ⟨w', h, hA, d1, d2, d3, hB.rawColor0, hB.hColor0, ?_⟩
  intro i hi
  have hlt : i < fbs.length := by rw [hA.length]; omega
  refine ⟨fbs[i], ?_, hB.cszColor0 i _ (List.getElem?_eq_getElem hlt)⟩
  rw [hA.cszFramebuffers]
  exact List.getElem?_eq_getElem hlt

/-- Witness of C6: the allocated 4x4 demo buffer set resized to 8x6. -/
theorem C6_resize_rebinds_witness :
    AllocatedAs demoAllocated 1 2 2 3 4 [3, 4, 5, 6, 7, 8] ∧
    ∃ w', resizeBuffers demoEnv 8 6 demoAllocated = .ok w' ∧
      AllocatedAs w' 1 2 2 3 4 [3, 4, 5, 6, 7, 8] ∧
      ((w'.textures 2).width = 8 ∧ (w'.textures 2).height = 6) ∧
      ((w'.textures 3).width = 8 ∧ (w'.textures 3).height = 6) ∧
      ((w'.textures 4).width = 8 ∧ (w'.textures 4).height = 6) ∧
      (w'.framebuffers 1).color0 = some ⟨2, 0⟩ ∧
      (w'.framebuffers 2).color0 = some ⟨3, 0⟩ ∧
      ∀ i, i ≤ MAX_MIP_LEVEL →
        ∃ fb, w'.sao.m_cszFramebuffers[i]? = some fb ∧
          (w'.framebuffers fb).color0 = some ⟨4, i⟩ :=
  ⟨demoAllocated_as.1,
    C6_resize_rebinds demoEnv 8 6 demoAllocated 1 2 2 3 4 [3, 4, 5, 6, 7, 8] demoAllocated_as.1
      (Or.inl (by rw [demoAllocated_as.2.1]; decide))⟩

theorem reaches_allocated (env : Env) (w w' : World) (hc : Consistent w)
    (h : Reaches env w w') (ha : w.sao.m_rawAOFramebuffer ≠ none) :
    w'.sao.m_rawAOFramebuffer ≠ none := by
  induction h with
  | refl => exact ha
  | step op hr hrun _ =>
    have h2 := (run_consistent env op _ _ (reaches_consistent env _ _ hc hr) hrun).2
    intro hn
    rw [hn] at h2
    cases h2

/-- C7: in every state reached from a new instance by `resizeBuffers` and
`compute` calls that returned, once the raw-AO framebuffer exists the three
targets exist and share width and height, so the raw-AO buffer differs from a
requested size exactly when some target does; and no later state of the run is
unallocated again. -/
theorem C7_targets_share_size (env : Env) (w0 w : World) (h0 : w0.sao = Members.new)
    (h : Reaches env w0 w) :
    (∀ rawFb, w.sao.m_rawAOFramebuffer = some rawFb →
      ∃ raw hBlurred csz,
        w.sao.m_rawAOBuffer = some raw ∧ w.sao.m_hBlurredBuffer = some hBlurred ∧
        w.sao.m_cszBuffer = some csz ∧
        (w.textures hBlurred).width = (w.textures raw).width ∧
        (w.textures hBlurred).height = (w.textures raw).height ∧
        (w.textures csz).width = (w.textures raw).width ∧
        (w.textures csz).height = (w.textures raw).height ∧
        ∀ W H : Int,
          ((w.textures raw).width ≠ W ∨ (w.textures raw).height ≠ H) ↔
            ¬ (((w.textures raw).width = W ∧ (w.textures raw).height = H) ∧
              ((w.textures hBlurred).width = W ∧ (w.textures hBlurred).height = H) ∧
              ((w.textures csz).width = W ∧ (w.textures csz).height = H))) ∧
    (∀ w', Reaches env w w' → w.sao.m_rawAOFramebuffer ≠ none →
      w'.sao.m_rawAOFramebuffer ≠ none) := by
  have hc : Consistent w := reaches_consistent env w0 w (consistent_new w0 h0) h
  refine ⟨?_, fun w' hr ha => reaches_allocated env w w' hc hr ha⟩
  intro rawFb hraw
  rcases hc.buffers with ⟨hn, -⟩ | ⟨rawFb', hFb, raw, hBlurred, csz, fbs, hA, hS, -⟩
  · rw [hn] at hraw; cases hraw
  · refine ⟨raw, hBlurred, csz, hA.rawAOBuffer, hA.hBlurredBuffer, hA.cszBuffer, hS.hWidth,
      hS.hHeight, hS.cszWidth, hS.cszHeight, ?_⟩
    intro W H
    rw [hS.hWidth, hS.hHeight, hS.cszWidth, hS.cszHeight]
    constructor
    · rintro (h1 | h1) ⟨⟨h2, h3⟩, -⟩
      · exact h1 h2
      · exact h1 h3
    · intro hn
      by_contra hc'
      simp only [not_or, not_not] at hc'
      exact hn ⟨hc', hc', hc'⟩

/-- Witness of C7: the demo scene after its first `resizeBuffers`. -/
theorem C7_targets_share_size_witness :
    Reaches demoEnv demoWorld demoAllocated ∧
    (∀ rawFb, demoAllocated.sao.m_rawAOFramebuffer = some rawFb →
      ∃ raw hBlurred csz,
        demoAllocated.sao.m_rawAOBuffer = some raw ∧
        demoAllocated.sao.m_hBlurredBuffer = some hBlurred ∧
        demoAllocated.sao.m_cszBuffer = some csz ∧
        (demoAllocated.textures hBlurred).width = (demoAllocated.textures raw).width ∧
        (demoAllocated.textures hBlurred).height = (demoAllocated.textures raw).height ∧
        (demoAllocated.textures csz).width = (demoAllocated.textures raw).width ∧
        (demoAllocated.textures csz).height = (demoAllocated.textures raw).height ∧
        ∀ W H : Int,
          ((demoAllocated.textures raw).width ≠ W ∨ (demoAllocated.textures raw).height ≠ H) ↔
            ¬ (((demoAllocated.textures raw).width = W ∧
                (demoAllocated.textures raw).height = H) ∧
              ((demoAllocated.textures hBlurred).width = W ∧
                (demoAllocated.textures hBlurred).height = H) ∧
              ((demoAllocated.textures csz).width = W ∧
                (demoAllocated.textures csz).height = H))) ∧
    (∀ w', Reaches demoEnv demoAllocated w' → demoAllocated.sao.m_rawAOFramebuffer ≠ none →
      w'.sao.m_rawAOFramebuffer ≠ none) :=
  ⟨Reaches.step (.resizeBuffers 4 4) (Reaches.refl demoWorld) demoAllocated_ok,
    C7_targets_share_size demoEnv demoWorld demoAllocated rfl
      (Reaches.step (.resizeBuffers 4 4) (Reaches.refl demoWorld) demoAllocated_ok)⟩

/-- C8 (as stated) fails: with guard band 1 on the 4x4 demo target, the vertical
blur changes the guard-band pixel (0, 0) of the caller's AO buffer from black to
white: the colour clear is issued before the scissor is narrowed. -/
theorem C8_guard_band_counterexample :
    ∃ w', blurVertical demoEnv (some 0) 1 demoReady = .ok w' ∧
      demoReady.rd.state.framebuffer = some 0 ∧
      (demoReady.framebuffers 0).color0 = some ⟨1, 0⟩ ∧
      ¬ ((1 : Int) ≤ 0 ∧ (0 : Int) < (demoReady.textures 1).width - 1 ∧
        (1 : Int) ≤ 0 ∧ (0 : Int) < (demoReady.textures 1).height - 1) ∧
      (demoReady.textures 1).texel 0 0 0 = ⟨0, 0, 0⟩ ∧
      (w'.textures 1).texel 0 0 0 = Color3.white ∧
      (w'.textures 1).texel 0 0 0 ≠ (demoReady.textures 1).texel 0 0 0 := by
  obtain ⟨w', h1, h2⟩ := blurVertical_guard demoEnv (some 0) 1 demoReady 0 1 0 0 rfl rfl rfl rfl
    (le_refl 0) (by decide) (le_refl 0) (by decide) rfl
  refine ⟨w', h1, rfl, rfl, by decide, rfl, h2, ?_⟩
  rw [h2]
  have : (demoReady.textures 1).texel 0 0 0 = ⟨0, 0, 0⟩ := rfl
  rw [this]
  decide

/-- C8 (amended): for every guard band `g`, each of `computeRawAO`,
`blurHorizontal` and `blurVertical` returns with every pixel of its destination
(the raw-AO buffer, the intermediate buffer, the colour target of the caller's
framebuffer) that lies outside the clip rectangle `xyxy(g, g, width-g, height-g)`
equal to white, whatever it held before: the destination is cleared to white
before the scissor is narrowed, and the kernel writes only inside the rectangle.
When `2g ≤ width` and `2g ≤ height` the rectangle is exactly
`g ≤ x < width-g`, `g ≤ y < height-g`. -/
theorem C8_guard_band_cleared (env : Env) (d : Option Nat) (c : Vector3) (p : Vector4)
    (ps : ℚ) (csz : Option Nat) (g : Int) (w : World)
    (rawFb hFb raw hBlurred cszT : Nat) (fbs : List Nat) (f t : Nat)
    (hs : ShadersLoaded w.sao)
    (ha : AllocatedAs w rawFb hFb raw hBlurred cszT fbs)
    (hb : Bound w rawFb hFb raw hBlurred cszT fbs)
    (hfb : w.rd.state.framebuffer = some f)
    (hcol : (w.framebuffers f).color0 = some ⟨t, 0⟩)
    (hview : w.rd.state.viewport = Rect2D.xywh 0 0 (w.textures t).width (w.textures t).height)
    (hps : env.debug = true → ps > 0) :
    (∀ x y : Int, 0 ≤ x → x < (w.textures raw).width → 0 ≤ y → y < (w.textures raw).height →
      (Rect2D.xyxy g g ((w.textures raw).width - g)
        ((w.textures raw).height - g)).contains x y = false →
      ∃ w', computeRawAO env d c p ps csz g w = .ok w' ∧
        (w'.textures raw).texel 0 x y = Color3.white) ∧
    (∀ x y : Int, 0 ≤ x → x < (w.textures hBlurred).width → 0 ≤ y →
      y < (w.textures hBlurred).height →
      (Rect2D.xyxy g g ((w.textures hBlurred).width - g)
        ((w.textures hBlurred).height - g)).contains x y = false →
      ∃ w', blurHorizontal env d g w = .ok w' ∧
        (w'.textures hBlurred).texel 0 x y = Color3.white) ∧
    (∀ x y : Int, 0 ≤ x → x < (w.textures t).width → 0 ≤ y → y < (w.textures t).height →
      (Rect2D.xyxy g g ((w.textures t).width - g)
        ((w.textures t).height - g)).contains x y = false →
      ∃ w', blurVertical env d g w = .ok w' ∧
        (w'.textures t).texel 0 x y = Color3.white) ∧
    (∀ W H x y : Int, 2 * g ≤ W → 2 * g ≤ H →
      ((Rect2D.xyxy g g (W - g) (H - g)).contains x y = true ↔
        (g ≤ x ∧ x < W - g) ∧ (g ≤ y ∧ y < H - g))) := by
  obtain ⟨sh1, h1, -⟩ := hs.rawAO
  obtain ⟨sh2, h2, -⟩ := hs.blur
  refine ⟨?_, ?_, ?_, ?_⟩
  · intro x y hx0 hx hy0 hy hout
    exact computeRawAO_guard env d c p ps csz g w rawFb raw x y (by rw [h1]; rfl)
      ha.rawAOFramebuffer hb.rawColor0 hps hx0 hx hy0 hy hout
  · intro x y hx0 hx hy0 hy hout
    exact blurHorizontal_guard env d g w hFb hBlurred x y (by rw [h2]; rfl)
      ha.hBlurredFramebuffer hb.hColor0 hx0 hx hy0 hy hout
  · intro x y hx0 hx hy0 hy hout
    exact blurVertical_guard env d g w f t x y (by rw [h2]; rfl) hfb hcol hview hx0 hx hy0 hy
      hout
  · intro W H x y hW hH
    exact guardClip_contains g W H x y hW hH

theorem demoReady_allocated :
    AllocatedAs demoReady 1 2 2 3 4 [3, 4, 5, 6, 7, 8] ∧
      Bound demoReady 1 2 2 3 4 [3, 4, 5, 6, 7, 8] := by
  obtain ⟨w', h, hA, hB, -⟩ := resizeBuffers_first demoEnv 4 4 demoWorld rfl rfl (Or.inr rfl)
    (fun _ => ⟨by decide, by decide⟩)
  have e : demoAllocated = w' := by rw [demoAllocated, h]; rfl
  rw [demoReady, e]
  exact ⟨allocatedAs_frame hA (reloadShaders_frame w'), bound_frame hB (reloadShaders_frame w')⟩

/-- Witness of C8 (amended): the ready demo scene with guard band 1; the
guard-band pixel (0, 0) is white after each of the three passes. -/
theorem C8_guard_band_cleared_witness :
    (∃ w', computeRawAO demoEnv (some 0) ⟨100, 99, -100⟩ ⟨1, 1, 1, 1⟩ 500 (some 4) 1 demoReady =
        .ok w' ∧ (w'.textures 2).texel 0 0 0 = Color3.white) ∧
    (∃ w', blurHorizontal demoEnv (some 0) 1 demoReady = .ok w' ∧
      (w'.textures 3).texel 0 0 0 = Color3.white) ∧
    (∃ w', blurVertical demoEnv (some 0) 1 demoReady = .ok w' ∧
      (w'.textures 1).texel 0 0 0 = Color3.white) :=
  have h := C8_guard_band_cleared demoEnv (some 0) ⟨100, 99, -100⟩ ⟨1, 1, 1, 1⟩ 500 (some 4) 1
    demoReady 1 2 2 3 4 [3, 4, 5, 6, 7, 8] 0 1 (reloadShaders_loaded demoAllocated)
    demoReady_allocated.1 demoReady_allocated.2 rfl rfl rfl (fun _ => by norm_num)
  ⟨h.1 0 0 (le_refl 0) (by decide) (le_refl 0) (by decide) rfl,
    h.2.1 0 0 (le_refl 0) (by decide) (le_refl 0) (by decide) rfl,
    h.2.2.1 0 0 (le_refl 0) (by decide) (le_refl 0) (by decide) rfl⟩

/-- C9 (as stated) fails: in a build without `G3D_DEBUG` a lower-level `compute`
call with `projScale = 0` returns normally and the estimation program is drawn
with `projScale = 0`. -/
theorem C9_release_counterexample :
    ∃ w', compute releaseEnv (some 0) ⟨100, 99, -100⟩ ⟨1, 1, 1, 1⟩ 0 1 demoWorld = .ok w' ∧
      (estimationDraws w'.commands).map (fun sh => sh.args "projScale") =
        [some (.float 0)] := by
  obtain ⟨w', h1, -, -, -, h5⟩ := compute_ok releaseEnv 0 ⟨100, 99, -100⟩ ⟨1, 1, 1, 1⟩ 0 1
    demoWorld (consistent_new demoWorld rfl) (fun _ => ⟨Or.inr rfl, fun h => by cases h⟩)
    (fun h => by cases h)
  exact ⟨w', h1, by simpa [demoWorld, estimationDraws] using h5⟩

/-- C9 (amended): from a consistent state, a lower-level `compute` call with a
depth buffer of positive size and `projScale ≤ 0` is, in a build with
`G3D_DEBUG`, stopped by `debugAssert(projScale > 0)` on entry to `computeRawAO`,
after `resizeBuffers` and `computeCSZ` have run, and the estimation program is
not drawn; in a build without `G3D_DEBUG` the call returns and the estimation
program is drawn with that value. -/
theorem C9_projScale_debug_assert (env : Env) (depth : Nat) (c : Vector3) (p : Vector4)
    (ps : ℚ) (g : Int) (w : World) (hc : Consistent w)
    (hz : env.ZBITS = 16 ∨ env.ZBITS = 32)
    (hW : 0 < (w.textures depth).width) (hH : 0 < (w.textures depth).height)
    (hps : ps ≤ 0) :
    (env.debug = true →
      ∃ w' csz, compute env (some depth) c p ps g w = .abort (.debugAssert "projScale > 0") w' ∧
        estimationDraws w'.commands = estimationDraws w.commands ∧
        w'.calls = w.calls ++ [.compute (some depth) c p ps g] ++
          (if w.sao.m_blurShader.isNone then [.reloadShaders] else []) ++
          [.resizeBuffers (w.textures depth).width (w.textures depth).height,
            .computeCSZ (some depth) c, .computeRawAO (some depth) c p ps csz g]) ∧
    (env.debug = false →
      ∃ w', compute env (some depth) c p ps g w = .ok w' ∧
        (estimationDraws w'.commands).map (fun sh => sh.args "projScale") =
          (estimationDraws w.commands).map (fun sh => sh.args "projScale") ++
            [some (.float ps)]) := by
  constructor
  · intro hd
    obtain ⟨w3, h3, -, -, hcalls, he, -⟩ := compute_to_rawAO env depth c p ps g w hc
      (fun _ => ⟨hz, fun _ => ⟨hW, hH⟩⟩)
    refine ⟨w3.enter (.computeRawAO (some depth) c p ps w3.sao.m_cszBuffer g),
      w3.sao.m_cszBuffer, ?_, ?_, ?_⟩
    · rw [h3, tail_abort env (some depth) c p ps _ g w3 hd (not_lt.mpr hps)]
    · simpa using he
    · simp [hcalls]
  · intro hd
    obtain ⟨w', h1, -, -, -, h5⟩ := compute_ok env depth c p ps g w hc
      (fun _ => ⟨hz, fun _ => ⟨hW, hH⟩⟩) (fun h => by rw [hd] at h; cases h)
    exact ⟨w', h1, h5⟩

/-- Witness of C9 (amended): the demo scene at `projScale = 0`, in the build with
`G3D_DEBUG`. -/
theorem C9_projScale_debug_assert_witness :
    Consistent demoWorld ∧
    (∃ w' csz, compute demoEnv (some 0) ⟨100, 99, -100⟩ ⟨1, 1, 1, 1⟩ 0 1 demoWorld =
        .abort (.debugAssert "projScale > 0") w' ∧
      estimationDraws w'.commands = estimationDraws demoWorld.commands ∧
      w'.calls = demoWorld.calls ++ [.compute (some 0) ⟨100, 99, -100⟩ ⟨1, 1, 1, 1⟩ 0 1] ++
        (if demoWorld.sao.m_blurShader.isNone then [.reloadShaders] else []) ++
        [.resizeBuffers (demoWorld.textures 0).width (demoWorld.textures 0).height,
          .computeCSZ (some 0) ⟨100, 99, -100⟩,
          .computeRawAO (some 0) ⟨100, 99, -100⟩ ⟨1, 1, 1, 1⟩ 0 csz 1]) :=
  ⟨consistent_new demoWorld rfl,
    (C9_projScale_debug_assert demoEnv 0 ⟨100, 99, -100⟩ ⟨1, 1, 1, 1⟩ 0 1 demoWorld
      (consistent_new demoWorld rfl) (Or.inr rfl) (by decide) (by decide) (le_refl 0)).1 rfl⟩

/-- C10: the lower-level `compute` meets a null depth buffer with the assertion
"Depth buffer is required." and changes nothing but the call log; the
camera-based `compute` does not reach that assertion: it dereferences the null
depth buffer first (`depthBuffer->width()`). -/
theorem C10_null_depth_buffer (env : Env) (c : Vector3) (p : Vector4) (ps : ℚ)
    (camera : GCamera) (g : Int) (w : World) :
    (∃ w', compute env none c p ps g w = .abort (.alwaysAssert "Depth buffer is required.") w' ∧
      w'.textures = w.textures ∧ w'.nextTexture = w.nextTexture ∧
      w'.framebuffers = w.framebuffers ∧ w'.nextFramebuffer = w.nextFramebuffer ∧
      w'.sao = w.sao ∧ w'.rd = w.rd ∧ w'.commands = w.commands) ∧
    computeCamera env none camera g w = .abort .nullDereference w ∧
    computeCamera env none camera g w ≠
      .abort (.alwaysAssert "Depth buffer is required.") w := by
  refine ⟨⟨_, rfl, rfl, rfl, rfl, rfl, rfl, rfl, rfl⟩, rfl, ?_⟩
  simp [computeCamera]

/-! ## Properties kept by every outcome, also by an aborted one -/

theorem andThen_inv (I : World → Prop) (o : Outcome) (k : World → Outcome)
    (h1 : I o.world) (h2 : ∀ w1, I w1 → I (k w1).world) : I (o.andThen k).world := by
  cases o with
  | ok w1 => exact h2 w1 h1
  | abort f w1 => exact h1

theorem forLoop_inv (body : Nat → World → Outcome) (I : World → Prop)
    (hb : ∀ i w, I w → I (body i w).world) :
    ∀ (n lo : Nat) (w : World), I w → I (forLoop body lo n w).world := by
  intro n
  induction n with
  | zero => intro lo w h; exact h
  | succ n ih =>
    intro lo w h
    exact andThen_inv I _ _ (hb lo w h) (fun w1 h1 => ih (lo + 1) w1 h1)

theorem rebindBuffers_settings (w : World) :
    (rebindBuffers w).world.sao.m_settings = w.sao.m_settings := by
  unfold rebindBuffers
  split
  · rfl
  · simp only
    split
    · rfl
    · refine forLoop_inv _ (fun w1 => w1.sao.m_settings = w.sao.m_settings) ?_ _ _ _ rfl
      intro i w1 h1
      unfold rebindCszFramebuffer
      split <;> exact h1

theorem resizeBuffers_settings (env : Env) (W H : Int) (w : World) :
    (resizeBuffers env W H w).world.sao.m_settings = w.sao.m_settings := by
  unfold resizeBuffers
  simp only
  split
  · split
    · rfl
    · split
      · rfl
      · refine andThen_inv (fun w1 => w1.sao.m_settings = w.sao.m_settings) _ _ ?_ ?_
        · refine forLoop_inv _ (fun w1 => w1.sao.m_settings = w.sao.m_settings) ?_ _ _ _ rfl
          intro i w1 h1
          exact h1
        · intro w1 h1
          exact (rebindBuffers_settings w1).trans h1
  · split
    · rfl
    · split
      · split
        · rfl
        · split
          · rfl
          · exact rebindBuffers_settings _
      · rfl

theorem minifyLevel_settings (env : Env) (i : Nat) (w : World) :
    (minifyLevel env i w).world.sao.m_settings = w.sao.m_settings := by
  unfold minifyLevel
  split
  · rfl
  · simp only
    split
    · rfl
    · simp [Outcome.world, World.push2D]

theorem computeCSZ_settings (env : Env) (d : Option Nat) (c : Vector3) (w : World) :
    (computeCSZ env d c w).world.sao.m_settings = w.sao.m_settings := by
  unfold computeCSZ
  simp only
  split
  · rfl
  · split
    · simp [Outcome.world, World.push2D]
    · refine forLoop_inv _ (fun w1 => w1.sao.m_settings = w.sao.m_settings) ?_ _ _ _ ?_
      · intro i w1 h1
        exact (minifyLevel_settings env i w1).trans h1
      · simp [World.push2D]

theorem computeRawAO_settings (env : Env) (d : Option Nat) (c : Vector3) (p : Vector4) (ps : ℚ)
    (csz : Option Nat) (g : Int) (w : World) :
    (computeRawAO env d c p ps csz g w).world.sao.m_settings = w.sao.m_settings := by
  unfold computeRawAO
  simp only
  split
  · rfl
  · split
    · rfl
    · split <;> simp [Outcome.world, World.push2D]

theorem blurHorizontal_settings (env : Env) (d : Option Nat) (g : Int) (w : World) :
    (blurHorizontal env d g w).world.sao.m_settings = w.sao.m_settings := by
  unfold blurHorizontal
  simp only
  split <;> simp [Outcome.world, World.push2D]

theorem blurVertical_settings (env : Env) (d : Option Nat) (g : Int) (w : World) :
    (blurVertical env d g w).world.sao.m_settings = w.sao.m_settings := by
  unfold blurVertical
  simp only
  split <;> simp [Outcome.world, World.push2DCurrent]

theorem reloadShaders_settings (w : World) :
    (reloadShaders w).sao.m_settings = w.sao.m_settings := rfl

/-- No outcome of `compute` has other settings than the state it started in. -/
theorem compute_settings (env : Env) (d : Option Nat) (c : Vector3) (p : Vector4) (ps : ℚ)
    (g : Int) (w : World) :
    (compute env d c p ps g w).world.sao.m_settings = w.sao.m_settings := by
  cases d with
  | none => rfl
  | some d =>
    unfold compute
    simp only
    have h0 : (if (w.enter (.compute (some d) c p ps g)).sao.m_blurShader.isNone = true
          then reloadShaders (w.enter (.compute (some d) c p ps g))
          else w.enter (.compute (some d) c p ps g)).sao.m_settings = w.sao.m_settings := by
      split <;> rfl
    refine andThen_inv (fun w1 => w1.sao.m_settings = w.sao.m_settings) _ _ ?_ ?_
    · exact (resizeBuffers_settings env _ _ _).trans h0
    · intro w1 h1
      refine andThen_inv (fun w1 => w1.sao.m_settings = w.sao.m_settings) _ _
        ((computeCSZ_settings env _ c w1).trans h1) ?_
      intro w2 h2
      refine andThen_inv (fun w1 => w1.sao.m_settings = w.sao.m_settings) _ _
        ((computeRawAO_settings env _ c p ps _ g w2).trans h2) ?_
      intro w3 h3
      exact andThen_inv (fun w1 => w1.sao.m_settings = w.sao.m_settings) _ _
        ((blurHorizontal_settings env _ g w3).trans h3)
        (fun w4 h4 => (blurVertical_settings env _ g w4).trans h4)

theorem computeCamera_settings (env : Env) (d : Option Nat) (cam : GCamera) (g : Int)
    (w : World) :
    (computeCamera env d cam g w).world.sao.m_settings = w.sao.m_settings := by
  cases d with
  | none => rfl
  | some d =>
    simp only [computeCamera]
    exact compute_settings env _ _ _ _ g w

/-! ## The inputs of the estimation program -/

theorem computeRawAO_inputs (env : Env) (d : Option Nat) (c : Vector3) (p : Vector4) (ps : ℚ)
    (csz : Option Nat) (g : Int) (w : World) (hs : ShadersLoaded w.sao)
    (hfb : w.sao.m_rawAOFramebuffer.isSome = true) (hps : env.debug = true → ps > 0) :
    ∃ w', computeRawAO env d c p ps csz g w = .ok w' ∧
      (estimationDraws w'.commands).map estimationInputs =
        (estimationDraws w.commands).map estimationInputs ++
          [[some (.float w.sao.m_settings.radius), some (.float w.sao.m_settings.bias),
            some (.vector3 c), some (.vector4 p), some (.float ps), some (.texture csz),
            some (.float (w.sao.m_settings.intensity / w.sao.m_settings.radius ^ 6))]] := by
  obtain ⟨⟨s1, h1, p1⟩, ⟨s2, h2, p2⟩, ⟨s3, h3, p3⟩, ⟨s4, h4, p4⟩⟩ := hs
  obtain ⟨rawFb, hraw⟩ := Option.isSome_iff_exists.mp hfb
  have hcond : ¬ (env.debug = true ∧ ¬ ps > 0) := fun h => h.2 (hps h.1)
  simp only [computeRawAO, hcond, if_false, enter_sao, hraw, World.push2D, setSao_sao, clear_sao,
    push2DWith_sao, framebufferSet_sao, setDepthTest_sao, setColorClearValue_sao, h1]
  refine ⟨_, rfl, ?_⟩
  simp [estimationDraws_append, estimationDraws, Shader.set, p1, estimationInputs,
    estimationArgNames]

theorem tail_inputs (env : Env) (d : Option Nat) (c : Vector3) (p : Vector4) (ps : ℚ)
    (csz : Option Nat) (g : Int) (w : World) (hs : ShadersLoaded w.sao)
    (hfb : w.sao.m_rawAOFramebuffer.isSome = true) (hps : env.debug = true → ps > 0) :
    ∃ w', ((computeRawAO env d c p ps csz g w).andThen fun w =>
        (blurHorizontal env d g w).andThen fun w => blurVertical env d g w) = .ok w' ∧
      (estimationDraws w'.commands).map estimationInputs =
        (estimationDraws w.commands).map estimationInputs ++
          [[some (.float w.sao.m_settings.radius), some (.float w.sao.m_settings.bias),
            some (.vector3 c), some (.vector4 p), some (.float ps), some (.texture csz),
            some (.float (w.sao.m_settings.intensity / w.sao.m_settings.radius ^ 6))]] := by
  obtain ⟨w1, h1, s1, f1, c1, -⟩ := computeRawAO_ok env d c p ps csz g w hs hfb hps
  obtain ⟨w1', h1', e1⟩ := computeRawAO_inputs env d c p ps csz g w hs hfb hps
  have hw : w1' = w1 := by rw [h1] at h1'; exact (Outcome.ok.inj h1').symm
  rw [hw] at e1
  obtain ⟨w2, h2, s2, f2, c2, e2⟩ := blurHorizontal_ok env d g w1 s1
  obtain ⟨w3, h3, s3, f3, c3, e3⟩ := blurVertical_ok env d g w2 s2
  refine ⟨w3, by simp [h1, h2, h3, Outcome.andThen], ?_⟩
  rw [e3, e2, e1]

/-- A completed `compute` has drawn the estimation program once more, with
the settings of the instance and the constants it was given as inputs. -/
theorem compute_inputs (env : Env) (d : Nat) (c : Vector3) (p : Vector4) (ps : ℚ)
    (g : Int) (w : World) (hc : Consistent w)
    (hfirst : w.sao.m_rawAOFramebuffer = none →
      (env.ZBITS = 16 ∨ env.ZBITS = 32) ∧
        (env.debug = true → 0 < (w.textures d).width ∧ 0 < (w.textures d).height))
    (hps : env.debug = true → ps > 0) :
    ∃ w', compute env (some d) c p ps g w = .ok w' ∧
      (estimationDraws w'.commands).map estimationInputs =
        (estimationDraws w.commands).map estimationInputs ++
          [[some (.float w.sao.m_settings.radius), some (.float w.sao.m_settings.bias),
            some (.vector3 c), some (.vector4 p), some (.float ps),
            some (.texture w'.sao.m_cszBuffer),
            some (.float (w.sao.m_settings.intensity / w.sao.m_settings.radius ^ 6))]] := by
  obtain ⟨w3, h3, hs3, ⟨rawFb, hFb, raw, hBlurred, csz, fbs, hA, hS, hB, -, -⟩, hcalls3, he3, hset⟩ :=
    compute_to_rawAO env d c p ps g w hc hfirst
  have hfb : w3.sao.m_rawAOFramebuffer.isSome = true := by rw [hA.rawAOFramebuffer]; rfl
  obtain ⟨w', hw', -, hf', -, -⟩ := tail_ok env (some d) c p ps w3.sao.m_cszBuffer g w3 hs3 hfb hps
  obtain ⟨w'', hw'', he'⟩ := tail_inputs env (some d) c p ps w3.sao.m_cszBuffer g w3 hs3 hfb hps
  have hw : w'' = w' := by rw [hw'] at hw''; exact (Outcome.ok.inj hw'').symm
  rw [hw] at he'
  refine ⟨w', by rw [h3, hw'], ?_⟩
  rw [he', he3, hset, hf'.cszBuffer]

/-! ## The settings along a run of public calls -/

theorem run_settings (env : Env) (a : Action) (w : World) :
    (a.run env w).world.sao.m_settings =
      match a with
      | .setRadius r => if r > 0 then { w.sao.m_settings with radius := r } else w.sao.m_settings
      | .setBias b => { w.sao.m_settings with bias := b }
      | .setIntensity d => { w.sao.m_settings with intensity := d }
      | _ => w.sao.m_settings := by
  cases a with
  | setRadius r =>
    simp only [Action.run, setRadius]
    by_cases h : r > 0 <;> simp [h, Outcome.world, World.setSao]
  | setBias b => rfl
  | setIntensity d => rfl
  | compute d c p ps g => exact compute_settings env d c p ps g w
  | computeCamera d cam g => exact computeCamera_settings env d cam g w
  | reloadShaders => rfl

theorem run_radius (env : Env) (a : Action) (w : World) (ha : ∀ r, a ≠ .setRadius r) :
    radius (a.run env w).world = radius w := by
  have h := run_settings env a w
  cases a with
  | setRadius r => exact absurd rfl (ha r)
  | setBias b => simp only [radius, h]
  | setIntensity d => simp only [radius, h]
  | compute d c p ps g => simp only [radius, h]
  | computeCamera d cam g => simp only [radius, h]
  | reloadShaders => simp only [radius, h]

theorem run_radius_pos (env : Env) (a : Action) (w w' : World) (hpos : 0 < radius w)
    (h : a.run env w = .ok w') : 0 < radius w' := by
  have hw : w' = (a.run env w).world := by rw [h]; rfl
  by_cases ha : ∀ r, a ≠ .setRadius r
  · rw [hw, run_radius env a w ha]; exact hpos
  · push_neg at ha
    obtain ⟨r, rfl⟩ := ha
    simp only [Action.run, setRadius] at h
    by_cases hr : r > 0
    · simp only [hr, not_true_eq_false, if_false] at h
      rw [← Outcome.ok.inj h]
      exact hr
    · simp [hr] at h

theorem runs_radius_pos (env : Env) (w0 w : World) (hpos : 0 < radius w0)
    (h : Runs env w0 w) : 0 < radius w := by
  induction h with
  | refl => exact hpos
  | step a _ hstep ih => exact run_radius_pos env a _ _ (ih hpos) hstep

theorem run_bias (env : Env) (a : Action) (w : World) :
    bias (a.run env w).world =
      match a with
      | .setBias b => b
      | _ => bias w := by
  have h := run_settings env a w
  cases a with
  | setRadius r =>
    simp only [bias, h]
    split <;> rfl
  | setBias b => rfl
  | setIntensity d => rfl
  | compute d c p ps g => simp only [bias, h]
  | computeCamera d cam g => simp only [bias, h]
  | reloadShaders => rfl

theorem consistent_settings (w : World) (s : Settings) (hc : Consistent w) :
    Consistent (w.setSao { w.sao with m_settings := s }) := by
  obtain ⟨hs, hb⟩ := hc
  refine ⟨?_, ?_⟩
  · rcases hs with h | ⟨a, b, c, d⟩
    · exact Or.inl h
    · exact Or.inr ⟨a, b, c, d⟩
  · rcases hb with h | ⟨rawFb, hFb, raw, hBlurred, csz, fbs, hA, hS, hB⟩
    · exact Or.inl h
    · exact Or.inr ⟨rawFb, hFb, raw, hBlurred, csz, fbs,
        ⟨hA.1, hA.2, hA.3, hA.4, hA.5, hA.6, hA.7, hA.8⟩, ⟨hS.1, hS.2, hS.3, hS.4⟩,
        ⟨hB.1, hB.2, hB.3⟩⟩

theorem inputs_bias (L : List Shader) :
    (L.map estimationInputs).map (fun l => l.getD 1 none) = L.map (fun sh => sh.args "bias") := by
  simp [List.map_map, Function.comp, estimationInputs, estimationArgNames]

/-- A completed `compute` hands the bias held by the instance to the
estimation program. -/
theorem compute_bias (env : Env) (d : Nat) (c : Vector3) (p : Vector4) (ps : ℚ)
    (g : Int) (w : World) (hc : Consistent w)
    (hfirst : w.sao.m_rawAOFramebuffer = none →
      (env.ZBITS = 16 ∨ env.ZBITS = 32) ∧
        (env.debug = true → 0 < (w.textures d).width ∧ 0 < (w.textures d).height))
    (hps : env.debug = true → ps > 0) :
    ∃ w', compute env (some d) c p ps g w = .ok w' ∧
      (estimationDraws w'.commands).map (fun sh => sh.args "bias") =
        (estimationDraws w.commands).map (fun sh => sh.args "bias") ++
          [some (.float (bias w))] := by
  obtain ⟨w', hw', he⟩ := compute_inputs env d c p ps g w hc hfirst hps
  refine ⟨w', hw', ?_⟩
  rw [← inputs_bias, he, List.map_append, inputs_bias]
  rfl

/-! ## The clip rectangle of the guard band -/

theorem clip_extent (g W : Int) : max g (W - g) - min g (W - g) = |W - 2 * g| := by
  rcases le_total g (W - g) with h | h
  · rw [max_eq_right h, min_eq_left h, abs_of_nonneg (by omega)]; omega
  · rw [max_eq_left h, min_eq_right h, abs_of_nonpos (by omega)]; omega

theorem clip_shape (g W H : Int) :
    (Rect2D.xyxy g g (W - g) (H - g)).width = |W - 2 * g| ∧
    (Rect2D.xyxy g g (W - g) (H - g)).height = |H - 2 * g| ∧
    ((0 < (Rect2D.xyxy g g (W - g) (H - g)).width ∧
        0 < (Rect2D.xyxy g g (W - g) (H - g)).height) ↔
      (2 * g ≠ W ∧ 2 * g ≠ H)) ∧
    ((2 * g < W ∧ 2 * g < H) →
      0 < (Rect2D.xyxy g g (W - g) (H - g)).width ∧
      0 < (Rect2D.xyxy g g (W - g) (H - g)).height ∧
      Rect2D.xyxy g g (W - g) (H - g) = ⟨g, g, W - g, H - g⟩) ∧
    ((Rect2D.xyxy g g (W - g) (H - g)).x0 ≤ (Rect2D.xyxy g g (W - g) (H - g)).x1 ∧
      (Rect2D.xyxy g g (W - g) (H - g)).y0 ≤ (Rect2D.xyxy g g (W - g) (H - g)).y1) := by
  have hw : (Rect2D.xyxy g g (W - g) (H - g)).width = |W - 2 * g| := clip_extent g W
  have hh : (Rect2D.xyxy g g (W - g) (H - g)).height = |H - 2 * g| := clip_extent g H
  have pw : 0 < |W - 2 * g| ↔ 2 * g ≠ W := by
    rw [abs_pos]; constructor <;> intro h <;> omega
  have ph : 0 < |H - 2 * g| ↔ 2 * g ≠ H := by
    rw [abs_pos]; constructor <;> intro h <;> omega
  refine ⟨hw, hh, ?_, ?_, ?_⟩
  · rw [hw, hh, pw, ph]
  · rintro ⟨h1, h2⟩
    refine ⟨?_, ?_, ?_⟩
    · rw [hw, pw]; omega
    · rw [hh, ph]; omega
    · have a1 : g ≤ W - g := by omega
      have a2 : g ≤ H - g := by omega
      simp only [Rect2D.xyxy, min_eq_left a1, min_eq_left a2, max_eq_right a1, max_eq_right a2]
  · exact ⟨min_le_max, min_le_max⟩

/-! ## The format of the pyramid buffer and the precision assertion -/

theorem resizeBuffers_first_format (env : Env) (W H : Int) (w : World)
    (hnone : w.sao.m_rawAOFramebuffer = none) (hnil : w.sao.m_cszFramebuffers = [])
    (hz : env.ZBITS = 16 ∨ env.ZBITS = 32) (hd : env.debug = true → 0 < W ∧ 0 < H) :
    ∃ w', resizeBuffers env W H w = .ok w' ∧
      w'.sao.m_cszBuffer = some (w.nextTexture + 2) ∧
      (w'.textures (w.nextTexture + 2)).format = csZFormat env ∧
      (w'.textures (w.nextTexture + 2)).settings.maxMipMap = MAX_MIP_LEVEL := by
  have hcond : ¬ (env.debug = true ∧ ¬ (W > 0 ∧ H > 0)) := fun h => h.2 (hd h.1)
  have hz' : ¬ ¬ (env.ZBITS = 16 ∨ env.ZBITS = 32) := not_not.mpr hz
  simp only [resizeBuffers, enter_sao, hnone, hz', hcond, if_false]
  refine Exists.imp (fun w' hw' => ⟨hw'.1, ?_⟩)
    (allocateLoops_ok _ w.nextFramebuffer (w.nextFramebuffer + 1) w.nextTexture
      (w.nextTexture + 1) (w.nextTexture + 2) ?_ ?_ ?_ ?_ ?_ ?_ ?_ ?_)
  · obtain ⟨-, hA, hB, hs, ht, hrd, hc, hcmd⟩ := hw'
    simp [World.createEmpty, World.createFramebuffer, World.setSao, World.enter] at hA hs ht
    have e3 : w.nextTexture + 1 + 1 = w.nextTexture + 2 := by omega
    rw [e3] at hA
    refine ⟨hA.cszBuffer, ?_, ?_⟩
    · simp [ht, e3]
    · simp [ht, e3]
  all_goals simp [World.createEmpty, World.createFramebuffer, World.setSao, World.enter, hnil]

theorem resizeTexture_format (env : Env) (w : World) (t u : Nat) (W H : Int) :
    ((w.resizeTexture env t W H).textures u).format = (w.textures u).format := by
  unfold World.resizeTexture
  by_cases h : u = t
  · subst h; simp
  · simp [Function.update_noteq h]

/-- A `resizeBuffers` call on an allocated buffer set returns and keeps the
format of every texture. -/
theorem resizeBuffers_keeps_format (env : Env) (W H : Int) (w : World)
    (rawFb hFb raw hBlurred csz : Nat) (fbs : List Nat)
    (ha : AllocatedAs w rawFb hFb raw hBlurred csz fbs) :
    ∃ w', resizeBuffers env W H w = .ok w' ∧ w'.sao.m_cszBuffer = some csz ∧
      ∀ t, (w'.textures t).format = (w.textures t).format := by
  by_cases hne : (w.textures raw).width ≠ W ∨ (w.textures raw).height ≠ H
  · have hA : AllocatedAs ((((w.enter (.resizeBuffers W H)).resizeTexture env raw W H).resizeTexture
        env hBlurred W H).resizeTexture env csz W H) rawFb hFb raw hBlurred csz fbs := by
      obtain ⟨c1, c2, c3, c4, c5, c6, c7, c8⟩ := ha
      exact ⟨c1, c2, c3, c4, c5, c6, c7, c8⟩
    obtain ⟨w', hw', hB, b1, b2, b3, b4, b5, b6, b7, _⟩ := rebindBuffers_ok _ _ _ _ _ _ _ hA
    refine ⟨w', ?_, ?_, ?_⟩
    · simp only [resizeBuffers, enter_sao, ha.rawAOFramebuffer, ha.rawAOBuffer, enter_textures, hne,
        if_true, resizeTexture_sao, ha.hBlurredBuffer, ha.cszBuffer]
      exact hw'
    · rw [b1]; exact ha.cszBuffer
    · intro t
      rw [b2]
      simp only [resizeTexture_format, enter_textures]
  · simp only [not_or, not_not] at hne
    exact ⟨_, resizeBuffers_same env W H w rawFb raw ha.rawAOFramebuffer ha.rawAOBuffer
      hne.1 hne.2, ha.cszBuffer, fun t => rfl⟩

theorem andThen_fault (P : Fault → Prop) (o : Outcome) (k : World → Outcome)
    (h1 : ∀ f, o.fault = some f → P f) (h2 : ∀ w1 f, (k w1).fault = some f → P f) :
    ∀ f, (o.andThen k).fault = some f → P f := by
  cases o with
  | ok w1 => exact h2 w1
  | abort f w1 => exact h1

theorem forLoop_fault (P : Fault → Prop) (body : Nat → World → Outcome)
    (hb : ∀ i w f, (body i w).fault = some f → P f) :
    ∀ (n lo : Nat) (w : World) (f : Fault), (forLoop body lo n w).fault = some f → P f := by
  intro n
  induction n with
  | zero => intro lo w f h; cases h
  | succ n ih =>
    intro lo w
    exact andThen_fault P _ _ (hb lo w) (fun w1 => ih (lo + 1) w1)

theorem rebindBuffers_fault (w : World) (f : Fault) (h : (rebindBuffers w).fault = some f)
    (m : String) : f ≠ .alwaysAssert m := by
  revert f
  unfold rebindBuffers
  split
  · intro f h; cases h; simp
  · simp only
    split
    · intro f h; cases h; simp
    · refine forLoop_fault (fun f => f ≠ .alwaysAssert m) _ ?_ _ _ _
      intro i w1 f
      unfold rebindCszFramebuffer
      split
      · intro h; cases h; simp
      · intro h; cases h

/-- With `ZBITS` 16 or 32 no outcome of `resizeBuffers` is a failed
`alwaysAssertM`. -/
theorem resizeBuffers_fault (env : Env) (W H : Int) (w : World)
    (hz : env.ZBITS = 16 ∨ env.ZBITS = 32) (m : String) :
    (resizeBuffers env W H w).fault ≠ some (.alwaysAssert m) := by
  have hz' : ¬ ¬ (env.ZBITS = 16 ∨ env.ZBITS = 32) := not_not.mpr hz
  intro h
  revert h
  generalize hf : Fault.alwaysAssert m = f0
  have key : ∀ f, (resizeBuffers env W H w).fault = some f → f ≠ .alwaysAssert m := by
    unfold resizeBuffers
    simp only [hz', if_false]
    split
    · split
      · intro f h; cases h; simp
      · refine andThen_fault (fun f => f ≠ .alwaysAssert m) _ _ ?_ ?_
        · refine forLoop_fault (fun f => f ≠ .alwaysAssert m) _ ?_ _ _ _
          intro i w1 f h; cases h
        · intro w1 f h; exact rebindBuffers_fault w1 f h m
    · split
      · intro f h; cases h; simp
      · split
        · split
          · intro f h; cases h; simp
          · split
            · intro f h; cases h; simp
            · intro f h; exact rebindBuffers_fault _ f h m
        · intro f h; cases h
  intro h
  exact key f0 h hf.symm

/-- With any other `ZBITS` the first `resizeBuffers` stops at the assertion,
after the two framebuffers and the two RGB8 targets were created and before
the pyramid buffer is. -/
theorem resizeBuffers_zbits_abort (env : Env) (W H : Int) (w : World)
    (hnone : w.sao.m_rawAOFramebuffer = none)
    (hz : ¬ (env.ZBITS = 16 ∨ env.ZBITS = 32)) :
    ∃ w', resizeBuffers env W H w =
        .abort (.alwaysAssert "Only ZBITS = 16 and 32 are supported.") w' ∧
      w'.sao.m_rawAOFramebuffer = some w.nextFramebuffer ∧
      w'.sao.m_hBlurredFramebuffer = some (w.nextFramebuffer + 1) ∧
      w'.sao.m_rawAOBuffer = some w.nextTexture ∧
      w'.sao.m_hBlurredBuffer = some (w.nextTexture + 1) ∧
      w'.sao.m_cszBuffer = w.sao.m_cszBuffer ∧
      w'.sao.m_cszFramebuffers = w.sao.m_cszFramebuffers ∧
      w'.nextTexture = w.nextTexture + 2 ∧
      (w'.textures w.nextTexture).format = .RGB8 ∧
      (w'.textures (w.nextTexture + 1)).format = .RGB8 ∧
      (∀ t, t ≠ w.nextTexture → t ≠ w.nextTexture + 1 → w'.textures t = w.textures t) := by
  simp only [resizeBuffers, enter_sao, hnone, hz, not_false_eq_true, if_true]
  refine ⟨_, rfl, ?_, ?_, ?_, ?_, ?_, ?_, ?_, ?_, ?_, ?_⟩
  all_goals try simp [World.createEmpty, World.createFramebuffer, World.setSao, World.enter]
  intro t h1 h2
  simp [World.createEmpty, World.createFramebuffer, World.setSao, World.enter,
    Function.update_noteq h1, Function.update_noteq h2]

/-! ## The state a failed `compute` leaves behind -/

theorem consistent_enter (w : World) (e : Call) (hc : Consistent w) : Consistent (w.enter e) := by
  obtain ⟨hs, hb⟩ := hc
  refine ⟨hs, ?_⟩
  rcases hb with h | ⟨rawFb, hFb, raw, hBlurred, csz, fbs, hA, hS, hB⟩
  · exact Or.inl h
  · exact Or.inr ⟨rawFb, hFb, raw, hBlurred, csz, fbs, allocatedAs_frame hA (enter_frame w e),
      sameSize_frame hS (enter_frame w e), bound_frame hB (enter_frame w e)⟩

/-- A `compute` that fails the `projScale` assertion stops with the buffer
set allocated, of one size and bound. -/
theorem compute_projScale_abort (env : Env) (d : Nat) (c : Vector3) (p : Vector4) (ps : ℚ)
    (g : Int) (w : World) (hc : Consistent w)
    (hfirst : w.sao.m_rawAOFramebuffer = none →
      (env.ZBITS = 16 ∨ env.ZBITS = 32) ∧
        (env.debug = true → 0 < (w.textures d).width ∧ 0 < (w.textures d).height))
    (hd : env.debug = true) (hps : ps ≤ 0) :
    ∃ w', compute env (some d) c p ps g w = .abort (.debugAssert "projScale > 0") w' ∧
      Consistent w' ∧ w'.sao.m_rawAOFramebuffer ≠ none := by
  obtain ⟨w3, h3, hs3, ⟨rawFb, hFb, raw, hBlurred, csz, fbs, hA, hS, hB, -, -⟩, -, -, -⟩ :=
    compute_to_rawAO env d c p ps g w hc hfirst
  have hc3 : Consistent w3 := ⟨Or.inr hs3, Or.inr ⟨_, _, _, _, _, _, hA, hS, hB⟩⟩
  refine ⟨w3.enter (.computeRawAO (some d) c p ps w3.sao.m_cszBuffer g), ?_,
    consistent_enter w3 _ hc3, ?_⟩
  · rw [h3]
    exact tail_abort env (some d) c p ps w3.sao.m_cszBuffer g w3 hd (not_lt.mpr hps)
  · rw [enter_sao, hA.rawAOFramebuffer]
    simp

/-- With an unsupported `ZBITS` the first `compute` stops inside
`resizeBuffers`, with the raw-AO framebuffer created and the pyramid missing. -/
theorem compute_zbits_abort (env : Env) (d : Nat) (c : Vector3) (p : Vector4) (ps : ℚ)
    (g : Int) (w : World) (hc : Consistent w) (hnone : w.sao.m_rawAOFramebuffer = none)
    (hz : ¬ (env.ZBITS = 16 ∨ env.ZBITS = 32)) :
    ∃ w', compute env (some d) c p ps g w =
        .abort (.alwaysAssert "Only ZBITS = 16 and 32 are supported.") w' ∧
      w'.sao.m_rawAOFramebuffer ≠ none ∧ w'.sao.m_cszFramebuffers = [] ∧
      ¬ Consistent w' := by
  obtain ⟨w1, hw1, hs1, hf1, ht1, hcmd1, hcalls1⟩ :=
    compute_shaders (Call.compute (some d) c p ps g) w hc
  have hnil : w.sao.m_cszFramebuffers = [] := by
    rcases hc.buffers with ⟨-, h⟩ | ⟨rawFb, hFb, raw, hBlurred, csz, fbs, hA, -, -⟩
    · exact h
    · rw [hA.rawAOFramebuffer] at hnone; cases hnone
  obtain ⟨w', h, a1, -, -, -, -, a6, -⟩ :=
    resizeBuffers_zbits_abort env (w.textures d).width (w.textures d).height
      w1 (by rw [hf1.rawAOFramebuffer]; exact hnone) hz
  have hfb : w'.sao.m_rawAOFramebuffer ≠ none := by rw [a1]; simp
  have hl : w'.sao.m_cszFramebuffers = [] := by rw [a6, hf1.cszFramebuffers, hnil]
  refine ⟨w', ?_, hfb, hl, ?_⟩
  · simp only [compute]
    rw [hw1, ht1, h]
    rfl
  · intro hc'
    rcases hc'.buffers with ⟨h0, -⟩ | ⟨rawFb, hFb, raw, hBlurred, csz, fbs, hA, -, -⟩
    · exact hfb h0
    · have := hA.length
      rw [← hA.cszFramebuffers, hl] at this
      simp [MAX_MIP_LEVEL] at this

/-! ## A completed `compute`, start to end -/

theorem consistent_reloadShaders (w : World) (hc : Consistent w) :
    Consistent (reloadShaders w) := by
  refine ⟨Or.inr (reloadShaders_loaded w), ?_⟩
  rcases hc.buffers with h | ⟨rawFb, hFb, raw, hBlurred, csz, fbs, hA, hS, hB⟩
  · exact Or.inl h
  · exact Or.inr ⟨rawFb, hFb, raw, hBlurred, csz, fbs,
      allocatedAs_frame hA (reloadShaders_frame w), sameSize_frame hS (reloadShaders_frame w),
      bound_frame hB (reloadShaders_frame w)⟩

/-- The pyramid buffer after `resizeBuffers`: the third texture created by a
first call, the one already held otherwise. -/
theorem resizeBuffers_cszBuffer (env : Env) (W H : Int) (w : World) (hc : Consistent w)
    (hfirst : w.sao.m_rawAOFramebuffer = none →
      (env.ZBITS = 16 ∨ env.ZBITS = 32) ∧ (env.debug = true → 0 < W ∧ 0 < H)) :
    ∃ w', resizeBuffers env W H w = .ok w' ∧
      w'.sao.m_cszBuffer =
        if w.sao.m_rawAOFramebuffer = none then some (w.nextTexture + 2)
        else w.sao.m_cszBuffer := by
  rcases hc.buffers with ⟨hnone, hnil⟩ | ⟨rawFb, hFb, raw, hBlurred, csz, fbs, hA, hS, hB⟩
  · obtain ⟨hz, hd⟩ := hfirst hnone
    obtain ⟨w', hw', a1, -⟩ := resizeBuffers_first env W H w hnone hnil hz hd
    exact ⟨w', hw', by rw [a1.cszBuffer, if_pos hnone]⟩
  · have hsome : ¬ w.sao.m_rawAOFramebuffer = none := by rw [hA.rawAOFramebuffer]; simp
    by_cases hne : (w.textures raw).width ≠ W ∨ (w.textures raw).height ≠ H
    · obtain ⟨w', hw', a1, -⟩ :=
        resizeBuffers_resize env W H w rawFb hFb raw hBlurred csz fbs hA hne
      exact ⟨w', hw', by rw [a1.cszBuffer, if_neg hsome, hA.cszBuffer]⟩
    · simp only [not_or, not_not] at hne
      exact ⟨_, resizeBuffers_same env W H w rawFb raw hA.rawAOFramebuffer hA.rawAOBuffer
        hne.1 hne.2, by rw [if_neg hsome]; rfl⟩

/-- A `compute` with valid arguments on a state with the class invariant:
what it logs and what it hands to the estimation program, with the pyramid
buffer named. -/
theorem compute_full (env : Env) (d : Nat) (c : Vector3) (p : Vector4) (ps : ℚ)
    (g : Int) (w : World) (hc : Consistent w)
    (hfirst : w.sao.m_rawAOFramebuffer = none →
      (env.ZBITS = 16 ∨ env.ZBITS = 32) ∧
        (env.debug = true → 0 < (w.textures d).width ∧ 0 < (w.textures d).height))
    (hps : env.debug = true → ps > 0) :
    ∃ w', compute env (some d) c p ps g w = .ok w' ∧
      w'.sao.m_cszBuffer =
        (if w.sao.m_rawAOFramebuffer = none then some (w.nextTexture + 2)
         else w.sao.m_cszBuffer) ∧
      w'.calls = w.calls ++ [.compute (some d) c p ps g] ++
        (if w.sao.m_blurShader.isNone then [.reloadShaders] else []) ++
        [.resizeBuffers (w.textures d).width (w.textures d).height, .computeCSZ (some d) c,
          .computeRawAO (some d) c p ps w'.sao.m_cszBuffer g, .blurHorizontal (some d) g,
          .blurVertical (some d) g] ∧
      (estimationDraws w'.commands).map estimationInputs =
        (estimationDraws w.commands).map estimationInputs ++
          [[some (.float w.sao.m_settings.radius), some (.float w.sao.m_settings.bias),
            some (.vector3 c), some (.vector4 p), some (.float ps),
            some (.texture w'.sao.m_cszBuffer),
            some (.float (w.sao.m_settings.intensity / w.sao.m_settings.radius ^ 6))]] := by
  obtain ⟨w', hw', -, -, hcalls, -⟩ := compute_ok env d c p ps g w hc hfirst hps
  obtain ⟨wi, hwi, hin⟩ := compute_inputs env d c p ps g w hc hfirst hps
  have ei : wi = w' := by rw [hw'] at hwi; exact (Outcome.ok.inj hwi).symm
  rw [ei] at hin
  refine ⟨w', hw', ?_, hcalls, hin⟩
  -- follow the pyramid buffer member through the stages
  obtain ⟨w1, hw1, hs1, hf1, ht1, -, -⟩ :=
    compute_shaders (Call.compute (some d) c p ps g) w hc
  have hc1 : Consistent w1 := by
    refine ⟨Or.inr hs1, ?_⟩
    rcases hc.buffers with ⟨a, b⟩ | ⟨rawFb, hFb, raw, hBlurred, csz, fbs, hA, hS, hB⟩
    · left; exact ⟨by rw [hf1.rawAOFramebuffer]; exact a, by rw [hf1.cszFramebuffers]; exact b⟩
    · right; exact ⟨_, _, _, _, _, _, allocatedAs_frame hA hf1, sameSize_frame hS hf1, bound_frame hB hf1⟩
  have hfirst1 : w1.sao.m_rawAOFramebuffer = none →
      (env.ZBITS = 16 ∨ env.ZBITS = 32) ∧
        (env.debug = true → 0 < (w.textures d).width ∧ 0 < (w.textures d).height) :=
    fun h => hfirst (by rw [← hf1.rawAOFramebuffer]; exact h)
  obtain ⟨w2, hw2, ⟨rawFb, hFb, raw, hBlurred, csz, fbs, hA, hS, hB, hW, hH⟩, hrf, -⟩ :=
    resizeBuffers_ok env (w.textures d).width (w.textures d).height w1 hc1 hfirst1
  obtain ⟨w2', hw2', hcsz2⟩ :=
    resizeBuffers_cszBuffer env (w.textures d).width (w.textures d).height w1 hc1 hfirst1
  have e2 : w2' = w2 := by rw [hw2] at hw2'; exact (Outcome.ok.inj hw2').symm
  rw [e2] at hcsz2
  have hs2 : ShadersLoaded w2.sao := by
    obtain ⟨a, b, c', d'⟩ := hs1
    exact ⟨by rw [hrf.rawAOShader]; exact a, by rw [hrf.blurShader]; exact b,
      by rw [hrf.reconstructCSZShader]; exact c', by rw [hrf.cszMinifyShader]; exact d'⟩
  obtain ⟨w3, hw3, hs3, hf3, -, -⟩ := computeCSZ_ok env (some d) c w2 hs2
    (by rw [hA.cszFramebuffers]; exact hA.length)
  obtain ⟨w4, hw4, -, hf4, -, -⟩ := tail_ok env (some d) c p ps w3.sao.m_cszBuffer g w3
    hs3 (by rw [(allocatedAs_frame hA hf3).rawAOFramebuffer]; rfl) hps
  have e4 : w4 = w' := by
    have h : compute env (some d) c p ps g w = .ok w4 := by
      simp only [compute]
      rw [hw1, ht1, hw2]
      simp only [Outcome.andThen, hw3]
      exact hw4
    rw [hw'] at h
    exact (Outcome.ok.inj h).symm
  rw [← e4, hf4.cszBuffer, hf3.cszBuffer, hcsz2, hf1.rawAOFramebuffer, hf1.nextTexture,
    hf1.cszBuffer]

/-! ## Textures that no pass can write -/

theorem notTarget_layout {w w' : World} {d : Nat} (hl : SameLayout w w') (h : NotTarget w d) :
    NotTarget w' d := by
  obtain ⟨a1, a2, a3, a4, a5, a6, a7, a8⟩ := h
  obtain ⟨b1, b2, b3, b4, b5, b6, b7, b8⟩ := hl
  refine ⟨?_, ?_, ?_, ?_, ?_, ?_, ?_, ?_⟩
  · rw [b1]; exact a1
  · rw [b4]; exact a2
  · rw [b5]; exact a3
  · rw [b6]; exact a4
  · rw [b3]; exact a5
  · rw [b3, b7]; exact a6
  · rw [b8, b2, b7]; exact a7
  · rw [b7, b2]; exact a8

theorem kept_layout {w w' : World} {d : Nat} {T : Texture} (hl : SameLayout w w')
    (ht : w'.textures d = w.textures d) (h : Kept d T w) : Kept d T w' :=
  ⟨notTarget_layout hl h.1, ht.trans h.2⟩

theorem writeColor_textures_at (w : World) (covers : Int → Int → Bool)
    (value : Int → Int → Color3) (d : Nat)
    (hcol : ∀ f a, (w.framebuffers f).color0 = some a → a.texture ≠ d) :
    (w.writeColor covers value).textures d = w.textures d := by
  unfold World.writeColor
  split
  · rfl
  · split
    · rfl
    · rename_i _ f hf _ a ha
      have hne : d ≠ a.texture := fun e => hcol f a ha e.symm
      simp [Function.update_noteq hne]

theorem writeDepth_textures_at (w : World) (covers : Int → Int → Bool)
    (value : Int → Int → Color3) (d : Nat)
    (hdep : ∀ f a, w.rd.state.framebuffer = some f → (w.framebuffers f).depth = some a →
      a.texture ≠ d) :
    (w.writeDepth covers value).textures d = w.textures d := by
  unfold World.writeDepth
  split
  · rfl
  · split
    · rfl
    · rename_i _ f hf _ a ha
      have hne : d ≠ a.texture := fun e => hdep f a hf ha e.symm
      simp [Function.update_noteq hne]

theorem clear_textures_at (w : World) (c dd s : Bool) (d : Nat)
    (hcol : ∀ f a, (w.framebuffers f).color0 = some a → a.texture ≠ d)
    (hdep : dd = true → ∀ f a, w.rd.state.framebuffer = some f →
      (w.framebuffers f).depth = some a → a.texture ≠ d) :
    (w.clear c dd s).textures d = w.textures d := by
  unfold World.clear
  cases c <;> cases dd <;> simp only [if_true, if_false, Bool.false_eq_true]
  · rw [writeDepth_textures_at _ _ _ _ (hdep rfl)]
  · rw [writeColor_textures_at _ _ _ _ hcol]
  · rw [writeDepth_textures_at, writeColor_textures_at _ _ _ _ hcol]
    intro f a hf ha
    rw [writeColor_state] at hf
    rw [writeColor_framebuffers] at ha
    exact hdep rfl f a hf ha

theorem applyRect_textures_at (env : Env) (w : World) (sh : Shader) (z : ℚ) (d : Nat)
    (hcol : ∀ f a, (w.framebuffers f).color0 = some a → a.texture ≠ d)
    (hdw : w.rd.state.depthWrite = false) :
    (w.applyRect env sh z).textures d = w.textures d := by
  unfold World.applyRect
  simp only [hdw, Bool.false_eq_true, if_false]
  rw [writeColor_textures_at _ _ _ _ hcol]

theorem kept_clear {w : World} {d : Nat} {T : Texture} (c dd s : Bool) (h : Kept d T w)
    (hdep : dd = true → ∀ f a, w.rd.state.framebuffer = some f →
      (w.framebuffers f).depth = some a → a.texture ≠ d) :
    Kept d T (w.clear c dd s) :=
  kept_layout (by constructor <;> simp) (clear_textures_at w c dd s d h.1.color0 hdep) h

theorem kept_applyRect {w : World} {d : Nat} {T : Texture} (env : Env) (sh : Shader) (z : ℚ)
    (h : Kept d T w) (hdw : w.rd.state.depthWrite = false) :
    Kept d T (w.applyRect env sh z) :=
  kept_layout (by constructor <;> simp) (applyRect_textures_at env w sh z d h.1.color0 hdw) h

theorem kept_pop2D {w : World} {d : Nat} {T : Texture} (h : Kept d T w) : Kept d T w.pop2D :=
  kept_layout (by constructor <;> simp) (by simp) h

theorem kept_enter {w : World} {d : Nat} {T : Texture} (c : Call) (h : Kept d T w) :
    Kept d T (w.enter c) :=
  @kept_layout w (w.enter c) d T (by constructor <;> rfl) rfl h

theorem kept_setState {w : World} {d : Nat} {T : Texture} (s : RenderState) (h : Kept d T w) :
    Kept d T (w.setState s) :=
  @kept_layout w (w.setState s) d T (by constructor <;> rfl) rfl h

theorem kept_push2DWith {w : World} {d : Nat} {T : Texture} (fb : Option Nat) (v : Rect2D)
    (h : Kept d T w) : Kept d T (w.push2DWith fb v) :=
  @kept_layout w (w.push2DWith fb v) d T (by constructor <;> rfl) rfl h

theorem push2DWith_depthWrite (w : World) (fb : Option Nat) (v : Rect2D) :
    (w.push2DWith fb v).rd.state.depthWrite = false := rfl

theorem push2DWith_framebuffer (w : World) (f : Nat) (v : Rect2D) :
    (w.push2DWith (some f) v).rd.state.framebuffer = some f := rfl

theorem kept_framebufferSet_color {w : World} {d : Nat} {T : Texture} (fb : Nat)
    (t : Option Nat) (mip : Nat) (h : Kept d T w) (ht : t ≠ some d) :
    Kept d T (w.framebufferSet fb .COLOR0 t mip) := by
  obtain ⟨⟨a1, a2, a3, a4, a5, a6, a7, a8⟩, hT⟩ := h
  refine ⟨⟨a1, a2, a3, a4, ?_, ?_, a7, a8⟩, hT⟩
  · intro f a
    simp only [framebufferSet_framebuffers]
    by_cases e : f = fb
    · subst e
      simp only [Function.update_same, Framebuffer.set]
      cases t with
      | none => simp
      | some t0 =>
        simp only [Option.map_some', Option.some.injEq]
        rintro rfl
        exact fun e => ht (by rw [← e])
    · rw [Function.update_noteq e]
      exact a5 f a
  · intro f a hf
    simp only [framebufferSet_framebuffers]
    by_cases e : f = fb
    · subst e
      simp only [Function.update_same, Framebuffer.set]
      exact a6 f a hf
    · rw [Function.update_noteq e]
      exact a6 f a hf

theorem kept_framebufferSet_depth {w : World} {d : Nat} {T : Texture} (fb : Nat)
    (t : Option Nat) (mip : Nat) (h : Kept d T w) (hfb : fb ∉ w.sao.m_cszFramebuffers) :
    Kept d T (w.framebufferSet fb .DEPTH t mip) := by
  obtain ⟨⟨a1, a2, a3, a4, a5, a6, a7, a8⟩, hT⟩ := h
  refine ⟨⟨a1, a2, a3, a4, ?_, ?_, a7, a8⟩, hT⟩
  · intro f a
    simp only [framebufferSet_framebuffers]
    by_cases e : f = fb
    · subst e
      simp only [Function.update_same, Framebuffer.set]
      exact a5 f a
    · rw [Function.update_noteq e]
      exact a5 f a
  · intro f a hf
    simp only [framebufferSet_framebuffers]
    have e : f ≠ fb := fun e => hfb (e ▸ hf)
    rw [Function.update_noteq e]
    exact a6 f a hf

theorem kept_resizeTexture {w : World} {d : Nat} {T : Texture} (env : Env) (t : Nat)
    (W H : Int) (h : Kept d T w) (ht : t ≠ d) : Kept d T (w.resizeTexture env t W H) := by
  refine kept_layout (by constructor <;> simp) ?_ h
  simp [World.resizeTexture, Function.update_noteq (Ne.symm ht)]

theorem kept_setSao {w : World} {d : Nat} {T : Texture} (m : Members) (h : Kept d T w)
    (h1 : m.m_rawAOBuffer ≠ some d) (h2 : m.m_hBlurredBuffer ≠ some d)
    (h3 : m.m_cszBuffer ≠ some d) (h4 : m.m_cszFramebuffers = w.sao.m_cszFramebuffers)
    (h5 : m.m_rawAOFramebuffer = w.sao.m_rawAOFramebuffer) : Kept d T (w.setSao m) := by
  obtain ⟨⟨a1, a2, a3, a4, a5, a6, a7, a8⟩, hT⟩ := h
  refine ⟨⟨a1, h1, h2, h3, a5, ?_, ?_, ?_⟩, hT⟩
  · intro f a hf
    exact a6 f a (by rw [← h4]; exact hf)
  · intro f hf
    simp only [setSao_sao, setSao_nextFramebuffer] at hf ⊢
    rw [h4]
    exact a7 f (by rw [← h5]; exact hf)
  · intro f hf
    exact a8 f (by rw [← h4]; exact hf)

/-- Replacing a shader member keeps the texture. -/
theorem kept_setShader {w : World} {d : Nat} {T : Texture} (m : Members) (h : Kept d T w)
    (h1 : m.m_rawAOBuffer = w.sao.m_rawAOBuffer) (h2 : m.m_hBlurredBuffer = w.sao.m_hBlurredBuffer)
    (h3 : m.m_cszBuffer = w.sao.m_cszBuffer) (h4 : m.m_cszFramebuffers = w.sao.m_cszFramebuffers)
    (h5 : m.m_rawAOFramebuffer = w.sao.m_rawAOFramebuffer) : Kept d T (w.setSao m) :=
  kept_setSao m h (by rw [h1]; exact h.1.rawAOBuffer) (by rw [h2]; exact h.1.hBlurredBuffer)
    (by rw [h3]; exact h.1.cszBuffer) h4 h5

theorem kept_createEmpty {w : World} {d : Nat} {T : Texture} (env : Env) (n : String)
    (W H : Int) (f : ImageFormat) (ts : TextureSettings) (h : Kept d T w) :
    Kept d T (w.createEmpty env n W H f ts) := by
  obtain ⟨⟨a1, a2, a3, a4, a5, a6, a7, a8⟩, hT⟩ := h
  refine ⟨⟨?_, a2, a3, a4, a5, a6, a7, a8⟩, ?_⟩
  · simp only [createEmpty_nextTexture]; omega
  · have hne : d ≠ w.nextTexture := by omega
    simp [World.createEmpty, Function.update_noteq hne, hT]

theorem kept_createFramebuffer {w : World} {d : Nat} {T : Texture} (n : String)
    (h : Kept d T w) : Kept d T (w.createFramebuffer n) := by
  obtain ⟨⟨a1, a2, a3, a4, a5, a6, a7, a8⟩, hT⟩ := h
  refine ⟨⟨a1, a2, a3, a4, ?_, ?_, ?_, ?_⟩, hT⟩
  · intro f a
    simp only [createFramebuffer_framebuffers]
    by_cases e : f = w.nextFramebuffer
    · subst e; simp
    · rw [Function.update_noteq e]; exact a5 f a
  · intro f a hf
    simp only [createFramebuffer_framebuffers]
    have e : f ≠ w.nextFramebuffer := by
      have := a8 f hf
      omega
    rw [Function.update_noteq e]; exact a6 f a hf
  · intro f hf
    simp only [createFramebuffer_nextFramebuffer]
    have := a7 f hf
    exact ⟨by omega, this.2⟩
  · intro f hf
    simp only [createFramebuffer_nextFramebuffer]
    have := a8 f hf
    omega

theorem kept_createRawFramebuffer {w : World} {d : Nat} {T : Texture} (n : String)
    (h : Kept d T w) :
    Kept d T ((w.createFramebuffer n).setSao
      { w.sao with m_rawAOFramebuffer := some w.nextFramebuffer }) := by
  obtain ⟨⟨a1, a2, a3, a4, a5, a6, a7, a8⟩, hT⟩ := kept_createFramebuffer n h
  refine ⟨⟨a1, a2, a3, a4, a5, a6, ?_, a8⟩, hT⟩
  intro f hf
  simp only [setSao_sao, Option.some.injEq] at hf
  subst hf
  simp only [setSao_nextFramebuffer, createFramebuffer_nextFramebuffer, setSao_sao]
  refine ⟨by omega, fun hmem => ?_⟩
  have := h.1.pyramidBelow _ hmem
  omega

theorem kept_appendCszFramebuffer {w : World} {d : Nat} {T : Texture} (i : Nat)
    (h : Kept d T w) : Kept d T (appendCszFramebuffer i w).world := by
  obtain ⟨⟨a1, a2, a3, a4, a5, a6, a7, a8⟩, hT⟩ := kept_createFramebuffer
    ("cszFramebuffers[" ++ toString i ++ "]") h
  simp only [appendCszFramebuffer, Outcome.world]
  refine ⟨⟨a1, a2, a3, a4, a5, ?_, ?_, ?_⟩, hT⟩
  · intro f a hf
    simp only [setSao_sao, List.mem_append, List.mem_singleton] at hf
    rcases hf with hf | rfl
    · exact a6 f a hf
    · simp [World.createFramebuffer]
  · intro f hf
    simp only [setSao_sao] at hf
    simp only [setSao_nextFramebuffer, createFramebuffer_nextFramebuffer, setSao_sao,
      List.mem_append, List.mem_singleton, not_or]
    have := h.1.rawAOFramebuffer f hf
    exact ⟨by omega, this.2, by omega⟩
  · intro f hf
    simp only [setSao_sao, List.mem_append, List.mem_singleton] at hf
    simp only [setSao_nextFramebuffer, createFramebuffer_nextFramebuffer]
    rcases hf with hf | rfl
    · have := h.1.pyramidBelow f hf
      omega
    · omega

theorem kept_rebindCszFramebuffer {w : World} {d : Nat} {T : Texture} (i : Nat)
    (h : Kept d T w) : Kept d T (rebindCszFramebuffer i w).world := by
  unfold rebindCszFramebuffer
  split
  · exact h
  · exact kept_framebufferSet_color _ _ _ h h.1.cszBuffer

theorem rebindBuffers_kept {w : World} {d : Nat} {T : Texture} (h : Kept d T w) :
    Kept d T (rebindBuffers w).world := by
  unfold rebindBuffers
  split
  · exact h
  · simp only
    have h1 := kept_framebufferSet_color (by assumption) w.sao.m_rawAOBuffer 0 h h.1.rawAOBuffer
    split
    · exact h1
    · refine forLoop_inv _ (Kept d T) (fun i w1 h1 => kept_rebindCszFramebuffer i h1) _ _ _ ?_
      exact kept_framebufferSet_color _ _ _ h1 h.1.hBlurredBuffer

theorem kept_createHFramebuffer {w : World} {d : Nat} {T : Texture} (n : String)
    (h : Kept d T w) :
    Kept d T ((w.createFramebuffer n).setSao
      { w.sao with m_hBlurredFramebuffer := some w.nextFramebuffer }) :=
  kept_setShader _ (kept_createFramebuffer n h) rfl rfl rfl rfl rfl

theorem kept_createRawBuffer {w : World} {d : Nat} {T : Texture} (env : Env) (n : String)
    (W H : Int) (f : ImageFormat) (ts : TextureSettings) (h : Kept d T w) :
    Kept d T ((w.createEmpty env n W H f ts).setSao
      { w.sao with m_rawAOBuffer := some w.nextTexture }) := by
  have hne : some w.nextTexture ≠ some d := by
    have := h.1.below
    simp only [ne_eq, Option.some.injEq]; omega
  exact kept_setSao _ (kept_createEmpty env n W H f ts h) hne h.1.hBlurredBuffer h.1.cszBuffer
    rfl rfl

theorem kept_createHBuffer {w : World} {d : Nat} {T : Texture} (env : Env) (n : String)
    (W H : Int) (f : ImageFormat) (ts : TextureSettings) (h : Kept d T w) :
    Kept d T ((w.createEmpty env n W H f ts).setSao
      { w.sao with m_hBlurredBuffer := some w.nextTexture }) := by
  have hne : some w.nextTexture ≠ some d := by
    have := h.1.below
    simp only [ne_eq, Option.some.injEq]; omega
  exact kept_setSao _ (kept_createEmpty env n W H f ts h) h.1.rawAOBuffer hne h.1.cszBuffer
    rfl rfl

theorem kept_createCszBuffer {w : World} {d : Nat} {T : Texture} (env : Env) (n : String)
    (W H : Int) (f : ImageFormat) (ts : TextureSettings) (h : Kept d T w) :
    Kept d T ((w.createEmpty env n W H f ts).setSao
      { w.sao with m_cszBuffer := some w.nextTexture }) := by
  have hne : some w.nextTexture ≠ some d := by
    have := h.1.below
    simp only [ne_eq, Option.some.injEq]; omega
  exact kept_setSao _ (kept_createEmpty env n W H f ts h) h.1.rawAOBuffer h.1.hBlurredBuffer hne
    rfl rfl

/-- No outcome of `resizeBuffers` touches a texture that is no target. -/
theorem resizeBuffers_kept {w : World} {d : Nat} {T : Texture} (env : Env) (W H : Int)
    (h : Kept d T w) : Kept d T (resizeBuffers env W H w).world := by
  have h0 := kept_enter (.resizeBuffers W H) h
  unfold resizeBuffers
  simp only
  split
  · have h1 := kept_createRawFramebuffer "rawAOFramebuffer" h0
    have h2 := kept_createHFramebuffer "hBlurredFramebuffer" h1
    have h3 := kept_createRawBuffer env "rawAOBuffer" W H .RGB8 .buffer h2
    have h4 := kept_createHBuffer env "hBlurredBuffer" W H .RGB8 .buffer h3
    split
    · exact h4
    · split
      · exact h4
      · have h5 := kept_createCszBuffer env "cszBuffer" W H (csZFormat env)
          { TextureSettings.buffer with interpolateMode := .NEAREST_MIPMAP,
                                        maxMipMap := MAX_MIP_LEVEL } h4
        exact andThen_inv (Kept d T) _ _
          (forLoop_inv _ (Kept d T) (fun i w1 h1 => kept_appendCszFramebuffer i h1) _ _ _ h5)
          (fun w1 h1 => rebindBuffers_kept h1)
  · split
    · exact h0
    · rename_i raw hraw
      have hr : raw ≠ d := fun e => h0.1.rawAOBuffer (by rw [hraw, e])
      split
      · have h1 := kept_resizeTexture env raw W H h0 hr
        split
        · exact h1
        · rename_i hb hhb
          have hh : hb ≠ d := fun e => h1.1.hBlurredBuffer (by rw [hhb, e])
          have h2 := kept_resizeTexture env hb W H h1 hh
          split
          · exact h2
          · rename_i csz hcsz
            have hc : csz ≠ d := fun e => h2.1.cszBuffer (by rw [hcsz, e])
            exact rebindBuffers_kept (kept_resizeTexture env csz W H h2 hc)
      · exact h0

theorem kept_push2D {w : World} {d : Nat} {T : Texture} (fb : Option Nat) (h : Kept d T w) :
    Kept d T (w.push2D fb) :=
  kept_push2DWith fb _ h

theorem kept_push2DCurrent {w : World} {d : Nat} {T : Texture} (h : Kept d T w) :
    Kept d T w.push2DCurrent :=
  kept_push2DWith _ _ h

theorem kept_setDepthTest {w : World} {d : Nat} {T : Texture} (t : DepthTest)
    (h : Kept d T w) : Kept d T (w.setDepthTest t) :=
  kept_setState _ h

theorem kept_setColorClearValue {w : World} {d : Nat} {T : Texture} (c : Color3)
    (h : Kept d T w) : Kept d T (w.setColorClearValue c) :=
  kept_setState _ h

theorem kept_setClip2D {w : World} {d : Nat} {T : Texture} (r : Rect2D)
    (h : Kept d T w) : Kept d T (w.setClip2D r) :=
  kept_setState _ h

theorem push2D_depthWrite (w : World) (fb : Option Nat) :
    (w.push2D fb).rd.state.depthWrite = false := rfl

theorem push2DCurrent_depthWrite (w : World) :
    w.push2DCurrent.rd.state.depthWrite = false := rfl

theorem kept_clear_pyramid {w : World} {d : Nat} {T : Texture} (fb : Nat)
    (h : Kept d T w) (hmem : fb ∈ w.sao.m_cszFramebuffers) :
    Kept d T ((w.push2D (some fb)).clear true true true) := by
  refine kept_clear true true true (kept_push2D (some fb) h) ?_
  intro _ f a hf ha
  have e : f = fb := by
    have : (some fb : Option Nat) = some f := hf
    exact (Option.some.inj this).symm
  subst e
  exact h.1.pyramidDepth f a hmem ha

theorem minifyLevel_kept {w : World} {d : Nat} {T : Texture} (env : Env) (i : Nat)
    (h : Kept d T w) : Kept d T (minifyLevel env i w).world := by
  unfold minifyLevel
  split
  · exact h
  · simp only
    rename_i sh hsh
    have h1 : Kept d T (w.setSao { w.sao with
        m_cszMinifyShader := some (sh.set "texture" (.texture w.sao.m_cszBuffer)) }) :=
      kept_setShader _ h rfl rfl rfl rfl rfl
    split
    · exact h1
    · rename_i fb hfb
      have h3 := kept_clear_pyramid fb h1 (List.getElem?_mem hfb)
      exact kept_pop2D (kept_applyRect env _ _
        (kept_setShader _ h3 (by simp) (by simp) (by simp) (by simp) (by simp))
        (by simp [push2D_depthWrite]))

theorem computeCSZ_kept {w : World} {d : Nat} {T : Texture} (env : Env) (dd : Option Nat)
    (c : Vector3) (h : Kept d T w) : Kept d T (computeCSZ env dd c w).world := by
  have h0 := kept_enter (.computeCSZ dd c) h
  unfold computeCSZ
  simp only
  split
  · exact h0
  · rename_i fb hfb
    have h3 := kept_clear_pyramid fb h0 (List.getElem?_mem hfb)
    split
    · exact h3
    · refine forLoop_inv _ (Kept d T) (fun i w1 h1 => minifyLevel_kept env i h1) _ _ _ ?_
      exact kept_pop2D (kept_applyRect env _ _
        (kept_setShader _ h3 (by simp) (by simp) (by simp) (by simp) (by simp))
        (by simp [push2D_depthWrite]))

theorem computeRawAO_kept {w : World} {d : Nat} {T : Texture} (env : Env) (dd : Option Nat)
    (c : Vector3) (p : Vector4) (ps : ℚ) (csz : Option Nat) (g : Int) (h : Kept d T w) :
    Kept d T (computeRawAO env dd c p ps csz g w).world := by
  have h0 := kept_enter (.computeRawAO dd c p ps csz g) h
  unfold computeRawAO
  simp only
  split
  · exact h0
  · split
    · exact h0
    · rename_i rawFb hraw
      have hout : rawFb ∉ (w.enter (.computeRawAO dd c p ps csz g)).sao.m_cszFramebuffers :=
        (h0.1.rawAOFramebuffer rawFb hraw).2
      have h1 := kept_framebufferSet_depth rawFb dd 0 h0 hout
      have h4 := kept_clear true false false
        (kept_setColorClearValue Color3.white
          (kept_setDepthTest .DEPTH_GREATER (kept_push2D (some rawFb) h1)))
        (by intro e; cases e)
      split
      · exact h4
      · exact kept_pop2D (kept_applyRect env _ _
          (kept_setClip2D _
            (kept_setShader _ h4 (by simp) (by simp) (by simp) (by simp) (by simp)))
          (by simp [push2D_depthWrite]))

theorem blurHorizontal_kept {w : World} {d : Nat} {T : Texture} (env : Env) (dd : Option Nat)
    (g : Int) (h : Kept d T w) : Kept d T (blurHorizontal env dd g w).world := by
  have h0 := kept_enter (.blurHorizontal dd g) h
  unfold blurHorizontal
  simp only
  have h4 := kept_clear true false false
    (kept_setColorClearValue Color3.white
      (kept_push2D (w.enter (.blurHorizontal dd g)).sao.m_hBlurredFramebuffer h0))
    (by intro e; cases e)
  split
  · exact h4
  · exact kept_pop2D (kept_applyRect env _ _
      (kept_setClip2D _
        (kept_setShader _ h4 (by simp) (by simp) (by simp) (by simp) (by simp)))
      (by simp [push2D_depthWrite]))

theorem blurVertical_kept {w : World} {d : Nat} {T : Texture} (env : Env) (dd : Option Nat)
    (g : Int) (h : Kept d T w) : Kept d T (blurVertical env dd g w).world := by
  have h0 := kept_enter (.blurVertical dd g) h
  unfold blurVertical
  simp only
  have h4 := kept_clear true false false
    (kept_setColorClearValue Color3.white (kept_push2DCurrent h0))
    (by intro e; cases e)
  split
  · exact h4
  · exact kept_pop2D (kept_applyRect env _ _
      (kept_setClip2D _
        (kept_setShader _ h4 (by simp) (by simp) (by simp) (by simp) (by simp)))
      (by simp [push2DCurrent_depthWrite]))

theorem reloadShaders_kept {w : World} {d : Nat} {T : Texture} (h : Kept d T w) :
    Kept d T (reloadShaders w) :=
  @kept_layout w (reloadShaders w) d T (by constructor <;> rfl) rfl h

/-- No outcome of `compute` touches a texture that is no target. -/
theorem compute_kept {w : World} {d : Nat} {T : Texture} (env : Env) (dd : Option Nat)
    (c : Vector3) (p : Vector4) (ps : ℚ) (g : Int) (h : Kept d T w) :
    Kept d T (compute env dd c p ps g w).world := by
  have h0 := kept_enter (.compute dd c p ps g) h
  cases dd with
  | none => exact h0
  | some depth =>
    unfold compute
    simp only
    have h1 : Kept d T (if (w.enter (.compute (some depth) c p ps g)).sao.m_blurShader.isNone = true
          then reloadShaders (w.enter (.compute (some depth) c p ps g))
          else w.enter (.compute (some depth) c p ps g)) := by
      split
      · exact reloadShaders_kept h0
      · exact h0
    refine andThen_inv (Kept d T) _ _ (resizeBuffers_kept env _ _ h1) ?_
    intro w1 k1
    refine andThen_inv (Kept d T) _ _ (computeCSZ_kept env _ c k1) ?_
    intro w2 k2
    refine andThen_inv (Kept d T) _ _ (computeRawAO_kept env _ c p ps _ g k2) ?_
    intro w3 k3
    exact andThen_inv (Kept d T) _ _ (blurHorizontal_kept env _ g k3)
      (fun w4 k4 => blurVertical_kept env _ g k4)

theorem computeCamera_kept {w : World} {d : Nat} {T : Texture} (env : Env) (dd : Option Nat)
    (cam : GCamera) (g : Int) (h : Kept d T w) :
    Kept d T (computeCamera env dd cam g w).world := by
  cases dd with
  | none => exact h
  | some depth =>
    simp only [computeCamera]
    exact compute_kept env _ _ _ _ g h

/-- What the estimation pass submits: with the depth buffer attached as DEPTH
of the raw-AO framebuffer, one colour-only clear and one draw, both with depth
writing off and the draw under the depth test `DEPTH_GREATER`. -/
theorem computeRawAO_commands (env : Env) (d : Option Nat) (c : Vector3) (p : Vector4) (ps : ℚ)
    (csz : Option Nat) (g : Int) (w : World) (rawFb : Nat) (hs : ShadersLoaded w.sao)
    (hfb : w.sao.m_rawAOFramebuffer = some rawFb) (hps : env.debug = true → ps > 0) :
    ∃ w' st sh, computeRawAO env d c p ps csz g w = .ok w' ∧
      w'.commands = w.commands ++
        [.clear st true false false,
         .applyRect { st with clip2D := Rect2D.xyxy g g (st.viewport.width - g)
                                          (st.viewport.height - g) } sh Z_COORD] ∧
      st.framebuffer = some rawFb ∧ st.depthWrite = false ∧ st.depthTest = .DEPTH_GREATER ∧
      st.colorClearValue = Color3.white ∧
      (w'.framebuffers rawFb).depth = d.map (fun t => ⟨t, 0⟩) := by
  obtain ⟨⟨s1, h1, p1⟩, -, -, -⟩ := hs
  have hcond : ¬ (env.debug = true ∧ ¬ ps > 0) := fun h => h.2 (hps h.1)
  simp only [computeRawAO, hcond, if_false, enter_sao, hfb, World.push2D, setSao_sao, clear_sao,
    push2DWith_sao, framebufferSet_sao, setDepthTest_sao, setColorClearValue_sao, h1]
  refine ⟨_, ⟨some rawFb,
      ((w.enter (.computeRawAO d c p ps csz g)).framebufferSet rawFb .DEPTH d 0).rect2DBounds rawFb,
      ((w.enter (.computeRawAO d c p ps csz g)).framebufferSet rawFb .DEPTH d 0).rect2DBounds rawFb,
      .DEPTH_GREATER, false, Color3.white⟩,
    ((((((s1.set "radius" (.float w.sao.m_settings.radius)).set "bias"
      (.float w.sao.m_settings.bias)).set "clipInfo" (.vector3 c)).set "projInfo"
      (.vector4 p)).set "projScale" (.float ps)).set "CS_Z_buffer" (.texture csz)).set
      "intensityDivR6" (.float (w.sao.m_settings.intensity / w.sao.m_settings.radius ^ 6)),
    rfl, ?_, rfl, rfl, rfl, rfl, ?_⟩
  · simp [guardBandClip]
    refine ⟨⟨?_, ?_, ?_, ?_⟩, ?_, ?_, ?_, ?_⟩ <;> rfl
  · simp [Framebuffer.set]

/-! ## The claims, continued -/

/-- C11 fails as stated for the unsupported precision: with `ZBITS` 8 the
first `compute` on a new instance stops at the precision assertion with the
raw-AO framebuffer and raw-AO buffer created but no pyramid buffer and no
pyramid framebuffers, which is neither the unallocated nor the allocated state
of the class invariant; a following `compute` from that state, in the same
build or in a build with `ZBITS` 32, stops in `computeCSZ` at
`m_cszFramebuffers[0]`. -/
theorem C11_partial_allocation_counterexample :
    Consistent demoWorld ∧
    (compute demoEnv8 (some 0) ⟨100, 99, -100⟩ ⟨1, 1, 1, 1⟩ 500 1 demoWorld).fault =
      some (.alwaysAssert "Only ZBITS = 16 and 32 are supported.") ∧
    (compute demoEnv8 (some 0) ⟨100, 99, -100⟩ ⟨1, 1, 1, 1⟩ 500 1
      demoWorld).world.sao.m_rawAOFramebuffer = some 1 ∧
    (compute demoEnv8 (some 0) ⟨100, 99, -100⟩ ⟨1, 1, 1, 1⟩ 500 1
      demoWorld).world.sao.m_rawAOBuffer = some 2 ∧
    (compute demoEnv8 (some 0) ⟨100, 99, -100⟩ ⟨1, 1, 1, 1⟩ 500 1
      demoWorld).world.sao.m_cszBuffer = none ∧
    (compute demoEnv8 (some 0) ⟨100, 99, -100⟩ ⟨1, 1, 1, 1⟩ 500 1
      demoWorld).world.sao.m_cszFramebuffers = [] ∧
    ¬ Consistent (compute demoEnv8 (some 0) ⟨100, 99, -100⟩ ⟨1, 1, 1, 1⟩ 500 1
      demoWorld).world ∧
    (compute demoEnv8 (some 0) ⟨100, 99, -100⟩ ⟨1, 1, 1, 1⟩ 500 1
      (compute demoEnv8 (some 0) ⟨100, 99, -100⟩ ⟨1, 1, 1, 1⟩ 500 1 demoWorld).world).fault =
      some (.arrayBounds 0) ∧
    (compute demoEnv (some 0) ⟨100, 99, -100⟩ ⟨1, 1, 1, 1⟩ 500 1
      (compute demoEnv8 (some 0) ⟨100, 99, -100⟩ ⟨1, 1, 1, 1⟩ 500 1 demoWorld).world).fault =
      some (.arrayBounds 0) := by
  refine ⟨consistent_new demoWorld rfl, rfl, rfl, rfl, rfl, rfl, ?_, rfl, rfl⟩
  obtain ⟨w', h, -, -, hn⟩ := compute_zbits_abort demoEnv8 0 ⟨100, 99, -100⟩ ⟨1, 1, 1, 1⟩ 500 1
    demoWorld (consistent_new demoWorld rfl) rfl (by decide)
  rw [h]
  exact hn

/-- C11, as the code has it: from a state satisfying the class invariant, a
`compute` with a null depth buffer stops at its assertion with the members of
the instance as they were, and (in a build with `debugAssert`) a `compute` with
`projScale <= 0` and otherwise valid arguments stops at the assertion of
`computeRawAO` with the buffer set allocated; both leave the class invariant in
force (unallocated or allocated, never in between), and from every state with
the class invariant a `compute` with valid arguments runs all five stages and
returns.  With an unsupported `ZBITS` the first `compute` stops inside
`resizeBuffers` with the raw-AO framebuffer created and the pyramid missing,
which breaks the class invariant. -/
theorem C11_failed_compute_state (env : Env) (c : Vector3) (p : Vector4) (g : Int) (w : World)
    (hc : Consistent w) :
    (∀ ps, ∃ w', compute env none c p ps g w =
        .abort (.alwaysAssert "Depth buffer is required.") w' ∧
      w'.sao = w.sao ∧ Consistent w') ∧
    (∀ (d : Nat) (ps : ℚ), env.debug = true → ps ≤ 0 →
      (w.sao.m_rawAOFramebuffer = none →
        (env.ZBITS = 16 ∨ env.ZBITS = 32) ∧
          (env.debug = true → 0 < (w.textures d).width ∧ 0 < (w.textures d).height)) →
      ∃ w', compute env (some d) c p ps g w = .abort (.debugAssert "projScale > 0") w' ∧
        Consistent w' ∧ w'.sao.m_rawAOFramebuffer ≠ none) ∧
    (∀ (w' : World) (d' : Nat) (c' : Vector3) (p' : Vector4) (ps' : ℚ) (g' : Int),
      Consistent w' →
      (w'.sao.m_rawAOFramebuffer = none →
        (env.ZBITS = 16 ∨ env.ZBITS = 32) ∧
          (env.debug = true → 0 < (w'.textures d').width ∧ 0 < (w'.textures d').height)) →
      (env.debug = true → ps' > 0) →
      ∃ w'', compute env (some d') c' p' ps' g' w' = .ok w'' ∧ Consistent w'' ∧
        w''.calls = w'.calls ++ [.compute (some d') c' p' ps' g'] ++
          (if w'.sao.m_blurShader.isNone then [.reloadShaders] else []) ++
          [.resizeBuffers (w'.textures d').width (w'.textures d').height,
            .computeCSZ (some d') c',
            .computeRawAO (some d') c' p' ps' w''.sao.m_cszBuffer g',
            .blurHorizontal (some d') g', .blurVertical (some d') g']) ∧
    (∀ (d : Nat) (ps : ℚ), ¬ (env.ZBITS = 16 ∨ env.ZBITS = 32) →
      w.sao.m_rawAOFramebuffer = none →
      ∃ w', compute env (some d) c p ps g w =
          .abort (.alwaysAssert "Only ZBITS = 16 and 32 are supported.") w' ∧
        w'.sao.m_rawAOFramebuffer ≠ none ∧ w'.sao.m_cszFramebuffers = [] ∧
        ¬ Consistent w') := by
  refine ⟨fun ps => ⟨_, rfl, rfl, consistent_enter w _ hc⟩, ?_, ?_, ?_⟩
  · intro d ps hd hps hfirst
    exact compute_projScale_abort env d c p ps g w hc hfirst hd hps
  · intro w' d' c' p' ps' g' hc' hfirst hps
    obtain ⟨w'', h1, h2, -, h4, -⟩ := compute_ok env d' c' p' ps' g' w' hc' hfirst hps
    exact ⟨w'', h1, h2, h4⟩
  · intro d ps hz hnone
    exact compute_zbits_abort env d c p ps g w hc hnone hz

theorem C11_failed_compute_state_witness :
    Consistent demoWorld ∧
    ∃ w', compute demoEnv (some 0) ⟨100, 99, -100⟩ ⟨1, 1, 1, 1⟩ 0 1 demoWorld =
        .abort (.debugAssert "projScale > 0") w' ∧
      Consistent w' ∧ w'.sao.m_rawAOFramebuffer ≠ none :=
  ⟨consistent_new demoWorld rfl,
    (C11_failed_compute_state demoEnv ⟨100, 99, -100⟩ ⟨1, 1, 1, 1⟩ 1 demoWorld
      (consistent_new demoWorld rfl)).2.1 0 0 rfl (le_refl 0)
      (fun _ => ⟨Or.inr rfl, fun _ => ⟨by decide, by decide⟩⟩)⟩

/-- C12: on the first allocation (nothing allocated yet, sizes accepted by the
debug assertion), for every capability set, `resizeBuffers` returns with the
pyramid buffer in this format: with `ZBITS` 32, R32F if it is supported, else
L32F if that is supported, else RG32F; with `ZBITS` 16, R16F if supported, else
L16F.  A later `resizeBuffers` on an allocated buffer set, whatever the sizes
and the capabilities then, keeps the pyramid buffer object and its format. -/
theorem C12_pyramid_format (env : Env) (W H : Int) (w : World)
    (hnone : w.sao.m_rawAOFramebuffer = none) (hnil : w.sao.m_cszFramebuffers = [])
    (hd : env.debug = true → 0 < W ∧ 0 < H) :
    (env.ZBITS = 32 → ∃ w' csz, resizeBuffers env W H w = .ok w' ∧
      w'.sao.m_cszBuffer = some csz ∧
      (w'.textures csz).format =
        (if env.supportsTextureDrawBuffer .R32F = true then .R32F
         else if env.supportsTextureDrawBuffer .L32F = true then .L32F
         else .RG32F)) ∧
    (env.ZBITS = 16 → ∃ w' csz, resizeBuffers env W H w = .ok w' ∧
      w'.sao.m_cszBuffer = some csz ∧
      (w'.textures csz).format =
        (if env.supportsTextureDrawBuffer .R16F = true then .R16F else .L16F)) ∧
    (∀ (env2 : Env) (w2 : World) (rawFb hFb raw hBlurred csz : Nat) (fbs : List Nat)
        (W2 H2 : Int), AllocatedAs w2 rawFb hFb raw hBlurred csz fbs →
      ∃ w'', resizeBuffers env2 W2 H2 w2 = .ok w'' ∧ w''.sao.m_cszBuffer = some csz ∧
        (w''.textures csz).format = (w2.textures csz).format) := by
  refine ⟨fun hz => ?_, fun hz => ?_, ?_⟩
  · obtain ⟨w', h1, h2, h3, -⟩ :=
      resizeBuffers_first_format env W H w hnone hnil (Or.inr hz) hd
    refine ⟨w', _, h1, h2, ?_⟩
    rw [h3]
    have h16 : ¬ env.ZBITS = 16 := by rw [hz]; decide
    simp only [csZFormat, h16, if_false]
  · obtain ⟨w', h1, h2, h3, -⟩ :=
      resizeBuffers_first_format env W H w hnone hnil (Or.inl hz) hd
    refine ⟨w', _, h1, h2, ?_⟩
    rw [h3]
    simp only [csZFormat, hz, if_true]
  · intro env2 w2 rawFb hFb raw hBlurred csz fbs W2 H2 ha
    obtain ⟨w'', h1, h2, h3⟩ :=
      resizeBuffers_keeps_format env2 W2 H2 w2 rawFb hFb raw hBlurred csz fbs ha
    exact ⟨w'', h1, h2, h3 csz⟩

theorem C12_pyramid_format_witness :
    demoWorld.sao.m_rawAOFramebuffer = none ∧ demoWorld.sao.m_cszFramebuffers = [] ∧
    (demoEnv.debug = true → (0 : Int) < 4 ∧ (0 : Int) < 4) ∧
    ∃ w' csz, resizeBuffers demoEnv 4 4 demoWorld = .ok w' ∧
      w'.sao.m_cszBuffer = some csz ∧
      (w'.textures csz).format =
        (if demoEnv.supportsTextureDrawBuffer .R32F = true then .R32F
         else if demoEnv.supportsTextureDrawBuffer .L32F = true then .L32F
         else .RG32F) :=
  ⟨rfl, rfl, fun _ => ⟨by decide, by decide⟩,
    (C12_pyramid_format demoEnv 4 4 demoWorld rfl rfl (fun _ => ⟨by decide, by decide⟩)).1 rfl⟩

/-- C13: for every `ZBITS` other than 16 and 32 the first `resizeBuffers` call
(on an instance whose raw-AO framebuffer is still null) stops at the fatal
assertion "Only ZBITS = 16 and 32 are supported."; the pyramid buffer member
and the pyramid framebuffer array are as before, the only textures created are
the two RGB8 targets, and every other texture is unchanged, so no pyramid
format was put to use.  For `ZBITS` 16 or 32, and so for the shipped 32, no
outcome of `resizeBuffers` in any state is a failed `alwaysAssertM`.  (The
expression for the format, evaluated before the assertion, has no effect; for
such a `ZBITS` its value is that of the 32-bit chain and reaches no object.) -/
theorem C13_zbits_assertion (env : Env) (W H : Int) (w : World) :
    (¬ (env.ZBITS = 16 ∨ env.ZBITS = 32) → w.sao.m_rawAOFramebuffer = none →
      ∃ w', resizeBuffers env W H w =
          .abort (.alwaysAssert "Only ZBITS = 16 and 32 are supported.") w' ∧
        w'.sao.m_cszBuffer = w.sao.m_cszBuffer ∧
        w'.sao.m_cszFramebuffers = w.sao.m_cszFramebuffers ∧
        w'.nextTexture = w.nextTexture + 2 ∧
        (w'.textures w.nextTexture).format = .RGB8 ∧
        (w'.textures (w.nextTexture + 1)).format = .RGB8 ∧
        (∀ t, t ≠ w.nextTexture → t ≠ w.nextTexture + 1 → w'.textures t = w.textures t)) ∧
    ((env.ZBITS = 16 ∨ env.ZBITS = 32) →
      ∀ m, (resizeBuffers env W H w).fault ≠ some (.alwaysAssert m)) ∧
    (env.ZBITS = ZBITS → ∀ m, (resizeBuffers env W H w).fault ≠ some (.alwaysAssert m)) ∧
    (¬ env.ZBITS = 16 → csZFormat env =
      (if env.supportsTextureDrawBuffer .R32F = true then .R32F
       else if env.supportsTextureDrawBuffer .L32F = true then .L32F
       else .RG32F)) := by
  refine ⟨fun hz hnone => ?_, fun hz m => resizeBuffers_fault env W H w hz m,
    fun hz m => resizeBuffers_fault env W H w (Or.inr hz) m,
    fun hz => by simp only [csZFormat, hz, if_false]⟩
  obtain ⟨w', h, -, -, -, -, a5, a6, a7, a8, a9, a10⟩ :=
    resizeBuffers_zbits_abort env W H w hnone hz
  exact ⟨w', h, a5, a6, a7, a8, a9, a10⟩

theorem C13_zbits_assertion_witness :
    ¬ (demoEnv8.ZBITS = 16 ∨ demoEnv8.ZBITS = 32) ∧ demoWorld.sao.m_rawAOFramebuffer = none ∧
    (∃ w', resizeBuffers demoEnv8 4 4 demoWorld =
        .abort (.alwaysAssert "Only ZBITS = 16 and 32 are supported.") w' ∧
      w'.sao.m_cszBuffer = demoWorld.sao.m_cszBuffer ∧
      w'.sao.m_cszFramebuffers = demoWorld.sao.m_cszFramebuffers ∧
      w'.nextTexture = demoWorld.nextTexture + 2 ∧
      (w'.textures demoWorld.nextTexture).format = .RGB8 ∧
      (w'.textures (demoWorld.nextTexture + 1)).format = .RGB8 ∧
      (∀ t, t ≠ demoWorld.nextTexture → t ≠ demoWorld.nextTexture + 1 →
        w'.textures t = demoWorld.textures t)) :=
  ⟨by decide, rfl, (C13_zbits_assertion demoEnv8 4 4 demoWorld).1 (by decide) rfl⟩

/-- C14: in every state reached from a newly created instance by public calls
(`setRadius`, `setBias`, `setIntensity`, both `compute` overloads,
`reloadShaders`) that did not abort, `radius()` is positive and its sixth
power is not zero: the created instance has a positive radius, `setRadius(r)`
stops at its assertion for every `r <= 0` with the state as it was, and no
other call, completed or aborted, changes the radius. -/
theorem C14_radius_positive (env : Env) (w0 w : World) (h0 : w0.sao = create)
    (h : Runs env w0 w) :
    0 < radius w0 ∧ 0 < radius w ∧ radius w ^ 6 ≠ 0 ∧
    (∀ r : ℚ, r ≤ 0 →
      setRadius r w = .abort (.alwaysAssert "Radius must be non-negative") w) ∧
    (∀ a : Action, (∀ r, a ≠ .setRadius r) → radius (a.run env w).world = radius w) := by
  have hpos0 : 0 < radius w0 := by
    simp only [radius, h0, create, Members.new, Settings.new]
    norm_num
  have hpos : 0 < radius w := runs_radius_pos env w0 w hpos0 h
  refine ⟨hpos0, hpos, pow_ne_zero 6 (ne_of_gt hpos), ?_, fun a ha => run_radius env a w ha⟩
  intro r hr
  simp [setRadius, not_lt.mpr hr]

theorem C14_radius_positive_witness :
    demoWorld.sao = create ∧ Runs demoEnv demoWorld (reloadShaders demoWorld) ∧
    (0 < radius demoWorld ∧ 0 < radius (reloadShaders demoWorld) ∧
      radius (reloadShaders demoWorld) ^ 6 ≠ 0 ∧
      (∀ r : ℚ, r ≤ 0 → setRadius r (reloadShaders demoWorld) =
        .abort (.alwaysAssert "Radius must be non-negative") (reloadShaders demoWorld)) ∧
      (∀ a : Action, (∀ r, a ≠ .setRadius r) →
        radius (a.run demoEnv (reloadShaders demoWorld)).world =
          radius (reloadShaders demoWorld))) :=
  ⟨rfl, Runs.step .reloadShaders (Runs.refl demoWorld) rfl,
    C14_radius_positive demoEnv demoWorld (reloadShaders demoWorld) rfl
      (Runs.step .reloadShaders (Runs.refl demoWorld) rfl)⟩

/-- C15 fails as stated: `setBias` stores any value, so after `setBias(-1)` on
a new instance the bias held is negative, and the next `compute` hands -1 to
the estimation program. -/
theorem C15_bias_counterexample :
    ∃ w1 w2, demoWorld.sao = create ∧ setBias (-1) demoWorld = .ok w1 ∧ bias w1 < 0 ∧
      compute demoEnv (some 0) ⟨100, 99, -100⟩ ⟨1, 1, 1, 1⟩ 500 1 w1 = .ok w2 ∧
      (estimationDraws w2.commands).map (fun sh => sh.args "bias") = [some (.float (-1))] := by
  obtain ⟨w2, h2, e2⟩ := compute_bias demoEnv 0 ⟨100, 99, -100⟩ ⟨1, 1, 1, 1⟩ 500 1
    (demoWorld.setSao { demoWorld.sao with m_settings := { demoWorld.sao.m_settings with bias := -1 } })
    (consistent_settings demoWorld _ (consistent_new demoWorld rfl))
    (fun _ => ⟨Or.inr rfl, fun _ => ⟨by decide, by decide⟩⟩) (fun _ => by norm_num)
  refine ⟨_, w2, rfl, rfl, ?_, h2, ?_⟩
  · simp only [bias, World.setSao]
    norm_num
  · simpa [demoWorld, estimationDraws, bias, World.setSao] using e2

/-- C15, as the code has it: a new instance holds the bias 0.012; `setBias(b)`
stores every `b` unchecked, also a negative one; any other public call leaves
the bias as it is; and a completed `compute` hands the bias held to the
estimation program.  So the bias held and passed on is the default or the value
last given to `setBias`, and it is `>= 0` exactly when that value is. -/
theorem C15_bias_as_last_set (env : Env) (w : World) :
    create.m_settings.bias = 12 / 1000 ∧
    (∀ b : ℚ, ∃ w', setBias b w = .ok w' ∧ bias w' = b) ∧
    (∀ a : Action, bias (a.run env w).world =
      match a with
      | .setBias b => b
      | _ => bias w) ∧
    (∀ (d : Nat) (c : Vector3) (p : Vector4) (ps : ℚ) (g : Int), Consistent w →
      (w.sao.m_rawAOFramebuffer = none →
        (env.ZBITS = 16 ∨ env.ZBITS = 32) ∧
          (env.debug = true → 0 < (w.textures d).width ∧ 0 < (w.textures d).height)) →
      (env.debug = true → ps > 0) →
      ∃ w', compute env (some d) c p ps g w = .ok w' ∧
        (estimationDraws w'.commands).map (fun sh => sh.args "bias") =
          (estimationDraws w.commands).map (fun sh => sh.args "bias") ++
            [some (.float (bias w))]) :=
  ⟨rfl, fun _ => ⟨_, rfl, rfl⟩, fun a => run_bias env a w,
    fun d c p ps g hc hfirst hps => compute_bias env d c p ps g w hc hfirst hps⟩

theorem C15_bias_as_last_set_witness :
    Consistent demoWorld ∧
    ∃ w', compute demoEnv (some 0) ⟨100, 99, -100⟩ ⟨1, 1, 1, 1⟩ 500 1 demoWorld = .ok w' ∧
      (estimationDraws w'.commands).map (fun sh => sh.args "bias") =
        (estimationDraws demoWorld.commands).map (fun sh => sh.args "bias") ++
          [some (.float (bias demoWorld))] :=
  ⟨consistent_new demoWorld rfl,
    (C15_bias_as_last_set demoEnv demoWorld).2.2.2 0 ⟨100, 99, -100⟩ ⟨1, 1, 1, 1⟩ 500 1
      (consistent_new demoWorld rfl) (fun _ => ⟨Or.inr rfl, fun _ => ⟨by decide, by decide⟩⟩)
      (fun _ => by norm_num)⟩

/-- C16: a newly created instance (`SAO::create`, no setter called) has
`radius()` equal to 1.0, the value in the constructor of `Settings`, and not
the 0.20 of the comment on `setRadius`. -/
theorem C16_default_radius :
    (∀ w : World, radius (w.setSao create) = 1) ∧
    (∀ w : World, radius (w.setSao create) ≠ 20 / 100) ∧
    demoWorld.sao = create ∧ radius demoWorld = 1 := by
  refine ⟨fun w => rfl, fun w => ?_, rfl, rfl⟩
  simp only [radius, World.setSao, create, Members.new, Settings.new]
  norm_num

/-- C17: `reloadShaders`, in any state, submits no clear and no draw, logs no
call but its own, leaves every texture, every framebuffer, the allocation
counters and the render device as they were, and changes no member of the
instance but the four shader handles, so the settings and the buffer set are
unchanged.  A `compute` with valid arguments after the reload logs the same
stages with the same arguments, and hands the same seven inputs to the
estimation program, as the same `compute` without the reload. -/
theorem C17_reloadShaders_only_shaders (env : Env) (w : World) :
    ((reloadShaders w).commands = w.commands ∧
      (reloadShaders w).calls = w.calls ++ [.reloadShaders] ∧
      (reloadShaders w).textures = w.textures ∧
      (reloadShaders w).framebuffers = w.framebuffers ∧
      (reloadShaders w).nextTexture = w.nextTexture ∧
      (reloadShaders w).nextFramebuffer = w.nextFramebuffer ∧
      (reloadShaders w).rd = w.rd ∧
      ∃ s1 s2 s3 s4, (reloadShaders w).sao =
        { w.sao with m_rawAOShader := some s1, m_blurShader := some s2,
                     m_reconstructCSZShader := some s3, m_cszMinifyShader := some s4 }) ∧
    (∀ (d : Nat) (c : Vector3) (p : Vector4) (ps : ℚ) (g : Int), Consistent w →
      (w.sao.m_rawAOFramebuffer = none →
        (env.ZBITS = 16 ∨ env.ZBITS = 32) ∧
          (env.debug = true → 0 < (w.textures d).width ∧ 0 < (w.textures d).height)) →
      (env.debug = true → ps > 0) →
      ∃ w1 w2 csz,
        compute env (some d) c p ps g w = .ok w1 ∧
        compute env (some d) c p ps g (reloadShaders w) = .ok w2 ∧
        w1.calls = w.calls ++ [.compute (some d) c p ps g] ++
          (if w.sao.m_blurShader.isNone then [.reloadShaders] else []) ++
          [.resizeBuffers (w.textures d).width (w.textures d).height, .computeCSZ (some d) c,
            .computeRawAO (some d) c p ps csz g, .blurHorizontal (some d) g,
            .blurVertical (some d) g] ∧
        w2.calls = w.calls ++ [.reloadShaders, .compute (some d) c p ps g] ++
          [.resizeBuffers (w.textures d).width (w.textures d).height, .computeCSZ (some d) c,
            .computeRawAO (some d) c p ps csz g, .blurHorizontal (some d) g,
            .blurVertical (some d) g] ∧
        (estimationDraws w1.commands).map estimationInputs =
          (estimationDraws w.commands).map estimationInputs ++
            [[some (.float w.sao.m_settings.radius), some (.float w.sao.m_settings.bias),
              some (.vector3 c), some (.vector4 p), some (.float ps), some (.texture csz),
              some (.float (w.sao.m_settings.intensity / w.sao.m_settings.radius ^ 6))]] ∧
        (estimationDraws w2.commands).map estimationInputs =
          (estimationDraws w.commands).map estimationInputs ++
            [[some (.float w.sao.m_settings.radius), some (.float w.sao.m_settings.bias),
              some (.vector3 c), some (.vector4 p), some (.float ps), some (.texture csz),
              some (.float (w.sao.m_settings.intensity / w.sao.m_settings.radius ^ 6))]]) := by
  refine ⟨⟨rfl, rfl, rfl, rfl, rfl, rfl, rfl, _, _, _, _, rfl⟩, ?_⟩
  intro d c p ps g hc hfirst hps
  obtain ⟨w1, h1, c1, l1, i1⟩ := compute_full env d c p ps g w hc hfirst hps
  obtain ⟨w2, h2, c2, l2, i2⟩ := compute_full env d c p ps g (reloadShaders w)
    (consistent_reloadShaders w hc) hfirst hps
  have e : w2.sao.m_cszBuffer = w1.sao.m_cszBuffer := by rw [c2, c1]; rfl
  refine ⟨w1, w2, w1.sao.m_cszBuffer, h1, h2, l1, ?_, i1, ?_⟩
  · rw [l2, e]
    simp [reloadShaders]
  · rw [i2, e]
    rfl

theorem C17_reloadShaders_only_shaders_witness :
    Consistent demoWorld ∧
    ∃ w1 w2 csz,
      compute demoEnv (some 0) ⟨100, 99, -100⟩ ⟨1, 1, 1, 1⟩ 500 1 demoWorld = .ok w1 ∧
      compute demoEnv (some 0) ⟨100, 99, -100⟩ ⟨1, 1, 1, 1⟩ 500 1 (reloadShaders demoWorld) =
        .ok w2 ∧
      w1.calls = demoWorld.calls ++ [.compute (some 0) ⟨100, 99, -100⟩ ⟨1, 1, 1, 1⟩ 500 1] ++
        (if demoWorld.sao.m_blurShader.isNone then [.reloadShaders] else []) ++
        [.resizeBuffers (demoWorld.textures 0).width (demoWorld.textures 0).height,
          .computeCSZ (some 0) ⟨100, 99, -100⟩,
          .computeRawAO (some 0) ⟨100, 99, -100⟩ ⟨1, 1, 1, 1⟩ 500 csz 1,
          .blurHorizontal (some 0) 1, .blurVertical (some 0) 1] ∧
      w2.calls = demoWorld.calls ++
        [.reloadShaders, .compute (some 0) ⟨100, 99, -100⟩ ⟨1, 1, 1, 1⟩ 500 1] ++
        [.resizeBuffers (demoWorld.textures 0).width (demoWorld.textures 0).height,
          .computeCSZ (some 0) ⟨100, 99, -100⟩,
          .computeRawAO (some 0) ⟨100, 99, -100⟩ ⟨1, 1, 1, 1⟩ 500 csz 1,
          .blurHorizontal (some 0) 1, .blurVertical (some 0) 1] ∧
      (estimationDraws w1.commands).map estimationInputs =
        (estimationDraws demoWorld.commands).map estimationInputs ++
          [[some (.float demoWorld.sao.m_settings.radius),
            some (.float demoWorld.sao.m_settings.bias),
            some (.vector3 ⟨100, 99, -100⟩), some (.vector4 ⟨1, 1, 1, 1⟩), some (.float 500),
            some (.texture csz),
            some (.float (demoWorld.sao.m_settings.intensity /
              demoWorld.sao.m_settings.radius ^ 6))]] ∧
      (estimationDraws w2.commands).map estimationInputs =
        (estimationDraws demoWorld.commands).map estimationInputs ++
          [[some (.float demoWorld.sao.m_settings.radius),
            some (.float demoWorld.sao.m_settings.bias),
            some (.vector3 ⟨100, 99, -100⟩), some (.vector4 ⟨1, 1, 1, 1⟩), some (.float 500),
            some (.texture csz),
            some (.float (demoWorld.sao.m_settings.intensity /
              demoWorld.sao.m_settings.radius ^ 6))]] :=
  ⟨consistent_new demoWorld rfl,
    (C17_reloadShaders_only_shaders demoEnv demoWorld).2 0 ⟨100, 99, -100⟩ ⟨1, 1, 1, 1⟩ 500 1
      (consistent_new demoWorld rfl) (fun _ => ⟨Or.inr rfl, fun _ => ⟨by decide, by decide⟩⟩)
      (fun _ => by norm_num)⟩

/-- C18: for every `compute` call (both overloads, whatever the outcome), a
depth buffer that is the caller's own texture (allocated before the call, not
one of the three targets of the instance, COLOR0 of no framebuffer, DEPTH of no
pyramid framebuffer) is after the call the texture object it was before, texel
for texel, and it is still no target, so the same holds for the next call.
The estimation pass attaches it as DEPTH of the raw-AO framebuffer, clears
with `clear(true, false, false)` and draws with depth writing off under the
test `DEPTH_GREATER`. -/
theorem C18_depth_buffer_unchanged (env : Env) (d : Nat) (c : Vector3) (p : Vector4) (ps : ℚ)
    (g : Int) (w : World) (h : NotTarget w d) :
    ((compute env (some d) c p ps g w).world.textures d = w.textures d ∧
      NotTarget (compute env (some d) c p ps g w).world d) ∧
    (∀ cam : GCamera, (computeCamera env (some d) cam g w).world.textures d = w.textures d ∧
      NotTarget (computeCamera env (some d) cam g w).world d) ∧
    (∀ (csz : Option Nat) (rawFb : Nat), ShadersLoaded w.sao →
      w.sao.m_rawAOFramebuffer = some rawFb → (env.debug = true → ps > 0) →
      ∃ w' st sh, computeRawAO env (some d) c p ps csz g w = .ok w' ∧
        w'.commands = w.commands ++
          [.clear st true false false,
           .applyRect { st with clip2D := Rect2D.xyxy g g (st.viewport.width - g)
                                            (st.viewport.height - g) } sh Z_COORD] ∧
        st.framebuffer = some rawFb ∧ st.depthWrite = false ∧
        st.depthTest = .DEPTH_GREATER ∧
        (w'.framebuffers rawFb).depth = some ⟨d, 0⟩ ∧
        w'.textures d = w.textures d) := by
  have hk : Kept d (w.textures d) w := ⟨h, rfl⟩
  refine ⟨?_, fun cam => ?_, ?_⟩
  · have := compute_kept env (some d) c p ps g hk
    exact ⟨this.2, this.1⟩
  · have := computeCamera_kept env (some d) cam g hk
    exact ⟨this.2, this.1⟩
  · intro csz rawFb hs hfb hps
    obtain ⟨w', st, sh, h1, h2, h3, h4, h5, -, h7⟩ :=
      computeRawAO_commands env (some d) c p ps csz g w rawFb hs hfb hps
    have hk' := computeRawAO_kept env (some d) c p ps csz g hk
    rw [h1] at hk'
    exact ⟨w', st, sh, h1, h2, h3, h4, h5, h7, hk'.2⟩

theorem C18_depth_buffer_unchanged_witness :
    NotTarget demoWorld 0 ∧
    ((compute demoEnv (some 0) ⟨100, 99, -100⟩ ⟨1, 1, 1, 1⟩ 500 1 demoWorld).world.textures 0 =
        demoWorld.textures 0 ∧
      NotTarget (compute demoEnv (some 0) ⟨100, 99, -100⟩ ⟨1, 1, 1, 1⟩ 500 1 demoWorld).world 0) :=
  have h : NotTarget demoWorld 0 :=
    ⟨by decide, by simp [demoWorld, Members.new], by simp [demoWorld, Members.new],
      by simp [demoWorld, Members.new],
      fun f a hf => by
        have e : a = ⟨1, 0⟩ := (Option.some.inj hf).symm
        rw [e]; decide,
      fun f a hf _ => by simp [demoWorld, Members.new] at hf,
      fun f hf => by simp [demoWorld, Members.new] at hf,
      fun f hf => by simp [demoWorld, Members.new] at hf⟩
  ⟨h, (C18_depth_buffer_unchanged demoEnv 0 ⟨100, 99, -100⟩ ⟨1, 1, 1, 1⟩ 500 1 demoWorld h).1⟩

/-- C19 fails as stated: in a 4x4 viewport the guard band 3 is not below half
of the width, yet the clip rectangle `xyxy(3, 3, 1, 1)` has width 2 and height
2 and contains pixel (1, 1): `xyxy` orders the corners. -/
theorem C19_clip_counterexample :
    (0 : Int) ≤ 3 ∧ demoWorld.rd.state.viewport.width = 4 ∧
    demoWorld.rd.state.viewport.height = 4 ∧
    guardBandClip demoWorld 3 = Rect2D.xyxy 3 3 (4 - 3) (4 - 3) ∧
    0 < (guardBandClip demoWorld 3).width ∧ 0 < (guardBandClip demoWorld 3).height ∧
    (guardBandClip demoWorld 3).contains 1 1 = true ∧
    ¬ ((2 : Int) * 3 < 4 ∧ (2 : Int) * 3 < 4) := by
  decide

/-- C19, as the code has it: for every guard band `g` and viewport of width
`W` and height `H` the clip rectangle `xyxy(g, g, W-g, H-g)` of the estimation
and blur passes has width `|W - 2g|` and height `|H - 2g|`; both are strictly
positive exactly when `2g` differs from `W` and from `H`, in particular when
`2g < W` and `2g < H`, where the rectangle is `[g, W-g) x [g, H-g)`; it is
empty when `2g` equals `W` or `H`, and never inverted. -/
theorem C19_clip_rectangle (w : World) (g : Int) :
    (guardBandClip w g).width = |w.rd.state.viewport.width - 2 * g| ∧
    (guardBandClip w g).height = |w.rd.state.viewport.height - 2 * g| ∧
    ((0 < (guardBandClip w g).width ∧ 0 < (guardBandClip w g).height) ↔
      (2 * g ≠ w.rd.state.viewport.width ∧ 2 * g ≠ w.rd.state.viewport.height)) ∧
    ((2 * g < w.rd.state.viewport.width ∧ 2 * g < w.rd.state.viewport.height) →
      0 < (guardBandClip w g).width ∧ 0 < (guardBandClip w g).height ∧
      guardBandClip w g =
        ⟨g, g, w.rd.state.viewport.width - g, w.rd.state.viewport.height - g⟩) ∧
    ((guardBandClip w g).x0 ≤ (guardBandClip w g).x1 ∧
      (guardBandClip w g).y0 ≤ (guardBandClip w g).y1) := by
  exact clip_shape g _ _

/-- C20: `Scene::toAny` returns its source `Any` unchanged for every scene:
the entity table it builds is never stored in the result.  For the demo scene,
whose entity has moved since loading, the entry `entities` of the result is
still the loaded table and differs from the table of the current entities. -/
theorem C20_toAny_returns_source :
    (∀ s : Scene, s.toAny = s.m_sourceAny) ∧
    demoScene.entityTable = .table [("box", .text "position = (1, 0, 0)")] ∧
    demoScene.toAny.get? "entities" =
      some (.table [("box", .text "position = (0, 0, 0)")]) ∧
    demoScene.toAny.get? "entities" ≠ some demoScene.entityTable := by
  have h1 : demoScene.entityTable = .table [("box", .text "position = (1, 0, 0)")] := by
    simp [demoScene, Scene.entityTable, Any.set]
  have h2 : demoScene.toAny.get? "entities" =
      some (.table [("box", .text "position = (0, 0, 0)")]) := by
    simp [demoScene, Scene.toAny, Any.get?]
  refine ⟨fun s => rfl, h1, h2, ?_⟩
  rw [h1, h2]
  simp

/-! ## What each pass submits and what it leaves in the instance -/

theorem draws_append (a b : List Command) : draws (a ++ b) = draws a ++ draws b := by
  induction a with
  | nil => rfl
  | cons c rest ih =>
    cases c with
    | clear st c1 d1 s1 => simpa [draws] using ih
    | applyRect st sh z => simp [draws, ih]

/-- The horizontal blur: one colour-only clear to white and one draw of the
blur program on the intermediate framebuffer, with the raw-AO buffer as source
and axis (1, 0); only the blur shader member changes. -/
theorem blurHorizontal_effect (env : Env) (d : Option Nat) (g : Int) (w : World) (hFb : Nat)
    (hs : ShadersLoaded w.sao) (hfb : w.sao.m_hBlurredFramebuffer = some hFb) :
    ∃ w' st sh, blurHorizontal env d g w = .ok w' ∧
      w'.commands = w.commands ++
        [.clear st true false false,
         .applyRect { st with clip2D := Rect2D.xyxy g g (st.viewport.width - g)
                                          (st.viewport.height - g) } sh Z_COORD] ∧
      st.framebuffer = some hFb ∧ st.viewport = w.rect2DBounds hFb ∧
      st.depthWrite = false ∧ st.colorClearValue = Color3.white ∧
      sh.pixelFile = "SAO_blur.pix" ∧
      sh.args "source" = some (.texture w.sao.m_rawAOBuffer) ∧
      sh.args "axis" = some (.vector2int16 1 0) ∧
      w'.sao = { w.sao with m_blurShader := some sh } ∧
      w'.framebuffers = w.framebuffers := by
  obtain ⟨-, ⟨s2, h2, p2⟩, -, -⟩ := hs
  simp only [blurHorizontal, enter_sao, hfb, World.push2D, setSao_sao, clear_sao,
    push2DWith_sao, setColorClearValue_sao, h2]
  refine ⟨_, ⟨some hFb, w.rect2DBounds hFb, w.rect2DBounds hFb, .DEPTH_ALWAYS_PASS, false,
      Color3.white⟩,
    (s2.set "source" (.texture w.sao.m_rawAOBuffer)).set "axis" (.vector2int16 1 0),
    rfl, ?_, rfl, rfl, rfl, rfl, ?_, ?_, ?_, ?_, ?_⟩
  · simp [guardBandClip]
    refine ⟨⟨?_, ?_, ?_, ?_, ?_⟩, ?_, ?_, ?_, ?_, ?_⟩ <;> rfl
  · simp [Shader.set, p2]
  · simp [Shader.set]
  · simp [Shader.set]
  · simp
  · simp

/-- The vertical blur: one colour-only clear to white and one draw of the
blur program on the framebuffer that is bound on entry, in the viewport of the
caller, with the intermediate buffer as source and axis (0, 1). -/
theorem blurVertical_effect (env : Env) (d : Option Nat) (g : Int) (w : World)
    (hs : ShadersLoaded w.sao) :
    ∃ w' st sh, blurVertical env d g w = .ok w' ∧
      w'.commands = w.commands ++
        [.clear st true false false,
         .applyRect { st with clip2D := Rect2D.xyxy g g (st.viewport.width - g)
                                          (st.viewport.height - g) } sh Z_COORD] ∧
      st.framebuffer = w.rd.state.framebuffer ∧ st.viewport = w.rd.state.viewport ∧
      st.depthWrite = false ∧ st.colorClearValue = Color3.white ∧
      sh.pixelFile = "SAO_blur.pix" ∧
      sh.args "source" = some (.texture w.sao.m_hBlurredBuffer) ∧
      sh.args "axis" = some (.vector2int16 0 1) ∧
      w'.sao = { w.sao with m_blurShader := some sh } ∧
      w'.framebuffers = w.framebuffers := by
  obtain ⟨-, ⟨s2, h2, p2⟩, -, -⟩ := hs
  simp only [blurVertical, enter_sao, World.push2DCurrent, setSao_sao, clear_sao,
    push2DWith_sao, setColorClearValue_sao, h2]
  refine ⟨_, { (w.push2DWith w.rd.state.framebuffer w.rd.state.viewport).rd.state with
      colorClearValue := Color3.white },
    (s2.set "source" (.texture w.sao.m_hBlurredBuffer)).set "axis" (.vector2int16 0 1),
    rfl, ?_, ?_, rfl, rfl, rfl, ?_, ?_, ?_, ?_, ?_⟩
  · simp [guardBandClip]
    refine ⟨⟨?_, ?_, ?_, ?_, ?_⟩, ?_, ?_, ?_, ?_, ?_⟩ <;> rfl
  · cases h : w.rd.state.framebuffer <;> simp [World.push2DWith, h]
  · simp [Shader.set, p2]
  · simp [Shader.set]
  · simp [Shader.set]
  · simp
  · simp

theorem rect2DBounds_congr (w w' : World) (fb : Nat) (hf : w'.framebuffers = w.framebuffers)
    (hw : ∀ t, (w'.textures t).width = (w.textures t).width)
    (hh : ∀ t, (w'.textures t).height = (w.textures t).height) :
    w'.rect2DBounds fb = w.rect2DBounds fb := by
  unfold World.rect2DBounds
  rw [hf]
  split <;> simp [hw, hh]

theorem rect2DBounds_color0 (w : World) (fb t l : Nat)
    (h : (w.framebuffers fb).color0 = some ⟨t, l⟩) :
    w.rect2DBounds fb = Rect2D.xywh 0 0 (w.textures t).width (w.textures t).height := by
  unfold World.rect2DBounds
  rw [h]

/-- The estimation pass: the depth buffer becomes DEPTH of the raw-AO
framebuffer, then one colour-only clear to white and one draw of the estimation
program at `Z_COORD` under `DEPTH_GREATER` with depth writing off; only the
estimation shader member changes. -/
theorem computeRawAO_effect (env : Env) (d : Option Nat) (c : Vector3) (p : Vector4) (ps : ℚ)
    (csz : Option Nat) (g : Int) (w : World) (rawFb : Nat) (hs : ShadersLoaded w.sao)
    (hfb : w.sao.m_rawAOFramebuffer = some rawFb) (hps : env.debug = true → ps > 0) :
    ∃ w' st sh, computeRawAO env d c p ps csz g w = .ok w' ∧
      w'.commands = w.commands ++
        [.clear st true false false,
         .applyRect { st with clip2D := Rect2D.xyxy g g (st.viewport.width - g)
                                          (st.viewport.height - g) } sh Z_COORD] ∧
      st.framebuffer = some rawFb ∧
      st.viewport = (w.framebufferSet rawFb .DEPTH d 0).rect2DBounds rawFb ∧
      st.depthWrite = false ∧ st.depthTest = .DEPTH_GREATER ∧
      st.colorClearValue = Color3.white ∧
      sh.pixelFile = "SAO_AO.pix" ∧
      estimationInputs sh =
        [some (.float w.sao.m_settings.radius), some (.float w.sao.m_settings.bias),
          some (.vector3 c), some (.vector4 p), some (.float ps), some (.texture csz),
          some (.float (w.sao.m_settings.intensity / w.sao.m_settings.radius ^ 6))] ∧
      w'.sao = { w.sao with m_rawAOShader := some sh } ∧
      w'.framebuffers =
        Function.update w.framebuffers rawFb ((w.framebuffers rawFb).set .DEPTH d 0) := by
  obtain ⟨⟨s1, h1, p1⟩, -, -, -⟩ := hs
  have hcond : ¬ (env.debug = true ∧ ¬ ps > 0) := fun h => h.2 (hps h.1)
  simp only [computeRawAO, hcond, if_false, enter_sao, hfb, World.push2D, setSao_sao, clear_sao,
    push2DWith_sao, framebufferSet_sao, setDepthTest_sao, setColorClearValue_sao, h1]
  refine ⟨_, ⟨some rawFb,
      ((w.enter (.computeRawAO d c p ps csz g)).framebufferSet rawFb .DEPTH d 0).rect2DBounds rawFb,
      ((w.enter (.computeRawAO d c p ps csz g)).framebufferSet rawFb .DEPTH d 0).rect2DBounds rawFb,
      .DEPTH_GREATER, false, Color3.white⟩,
    ((((((s1.set "radius" (.float w.sao.m_settings.radius)).set "bias"
      (.float w.sao.m_settings.bias)).set "clipInfo" (.vector3 c)).set "projInfo"
      (.vector4 p)).set "projScale" (.float ps)).set "CS_Z_buffer" (.texture csz)).set
      "intensityDivR6" (.float (w.sao.m_settings.intensity / w.sao.m_settings.radius ^ 6)),
    rfl, ?_, rfl, rfl, rfl, rfl, rfl, ?_, ?_, ?_, ?_⟩
  · simp [guardBandClip]
    refine ⟨⟨?_, ?_, ?_, ?_⟩, ?_, ?_, ?_, ?_⟩ <;> rfl
  · simp [Shader.set, p1]
  · simp [estimationInputs, estimationArgNames, Shader.set]
  · simp
  · simp

/-- One level of the pyramid: a full clear and one draw of the minify program
on pyramid framebuffer `i`, over its whole extent. -/
theorem minifyLevel_effect (env : Env) (i : Nat) (w : World) (fb : Nat) (sh0 : Shader)
    (hsh : w.sao.m_cszMinifyShader = some sh0) (hfb : w.sao.m_cszFramebuffers[i]? = some fb) :
    ∃ w' st, minifyLevel env i w = .ok w' ∧
      w'.commands = w.commands ++
        [.clear st true true true,
         .applyRect st ((sh0.set "texture" (.texture w.sao.m_cszBuffer)).set
            "previousMIPNumber" (.int ((i : Int) - 1))) env.defaultZ] ∧
      st.framebuffer = some fb ∧ st.viewport = w.rect2DBounds fb ∧
      st.clip2D = w.rect2DBounds fb ∧ st.depthWrite = false ∧
      st.depthTest = .DEPTH_ALWAYS_PASS ∧
      w'.sao = { w.sao with m_cszMinifyShader := some ((sh0.set "texture"
        (.texture w.sao.m_cszBuffer)).set "previousMIPNumber" (.int ((i : Int) - 1))) } ∧
      w'.framebuffers = w.framebuffers ∧
      (∀ t, (w'.textures t).width = (w.textures t).width) ∧
      (∀ t, (w'.textures t).height = (w.textures t).height) := by
  simp only [minifyLevel, hsh, setSao_sao, hfb, World.push2D, clear_sao, push2DWith_sao]
  refine ⟨_, ⟨some fb, w.rect2DBounds fb, w.rect2DBounds fb, .DEPTH_ALWAYS_PASS, false,
      w.rd.state.colorClearValue⟩, rfl, ?_, rfl, rfl, rfl, rfl, rfl, ?_, ?_, ?_, ?_⟩
  · simp
    rfl
  · simp
  · simp
  · intro t; simp
  · intro t; simp

/-- The levels 1 to `MAX_MIP_LEVEL` of the pyramid: one draw of the minify
program per level, in order, level `j + 1` on pyramid framebuffer `j + 1` with
`previousMIPNumber = j`. -/
theorem minifyLoop_effect (env : Env) (X : World) (fbs : List Nat) (s4 shX : Shader)
    (hsh : X.sao.m_cszMinifyShader = some shX) (hp : shX.pixelFile = s4.pixelFile)
    (ha : ∀ k, k ≠ "texture" → k ≠ "previousMIPNumber" → shX.args k = s4.args k)
    (hfbs : X.sao.m_cszFramebuffers = fbs) (hlen : fbs.length = MAX_MIP_LEVEL + 1) :
    ∃ w' L sh5, forLoop (minifyLevel env) 1 MAX_MIP_LEVEL X = .ok w' ∧
      draws w'.commands = draws X.commands ++ L ∧ L.length + 1 = 1 + MAX_MIP_LEVEL ∧
      (∀ j st sh z, L[j]? = some (st, sh, z) →
        (∃ fb, fbs[j + 1]? = some fb ∧ st.framebuffer = some fb ∧
          st.viewport = X.rect2DBounds fb ∧ st.clip2D = X.rect2DBounds fb) ∧
        st.depthWrite = false ∧ st.depthTest = .DEPTH_ALWAYS_PASS ∧ z = env.defaultZ ∧
        sh.pixelFile = s4.pixelFile ∧
        sh.args "texture" = some (.texture X.sao.m_cszBuffer) ∧
        sh.args "previousMIPNumber" = some (.int (j : Int)) ∧
        ∀ k, k ≠ "texture" → k ≠ "previousMIPNumber" → sh.args k = s4.args k) ∧
      w'.sao = { X.sao with m_cszMinifyShader := some sh5 } ∧
      sh5.pixelFile = s4.pixelFile ∧
      w'.framebuffers = X.framebuffers ∧
      (∀ t, (w'.textures t).width = (X.textures t).width) ∧
      (∀ t, (w'.textures t).height = (X.textures t).height) := by
  have key := forLoop_ind (minifyLevel env) (fun i w1 =>
    ∃ L shi, draws w1.commands = draws X.commands ++ L ∧ L.length + 1 = i ∧
      (∀ j st sh z, L[j]? = some (st, sh, z) →
        (∃ fb, fbs[j + 1]? = some fb ∧ st.framebuffer = some fb ∧
          st.viewport = X.rect2DBounds fb ∧ st.clip2D = X.rect2DBounds fb) ∧
        st.depthWrite = false ∧ st.depthTest = .DEPTH_ALWAYS_PASS ∧ z = env.defaultZ ∧
        sh.pixelFile = s4.pixelFile ∧
        sh.args "texture" = some (.texture X.sao.m_cszBuffer) ∧
        sh.args "previousMIPNumber" = some (.int (j : Int)) ∧
        ∀ k, k ≠ "texture" → k ≠ "previousMIPNumber" → sh.args k = s4.args k) ∧
      w1.sao = { X.sao with m_cszMinifyShader := some shi } ∧
      shi.pixelFile = s4.pixelFile ∧
      (∀ k, k ≠ "texture" → k ≠ "previousMIPNumber" → shi.args k = s4.args k) ∧
      w1.framebuffers = X.framebuffers ∧
      (∀ t, (w1.textures t).width = (X.textures t).width) ∧
      (∀ t, (w1.textures t).height = (X.textures t).height))
    MAX_MIP_LEVEL 1 X ?_ ?_
  · obtain ⟨w', hw', L, sh5, a1, a2, a3, a4, a5, -, a7, a8, a9⟩ := key
    exact ⟨w', L, sh5, hw', a1, a2, a3, a4, a5, a7, a8, a9⟩
  · refine ⟨[], shX, by simp, rfl, ?_, ?_, hp, ha, rfl, fun _ => rfl, fun _ => rfl⟩
    · intro j st sh z h; simp at h
    · cases hX : X with
      | mk a b c d e sao f g => subst hX; simp at hsh ⊢; cases sao; simp_all
  · intro i w1 hlo hhi ⟨L, shi, a1, a2, a3, a4, a5, a6, a7, a8, a9⟩
    have hi : i < fbs.length := by rw [hlen]; simp only [MAX_MIP_LEVEL] at hhi ⊢; omega
    have hfb : w1.sao.m_cszFramebuffers[i]? = some (fbs.get ⟨i, hi⟩) := by
      rw [a4]; simp only; rw [hfbs]; exact List.getElem?_eq_getElem hi
    obtain ⟨w', st, hw', b1, b2, b3, b4, b5, b5t, b6, b7, b8, b9⟩ :=
      minifyLevel_effect env i w1 (fbs.get ⟨i, hi⟩) shi (by rw [a4]) hfb
    have hb : w1.rect2DBounds (fbs.get ⟨i, hi⟩) = X.rect2DBounds (fbs.get ⟨i, hi⟩) :=
      rect2DBounds_congr X w1 _ a7 a8 a9
    have hcsz : w1.sao.m_cszBuffer = X.sao.m_cszBuffer := by rw [a4]
    refine ⟨w', hw', L ++ [(st, (shi.set "texture" (.texture w1.sao.m_cszBuffer)).set
        "previousMIPNumber" (.int ((i : Int) - 1)), env.defaultZ)],
      (shi.set "texture" (.texture w1.sao.m_cszBuffer)).set
        "previousMIPNumber" (.int ((i : Int) - 1)), ?_, ?_, ?_, ?_, ?_, ?_, ?_, ?_, ?_⟩
    · rw [b1, draws_append, a1]
      simp [draws]
    · simp; omega
    · intro j st' sh' z' hj
      by_cases hjl : j < L.length
      · rw [List.getElem?_append_left hjl] at hj
        exact a3 j st' sh' z' hj
      · have hjl' : L.length ≤ j := Nat.le_of_not_lt hjl
        rw [List.getElem?_append_right hjl'] at hj
        have hj0 : j - L.length = 0 := by
          by_contra hne
          have : 1 ≤ j - L.length := Nat.one_le_iff_ne_zero.mpr hne
          rw [List.getElem?_eq_none (by simpa using this)] at hj
          cases hj
        rw [hj0] at hj
        simp only [List.getElem?_cons_zero, Option.some.injEq, Prod.mk.injEq] at hj
        obtain ⟨rfl, rfl, rfl⟩ := hj
        have hji : j + 1 = i := by omega
        refine ⟨⟨fbs.get ⟨i, hi⟩, ?_, b2, by rw [b3, hb], by rw [b4, hb]⟩, b5, b5t, rfl, ?_, ?_, ?_,
          ?_⟩
        · rw [hji]; exact List.getElem?_eq_getElem hi
        · simp [Shader.set, a5]
        · simp [Shader.set, hcsz]
        · simp [Shader.set]
          omega
        · intro k hk1 hk2
          simp [Shader.set, hk1, hk2, a6 k hk1 hk2]
    · rw [b6, a4]
    · simp [Shader.set, a5]
    · intro k hk1 hk2
      simp [Shader.set, hk1, hk2, a6 k hk1 hk2]
    · rw [b7, a7]
    · intro t; rw [b8, a8]
    · intro t; rw [b9, a9]

/-- The pyramid pass: `MAX_MIP_LEVEL + 1` draws, the first of the
reconstruction program on pyramid framebuffer 0, then the minify program on
pyramid framebuffers 1, 2, ... in order, draw `j + 1` with
`previousMIPNumber = j`; each over the whole extent of its framebuffer. -/
theorem computeCSZ_effect (env : Env) (d : Option Nat) (c : Vector3) (w : World)
    (fbs : List Nat) (s3 s4 : Shader)
    (h3 : w.sao.m_reconstructCSZShader = some s3) (h4 : w.sao.m_cszMinifyShader = some s4)
    (hfbs : w.sao.m_cszFramebuffers = fbs) (hlen : fbs.length = MAX_MIP_LEVEL + 1) :
    ∃ w' L sh5, computeCSZ env d c w = .ok w' ∧
      draws w'.commands = draws w.commands ++ L ∧ L.length = MAX_MIP_LEVEL + 1 ∧
      (∀ (i : Nat) st sh z, L[i]? = some (st, sh, z) →
        (∃ fb, fbs[i]? = some fb ∧ st.framebuffer = some fb ∧
          st.viewport = w.rect2DBounds fb ∧ st.clip2D = w.rect2DBounds fb) ∧
        st.depthWrite = false ∧ st.depthTest = .DEPTH_ALWAYS_PASS ∧ z = env.defaultZ ∧
        (i = 0 → sh = (s3.set "clipInfo" (.vector3 c)).set "DEPTH_AND_STENCIL_buffer"
          (.texture d)) ∧
        (∀ j : Nat, i = j + 1 → sh.pixelFile = s4.pixelFile ∧
          sh.args "texture" = some (.texture w.sao.m_cszBuffer) ∧
          sh.args "previousMIPNumber" = some (.int (j : Int)) ∧
          ∀ k, k ≠ "texture" → k ≠ "previousMIPNumber" → sh.args k = s4.args k)) ∧
      w'.sao = { w.sao with
        m_reconstructCSZShader := some ((s3.set "clipInfo" (.vector3 c)).set
          "DEPTH_AND_STENCIL_buffer" (.texture d)),
        m_cszMinifyShader := some sh5 } ∧
      sh5.pixelFile = s4.pixelFile ∧
      w'.framebuffers = w.framebuffers ∧
      (∀ t, (w'.textures t).width = (w.textures t).width) ∧
      (∀ t, (w'.textures t).height = (w.textures t).height) := by
  have h0 : 0 < fbs.length := by rw [hlen]; exact Nat.succ_pos _
  have hfb0 : w.sao.m_cszFramebuffers[0]? = some (fbs.get ⟨0, h0⟩) := by
    rw [hfbs]; exact List.getElem?_eq_getElem h0
  simp only [computeCSZ, enter_sao, hfb0, World.push2D, clear_sao, push2DWith_sao, h3,
    setSao_sao]
  generalize hX : World.pop2D _ = X
  have x1 : X.sao = { w.sao with m_reconstructCSZShader := some ((s3.set "clipInfo"
      (.vector3 c)).set "DEPTH_AND_STENCIL_buffer" (.texture d)) } := by
    rw [← hX]; simp
  have x2 : X.framebuffers = w.framebuffers := by rw [← hX]; simp
  have x3 : ∀ t, (X.textures t).width = (w.textures t).width := by
    intro t; rw [← hX]; simp
  have x4 : ∀ t, (X.textures t).height = (w.textures t).height := by
    intro t; rw [← hX]; simp
  have x5 : ∃ st, X.commands = w.commands ++ [.clear st true true true,
      .applyRect st ((s3.set "clipInfo" (.vector3 c)).set "DEPTH_AND_STENCIL_buffer"
        (.texture d)) env.defaultZ] ∧ st.framebuffer = some (fbs.get ⟨0, h0⟩) ∧
      st.viewport = w.rect2DBounds (fbs.get ⟨0, h0⟩) ∧
      st.clip2D = w.rect2DBounds (fbs.get ⟨0, h0⟩) ∧ st.depthWrite = false ∧
      st.depthTest = .DEPTH_ALWAYS_PASS := by
    refine ⟨⟨some (fbs.get ⟨0, h0⟩), w.rect2DBounds (fbs.get ⟨0, h0⟩),
      w.rect2DBounds (fbs.get ⟨0, h0⟩), .DEPTH_ALWAYS_PASS, false,
      w.rd.state.colorClearValue⟩, ?_, rfl, rfl, rfl, rfl, rfl⟩
    rw [← hX]; simp
    rfl
  obtain ⟨st0, xc, xf, xv, xcl, xd, xt⟩ := x5
  obtain ⟨w', L, sh5, hw', a1, a2, a3, a4, a5, a6, a7, a8⟩ :=
    minifyLoop_effect env X fbs s4 s4 (by rw [x1]; exact h4) rfl (fun _ _ _ => rfl)
      (by rw [x1]; exact hfbs) hlen
  have hb : ∀ fb, X.rect2DBounds fb = w.rect2DBounds fb :=
    fun fb => rect2DBounds_congr w X fb x2 x3 x4
  refine ⟨w', (st0, (s3.set "clipInfo" (.vector3 c)).set "DEPTH_AND_STENCIL_buffer"
      (.texture d), env.defaultZ) :: L, sh5, hw', ?_, ?_, ?_, ?_, a5, ?_, ?_, ?_⟩
  · rw [a1, xc, draws_append]
    simp [draws]
  · simp only [List.length_cons]; omega
  · intro i st sh z hi
    cases i with
    | zero =>
      simp only [List.getElem?_cons_zero, Option.some.injEq, Prod.mk.injEq] at hi
      obtain ⟨rfl, rfl, rfl⟩ := hi
      exact ⟨⟨_, List.getElem?_eq_getElem h0, xf, xv, xcl⟩, xd, xt, rfl, fun _ => rfl,
        fun j hj => by omega⟩
    | succ j =>
      simp only [List.getElem?_cons_succ] at hi
      obtain ⟨⟨fb, b1, b2, b3, b4⟩, b5, b5t, b6, b7, b8, b9, b10⟩ := a3 j st sh z hi
      refine ⟨⟨fb, b1, b2, by rw [b3, hb], by rw [b4, hb]⟩, b5, b5t, b6, fun h => by omega, ?_⟩
      intro j' hj'
      have : j' = j := by omega
      subst this
      exact ⟨b7, by rw [b8, x1], b9, b10⟩
  · rw [a4, x1]
  · rw [a6, x2]
  · intro t; rw [a7, x3]
  · intro t; rw [a8, x4]

/-- A `compute` with valid arguments, stage by stage: the state after
`resizeBuffers` and the four passes that follow, each of which returns. -/
theorem compute_stages (env : Env) (d : Nat) (c : Vector3) (p : Vector4) (ps : ℚ)
    (g : Int) (w : World) (hc : Consistent w)
    (hfirst : w.sao.m_rawAOFramebuffer = none →
      (env.ZBITS = 16 ∨ env.ZBITS = 32) ∧
        (env.debug = true → 0 < (w.textures d).width ∧ 0 < (w.textures d).height))
    (hps : env.debug = true → ps > 0) :
    ∃ w2 w3 w4 w5 w' rawFb hFb raw hBlurred csz fbs,
      compute env (some d) c p ps g w = .ok w' ∧
      computeCSZ env (some d) c w2 = .ok w3 ∧
      computeRawAO env (some d) c p ps w3.sao.m_cszBuffer g w3 = .ok w4 ∧
      blurHorizontal env (some d) g w4 = .ok w5 ∧
      blurVertical env (some d) g w5 = .ok w' ∧
      (ShadersLoaded w2.sao ∧ ShadersLoaded w3.sao ∧ ShadersLoaded w4.sao ∧
        ShadersLoaded w5.sao) ∧
      (AllocatedAs w2 rawFb hFb raw hBlurred csz fbs ∧ SameSize w2 raw hBlurred csz ∧
        Bound w2 rawFb hFb raw hBlurred csz fbs ∧
        (w2.textures raw).width = (w.textures d).width ∧
        (w2.textures raw).height = (w.textures d).height) ∧
      (w2.commands = w.commands ∧ w2.rd.state = w.rd.state ∧
        w2.sao.m_settings = w.sao.m_settings) ∧
      (Frame w2 w3 ∧ Frame w3 w4 ∧ Frame w4 w5 ∧ Frame w5 w') := by
  obtain ⟨w1, hw1, hs1, hf1, ht1, hcmd1, -⟩ :=
    compute_shaders (Call.compute (some d) c p ps g) w hc
  have hc1 : Consistent w1 := by
    refine ⟨Or.inr hs1, ?_⟩
    rcases hc.buffers with ⟨a, b⟩ | ⟨rawFb, hFb, raw, hBlurred, csz, fbs, hA, hS, hB⟩
    · left; exact ⟨by rw [hf1.rawAOFramebuffer]; exact a, by rw [hf1.cszFramebuffers]; exact b⟩
    · right; exact ⟨_, _, _, _, _, _, allocatedAs_frame hA hf1, sameSize_frame hS hf1, bound_frame hB hf1⟩
  obtain ⟨w2, hw2, ⟨rawFb, hFb, raw, hBlurred, csz, fbs, hA, hS, hB, hW, hH⟩, hrf, -⟩ :=
    resizeBuffers_ok env (w.textures d).width (w.textures d).height w1 hc1
      (fun h => hfirst (by rw [← hf1.rawAOFramebuffer]; exact h))
  have hs2 : ShadersLoaded w2.sao := by
    obtain ⟨a, b, c', d'⟩ := hs1
    exact ⟨by rw [hrf.rawAOShader]; exact a, by rw [hrf.blurShader]; exact b,
      by rw [hrf.reconstructCSZShader]; exact c', by rw [hrf.cszMinifyShader]; exact d'⟩
  obtain ⟨w3, hw3, hs3, hf3, -, -⟩ := computeCSZ_ok env (some d) c w2 hs2
    (by rw [hA.cszFramebuffers]; exact hA.length)
  obtain ⟨w4, hw4, hs4, hf4, -, -⟩ := computeRawAO_ok env (some d) c p ps w3.sao.m_cszBuffer g w3
    hs3 (by rw [(allocatedAs_frame hA hf3).rawAOFramebuffer]; rfl) hps
  obtain ⟨w5, hw5, hs5, hf5, -, -⟩ := blurHorizontal_ok env (some d) g w4 hs4
  obtain ⟨w6, hw6, -, hf6, -, -⟩ := blurVertical_ok env (some d) g w5 hs5
  refine ⟨w2, w3, w4, w5, w6, rawFb, hFb, raw, hBlurred, csz, fbs, ?_, hw3, hw4, hw5, hw6,
    ⟨hs2, hs3, hs4, hs5⟩, ⟨hA, hS, hB, hW, hH⟩, ⟨?_, ?_, ?_⟩, ⟨hf3, hf4, hf5, hf6⟩⟩
  · simp only [compute]
    rw [hw1, ht1, hw2]
    simp only [Outcome.andThen, hw3, hw4, hw5]
    exact hw6
  · rw [hrf.commands, hcmd1]
  · rw [hrf.rd, hf1.state]
  · rw [hrf.settings, hf1.settings]

theorem framebufferSet_depth_bounds (w : World) (fb t l : Nat) (d : Option Nat)
    (h : (w.framebuffers fb).color0 = some ⟨t, l⟩) :
    (w.framebufferSet fb .DEPTH d 0).rect2DBounds fb =
      Rect2D.xywh 0 0 (w.textures t).width (w.textures t).height := by
  simp [World.rect2DBounds, World.framebufferSet, Framebuffer.set, h]

/-- A `compute` with valid arguments, draw by draw: the `MAX_MIP_LEVEL + 1`
draws of the pyramid pass, then the estimation draw on the raw-AO framebuffer,
the horizontal blur on the intermediate framebuffer and the vertical blur on
the framebuffer and in the viewport of the caller, each of the three clipped to
`xyxy(g, g, width - g, height - g)` of its viewport; and what the instance
still holds of the depth buffer afterwards. -/
theorem compute_passes (env : Env) (d : Nat) (c : Vector3) (p : Vector4) (ps : ℚ)
    (g : Int) (w : World) (hc : Consistent w)
    (hfirst : w.sao.m_rawAOFramebuffer = none →
      (env.ZBITS = 16 ∨ env.ZBITS = 32) ∧
        (env.debug = true → 0 < (w.textures d).width ∧ 0 < (w.textures d).height))
    (hps : env.debug = true → ps > 0) :
    ∃ w' rawFb hFb raw hBlurred csz fbs L stR shR stH shH stV shV,
      compute env (some d) c p ps g w = .ok w' ∧
      (AllocatedAs w' rawFb hFb raw hBlurred csz fbs ∧
        Bound w' rawFb hFb raw hBlurred csz fbs) ∧
      draws w'.commands = draws w.commands ++ L ++
        [(stR, shR, Z_COORD), (stH, shH, Z_COORD), (stV, shV, Z_COORD)] ∧
      L.length = MAX_MIP_LEVEL + 1 ∧
      (∀ e ∈ L, e.2.1.pixelFile = "SAO_reconstructCSZ.pix" ∨
        e.2.1.pixelFile = "SAO_minify.pix") ∧
      (stR.framebuffer = some rawFb ∧
        stR.viewport = Rect2D.xywh 0 0 (w.textures d).width (w.textures d).height ∧
        stR.clip2D = Rect2D.xyxy g g (stR.viewport.width - g) (stR.viewport.height - g) ∧
        shR.pixelFile = "SAO_AO.pix") ∧
      (stH.framebuffer = some hFb ∧
        stH.viewport = Rect2D.xywh 0 0 (w.textures d).width (w.textures d).height ∧
        stH.clip2D = Rect2D.xyxy g g (stH.viewport.width - g) (stH.viewport.height - g) ∧
        shH.pixelFile = "SAO_blur.pix" ∧ shH.args "source" = some (.texture (some raw)) ∧
        shH.args "axis" = some (.vector2int16 1 0)) ∧
      (stV.framebuffer = w.rd.state.framebuffer ∧ stV.viewport = w.rd.state.viewport ∧
        stV.clip2D = Rect2D.xyxy g g (stV.viewport.width - g) (stV.viewport.height - g) ∧
        shV.pixelFile = "SAO_blur.pix" ∧
        shV.args "source" = some (.texture (some hBlurred)) ∧
        shV.args "axis" = some (.vector2int16 0 1)) ∧
      (w'.framebuffers rawFb).depth = some ⟨d, 0⟩ ∧
      (∃ sh, w'.sao.m_reconstructCSZShader = some sh ∧
        sh.args "DEPTH_AND_STENCIL_buffer" = some (.texture (some d))) := by
  obtain ⟨w2, w3, w4, w5, w6, rawFb, hFb, raw, hBlurred, csz, fbs, hw6, hw3, hw4, hw5, hw56,
    ⟨hs2, hs3, hs4, hs5⟩, ⟨hA, hS, hB, hW, hH⟩, ⟨hcmd, hst, -⟩, ⟨hf3, hf4, hf5, hf6⟩⟩ :=
    compute_stages env d c p ps g w hc hfirst hps
  obtain ⟨s3, h3, hp3⟩ := hs2.reconstructCSZ
  obtain ⟨s4, h4, hp4⟩ := hs2.cszMinify
  -- the pyramid pass
  obtain ⟨w3', L, sh5, e3, c1, c2, c3, c4, -, c6, -, -⟩ :=
    computeCSZ_effect env (some d) c w2 fbs s3 s4 h3 h4 hA.cszFramebuffers hA.length
  have e : w3' = w3 := Outcome.ok.inj (e3.symm.trans hw3)
  subst e
  -- the estimation pass
  have hA3 := allocatedAs_frame hA hf3
  have hB3 := bound_frame hB hf3
  obtain ⟨w4', stR, shR, e4, r1, r2, r3, -, -, -, r7, -, r9, r10⟩ :=
    computeRawAO_effect env (some d) c p ps w3'.sao.m_cszBuffer g w3' rawFb hs3
      hA3.rawAOFramebuffer hps
  have e : w4' = w4 := Outcome.ok.inj (e4.symm.trans hw4)
  subst e
  -- the horizontal blur
  have hA4 := allocatedAs_frame hA3 hf4
  have hB4 := bound_frame hB3 hf4
  obtain ⟨w5', stH, shH, e5, b1, b2, b3, -, -, b6, b7, b8, b9, b10⟩ :=
    blurHorizontal_effect env (some d) g w4' hFb hs4 hA4.hBlurredFramebuffer
  have e : w5' = w5 := Outcome.ok.inj (e5.symm.trans hw5)
  subst e
  -- the vertical blur
  have hA5 := allocatedAs_frame hA4 hf5
  have hB5 := bound_frame hB4 hf5
  obtain ⟨w6', stV, shV, e6, v1, v2, v3, -, -, v6, v7, v8, v9, v10⟩ :=
    blurVertical_effect env (some d) g w5' hs5
  have e : w6' = w6 := Outcome.ok.inj (e6.symm.trans hw56)
  subst e
  have hRv : stR.viewport = Rect2D.xywh 0 0 (w.textures d).width (w.textures d).height := by
    rw [r3, framebufferSet_depth_bounds w3' rawFb raw 0 (some d) hB3.rawColor0, hf3.width,
      hf3.height, hW, hH]
  have hHv : stH.viewport = Rect2D.xywh 0 0 (w.textures d).width (w.textures d).height := by
    rw [b3, rect2DBounds_color0 w4' hFb hBlurred 0 hB4.hColor0, hf4.width, hf4.height,
      hf3.width, hf3.height, hS.hWidth, hS.hHeight, hW, hH]
  refine ⟨w6', rawFb, hFb, raw, hBlurred, csz, fbs, L,
    { stR with clip2D := Rect2D.xyxy g g (stR.viewport.width - g) (stR.viewport.height - g) },
    shR,
    { stH with clip2D := Rect2D.xyxy g g (stH.viewport.width - g) (stH.viewport.height - g) },
    shH,
    { stV with clip2D := Rect2D.xyxy g g (stV.viewport.width - g) (stV.viewport.height - g) },
    shV, hw6, ⟨allocatedAs_frame hA5 hf6, bound_frame hB5 hf6⟩, ?_, c2, ?_,
    ⟨r2, hRv, rfl, r7⟩, ⟨b2, hHv, rfl, b6, ?_, b8⟩, ⟨?_, ?_, rfl, v6, ?_, v8⟩, ?_, ?_⟩
  · rw [v1, draws_append, b1, draws_append, r1, draws_append, c1, hcmd]
    simp [draws]
  · intro e he
    obtain ⟨i, hi⟩ := List.getElem?_of_mem he
    obtain ⟨st, sh, z⟩ := e
    obtain ⟨-, -, -, -, q0, qs⟩ := c3 i st sh z hi
    cases i with
    | zero =>
      left
      rw [q0 rfl]
      simpa [Shader.set] using hp3
    | succ j =>
      right
      rw [(qs j rfl).1]
      exact hp4
  · rw [b7, hf4.rawAOBuffer, hA3.rawAOBuffer]
  · rw [v2, hf5.state, hf4.state, hf3.state, hst]
  · rw [v3, hf5.state, hf4.state, hf3.state, hst]
  · rw [v7, hA5.hBlurredBuffer]
  · rw [v10, b10, r10]
    simp [Framebuffer.set]
  · refine ⟨(s3.set "clipInfo" (.vector3 c)).set "DEPTH_AND_STENCIL_buffer"
      (.texture (some d)), ?_, by simp [Shader.set]⟩
    rw [v9, b9, r9, c4]

/-! ## The pixels the estimation pass writes -/

/-- A colour-only clear changes only the texture bound as COLOR0 of the bound
framebuffer. -/
theorem clear_color_other (w : World) (f t l d : Nat)
    (hfb : w.rd.state.framebuffer = some f) (hc : (w.framebuffers f).color0 = some ⟨t, l⟩)
    (hd : d ≠ t) : (w.clear true false false).textures d = w.textures d := by
  simp [World.clear, writeColor_textures_of_bound w f ⟨t, l⟩ _ _ hfb hc,
    Function.update_noteq hd]

/-- A draw with depth writing off stores the value of the pixel program at
every existing pixel of the colour target that lies in the viewport and in the
scissor rectangle and passes the depth test against the depth target, and
leaves every other texel as it was. -/
theorem applyRect_texel (env : Env) (w : World) (sh : Shader) (z : ℚ) (f t l fd : Nat)
    (x y : Int) (hfb : w.rd.state.framebuffer = some f)
    (hc : (w.framebuffers f).color0 = some ⟨t, l⟩)
    (hdep : (w.framebuffers f).depth = some ⟨fd, 0⟩)
    (hdw : w.rd.state.depthWrite = false) :
    ((w.applyRect env sh z).textures t).texel l x y =
      if (w.rd.state.viewport.contains x y = true ∧ w.rd.state.clip2D.contains x y = true ∧
          depthPasses w.rd.state.depthTest (fragmentDepth z)
            ((w.textures fd).texel 0 x y).r = true) ∧
          (w.textures t).inBounds l x y = true
      then env.kernel sh w.textures x y else (w.textures t).texel l x y := by
  simp [World.applyRect, hdw, writeColor_textures_of_bound w f ⟨t, l⟩ _ _ hfb hc, Texture.write,
    World.storedDepth, hfb, hdep, and_assoc]

theorem fragmentDepth_Z_COORD : fragmentDepth Z_COORD = 1 := by
  simp only [fragmentDepth, Z_COORD]
  norm_num

/-- The estimation pass, pixel by pixel: a pixel of the raw-AO buffer holds
the value of the estimation program when it lies in the clip rectangle and the
depth stored for it is below 1, the depth of the rectangle drawn at `Z_COORD`;
every other pixel holds white. -/
theorem computeRawAO_texel (env : Env) (d : Nat) (c : Vector3) (p : Vector4) (ps : ℚ)
    (csz : Option Nat) (g : Int) (w : World) (rawFb raw : Nat) (x y : Int)
    (hs : ShadersLoaded w.sao) (hfb : w.sao.m_rawAOFramebuffer = some rawFb)
    (hcol : (w.framebuffers rawFb).color0 = some ⟨raw, 0⟩) (hd : d ≠ raw)
    (hps : env.debug = true → ps > 0)
    (hx0 : 0 ≤ x) (hx : x < (w.textures raw).width)
    (hy0 : 0 ≤ y) (hy : y < (w.textures raw).height) :
    ∃ w' sh T, computeRawAO env (some d) c p ps csz g w = .ok w' ∧
      w'.sao.m_rawAOShader = some sh ∧
      (w'.textures raw).texel 0 x y =
        if (Rect2D.xyxy g g ((w.textures raw).width - g)
              ((w.textures raw).height - g)).contains x y = true ∧
            ((w.textures d).texel 0 x y).r < 1
        then env.kernel sh T x y else Color3.white := by
  obtain ⟨sh0, hsh, -⟩ := hs.rawAO
  have hcond : ¬ (env.debug = true ∧ ¬ ps > 0) := fun h => h.2 (hps h.1)
  have hW : 0 ≤ (w.textures raw).width := by omega
  have hH : 0 ≤ (w.textures raw).height := by omega
  simp only [computeRawAO, hcond, if_false, enter_sao, hfb, World.push2D, setSao_sao, clear_sao,
    push2DWith_sao, framebufferSet_sao, setDepthTest_sao, setColorClearValue_sao, hsh]
  generalize hY : World.setColorClearValue _ _ = Y
  have hbounds : ((w.enter (Call.computeRawAO (some d) c p ps csz g)).framebufferSet rawFb
      .DEPTH (some d) 0).rect2DBounds rawFb =
      Rect2D.xywh 0 0 (w.textures raw).width (w.textures raw).height := by
    simp [World.rect2DBounds, Framebuffer.set, hcol]
  have y1 : Y.rd.state = ⟨some rawFb,
      Rect2D.xywh 0 0 (w.textures raw).width (w.textures raw).height,
      Rect2D.xywh 0 0 (w.textures raw).width (w.textures raw).height,
      .DEPTH_GREATER, false, Color3.white⟩ := by
    rw [← hY]; simp [World.push2DWith, hbounds]
  have y2 : Y.textures = w.textures := by rw [← hY]; simp [World.push2DWith]
  have y3 : (Y.framebuffers rawFb).color0 = some ⟨raw, 0⟩ := by
    rw [← hY]; simp [World.push2DWith, Framebuffer.set, hcol]
  have y4 : (Y.framebuffers rawFb).depth = some ⟨d, 0⟩ := by
    rw [← hY]; simp [World.push2DWith, Framebuffer.set]
  have yfb : Y.rd.state.framebuffer = some rawFb := by rw [y1]
  refine ⟨_, _, (Y.clear true false false).textures, rfl, by simp; rfl, ?_⟩
  rw [pop2D_textures, applyRect_texel env _ _ _ rawFb raw 0 d x y (by simp [y1])
    (by simpa using y3) (by simpa using y4) (by simp [y1])]
  have hwhite : ((Y.clear true false false).textures raw).texel 0 x y = Color3.white := by
    rw [clear_texel Y rawFb raw 0 x y yfb y3 (by rw [y1]; exact bounds_contains _ _ x y hx0 hx hy0 hy)
      (by rw [y2]; exact inBounds_level0 _ x y hx0 hx hy0 hy), y1]
  have hdepth : (Y.clear true false false).textures d = w.textures d := by
    rw [clear_color_other Y rawFb raw 0 d yfb y3 hd, y2]
  have hin : ((Y.clear true false false).textures raw).inBounds 0 x y = true := by
    have : ((Y.clear true false false).textures raw).inBounds 0 x y =
        (w.textures raw).inBounds 0 x y := by
      simp [Texture.inBounds, Texture.levelWidth, Texture.levelHeight, y2]
    rw [this]; exact inBounds_level0 _ x y hx0 hx hy0 hy
  simp only [setClip2D_textures, setSao_textures, setClip2D_state, setSao_state, clear_state,
    guardBandClip, y1, hwhite, hdepth, hin, and_true, depthPasses, fragmentDepth_Z_COORD,
    bounds_contains _ _ x y hx0 hx hy0 hy, true_and, decide_eq_true_eq, bounds_width _ _ hW,
    bounds_height _ _ hH]

/-! ## The clip rectangle of the guarded passes -/

theorem paddedClip_contains (W H g : Nat) (x y : Int) :
    (Rect2D.xyxy g g ((W : Int) + g) ((H : Int) + g)).contains x y = true ↔
      ((g : Int) ≤ x ∧ x < (W : Int) + g) ∧ ((g : Int) ≤ y ∧ y < (H : Int) + g) := by
  have h1 : (g : Int) ≤ (W : Int) + g := by omega
  have h2 : (g : Int) ≤ (H : Int) + g := by omega
  simp [Rect2D.xyxy, Rect2D.contains, min_eq_left h1, min_eq_left h2, max_eq_right h1,
    max_eq_right h2, and_assoc]

/-- The clip rectangle `xyxy(g, g, W + g, H + g)` holds exactly `W * H` of the
pixels of a `(W + 2g) x (H + 2g)` buffer. -/
theorem paddedClip_card (W H g : Nat) :
    (Finset.filter
      (fun q : Int × Int =>
        (Rect2D.xyxy g g ((W : Int) + g) ((H : Int) + g)).contains q.1 q.2 = true)
      (Finset.Ico (0 : Int) ((W : Int) + 2 * g) ×ˢ
        Finset.Ico (0 : Int) ((H : Int) + 2 * g))).card = W * H := by
  have hset : Finset.filter
      (fun q : Int × Int =>
        (Rect2D.xyxy g g ((W : Int) + g) ((H : Int) + g)).contains q.1 q.2 = true)
      (Finset.Ico (0 : Int) ((W : Int) + 2 * g) ×ˢ
        Finset.Ico (0 : Int) ((H : Int) + 2 * g)) =
      Finset.Ico (g : Int) ((W : Int) + g) ×ˢ Finset.Ico (g : Int) ((H : Int) + g) := by
    ext ⟨x, y⟩
    simp only [Finset.mem_filter, Finset.mem_product, Finset.mem_Ico, paddedClip_contains]
    constructor
    · rintro ⟨-, h⟩; exact h
    · rintro ⟨⟨a, b⟩, c, d⟩
      exact ⟨⟨⟨by omega, by omega⟩, by omega, by omega⟩, ⟨a, b⟩, c, d⟩
  rw [hset, Finset.card_product, Int.card_Ico, Int.card_Ico]
  simp

theorem paddedClip_whole (W H : Nat) :
    Rect2D.xyxy 0 0 ((W : Int) + 0) ((H : Int) + 0) =
      Rect2D.xywh 0 0 ((W : Int) + 2 * 0) ((H : Int) + 2 * 0) := by
  simp [Rect2D.xywh]

/-- With the depth buffer of size `(W + 2g) x (H + 2g)`, the estimation draw
and the horizontal blur draw of a `compute` are clipped to
`xyxy(g, g, W + g, H + g)`; the vertical blur draw is clipped to
`xyxy(g, g, width - g, height - g)` of the caller's viewport, which is the same
rectangle when that viewport covers a bound framebuffer of the same size. -/
theorem compute_shared_clip (env : Env) (d : Nat) (c : Vector3) (p : Vector4) (ps : ℚ)
    (W H g : Nat) (w : World) (f t l : Nat) (hc : Consistent w)
    (hfirst : w.sao.m_rawAOFramebuffer = none →
      (env.ZBITS = 16 ∨ env.ZBITS = 32) ∧
        (env.debug = true → 0 < (w.textures d).width ∧ 0 < (w.textures d).height))
    (hps : env.debug = true → ps > 0)
    (hdW : (w.textures d).width = (W : Int) + 2 * g)
    (hdH : (w.textures d).height = (H : Int) + 2 * g)
    (hcol : (w.framebuffers f).color0 = some ⟨t, l⟩)
    (htW : (w.textures t).width = (W : Int) + 2 * g)
    (htH : (w.textures t).height = (H : Int) + 2 * g) :
    ∃ w' pre stR shR stH shH stV shV,
      compute env (some d) c p ps g w = .ok w' ∧
      draws w'.commands = draws w.commands ++ pre ++
        [(stR, shR, Z_COORD), (stH, shH, Z_COORD), (stV, shV, Z_COORD)] ∧
      (shR.pixelFile = "SAO_AO.pix" ∧
        shH.pixelFile = "SAO_blur.pix" ∧ shH.args "axis" = some (.vector2int16 1 0) ∧
        shV.pixelFile = "SAO_blur.pix" ∧ shV.args "axis" = some (.vector2int16 0 1)) ∧
      stV.framebuffer = w.rd.state.framebuffer ∧
      stR.clip2D = Rect2D.xyxy g g ((W : Int) + g) ((H : Int) + g) ∧
      stH.clip2D = Rect2D.xyxy g g ((W : Int) + g) ((H : Int) + g) ∧
      stV.clip2D = Rect2D.xyxy g g (w.rd.state.viewport.width - g)
        (w.rd.state.viewport.height - g) ∧
      (w.rd.state.viewport = w.rect2DBounds f →
        stV.clip2D = Rect2D.xyxy g g ((W : Int) + g) ((H : Int) + g)) := by
  obtain ⟨w', rawFb, hFb, raw, hBlurred, csz, fbs, L, stR, shR, stH, shH, stV, shV, hw', -, hd,
    -, -, ⟨-, r2, r3, r4⟩, ⟨-, b2, b3, b4, -, b6⟩, ⟨v1, v2, v3, v4, -, v6⟩, -, -⟩ :=
    compute_passes env d c p ps g w hc hfirst hps
  have hW : (0 : Int) ≤ (W : Int) + 2 * g := by omega
  have hH : (0 : Int) ≤ (H : Int) + 2 * g := by omega
  have e1 : (W : Int) + 2 * g - g = (W : Int) + g := by ring
  have e2 : (H : Int) + 2 * g - g = (H : Int) + g := by ring
  refine ⟨w', L, stR, shR, stH, shH, stV, shV, hw', hd, ⟨r4, b4, b6, v4, v6⟩, v1, ?_, ?_,
    by rw [v3, v2], ?_⟩
  · rw [r3, r2, hdW, hdH, bounds_width _ _ hW, bounds_height _ _ hH, e1, e2]
  · rw [b3, b2, hdW, hdH, bounds_width _ _ hW, bounds_height _ _ hH, e1, e2]
  · intro hview
    have hv : stV.viewport = Rect2D.xywh 0 0 ((W : Int) + 2 * g) ((H : Int) + 2 * g) := by
      rw [v2, hview, rect2DBounds_color0 w f t l hcol, htW, htH]
    rw [v3, hv, bounds_width _ _ hW, bounds_height _ _ hH, e1, e2]

/-! ## The texels of the pyramid -/

theorem samplingEnv_local : MinifyReadsPreviousLevel samplingEnv := by
  intro sh t j T T' _ ht hj _ _ htex x y
  simp only [samplingEnv, ht, hj, Int.toNat_ofNat]
  exact htex _ _

/-- A full clear on a framebuffer without depth attachment changes only the
level bound as COLOR0. -/
theorem clear_full_textures (w : World) (f t l : Nat)
    (hfb : w.rd.state.framebuffer = some f) (hc : (w.framebuffers f).color0 = some ⟨t, l⟩)
    (hd : (w.framebuffers f).depth = none) :
    (w.clear true true true).textures =
      Function.update w.textures t
        ((w.textures t).write l w.rd.state.clip2D.contains
          (fun _ _ => w.rd.state.colorClearValue)) := by
  simp [World.clear, World.writeDepth, hfb, hd,
    writeColor_textures_of_bound w f ⟨t, l⟩ _ _ hfb hc]

/-- A draw with depth writing off and every fragment passing stores the value
of the pixel program at every existing pixel of the colour target that lies in
the viewport and in the scissor rectangle. -/
theorem applyRect_always_textures (env : Env) (w : World) (sh : Shader) (z : ℚ) (f t l : Nat)
    (hfb : w.rd.state.framebuffer = some f) (hc : (w.framebuffers f).color0 = some ⟨t, l⟩)
    (hdw : w.rd.state.depthWrite = false) (hdt : w.rd.state.depthTest = .DEPTH_ALWAYS_PASS) :
    (w.applyRect env sh z).textures =
      Function.update w.textures t
        ((w.textures t).write l
          (fun x y => w.rd.state.viewport.contains x y && w.rd.state.clip2D.contains x y)
          (env.kernel sh w.textures)) := by
  simp only [World.applyRect, hdw, Bool.false_eq_true, if_false]
  rw [writeColor_textures_of_bound w f ⟨t, l⟩ _ _ hfb hc]
  refine congrArg (fun cov => Function.update w.textures t
    ((w.textures t).write l cov (env.kernel sh w.textures))) ?_
  funext x y
  cases w.storedDepth <;> simp [hdt, depthPasses]

/-- A pixel of a MIP level of a texture of positive size lies in the bounds of
the texture. -/
theorem inBounds_in_bounds (t : Texture) (l : Nat) (x y : Int) (hW : 0 < t.width)
    (hH : 0 < t.height) (h : t.inBounds l x y = true) :
    (Rect2D.xywh 0 0 t.width t.height).contains x y = true := by
  simp only [Texture.inBounds, Texture.levelWidth, Texture.levelHeight, Bool.and_eq_true,
    decide_eq_true_eq] at h
  obtain ⟨⟨⟨hx0, hx⟩, hy0⟩, hy⟩ := h
  have p : (0 : Int) < 2 ^ l := by positivity
  have h1 : t.width / 2 ^ l ≤ t.width := Int.ediv_le_self _ (le_of_lt hW)
  have h2 : t.height / 2 ^ l ≤ t.height := Int.ediv_le_self _ (le_of_lt hH)
  have hx' : x < t.width := lt_of_lt_of_le hx (max_le (by omega) h1)
  have hy' : y < t.height := lt_of_lt_of_le hy (max_le (by omega) h2)
  exact bounds_contains _ _ x y hx0 hx' hy0 hy'

/-- One level of the pyramid, texel by texel: `minifyLevel (j + 1)` changes
only level `j + 1` of the pyramid buffer, and (for a minify program that reads
only the previous level) every pixel of that level then holds the value of the
program on level `j`. -/
theorem minifyLevel_texel (env : Env) (j : Nat) (w : World) (fb csz : Nat) (sh0 : Shader)
    (hsh : w.sao.m_cszMinifyShader = some sh0) (hp : sh0.pixelFile = "SAO_minify.pix")
    (hfb : w.sao.m_cszFramebuffers[j + 1]? = some fb) (hcsz : w.sao.m_cszBuffer = some csz)
    (hcol : (w.framebuffers fb).color0 = some ⟨csz, j + 1⟩)
    (hdep : (w.framebuffers fb).depth = none)
    (hW : 0 < (w.textures csz).width) (hH : 0 < (w.textures csz).height)
    (hloc : MinifyReadsPreviousLevel env) :
    ∃ w', minifyLevel env (j + 1) w = .ok w' ∧
      (∀ t, t ≠ csz → w'.textures t = w.textures t) ∧
      (∀ l, l ≠ j + 1 → ∀ x y, (w'.textures csz).texel l x y = (w.textures csz).texel l x y) ∧
      (∀ x y, (w.textures csz).inBounds (j + 1) x y = true →
        ∀ T : Nat → Texture, (T csz).width = (w.textures csz).width →
          (T csz).height = (w.textures csz).height →
          (∀ x y, (T csz).texel j x y = (w.textures csz).texel j x y) →
          (w'.textures csz).texel (j + 1) x y =
            env.kernel ((sh0.set "texture" (.texture (some csz))).set "previousMIPNumber"
              (.int (j : Int))) T x y) := by
  have hj : (((j + 1 : Nat) : Int) - 1) = (j : Int) := by push_cast; ring
  simp only [minifyLevel, hsh, setSao_sao, hfb, World.push2D, clear_sao, push2DWith_sao, hcsz, hj]
  generalize hP : World.push2DWith _ _ _ = P
  have hB : w.rect2DBounds fb =
      Rect2D.xywh 0 0 (w.textures csz).width (w.textures csz).height := by
    simp [World.rect2DBounds, hcol]
  have p1 : P.rd.state = ⟨some fb, w.rect2DBounds fb, w.rect2DBounds fb, .DEPTH_ALWAYS_PASS,
      false, w.rd.state.colorClearValue⟩ := by
    rw [← hP]; simp [World.push2DWith, World.rect2DBounds]
  have p2 : P.textures = w.textures := by rw [← hP]; simp
  have p3 : P.framebuffers = w.framebuffers := by rw [← hP]; simp
  have pfb : P.rd.state.framebuffer = some fb := by rw [p1]
  have pcol : (P.framebuffers fb).color0 = some ⟨csz, j + 1⟩ := by rw [p3]; exact hcol
  have pdep : (P.framebuffers fb).depth = none := by rw [p3]; exact hdep
  have hT : ∀ sh : Shader, ∀ M : Members,
      (World.pop2D (World.applyRect env (World.setSao (P.clear true true true) M) sh
        env.defaultZ)).textures =
      Function.update (P.clear true true true).textures csz
        (((P.clear true true true).textures csz).write (j + 1)
          (fun x y => (w.rect2DBounds fb).contains x y && (w.rect2DBounds fb).contains x y)
          (env.kernel sh (P.clear true true true).textures)) := by
    intro sh M
    rw [pop2D_textures, applyRect_always_textures env _ sh _ fb csz (j + 1)
      (by simp [pfb]) (by simpa using pcol) (by simp [p1]) (by simp [p1])]
    simp [p1]
  have hC : (P.clear true true true).textures =
      Function.update w.textures csz
        ((w.textures csz).write (j + 1) (w.rect2DBounds fb).contains
          (fun _ _ => w.rd.state.colorClearValue)) := by
    rw [clear_full_textures P fb csz (j + 1) pfb pcol pdep, p1, p2]
  refine ⟨_, rfl, ?_, ?_, ?_⟩
  · intro t ht
    rw [hT, Function.update_noteq ht, hC, Function.update_noteq ht]
  · intro l hl x y
    rw [hT, Function.update_same, hC, Function.update_same]
    simp [Texture.write, hl]
  · intro x y hin T hTw hTh hTt
    have hcont : (w.rect2DBounds fb).contains x y = true := by
      rw [hB]; exact inBounds_in_bounds _ _ x y hW hH hin
    have hin' : ((P.clear true true true).textures csz).inBounds (j + 1) x y = true := by
      rw [hC, Function.update_same]
      simpa [Texture.inBounds, Texture.levelWidth, Texture.levelHeight, Texture.write] using hin
    rw [hT, Function.update_same]
    simp only [Texture.write, hcont, hin', Bool.and_self, and_self, if_true]
    apply hloc _ csz j _ T (by simpa [Shader.set] using hp) (by simp [Shader.set])
      (by simp [Shader.set])
    · rw [hC, Function.update_same, hTw]; rfl
    · rw [hC, Function.update_same, hTh]; rfl
    · intro x' y'
      rw [hC, Function.update_same, hTt]
      simp [Texture.write]

theorem inBounds_congr (t t' : Texture) (l : Nat) (x y : Int) (hw : t'.width = t.width)
    (hh : t'.height = t.height) : t'.inBounds l x y = t.inBounds l x y := by
  simp [Texture.inBounds, Texture.levelWidth, Texture.levelHeight, hw, hh]

/-- The levels 1 to `MAX_MIP_LEVEL` of the pyramid, texel by texel: the loop
changes only the levels 1 and up of the pyramid buffer, and (for a minify
program that reads only the previous level) every pixel of level `j + 1` holds
the value that the program of draw `j + 1` gives on level `j` of the result. -/
theorem minifyLoop_texel (env : Env) (X : World) (fbs : List Nat) (csz : Nat) (shX : Shader)
    (hsh : X.sao.m_cszMinifyShader = some shX) (hp : shX.pixelFile = "SAO_minify.pix")
    (hfbs : X.sao.m_cszFramebuffers = fbs) (hlen : fbs.length = MAX_MIP_LEVEL + 1)
    (hcsz : X.sao.m_cszBuffer = some csz)
    (hcol : ∀ i fb, fbs[i]? = some fb → (X.framebuffers fb).color0 = some ⟨csz, i⟩)
    (hdep : ∀ fb, fb ∈ fbs → (X.framebuffers fb).depth = none)
    (hW : 0 < (X.textures csz).width) (hH : 0 < (X.textures csz).height)
    (hloc : MinifyReadsPreviousLevel env) :
    ∃ w' L, forLoop (minifyLevel env) 1 MAX_MIP_LEVEL X = .ok w' ∧
      draws w'.commands = draws X.commands ++ L ∧
      (∀ t, t ≠ csz → w'.textures t = X.textures t) ∧
      (∀ x y, (w'.textures csz).texel 0 x y = (X.textures csz).texel 0 x y) ∧
      (∀ t, (w'.textures t).width = (X.textures t).width) ∧
      (∀ t, (w'.textures t).height = (X.textures t).height) ∧
      (∀ (j : Nat) st sh z, L[j]? = some (st, sh, z) →
        ∀ x y, (w'.textures csz).inBounds (j + 1) x y = true →
        ∀ T : Nat → Texture, (T csz).width = (w'.textures csz).width →
          (T csz).height = (w'.textures csz).height →
          (∀ x y, (T csz).texel j x y = (w'.textures csz).texel j x y) →
          (w'.textures csz).texel (j + 1) x y = env.kernel sh T x y) := by
  have key := forLoop_ind (minifyLevel env) (fun i w1 =>
    ∃ L shi, draws w1.commands = draws X.commands ++ L ∧ L.length + 1 = i ∧
      w1.sao = { X.sao with m_cszMinifyShader := some shi } ∧
      shi.pixelFile = "SAO_minify.pix" ∧
      w1.framebuffers = X.framebuffers ∧
      (∀ t, (w1.textures t).width = (X.textures t).width) ∧
      (∀ t, (w1.textures t).height = (X.textures t).height) ∧
      (∀ t, t ≠ csz → w1.textures t = X.textures t) ∧
      (∀ x y, (w1.textures csz).texel 0 x y = (X.textures csz).texel 0 x y) ∧
      (∀ (j : Nat) st sh z, L[j]? = some (st, sh, z) →
        ∀ x y, (w1.textures csz).inBounds (j + 1) x y = true →
        ∀ T : Nat → Texture, (T csz).width = (w1.textures csz).width →
          (T csz).height = (w1.textures csz).height →
          (∀ x y, (T csz).texel j x y = (w1.textures csz).texel j x y) →
          (w1.textures csz).texel (j + 1) x y = env.kernel sh T x y))
    MAX_MIP_LEVEL 1 X ?_ ?_
  · obtain ⟨w', hw', L, sh5, a1, -, -, -, -, a6, a7, a8, a9, a10⟩ := key
    exact ⟨w', L, hw', a1, a8, a9, a6, a7, a10⟩
  · refine ⟨[], shX, by simp, rfl, ?_, hp, rfl, fun _ => rfl, fun _ => rfl, fun _ _ => rfl,
      fun _ _ => rfl, ?_⟩
    · cases hX : X with
      | mk a b c d e sao f g => subst hX; simp at hsh ⊢; cases sao; simp_all
    · intro j st sh z h; simp at h
  · intro i w1 hlo hhi ⟨L, shi, a1, a2, a3, a4, a5, a6, a7, a8, a9, a10⟩
    have hi : i < fbs.length := by rw [hlen]; simp only [MAX_MIP_LEVEL] at hhi ⊢; omega
    have hil : i = L.length + 1 := a2.symm
    subst hil
    have hget : fbs[L.length + 1]? = some (fbs.get ⟨L.length + 1, hi⟩) :=
      List.getElem?_eq_getElem hi
    have hfb : w1.sao.m_cszFramebuffers[L.length + 1]? = some (fbs.get ⟨L.length + 1, hi⟩) := by
      rw [a3]; simp only; rw [hfbs]; exact hget
    obtain ⟨w', st, hw', b1, -, -, -, -, -, b6, b7, b8, b9⟩ :=
      minifyLevel_effect env (L.length + 1) w1 (fbs.get ⟨L.length + 1, hi⟩) shi (by rw [a3]) hfb
    obtain ⟨w'', hw'', c1, c2, c3⟩ :=
      minifyLevel_texel env L.length w1 (fbs.get ⟨L.length + 1, hi⟩) csz shi (by rw [a3]) a4 hfb
        (by rw [a3]; exact hcsz) (by rw [a5]; exact hcol _ _ hget)
        (by rw [a5]; exact hdep _ (List.getElem?_mem hget)) (by rw [a6]; exact hW)
        (by rw [a7]; exact hH) hloc
    have e : w'' = w' := Outcome.ok.inj (hw''.symm.trans hw')
    subst e
    have hcszB : w1.sao.m_cszBuffer = some csz := by rw [a3]; exact hcsz
    have hj : (((L.length + 1 : Nat) : Int) - 1) = (L.length : Int) := by push_cast; ring
    rw [hcszB, hj] at b1 b6
    refine ⟨w'', hw', L ++ [(st, (shi.set "texture" (.texture (some csz))).set
        "previousMIPNumber" (.int (L.length : Int)), env.defaultZ)],
      (shi.set "texture" (.texture (some csz))).set
        "previousMIPNumber" (.int (L.length : Int)), ?_, ?_, ?_, ?_, ?_, ?_, ?_, ?_, ?_, ?_⟩
    · rw [b1, draws_append, a1]
      simp [draws]
    · simp
    · rw [b6, a3]
    · simp [Shader.set, a4]
    · rw [b7, a5]
    · intro t; rw [b8, a6]
    · intro t; rw [b9, a7]
    · intro t ht; rw [c1 t ht, a8 t ht]
    · intro x y; rw [c2 0 (by omega), a9]
    · intro j st' sh' z' hjm x y hin T hTw hTh hTt
      have hin1 : (w1.textures csz).inBounds (j + 1) x y = true := by
        rw [← inBounds_congr _ _ (j + 1) x y (b8 csz) (b9 csz)]; exact hin
      by_cases hjl : j < L.length
      · rw [List.getElem?_append_left hjl] at hjm
        rw [c2 (j + 1) (by omega)]
        refine a10 j st' sh' z' hjm x y hin1 T (by rw [hTw, b8]) (by rw [hTh, b9]) ?_
        intro x' y'
        rw [hTt, c2 j (by omega)]
      · have hjl' : L.length ≤ j := Nat.le_of_not_lt hjl
        rw [List.getElem?_append_right hjl'] at hjm
        have hj0 : j - L.length = 0 := by
          by_contra hne
          have : 1 ≤ j - L.length := Nat.one_le_iff_ne_zero.mpr hne
          rw [List.getElem?_eq_none (by simpa using this)] at hjm
          cases hjm
        rw [hj0] at hjm
        simp only [List.getElem?_cons_zero, Option.some.injEq, Prod.mk.injEq] at hjm
        obtain ⟨rfl, rfl, rfl⟩ := hjm
        have hjeq : j = L.length := by omega
        subst hjeq
        refine c3 x y hin1 T (by rw [hTw, b8]) (by rw [hTh, b9]) ?_
        intro x' y'
        rw [hTt, c2 L.length (by omega)]

/-- The pyramid pass, texel by texel, on pyramid framebuffers without depth
attachment and a pyramid buffer of positive size.  Only the pyramid buffer
changes.  Every pixel of level 0 holds the value of the reconstruction program
on a heap in which every other texture is as before the call; and (for a
minify program that reads only the previous level) every pixel of level
`j + 1` holds the value that the program of draw `j + 1` gives on level `j` of
the result, whatever the rest of the heap. -/
theorem computeCSZ_texel (env : Env) (d : Option Nat) (c : Vector3) (w : World)
    (fbs : List Nat) (csz : Nat) (s3 s4 : Shader)
    (h3 : w.sao.m_reconstructCSZShader = some s3) (h4 : w.sao.m_cszMinifyShader = some s4)
    (hp4 : s4.pixelFile = "SAO_minify.pix")
    (hfbs : w.sao.m_cszFramebuffers = fbs) (hlen : fbs.length = MAX_MIP_LEVEL + 1)
    (hcsz : w.sao.m_cszBuffer = some csz)
    (hcol : ∀ i fb, fbs[i]? = some fb → (w.framebuffers fb).color0 = some ⟨csz, i⟩)
    (hdep : ∀ fb, fb ∈ fbs → (w.framebuffers fb).depth = none)
    (hW : 0 < (w.textures csz).width) (hH : 0 < (w.textures csz).height)
    (hloc : MinifyReadsPreviousLevel env) :
    ∃ w' L T0, computeCSZ env d c w = .ok w' ∧
      draws w'.commands = draws w.commands ++ L ∧
      (∀ t, t ≠ csz → w'.textures t = w.textures t) ∧
      ((w'.textures csz).width = (w.textures csz).width ∧
        (w'.textures csz).height = (w.textures csz).height) ∧
      (∀ t, t ≠ csz → T0 t = w.textures t) ∧
      (∀ st sh z, L[0]? = some (st, sh, z) →
        ∀ x y, (w'.textures csz).inBounds 0 x y = true →
          (w'.textures csz).texel 0 x y = env.kernel sh T0 x y) ∧
      (∀ (j : Nat) st sh z, L[j + 1]? = some (st, sh, z) →
        ∀ x y, (w'.textures csz).inBounds (j + 1) x y = true →
        ∀ T : Nat → Texture, (T csz).width = (w'.textures csz).width →
          (T csz).height = (w'.textures csz).height →
          (∀ x y, (T csz).texel j x y = (w'.textures csz).texel j x y) →
          (w'.textures csz).texel (j + 1) x y = env.kernel sh T x y) := by
  have h0 : 0 < fbs.length := by rw [hlen]; exact Nat.succ_pos _
  obtain ⟨fb0, hget0⟩ : ∃ fb0, fbs[0]? = some fb0 := ⟨_, List.getElem?_eq_getElem h0⟩
  have hfb0 : w.sao.m_cszFramebuffers[0]? = some fb0 := by
    rw [hfbs]; exact hget0
  have hc0 := hcol 0 _ hget0
  have hd0 := hdep _ (List.getElem?_mem hget0)
  simp only [computeCSZ, enter_sao, hfb0, World.push2D, clear_sao, push2DWith_sao, h3,
    setSao_sao]
  generalize hP : World.push2DWith _ _ _ = P
  have hB : w.rect2DBounds fb0 =
      Rect2D.xywh 0 0 (w.textures csz).width (w.textures csz).height := by
    exact rect2DBounds_color0 w fb0 csz 0 hc0
  have p1 : P.rd.state = ⟨some fb0, w.rect2DBounds fb0,
      w.rect2DBounds fb0, .DEPTH_ALWAYS_PASS, false,
      w.rd.state.colorClearValue⟩ := by
    rw [← hP]; simp [World.push2DWith, World.rect2DBounds]
  have p2 : P.textures = w.textures := by rw [← hP]; simp
  have p3 : P.framebuffers = w.framebuffers := by rw [← hP]; simp
  have p4 : P.sao = w.sao := by rw [← hP]; simp
  have p5 : P.commands = w.commands := by rw [← hP]; simp [World.push2DWith]
  have pfb : P.rd.state.framebuffer = some fb0 := by rw [p1]
  have pcol : (P.framebuffers fb0).color0 = some ⟨csz, 0⟩ := by rw [p3]; exact hc0
  have pdep : (P.framebuffers fb0).depth = none := by rw [p3]; exact hd0
  have hC : (P.clear true true true).textures =
      Function.update w.textures csz
        ((w.textures csz).write 0 (w.rect2DBounds fb0).contains
          (fun _ _ => w.rd.state.colorClearValue)) := by
    rw [clear_full_textures P _ csz 0 pfb pcol pdep, p1, p2]
  generalize hX : World.pop2D _ = X
  have x0 : X.textures =
      Function.update (P.clear true true true).textures csz
        (((P.clear true true true).textures csz).write 0
          (fun x y => (w.rect2DBounds fb0).contains x y &&
            (w.rect2DBounds fb0).contains x y)
          (env.kernel ((s3.set "clipInfo" (.vector3 c)).set "DEPTH_AND_STENCIL_buffer"
            (.texture d)) (P.clear true true true).textures)) := by
    rw [← hX, pop2D_textures, applyRect_always_textures env _ _ _ fb0 csz 0
      (by simp [pfb]) (by simpa using pcol) (by simp [p1]) (by simp [p1])]
    simp [p1]
  have x1 : X.sao = { w.sao with m_reconstructCSZShader := some ((s3.set "clipInfo"
      (.vector3 c)).set "DEPTH_AND_STENCIL_buffer" (.texture d)) } := by
    rw [← hX]; simp [p4]
  have x2 : X.framebuffers = w.framebuffers := by rw [← hX]; simp [p3]
  have x3 : ∀ t, (X.textures t).width = (w.textures t).width := by
    intro t; rw [← hX]; simp [p2]
  have x4 : ∀ t, (X.textures t).height = (w.textures t).height := by
    intro t; rw [← hX]; simp [p2]
  have x5 : ∃ st, X.commands = w.commands ++ [.clear st true true true,
      .applyRect st ((s3.set "clipInfo" (.vector3 c)).set "DEPTH_AND_STENCIL_buffer"
        (.texture d)) env.defaultZ] := by
    refine ⟨P.rd.state, ?_⟩
    rw [← hX]; simp [p5]
  obtain ⟨st0, xc⟩ := x5
  have x6 : ∀ t, t ≠ csz → X.textures t = w.textures t := by
    intro t ht
    rw [x0, Function.update_noteq ht, hC, Function.update_noteq ht]
  obtain ⟨w', L, hw', a1, a2, a3, a4, a5, a6⟩ :=
    minifyLoop_texel env X fbs csz s4 (by rw [x1]; exact h4) hp4 (by rw [x1]; exact hfbs) hlen
      (by rw [x1]; exact hcsz) (fun i fb h => by rw [x2]; exact hcol i fb h)
      (fun fb h => by rw [x2]; exact hdep fb h) (by rw [x3]; exact hW) (by rw [x4]; exact hH) hloc
  refine ⟨w', (st0, (s3.set "clipInfo" (.vector3 c)).set "DEPTH_AND_STENCIL_buffer"
      (.texture d), env.defaultZ) :: L, (P.clear true true true).textures, hw', ?_, ?_, ?_, ?_,
    ?_, ?_⟩
  · rw [a1, xc, draws_append]
    simp [draws]
  · intro t ht; rw [a2 t ht, x6 t ht]
  · exact ⟨by rw [a4, x3], by rw [a5, x4]⟩
  · intro t ht; rw [hC, Function.update_noteq ht]
  · intro st sh z hL x y hin
    simp only [List.getElem?_cons_zero, Option.some.injEq, Prod.mk.injEq] at hL
    obtain ⟨-, rfl, -⟩ := hL
    have hinw : (w.textures csz).inBounds 0 x y = true := by
      rw [← inBounds_congr _ _ 0 x y ((a4 csz).trans (x3 csz)) ((a5 csz).trans (x4 csz))]
      exact hin
    have hcont : (w.rect2DBounds fb0).contains x y = true := by
      rw [hB]; exact inBounds_in_bounds _ _ x y hW hH hinw
    have hin' : ((P.clear true true true).textures csz).inBounds 0 x y = true := by
      rw [hC, Function.update_same]
      simpa [Texture.inBounds, Texture.levelWidth, Texture.levelHeight, Texture.write] using hinw
    rw [a3, x0, Function.update_same]
    simp only [Texture.write, hcont, hin', Bool.and_self, and_self, if_true]
  · intro j st sh z hL
    simp only [List.getElem?_cons_succ] at hL
    exact a6 j st sh z hL

/-! ## The pyramid framebuffers have no depth attachment -/

theorem noDepth_of (w w' : World)
    (hf : ∀ fb, (w'.framebuffers fb).depth = (w.framebuffers fb).depth ∨
      (w'.framebuffers fb).depth = none)
    (hl : w'.sao.m_cszFramebuffers = w.sao.m_cszFramebuffers) (h : NoPyramidDepth w) :
    NoPyramidDepth w' := by
  intro fb hfb
  rcases hf fb with e | e
  · rw [e]; exact h fb (by rw [← hl]; exact hfb)
  · exact e

theorem createFramebuffer_depth (w : World) (n : String) (fb : Nat) :
    ((w.createFramebuffer n).framebuffers fb).depth = (w.framebuffers fb).depth ∨
      ((w.createFramebuffer n).framebuffers fb).depth = none := by
  by_cases e : fb = w.nextFramebuffer
  · right; simp [World.createFramebuffer, e]
  · left; simp [World.createFramebuffer, Function.update_noteq e]

theorem framebufferSet_color_depth (w : World) (f : Nat) (t : Option Nat) (mip fb : Nat) :
    ((w.framebufferSet f .COLOR0 t mip).framebuffers fb).depth = (w.framebuffers fb).depth := by
  by_cases e : fb = f
  · subst e; simp [World.framebufferSet, Framebuffer.set]
  · simp [World.framebufferSet, Function.update_noteq e]

theorem noDepth_framebufferSet_color {w : World} (f : Nat) (t : Option Nat) (mip : Nat)
    (h : NoPyramidDepth w) : NoPyramidDepth (w.framebufferSet f .COLOR0 t mip) :=
  noDepth_of w _ (fun fb => Or.inl (framebufferSet_color_depth w f t mip fb)) rfl h

theorem noDepth_appendCszFramebuffer {w : World} (i : Nat) (h : NoPyramidDepth w) :
    NoPyramidDepth (appendCszFramebuffer i w).world := by
  intro fb hfb
  simp only [appendCszFramebuffer, Outcome.world, setSao_sao, List.mem_append,
    List.mem_singleton] at hfb
  simp only [appendCszFramebuffer, Outcome.world, setSao_framebuffers]
  rcases hfb with hm | hm
  · rcases createFramebuffer_depth w ("cszFramebuffers[" ++ toString i ++ "]") fb with e | e
    · rw [e]; exact h fb hm
    · exact e
  · subst hm; simp [World.createFramebuffer]

theorem noDepth_rebindCszFramebuffer {w : World} (i : Nat) (h : NoPyramidDepth w) :
    NoPyramidDepth (rebindCszFramebuffer i w).world := by
  unfold rebindCszFramebuffer
  split
  · exact h
  · exact noDepth_framebufferSet_color _ _ _ h

theorem rebindBuffers_noDepth {w : World} (h : NoPyramidDepth w) :
    NoPyramidDepth (rebindBuffers w).world := by
  unfold rebindBuffers
  split
  · exact h
  · simp only
    have h1 : NoPyramidDepth (w.framebufferSet (by assumption) .COLOR0 w.sao.m_rawAOBuffer 0) :=
      noDepth_framebufferSet_color _ _ _ h
    split
    · exact h1
    · exact forLoop_inv _ NoPyramidDepth (fun i w1 h1 => noDepth_rebindCszFramebuffer i h1) _ _ _
        (noDepth_framebufferSet_color _ _ _ h1)

/-- No outcome of `resizeBuffers` gives a pyramid framebuffer a depth attachment. -/
theorem resizeBuffers_noDepth {w : World} (env : Env) (W H : Int) (h : NoPyramidDepth w) :
    NoPyramidDepth (resizeBuffers env W H w).world := by
  have h0 : NoPyramidDepth (w.enter (.resizeBuffers W H)) := h
  unfold resizeBuffers
  simp only
  split
  · have h1 : NoPyramidDepth (((w.enter (.resizeBuffers W H)).createFramebuffer
        "rawAOFramebuffer").setSao { (w.enter (.resizeBuffers W H)).sao with
          m_rawAOFramebuffer := some (w.enter (.resizeBuffers W H)).nextFramebuffer }) :=
      noDepth_of _ _ (fun fb => createFramebuffer_depth _ _ fb) rfl h0
    generalize World.setSao _ _ = w1 at h1 ⊢
    have h2 : NoPyramidDepth ((w1.createFramebuffer "hBlurredFramebuffer").setSao
        { w1.sao with m_hBlurredFramebuffer := some w1.nextFramebuffer }) :=
      noDepth_of _ _ (fun fb => createFramebuffer_depth _ _ fb) rfl h1
    generalize World.setSao _ _ = w2 at h2 ⊢
    have h3 : NoPyramidDepth ((w2.createEmpty env "rawAOBuffer" W H .RGB8 .buffer).setSao
        { w2.sao with m_rawAOBuffer := some w2.nextTexture }) :=
      noDepth_of _ _ (fun fb => Or.inl rfl) rfl h2
    generalize World.setSao _ _ = w3 at h3 ⊢
    have h4 : NoPyramidDepth ((w3.createEmpty env "hBlurredBuffer" W H .RGB8 .buffer).setSao
        { w3.sao with m_hBlurredBuffer := some w3.nextTexture }) :=
      noDepth_of _ _ (fun fb => Or.inl rfl) rfl h3
    generalize World.setSao _ _ = w4 at h4 ⊢
    split
    · exact h4
    · split
      · exact h4
      · refine andThen_inv NoPyramidDepth _ _
          (forLoop_inv _ NoPyramidDepth (fun i w1 h1 => noDepth_appendCszFramebuffer i h1) _ _ _
            ?_)
          (fun w1 h1 => rebindBuffers_noDepth h1)
        exact noDepth_of w4 _ (fun fb => Or.inl rfl) rfl h4
  · split
    · exact h0
    · split
      · have h1 : NoPyramidDepth ((w.enter (.resizeBuffers W H)).resizeTexture env
            (by assumption) W H) := noDepth_of _ _ (fun fb => Or.inl rfl) rfl h0
        split
        · exact h1
        · have h2 := noDepth_of _ (World.resizeTexture env
            ((w.enter (.resizeBuffers W H)).resizeTexture env (by assumption) W H)
            (by assumption) W H) (fun fb => Or.inl rfl) rfl h1
          split
          · exact h2
          · exact rebindBuffers_noDepth (noDepth_of _ (World.resizeTexture env _
              (by assumption) W H) (fun fb => Or.inl rfl) rfl h2)
      · exact h0

/-- The state in which a `compute` with valid arguments calls `computeCSZ`:
the shaders are loaded, the buffer set is allocated and bound, the pyramid
buffer has the size of the depth buffer, and no pyramid framebuffer has a depth
attachment if none had before; the same holds of the state `compute` returns. -/
theorem compute_pyramid_state (env : Env) (d : Nat) (c : Vector3) (p : Vector4) (ps : ℚ)
    (g : Int) (w : World) (hc : Consistent w)
    (hfirst : w.sao.m_rawAOFramebuffer = none →
      (env.ZBITS = 16 ∨ env.ZBITS = 32) ∧
        (env.debug = true → 0 < (w.textures d).width ∧ 0 < (w.textures d).height))
    (hps : env.debug = true → ps > 0) (hn : NoPyramidDepth w) :
    ∃ w2 w3 w' rawFb hFb raw hBlurred csz fbs,
      compute env (some d) c p ps g w = .ok w' ∧
      computeCSZ env (some d) c w2 = .ok w3 ∧
      ShadersLoaded w2.sao ∧ AllocatedAs w2 rawFb hFb raw hBlurred csz fbs ∧
      Bound w2 rawFb hFb raw hBlurred csz fbs ∧
      (w2.textures csz).width = (w.textures d).width ∧
      (w2.textures csz).height = (w.textures d).height ∧
      w2.commands = w.commands ∧
      NoPyramidDepth w2 ∧ NoPyramidDepth w' := by
  obtain ⟨w1, hw1, hs1, hf1, ht1, hcmd1, -⟩ :=
    compute_shaders (Call.compute (some d) c p ps g) w hc
  have hfb1 : w1.framebuffers = w.framebuffers := by
    rw [← hw1]; split <;> simp [reloadShaders]
  have hn1 : NoPyramidDepth w1 :=
    noDepth_of w w1 (fun fb => Or.inl (by rw [hfb1])) hf1.cszFramebuffers hn
  have hc1 : Consistent w1 := by
    refine ⟨Or.inr hs1, ?_⟩
    rcases hc.buffers with ⟨a, b⟩ | ⟨rawFb, hFb, raw, hBlurred, csz, fbs, hA, hS, hB⟩
    · left; exact ⟨by rw [hf1.rawAOFramebuffer]; exact a, by rw [hf1.cszFramebuffers]; exact b⟩
    · right; exact ⟨_, _, _, _, _, _, allocatedAs_frame hA hf1, sameSize_frame hS hf1, bound_frame hB hf1⟩
  obtain ⟨w2, hw2, ⟨rawFb, hFb, raw, hBlurred, csz, fbs, hA, hS, hB, hW, hH⟩, hrf, -⟩ :=
    resizeBuffers_ok env (w.textures d).width (w.textures d).height w1 hc1
      (fun h => hfirst (by rw [← hf1.rawAOFramebuffer]; exact h))
  have hn2 : NoPyramidDepth w2 := by
    have := resizeBuffers_noDepth env (w.textures d).width (w.textures d).height hn1
    rw [hw2] at this
    exact this
  have hs2 : ShadersLoaded w2.sao := by
    obtain ⟨a, b, c', d'⟩ := hs1
    exact ⟨by rw [hrf.rawAOShader]; exact a, by rw [hrf.blurShader]; exact b,
      by rw [hrf.reconstructCSZShader]; exact c', by rw [hrf.cszMinifyShader]; exact d'⟩
  obtain ⟨s3, h3, -⟩ := hs2.reconstructCSZ
  obtain ⟨s4, h4, -⟩ := hs2.cszMinify
  obtain ⟨w3, L, sh5, hw3, -, -, -, -, -, k3, -, -⟩ :=
    computeCSZ_effect env (some d) c w2 fbs s3 s4 h3 h4 hA.cszFramebuffers hA.length
  obtain ⟨w3', hw3', hs3, hf3, -, -⟩ := computeCSZ_ok env (some d) c w2 hs2
    (by rw [hA.cszFramebuffers]; exact hA.length)
  have e : w3' = w3 := Outcome.ok.inj (hw3'.symm.trans hw3)
  subst e
  have hA3 := allocatedAs_frame hA hf3
  obtain ⟨w4, stR, shR, hw4, -, -, -, -, -, -, -, -, -, k4⟩ :=
    computeRawAO_effect env (some d) c p ps w3'.sao.m_cszBuffer g w3' rawFb hs3
      hA3.rawAOFramebuffer hps
  obtain ⟨w4', hw4', hs4, hf4, -, -⟩ := computeRawAO_ok env (some d) c p ps w3'.sao.m_cszBuffer g
    w3' hs3 (by rw [hA3.rawAOFramebuffer]; rfl) hps
  have e : w4' = w4 := Outcome.ok.inj (hw4'.symm.trans hw4)
  subst e
  have hA4 := allocatedAs_frame hA3 hf4
  obtain ⟨w5, stH, shH, hw5, -, -, -, -, -, -, -, -, -, k5⟩ :=
    blurHorizontal_effect env (some d) g w4' hFb hs4 hA4.hBlurredFramebuffer
  obtain ⟨w5', hw5', hs5, hf5, -, -⟩ := blurHorizontal_ok env (some d) g w4' hs4
  have e : w5' = w5 := Outcome.ok.inj (hw5'.symm.trans hw5)
  subst e
  obtain ⟨w6, stV, shV, hw6, -, -, -, -, -, -, -, -, -, k6⟩ :=
    blurVertical_effect env (some d) g w5' hs5
  obtain ⟨w6', hw6', -, hf6, -, -⟩ := blurVertical_ok env (some d) g w5' hs5
  have e : w6' = w6 := Outcome.ok.inj (hw6'.symm.trans hw6)
  subst e
  have hrn : rawFb ∉ fbs := by
    have hnd := hA.nodup
    simp only [List.nodup_cons, List.mem_cons, not_or] at hnd
    exact hnd.1.2
  have hn6 : NoPyramidDepth w6' := by
    intro fb hfb
    have hmem : fb ∈ fbs := by
      rw [hf6.cszFramebuffers, hf5.cszFramebuffers, hf4.cszFramebuffers,
        hf3.cszFramebuffers, hA.cszFramebuffers] at hfb
      exact hfb
    have hne : fb ≠ rawFb := fun e => hrn (e ▸ hmem)
    rw [k6, k5, k4, Function.update_noteq hne, k3]
    exact hn2 fb (by rw [hA.cszFramebuffers]; exact hmem)
  refine ⟨w2, w3', w6', rawFb, hFb, raw, hBlurred, csz, fbs, ?_, hw3, hs2, hA, hB,
    by rw [hS.cszWidth, hW], by rw [hS.cszHeight, hH], by rw [hrf.commands, hcmd1], hn2, hn6⟩
  simp only [compute]
  rw [hw1, ht1, hw2]
  simp only [Outcome.andThen, hw3, hw4, hw5]
  exact hw6

/-- No completed `compute` gives a pyramid framebuffer a depth attachment. -/
theorem compute_noDepth (env : Env) (depth : Option Nat) (c : Vector3) (p : Vector4)
    (ps : ℚ) (g : Int) (w w' : World) (hc : Consistent w) (hn : NoPyramidDepth w)
    (h : compute env depth c p ps g w = .ok w') : NoPyramidDepth w' := by
  cases depth with
  | none => simp [compute] at h
  | some d =>
    by_cases hfirst : w.sao.m_rawAOFramebuffer = none →
        (env.ZBITS = 16 ∨ env.ZBITS = 32) ∧
          (env.debug = true → 0 < (w.textures d).width ∧ 0 < (w.textures d).height)
    · by_cases hps : env.debug = true → ps > 0
      · obtain ⟨w2, w3, w'', rawFb, hFb, raw, hBlurred, csz, fbs, h1, -, -, -, -, -, -, -, -, h2⟩ :=
          compute_pyramid_state env d c p ps g w hc hfirst hps hn
        rw [h1] at h
        cases h
        exact h2
      · obtain ⟨w3, h3, -⟩ := compute_to_rawAO env d c p ps g w hc hfirst
        have hd : env.debug = true := by
          by_contra hn; exact hps (fun h => absurd h hn)
        have hn : ¬ ps > 0 := fun hp => hps (fun _ => hp)
        rw [h3, tail_abort env (some d) c p ps _ g w3 hd hn] at h
        cases h
    · have hnone : w.sao.m_rawAOFramebuffer = none := by
        by_contra hn; exact hfirst (fun h => absurd h hn)
      have hbad : ¬ ((env.ZBITS = 16 ∨ env.ZBITS = 32) ∧
          (env.debug = true → 0 < (w.textures d).width ∧ 0 < (w.textures d).height)) :=
        fun hb => hfirst (fun _ => hb)
      obtain ⟨f, w'', h1⟩ := compute_abort_first env d c p ps g w hc hnone hbad
      rw [h1] at h
      cases h

/-- In every state reached from a new instance no pyramid framebuffer has a
depth attachment. -/
theorem reaches_noDepth (env : Env) (w0 w : World) (h0 : w0.sao = Members.new)
    (h : Reaches env w0 w) : NoPyramidDepth w := by
  induction h with
  | refl =>
    intro fb hfb
    rw [h0] at hfb
    simp [Members.new] at hfb
  | step op hr hrun ih =>
    have hc := reaches_consistent env _ _ (consistent_new _ h0) hr
    have ih := ih h0
    cases op with
    | resizeBuffers W H =>
      have := resizeBuffers_noDepth env W H ih
      simp only [Op.run] at hrun
      rw [hrun] at this
      exact this
    | compute depth c p ps g => exact compute_noDepth env depth c p ps g _ _ hc ih hrun
    | computeCamera depth camera g =>
      cases depth with
      | none => simp [Op.run, computeCamera] at hrun
      | some d => exact compute_noDepth env (some d) _ _ _ g _ _ hc ih hrun

theorem demoReady_noDepth : NoPyramidDepth demoReady :=
  noDepth_of demoAllocated demoReady (fun _ => Or.inl rfl) rfl
    (reaches_noDepth demoEnv demoWorld demoAllocated rfl
      (Reaches.step (.resizeBuffers 4 4) (Reaches.refl demoWorld) demoAllocated_ok))

/-! ## The claims, concluded -/

/-- C21: with the shaders loaded and the buffer set allocated and bound,
`computeCSZ` returns and submits exactly `MAX_MIP_LEVEL + 1 = 6` draws, in the
order level 0, 1, ..., 5.  Draw `i` is on pyramid framebuffer `i`, whose COLOR0
is MIP level `i` of the one pyramid buffer, with viewport and scissor equal to
the bounds of that framebuffer and every fragment passing the depth test.
Draw 0 uses the reconstruction program with `clipInfo` and the depth buffer as
arguments; draw `j + 1` comes after draw `j` and uses the minify program with
the pyramid buffer as `texture` and `previousMIPNumber = j`, the only two
arguments the loop sets (every other argument is as it was before the call).
The size of the pyramid buffer is unchanged.  Texel by texel, for a minify
program that reads only the level it is given (`MinifyReadsPreviousLevel`), on
pyramid framebuffers without depth attachment (as in every state reached from a
new instance) and a pyramid buffer of positive size: no other texture changes;
every pixel of level 0 holds the value of the reconstruction program on a heap
in which every other texture is as before the call; and every pixel of level
`j + 1` holds the value that the program of draw `j + 1` gives on any heap that
agrees with the result on level `j` of the pyramid buffer (its texels and the
size of the buffer), so level `j + 1` is a function of level `j` alone. -/
theorem C21_pyramid_draw_order (env : Env) (d : Option Nat) (c : Vector3) (w : World)
    (rawFb hFb raw hBlurred csz : Nat) (fbs : List Nat) (s4 : Shader)
    (hs : ShadersLoaded w.sao) (h4 : w.sao.m_cszMinifyShader = some s4)
    (hA : AllocatedAs w rawFb hFb raw hBlurred csz fbs)
    (hB : Bound w rawFb hFb raw hBlurred csz fbs) :
    MAX_MIP_LEVEL + 1 = 6 ∧
    ∃ w' L, computeCSZ env d c w = .ok w' ∧
      draws w'.commands = draws w.commands ++ L ∧ L.length = MAX_MIP_LEVEL + 1 ∧
      (∀ (i : Nat) st sh z, L[i]? = some (st, sh, z) →
        (∃ fb, fbs[i]? = some fb ∧ st.framebuffer = some fb ∧
          (w.framebuffers fb).color0 = some ⟨csz, i⟩ ∧
          st.viewport = w.rect2DBounds fb ∧ st.clip2D = w.rect2DBounds fb) ∧
        st.depthTest = .DEPTH_ALWAYS_PASS ∧
        (i = 0 → sh.pixelFile = "SAO_reconstructCSZ.pix" ∧
          sh.args "clipInfo" = some (.vector3 c) ∧
          sh.args "DEPTH_AND_STENCIL_buffer" = some (.texture d)) ∧
        (∀ j : Nat, i = j + 1 → sh.pixelFile = "SAO_minify.pix" ∧
          sh.args "texture" = some (.texture (some csz)) ∧
          sh.args "previousMIPNumber" = some (.int (j : Int)) ∧
          ∀ k, k ≠ "texture" → k ≠ "previousMIPNumber" → sh.args k = s4.args k)) ∧
      ((w'.textures csz).width = (w.textures csz).width ∧
        (w'.textures csz).height = (w.textures csz).height) ∧
      (MinifyReadsPreviousLevel env → NoPyramidDepth w →
        0 < (w.textures csz).width → 0 < (w.textures csz).height →
        (∀ t, t ≠ csz → w'.textures t = w.textures t) ∧
        (∃ T0 : Nat → Texture, (∀ t, t ≠ csz → T0 t = w.textures t) ∧
          ∀ st sh z, L[0]? = some (st, sh, z) →
            ∀ x y, (w'.textures csz).inBounds 0 x y = true →
              (w'.textures csz).texel 0 x y = env.kernel sh T0 x y) ∧
        ∀ (j : Nat) st sh z, L[j + 1]? = some (st, sh, z) →
          ∀ x y, (w'.textures csz).inBounds (j + 1) x y = true →
          ∀ T : Nat → Texture, (T csz).width = (w'.textures csz).width →
            (T csz).height = (w'.textures csz).height →
            (∀ x y, (T csz).texel j x y = (w'.textures csz).texel j x y) →
            (w'.textures csz).texel (j + 1) x y = env.kernel sh T x y) := by
  refine ⟨rfl, ?_⟩
  obtain ⟨s3, h3, hp3⟩ := hs.reconstructCSZ
  obtain ⟨s4', h4', hp4⟩ := hs.cszMinify
  have e : s4' = s4 := Option.some.inj (h4'.symm.trans h4)
  subst e
  obtain ⟨w', L, sh5, hw', a1, a2, a3, -, -, -, a7, a8⟩ :=
    computeCSZ_effect env d c w fbs s3 s4' h3 h4 hA.cszFramebuffers hA.length
  refine ⟨w', L, hw', a1, a2, ?_, ⟨a7 csz, a8 csz⟩, ?_⟩
  · intro i st sh z hi
    obtain ⟨⟨fb, b1, b2, b3, b4⟩, -, b5, -, b6, b7⟩ := a3 i st sh z hi
    refine ⟨⟨fb, b1, b2, hB.cszColor0 i fb b1, b3, b4⟩, b5, ?_, ?_⟩
    · intro h0
      rw [b6 h0]
      simp [Shader.set, hp3]
    · intro j hj
      obtain ⟨q1, q2, q3, q4⟩ := b7 j hj
      exact ⟨q1.trans hp4, by rw [q2, hA.cszBuffer], q3, q4⟩
  · intro hloc hnd hW hH
    obtain ⟨w'', L2, T0, hw'', t1, t2, -, t4, t5, t6⟩ :=
      computeCSZ_texel env d c w fbs csz s3 s4' h3 h4 hp4 hA.cszFramebuffers hA.length
        hA.cszBuffer hB.cszColor0
        (fun fb hfb => hnd fb (by rw [hA.cszFramebuffers]; exact hfb)) hW hH hloc
    have e : w'' = w' := Outcome.ok.inj (hw''.symm.trans hw')
    subst e
    have eL : L2 = L := List.append_cancel_left (t1.symm.trans a1)
    subst eL
    exact ⟨t2, ⟨T0, t4, t5⟩, t6⟩

theorem C21_pyramid_draw_order_witness :
    ShadersLoaded demoReady.sao ∧
    AllocatedAs demoReady 1 2 2 3 4 [3, 4, 5, 6, 7, 8] ∧
    Bound demoReady 1 2 2 3 4 [3, 4, 5, 6, 7, 8] ∧
    MinifyReadsPreviousLevel samplingEnv ∧ NoPyramidDepth demoReady ∧
    0 < (demoReady.textures 4).width ∧ 0 < (demoReady.textures 4).height ∧
    ∃ w' L, computeCSZ samplingEnv (some 0) ⟨100, 99, -100⟩ demoReady = .ok w' ∧
      draws w'.commands = draws demoReady.commands ++ L ∧ L.length = MAX_MIP_LEVEL + 1 ∧
      (∀ (i : Nat) st sh z, L[i]? = some (st, sh, z) →
        (∃ fb, [3, 4, 5, 6, 7, 8][i]? = some fb ∧ st.framebuffer = some fb ∧
          (demoReady.framebuffers fb).color0 = some ⟨4, i⟩) ∧
        (i = 0 → sh.pixelFile = "SAO_reconstructCSZ.pix" ∧
          sh.args "clipInfo" = some (.vector3 ⟨100, 99, -100⟩) ∧
          sh.args "DEPTH_AND_STENCIL_buffer" = some (.texture (some 0))) ∧
        (∀ j : Nat, i = j + 1 → sh.pixelFile = "SAO_minify.pix" ∧
          sh.args "texture" = some (.texture (some 4)) ∧
          sh.args "previousMIPNumber" = some (.int (j : Int)))) ∧
      (∀ t, t ≠ 4 → w'.textures t = demoReady.textures t) ∧
      (∀ (j : Nat) st sh z, L[j + 1]? = some (st, sh, z) →
        ∀ x y, (w'.textures 4).inBounds (j + 1) x y = true →
        ∀ T : Nat → Texture, (T 4).width = (w'.textures 4).width →
          (T 4).height = (w'.textures 4).height →
          (∀ x y, (T 4).texel j x y = (w'.textures 4).texel j x y) →
          (w'.textures 4).texel (j + 1) x y = samplingEnv.kernel sh T x y) ∧
      (w'.textures 4).texel 1 0 0 = (w'.textures 4).texel 0 0 0 := by
  have hW : 0 < (demoReady.textures 4).width := by decide
  have hH : 0 < (demoReady.textures 4).height := by decide
  refine ⟨reloadShaders_loaded demoAllocated, demoReady_allocated.1, demoReady_allocated.2,
    samplingEnv_local, demoReady_noDepth, hW, hH, ?_⟩
  obtain ⟨w', L, hw', hd, hlen, hdraw, hdims, htex⟩ :=
    (C21_pyramid_draw_order samplingEnv (some 0) ⟨100, 99, -100⟩ demoReady 1 2 2 3 4
      [3, 4, 5, 6, 7, 8] ((Shader.fromFiles "SAO.vrt" "SAO_minify.pix").setPreserveState false)
      (reloadShaders_loaded demoAllocated) rfl demoReady_allocated.1 demoReady_allocated.2).2
  obtain ⟨t1, -, t3⟩ := htex samplingEnv_local demoReady_noDepth hW hH
  refine ⟨w', L, hw', hd, hlen, ?_, t1, t3, ?_⟩
  · intro i st sh z hi
    obtain ⟨⟨fb, b1, b2, b3, -⟩, -, b5, b6⟩ := hdraw i st sh z hi
    exact ⟨⟨fb, b1, b2, b3⟩, b5, fun j hj => ⟨(b6 j hj).1, (b6 j hj).2.1, (b6 j hj).2.2.1⟩⟩
  · have h1 : 1 < L.length := by rw [hlen]; decide
    obtain ⟨⟨st, sh, z⟩, he⟩ : ∃ e, L[1]? = some e := ⟨_, List.getElem?_eq_getElem h1⟩
    obtain ⟨-, -, -, b6⟩ := hdraw 1 st sh z he
    obtain ⟨-, q2, q3, -⟩ := b6 0 rfl
    have hin : (w'.textures 4).inBounds 1 0 0 = true := by
      have e1 : (w'.textures 4).width = 4 := hdims.1
      have e2 : (w'.textures 4).height = 4 := hdims.2
      simp [Texture.inBounds, Texture.levelWidth, Texture.levelHeight, e1, e2]
    rw [t3 0 st sh z he 0 0 hin w'.textures rfl rfl (fun _ _ => rfl)]
    simp [samplingEnv, q2, q3]

/-- C22: in every allocated state reached from a new instance by calls of
`resizeBuffers` (and of `compute`) that returned, whatever the sizes, there are
exactly `MAX_MIP_LEVEL + 1 = 6` pyramid framebuffers, pairwise distinct, and
for every `i` in 0..5 the lookup `m_cszFramebuffers[i]` is in bounds and that
framebuffer has COLOR0 bound to MIP level `i` of the one pyramid buffer.  The
new instance has none; a further `resizeBuffers` of any size returns with the
same list, the same pyramid buffer and the same bindings, so framebuffers are
appended only by the first call; the rebind block returns, and with the
shaders loaded `computeCSZ` returns, so no index they use is out of bounds. -/
theorem C22_pyramid_framebuffers (env : Env) (w0 w : World) (h0 : w0.sao = Members.new)
    (h : Reaches env w0 w) (ha : w.sao.m_rawAOFramebuffer ≠ none) :
    MAX_MIP_LEVEL + 1 = 6 ∧ w0.sao.m_cszFramebuffers = [] ∧
    ∃ csz fbs, w.sao.m_cszBuffer = some csz ∧ w.sao.m_cszFramebuffers = fbs ∧
      fbs.length = MAX_MIP_LEVEL + 1 ∧ fbs.Nodup ∧
      (∀ i, i ≤ MAX_MIP_LEVEL → ∃ fb, w.sao.m_cszFramebuffers[i]? = some fb ∧
        (w.framebuffers fb).color0 = some ⟨csz, i⟩) ∧
      (∀ W H : Int, ∃ w', resizeBuffers env W H w = .ok w' ∧
        w'.sao.m_cszFramebuffers = fbs ∧ w'.sao.m_cszBuffer = some csz ∧
        ∀ i, i ≤ MAX_MIP_LEVEL → ∃ fb, w'.sao.m_cszFramebuffers[i]? = some fb ∧
          (w'.framebuffers fb).color0 = some ⟨csz, i⟩) ∧
      (∃ w', rebindBuffers w = .ok w' ∧ w'.sao.m_cszFramebuffers = fbs) ∧
      (∀ d c, ShadersLoaded w.sao →
        ∃ w', computeCSZ env d c w = .ok w' ∧ w'.sao.m_cszFramebuffers = fbs) := by
  have hc : Consistent w := reaches_consistent env w0 w (consistent_new w0 h0) h
  refine ⟨rfl, by rw [h0]; rfl, ?_⟩
  rcases hc.buffers with ⟨hn, -⟩ | ⟨rawFb, hFb, raw, hBlurred, csz, fbs, hA, hS, hB⟩
  · exact absurd hn ha
  have hget : ∀ (w1 : World), AllocatedAs w1 rawFb hFb raw hBlurred csz fbs →
      Bound w1 rawFb hFb raw hBlurred csz fbs →
      ∀ i, i ≤ MAX_MIP_LEVEL → ∃ fb, w1.sao.m_cszFramebuffers[i]? = some fb ∧
        (w1.framebuffers fb).color0 = some ⟨csz, i⟩ := by
    intro w1 hA1 hB1 i hi
    have hlt : i < fbs.length := by rw [hA1.length]; omega
    have hfb : fbs[i]? = some (fbs.get ⟨i, hlt⟩) := List.getElem?_eq_getElem hlt
    exact ⟨_, by rw [hA1.cszFramebuffers]; exact hfb, hB1.cszColor0 i _ hfb⟩
  refine ⟨csz, fbs, hA.cszBuffer, hA.cszFramebuffers, hA.length, ?_, hget w hA hB, ?_, ?_, ?_⟩
  · have hnd := hA.nodup
    simp only [List.nodup_cons] at hnd
    exact hnd.2.2
  · intro W H
    by_cases hsame : (w.textures raw).width = W ∧ (w.textures raw).height = H
    · refine ⟨_, resizeBuffers_same env W H w rawFb raw hA.rawAOFramebuffer hA.rawAOBuffer
        hsame.1 hsame.2, hA.cszFramebuffers, hA.cszBuffer, ?_⟩
      exact hget _ (allocatedAs_frame hA (enter_frame w _)) (bound_frame hB (enter_frame w _))
    · have hne : (w.textures raw).width ≠ W ∨ (w.textures raw).height ≠ H := by
        by_contra hcon
        push_neg at hcon
        exact hsame hcon
      obtain ⟨w', hw', hA', hB', -⟩ :=
        resizeBuffers_resize env W H w rawFb hFb raw hBlurred csz fbs hA hne
      exact ⟨w', hw', hA'.cszFramebuffers, hA'.cszBuffer, hget w' hA' hB'⟩
  · obtain ⟨w', hw', -, hsao, -⟩ := rebindBuffers_ok w rawFb hFb raw hBlurred csz fbs hA
    exact ⟨w', hw', by rw [hsao]; exact hA.cszFramebuffers⟩
  · intro d c hs
    obtain ⟨w', hw', -, hf, -⟩ := computeCSZ_ok env d c w hs
      (by rw [hA.cszFramebuffers]; exact hA.length)
    exact ⟨w', hw', by rw [hf.cszFramebuffers]; exact hA.cszFramebuffers⟩

theorem C22_pyramid_framebuffers_witness :
    demoWorld.sao = Members.new ∧ Reaches demoEnv demoWorld demoAllocated ∧
    demoAllocated.sao.m_rawAOFramebuffer ≠ none ∧
    ∃ csz fbs, demoAllocated.sao.m_cszBuffer = some csz ∧
      demoAllocated.sao.m_cszFramebuffers = fbs ∧
      fbs.length = MAX_MIP_LEVEL + 1 ∧ fbs.Nodup ∧
      (∀ i, i ≤ MAX_MIP_LEVEL → ∃ fb, demoAllocated.sao.m_cszFramebuffers[i]? = some fb ∧
        (demoAllocated.framebuffers fb).color0 = some ⟨csz, i⟩) ∧
      (∀ W H : Int, ∃ w', resizeBuffers demoEnv W H demoAllocated = .ok w' ∧
        w'.sao.m_cszFramebuffers = fbs ∧ w'.sao.m_cszBuffer = some csz ∧
        ∀ i, i ≤ MAX_MIP_LEVEL → ∃ fb, w'.sao.m_cszFramebuffers[i]? = some fb ∧
          (w'.framebuffers fb).color0 = some ⟨csz, i⟩) ∧
      (∃ w', rebindBuffers demoAllocated = .ok w' ∧ w'.sao.m_cszFramebuffers = fbs) ∧
      (∀ d c, ShadersLoaded demoAllocated.sao →
        ∃ w', computeCSZ demoEnv d c demoAllocated = .ok w' ∧
          w'.sao.m_cszFramebuffers = fbs) :=
  ⟨rfl, Reaches.step (.resizeBuffers 4 4) (Reaches.refl demoWorld) demoAllocated_ok,
    by rw [demoAllocated_as.1.rawAOFramebuffer]; exact Option.some_ne_none 1,
    (C22_pyramid_framebuffers demoEnv demoWorld demoAllocated rfl
      (Reaches.step (.resizeBuffers 4 4) (Reaches.refl demoWorld) demoAllocated_ok)
      (by rw [demoAllocated_as.1.rawAOFramebuffer]; exact Option.some_ne_none 1)).2.2⟩

/-- C23: for settings with `radius > 0`, one `computeRawAO` call returns and
submits exactly one draw, of the estimation program, whose arguments `radius`,
`bias`, `clipInfo`, `projInfo`, `projScale`, `CS_Z_buffer`, `intensityDivR6`
are the radius and bias held by the instance at the call, the constants and
the pyramid buffer it was given, and the one value `intensity / radius^6`
(exact arithmetic: times `radius^6` it gives the intensity back); the call
leaves the settings as they were. -/
theorem C23_intensityDivR6 (env : Env) (d : Option Nat) (c : Vector3) (p : Vector4) (ps : ℚ)
    (csz : Option Nat) (g : Int) (w : World) (rawFb : Nat) (hs : ShadersLoaded w.sao)
    (hfb : w.sao.m_rawAOFramebuffer = some rawFb) (hps : env.debug = true → ps > 0)
    (hr : 0 < radius w) :
    ∃ w' st sh, computeRawAO env d c p ps csz g w = .ok w' ∧
      draws w'.commands = draws w.commands ++ [(st, sh, Z_COORD)] ∧
      sh.pixelFile = "SAO_AO.pix" ∧
      estimationInputs sh =
        [some (.float (radius w)), some (.float (bias w)), some (.vector3 c),
          some (.vector4 p), some (.float ps), some (.texture csz),
          some (.float (intensity w / radius w ^ 6))] ∧
      intensity w / radius w ^ 6 * radius w ^ 6 = intensity w ∧
      w'.sao.m_settings = w.sao.m_settings := by
  obtain ⟨w', st, sh, hw', a1, -, -, -, -, -, a7, a8, a9, -⟩ :=
    computeRawAO_effect env d c p ps csz g w rawFb hs hfb hps
  refine ⟨w',
    { st with clip2D := Rect2D.xyxy g g (st.viewport.width - g) (st.viewport.height - g) },
    sh, hw', ?_, a7, a8, ?_, by rw [a9]⟩
  · rw [a1, draws_append]
    simp [draws]
  · exact div_mul_cancel₀ _ (pow_ne_zero 6 (ne_of_gt hr))

theorem C23_intensityDivR6_witness :
    ShadersLoaded demoReady.sao ∧ demoReady.sao.m_rawAOFramebuffer = some 1 ∧
    0 < radius demoReady ∧
    ∃ w' st sh, computeRawAO demoEnv (some 0) ⟨100, 99, -100⟩ ⟨1, 1, 1, 1⟩ 500 (some 4) 1
        demoReady = .ok w' ∧
      draws w'.commands = draws demoReady.commands ++ [(st, sh, Z_COORD)] ∧
      sh.pixelFile = "SAO_AO.pix" ∧
      estimationInputs sh =
        [some (.float (radius demoReady)), some (.float (bias demoReady)),
          some (.vector3 ⟨100, 99, -100⟩), some (.vector4 ⟨1, 1, 1, 1⟩), some (.float 500),
          some (.texture (some 4)),
          some (.float (intensity demoReady / radius demoReady ^ 6))] ∧
      intensity demoReady / radius demoReady ^ 6 * radius demoReady ^ 6 =
        intensity demoReady ∧
      w'.sao.m_settings = demoReady.sao.m_settings :=
  ⟨reloadShaders_loaded demoAllocated, demoReady_allocated.1.rawAOFramebuffer,
    by rw [show radius demoReady = 1 from rfl]; exact one_pos,
    C23_intensityDivR6 demoEnv (some 0) ⟨100, 99, -100⟩ ⟨1, 1, 1, 1⟩ 500 (some 4) 1 demoReady 1
      (reloadShaders_loaded demoAllocated) demoReady_allocated.1.rawAOFramebuffer
      (fun _ => by norm_num) (by rw [show radius demoReady = 1 from rfl]; exact one_pos)⟩

/-- C24: a `compute` with valid arguments returns, and of all the draws it
submits exactly the last two use the blur program.  The first of them has the
raw-AO buffer as `source` and axis (1, 0) and is drawn on the owned
intermediate framebuffer, whose COLOR0 is the intermediate buffer; the second
has that intermediate buffer as `source` and axis (0, 1) and is drawn on the
framebuffer, and in the viewport, that the caller had bound when `compute` was
entered. -/
theorem C24_blur_two_passes (env : Env) (d : Nat) (c : Vector3) (p : Vector4) (ps : ℚ)
    (g : Int) (w : World) (hc : Consistent w)
    (hfirst : w.sao.m_rawAOFramebuffer = none →
      (env.ZBITS = 16 ∨ env.ZBITS = 32) ∧
        (env.debug = true → 0 < (w.textures d).width ∧ 0 < (w.textures d).height))
    (hps : env.debug = true → ps > 0) :
    ∃ w' pre stH shH stV shV hFb raw hBlurred,
      compute env (some d) c p ps g w = .ok w' ∧
      draws w'.commands = draws w.commands ++ pre ++
        [(stH, shH, Z_COORD), (stV, shV, Z_COORD)] ∧
      (∀ e ∈ pre, e.2.1.pixelFile ≠ "SAO_blur.pix") ∧
      (w'.sao.m_hBlurredFramebuffer = some hFb ∧ w'.sao.m_rawAOBuffer = some raw ∧
        w'.sao.m_hBlurredBuffer = some hBlurred ∧
        (w'.framebuffers hFb).color0 = some ⟨hBlurred, 0⟩) ∧
      (shH.pixelFile = "SAO_blur.pix" ∧ shH.args "source" = some (.texture (some raw)) ∧
        shH.args "axis" = some (.vector2int16 1 0) ∧ stH.framebuffer = some hFb) ∧
      (shV.pixelFile = "SAO_blur.pix" ∧
        shV.args "source" = some (.texture (some hBlurred)) ∧
        shV.args "axis" = some (.vector2int16 0 1) ∧
        stV.framebuffer = w.rd.state.framebuffer ∧ stV.viewport = w.rd.state.viewport) := by
  obtain ⟨w', rawFb, hFb, raw, hBlurred, csz, fbs, L, stR, shR, stH, shH, stV, shV, hw',
    ⟨hA, hB⟩, hd, -, hL, ⟨-, -, -, r4⟩, ⟨b1, -, -, b4, b5, b6⟩, ⟨v1, v2, -, v4, v5, v6⟩, -, -⟩ :=
    compute_passes env d c p ps g w hc hfirst hps
  refine ⟨w', L ++ [(stR, shR, Z_COORD)], stH, shH, stV, shV, hFb, raw, hBlurred, hw', ?_, ?_,
    ⟨hA.hBlurredFramebuffer, hA.rawAOBuffer, hA.hBlurredBuffer, hB.hColor0⟩,
    ⟨b4, b5, b6, b1⟩, ⟨v4, v5, v6, v1, v2⟩⟩
  · rw [hd]
    simp
  · intro e he
    rcases List.mem_append.mp he with h | h
    · rcases hL e h with h1 | h1 <;> rw [h1] <;> decide
    · rw [List.mem_singleton] at h
      rw [h]
      show shR.pixelFile ≠ "SAO_blur.pix"
      rw [r4]
      decide

theorem C24_blur_two_passes_witness :
    Consistent demoWorld ∧
    ∃ w' pre stH shH stV shV hFb raw hBlurred,
      compute demoEnv (some 0) ⟨100, 99, -100⟩ ⟨1, 1, 1, 1⟩ 500 1 demoWorld = .ok w' ∧
      draws w'.commands = draws demoWorld.commands ++ pre ++
        [(stH, shH, Z_COORD), (stV, shV, Z_COORD)] ∧
      (∀ e ∈ pre, e.2.1.pixelFile ≠ "SAO_blur.pix") ∧
      (w'.sao.m_hBlurredFramebuffer = some hFb ∧ w'.sao.m_rawAOBuffer = some raw ∧
        w'.sao.m_hBlurredBuffer = some hBlurred ∧
        (w'.framebuffers hFb).color0 = some ⟨hBlurred, 0⟩) ∧
      (shH.pixelFile = "SAO_blur.pix" ∧ shH.args "source" = some (.texture (some raw)) ∧
        shH.args "axis" = some (.vector2int16 1 0) ∧ stH.framebuffer = some hFb) ∧
      (shV.pixelFile = "SAO_blur.pix" ∧
        shV.args "source" = some (.texture (some hBlurred)) ∧
        shV.args "axis" = some (.vector2int16 0 1) ∧
        stV.framebuffer = some 0 ∧ stV.viewport = Rect2D.xywh 0 0 4 4) :=
  ⟨consistent_new demoWorld rfl,
    C24_blur_two_passes demoEnv 0 ⟨100, 99, -100⟩ ⟨1, 1, 1, 1⟩ 500 1 demoWorld
      (consistent_new demoWorld rfl) (fun _ => ⟨Or.inr rfl, fun _ => ⟨by decide, by decide⟩⟩)
      (fun _ => by norm_num)⟩

/-- C25 fails as stated: in the demo scene with the viewport narrowed to 2x2
the depth buffer and the colour target of the bound framebuffer both have the
padded size 4x4 for `W = H = 2` and `g = 1`, and `compute` returns; the
estimation draw and the horizontal blur draw are clipped to `xyxy(1, 1, 3, 3)`,
but the vertical blur draw, on the caller's framebuffer, is clipped to
`xyxy(1, 1, 1, 1)`, which contains no pixel. -/
theorem C25_viewport_counterexample :
    Consistent demoNarrowViewport ∧
    (demoNarrowViewport.textures 0).width = 2 + 2 * 1 ∧
    (demoNarrowViewport.textures 0).height = 2 + 2 * 1 ∧
    demoNarrowViewport.rd.state.framebuffer = some 0 ∧
    (demoNarrowViewport.framebuffers 0).color0 = some ⟨1, 0⟩ ∧
    (demoNarrowViewport.textures 1).width = 2 + 2 * 1 ∧
    (demoNarrowViewport.textures 1).height = 2 + 2 * 1 ∧
    ∃ w' pre stR shR stH shH stV shV,
      compute demoEnv (some 0) ⟨100, 99, -100⟩ ⟨1, 1, 1, 1⟩ 500 1 demoNarrowViewport = .ok w' ∧
      draws w'.commands = draws demoNarrowViewport.commands ++ pre ++
        [(stR, shR, Z_COORD), (stH, shH, Z_COORD), (stV, shV, Z_COORD)] ∧
      (shR.pixelFile = "SAO_AO.pix" ∧
        shH.pixelFile = "SAO_blur.pix" ∧ shH.args "axis" = some (.vector2int16 1 0) ∧
        shV.pixelFile = "SAO_blur.pix" ∧ shV.args "axis" = some (.vector2int16 0 1)) ∧
      stV.framebuffer = some 0 ∧
      stR.clip2D = Rect2D.xyxy 1 1 (2 + 1) (2 + 1) ∧
      stH.clip2D = Rect2D.xyxy 1 1 (2 + 1) (2 + 1) ∧
      stV.clip2D = Rect2D.xyxy 1 1 1 1 ∧
      stV.clip2D ≠ Rect2D.xyxy 1 1 (2 + 1) (2 + 1) ∧
      (Rect2D.xyxy 1 1 (2 + 1) (2 + 1)).contains 1 1 = true ∧
      ∀ x y : Int, stV.clip2D.contains x y = false := by
  refine ⟨consistent_new demoNarrowViewport rfl, rfl, rfl, rfl, rfl, rfl, rfl, ?_⟩
  obtain ⟨w', pre, stR, shR, stH, shH, stV, shV, hw', hd, a, v1, c1, c2, c3, -⟩ :=
    compute_shared_clip demoEnv 0 ⟨100, 99, -100⟩ ⟨1, 1, 1, 1⟩ 500 2 2 1 demoNarrowViewport 0 1 0
      (consistent_new demoNarrowViewport rfl)
      (fun _ => ⟨Or.inr rfl, fun _ => ⟨by decide, by decide⟩⟩) (fun _ => by norm_num)
      rfl rfl rfl rfl rfl
  have e : stV.clip2D = Rect2D.xyxy 1 1 1 1 := c3
  refine ⟨w', pre, stR, shR, stH, shH, stV, shV, hw', hd, a, v1, c1, c2, e, ?_, by decide, ?_⟩
  · rw [e]; decide
  · intro x y
    rw [e]
    simp only [Rect2D.contains, Rect2D.xyxy, min_self, max_self]
    by_cases h1 : (1 : Int) ≤ x
    · have h2 : ¬ x < 1 := by omega
      simp [h1, h2]
    · simp [h1]

/-- C25, with the condition on the viewport: for every guard band `g >= 0` and
visible size `W x H`, when the depth buffer and the colour target of the
framebuffer bound by the caller both have the padded size
`(W + 2g) x (H + 2g)` and the caller's viewport covers that framebuffer (as
binding it with `push2D` leaves it), a `compute` with valid arguments returns
and its last three draws, the estimation draw and the horizontal and vertical
blur draws, all have the scissor rectangle `xyxy(g, g, W + g, H + g)`.  That
rectangle holds the pixels with `g <= x < W + g` and `g <= y < H + g`, exactly
`W * H` of the pixels of the buffer, and it is the whole buffer when `g = 0`.
The demo is an instance: it calls `compute` with guard band
`COMPUTE_GUARD_BAND = 192` on buffers of size
`(1920 + 2 * 192) x (1080 + 2 * 192)` bound with `push2D`, and the three draws
are clipped to `xyxy(192, 192, 2112, 1272)`. -/
theorem C25_shared_clip (env : Env) (d : Nat) (c : Vector3) (p : Vector4) (ps : ℚ)
    (W H g : Nat) (w : World) (f t l : Nat) (hc : Consistent w)
    (hfirst : w.sao.m_rawAOFramebuffer = none →
      (env.ZBITS = 16 ∨ env.ZBITS = 32) ∧
        (env.debug = true → 0 < (w.textures d).width ∧ 0 < (w.textures d).height))
    (hps : env.debug = true → ps > 0)
    (hdW : (w.textures d).width = (W : Int) + 2 * g)
    (hdH : (w.textures d).height = (H : Int) + 2 * g)
    (hfb : w.rd.state.framebuffer = some f)
    (hcol : (w.framebuffers f).color0 = some ⟨t, l⟩)
    (htW : (w.textures t).width = (W : Int) + 2 * g)
    (htH : (w.textures t).height = (H : Int) + 2 * g)
    (hview : w.rd.state.viewport = w.rect2DBounds f) :
    (∃ w' pre stR shR stH shH stV shV,
      compute env (some d) c p ps g w = .ok w' ∧
      draws w'.commands = draws w.commands ++ pre ++
        [(stR, shR, Z_COORD), (stH, shH, Z_COORD), (stV, shV, Z_COORD)] ∧
      (shR.pixelFile = "SAO_AO.pix" ∧
        shH.pixelFile = "SAO_blur.pix" ∧ shH.args "axis" = some (.vector2int16 1 0) ∧
        shV.pixelFile = "SAO_blur.pix" ∧ shV.args "axis" = some (.vector2int16 0 1)) ∧
      stV.framebuffer = some f ∧
      stR.clip2D = Rect2D.xyxy g g ((W : Int) + g) ((H : Int) + g) ∧
      stH.clip2D = Rect2D.xyxy g g ((W : Int) + g) ((H : Int) + g) ∧
      stV.clip2D = Rect2D.xyxy g g ((W : Int) + g) ((H : Int) + g)) ∧
    (∀ x y : Int, (Rect2D.xyxy g g ((W : Int) + g) ((H : Int) + g)).contains x y = true ↔
      ((g : Int) ≤ x ∧ x < (W : Int) + g) ∧ ((g : Int) ≤ y ∧ y < (H : Int) + g)) ∧
    (Finset.filter
      (fun q : Int × Int =>
        (Rect2D.xyxy g g ((W : Int) + g) ((H : Int) + g)).contains q.1 q.2 = true)
      (Finset.Ico (0 : Int) ((W : Int) + 2 * g) ×ˢ
        Finset.Ico (0 : Int) ((H : Int) + 2 * g))).card = W * H ∧
    (g = 0 → Rect2D.xyxy g g ((W : Int) + g) ((H : Int) + g) =
      Rect2D.xywh 0 0 ((W : Int) + 2 * g) ((H : Int) + 2 * g)) ∧
    (COMPUTE_WIDTH = 1920 ∧ COMPUTE_HEIGHT = 1080 ∧ COMPUTE_GUARD_BAND = 192 ∧
      (appWorld.textures 0).width = COMPUTE_WIDTH + 2 * COMPUTE_GUARD_BAND ∧
      (appWorld.textures 0).height = COMPUTE_HEIGHT + 2 * COMPUTE_GUARD_BAND ∧
      appWorld.rd.state.framebuffer = some 0 ∧
      (appWorld.framebuffers 0).color0 = some ⟨1, 0⟩ ∧
      (appWorld.textures 1).width = COMPUTE_WIDTH + 2 * COMPUTE_GUARD_BAND ∧
      (appWorld.textures 1).height = COMPUTE_HEIGHT + 2 * COMPUTE_GUARD_BAND ∧
      appWorld.rd.state.viewport = appWorld.rect2DBounds 0 ∧
      ∀ (c1 : Vector3) (p1 : Vector4) (ps1 : ℚ), ps1 > 0 →
        ∃ w' pre stR shR stH shH stV shV,
          compute demoEnv (some 0) c1 p1 ps1 COMPUTE_GUARD_BAND appWorld = .ok w' ∧
          draws w'.commands = draws appWorld.commands ++ pre ++
            [(stR, shR, Z_COORD), (stH, shH, Z_COORD), (stV, shV, Z_COORD)] ∧
          stR.clip2D = Rect2D.xyxy 192 192 2112 1272 ∧
          stH.clip2D = Rect2D.xyxy 192 192 2112 1272 ∧
          stV.clip2D = Rect2D.xyxy 192 192 2112 1272) := by
  refine ⟨?_, paddedClip_contains W H g, paddedClip_card W H g, ?_, rfl, rfl, rfl, rfl, rfl, rfl,
    rfl, rfl, rfl, rfl, ?_⟩
  · obtain ⟨w', pre, stR, shR, stH, shH, stV, shV, hw', hd, a, v1, c1, c2, -, c4⟩ :=
      compute_shared_clip env d c p ps W H g w f t l hc hfirst hps hdW hdH hcol htW htH
    exact ⟨w', pre, stR, shR, stH, shH, stV, shV, hw', hd, a, v1.trans hfb, c1, c2, c4 hview⟩
  · intro h0
    subst h0
    exact paddedClip_whole W H
  · intro c1 p1 ps1 hps1
    obtain ⟨w', pre, stR, shR, stH, shH, stV, shV, hw', hd, -, -, a1, a2, -, a3⟩ :=
      compute_shared_clip demoEnv 0 c1 p1 ps1 1920 1080 192 appWorld 0 1 0
        (consistent_new appWorld rfl) (fun _ => ⟨Or.inr rfl, fun _ => ⟨by decide, by decide⟩⟩)
        (fun _ => hps1) rfl rfl rfl rfl rfl
    exact ⟨w', pre, stR, shR, stH, shH, stV, shV, hw', hd, a1, a2, a3 rfl⟩

theorem C25_shared_clip_witness :
    Consistent demoWorld ∧ (demoWorld.textures 0).width = ((2 : Nat) : Int) + 2 * (1 : Nat) ∧
    (demoWorld.textures 0).height = ((2 : Nat) : Int) + 2 * (1 : Nat) ∧
    demoWorld.rd.state.framebuffer = some 0 ∧
    (demoWorld.framebuffers 0).color0 = some ⟨1, 0⟩ ∧
    (demoWorld.textures 1).width = ((2 : Nat) : Int) + 2 * (1 : Nat) ∧
    (demoWorld.textures 1).height = ((2 : Nat) : Int) + 2 * (1 : Nat) ∧
    demoWorld.rd.state.viewport = demoWorld.rect2DBounds 0 ∧
    ∃ w' pre stR shR stH shH stV shV,
      compute demoEnv (some 0) ⟨100, 99, -100⟩ ⟨1, 1, 1, 1⟩ 500 ((1 : Nat) : Int) demoWorld =
        .ok w' ∧
      draws w'.commands = draws demoWorld.commands ++ pre ++
        [(stR, shR, Z_COORD), (stH, shH, Z_COORD), (stV, shV, Z_COORD)] ∧
      (shR.pixelFile = "SAO_AO.pix" ∧
        shH.pixelFile = "SAO_blur.pix" ∧ shH.args "axis" = some (.vector2int16 1 0) ∧
        shV.pixelFile = "SAO_blur.pix" ∧ shV.args "axis" = some (.vector2int16 0 1)) ∧
      stV.framebuffer = some 0 ∧
      stR.clip2D = Rect2D.xyxy 1 1 3 3 ∧ stH.clip2D = Rect2D.xyxy 1 1 3 3 ∧
      stV.clip2D = Rect2D.xyxy 1 1 3 3 :=
  ⟨consistent_new demoWorld rfl, rfl, rfl, rfl, rfl, rfl, rfl, rfl,
    (C25_shared_clip demoEnv 0 ⟨100, 99, -100⟩ ⟨1, 1, 1, 1⟩ 500 2 2 1 demoWorld 0 1 0
      (consistent_new demoWorld rfl) (fun _ => ⟨Or.inr rfl, fun _ => ⟨by decide, by decide⟩⟩)
      (fun _ => by norm_num) rfl rfl rfl rfl rfl rfl rfl).1⟩

/-- C26: `computeRawAO` on a depth buffer other than the raw-AO buffer returns,
having attached the depth buffer as DEPTH of the raw-AO framebuffer, cleared
the colour target to white and drawn the estimation program at `Z_COORD = -1`,
which is window depth 1, under the depth test GREATER with depth writing off.
A pixel of the raw-AO buffer then holds the value of the estimation program
exactly when it lies in the clip rectangle and the depth stored for it is
below 1; every other pixel, in particular every pixel whose stored depth is 1
or more (background), holds white. -/
theorem C26_unwritten_white (env : Env) (d : Nat) (c : Vector3) (p : Vector4) (ps : ℚ)
    (csz : Option Nat) (g : Int) (w : World) (rawFb raw : Nat) (x y : Int)
    (hs : ShadersLoaded w.sao) (hfb : w.sao.m_rawAOFramebuffer = some rawFb)
    (hcol : (w.framebuffers rawFb).color0 = some ⟨raw, 0⟩) (hd : d ≠ raw)
    (hps : env.debug = true → ps > 0)
    (hx0 : 0 ≤ x) (hx : x < (w.textures raw).width)
    (hy0 : 0 ≤ y) (hy : y < (w.textures raw).height) :
    Z_COORD = -1 ∧ fragmentDepth Z_COORD = 1 ∧
    (∀ s : ℚ, depthPasses .DEPTH_GREATER (fragmentDepth Z_COORD) s = true ↔ s < 1) ∧
    ∃ w' st sh T, computeRawAO env (some d) c p ps csz g w = .ok w' ∧
      w'.commands = w.commands ++
        [.clear st true false false,
         .applyRect { st with clip2D := Rect2D.xyxy g g (st.viewport.width - g)
                                          (st.viewport.height - g) } sh Z_COORD] ∧
      (st.framebuffer = some rawFb ∧
        st.viewport = Rect2D.xywh 0 0 (w.textures raw).width (w.textures raw).height ∧
        st.colorClearValue = Color3.white ∧ st.depthTest = .DEPTH_GREATER ∧
        st.depthWrite = false ∧ sh.pixelFile = "SAO_AO.pix") ∧
      ((w'.framebuffers rawFb).color0 = some ⟨raw, 0⟩ ∧
        (w'.framebuffers rawFb).depth = some ⟨d, 0⟩) ∧
      (w'.textures raw).texel 0 x y =
        (if (Rect2D.xyxy g g ((w.textures raw).width - g)
              ((w.textures raw).height - g)).contains x y = true ∧
            ((w.textures d).texel 0 x y).r < 1
         then env.kernel sh T x y else Color3.white) ∧
      (¬ ((w.textures d).texel 0 x y).r < 1 → (w'.textures raw).texel 0 x y = Color3.white) ∧
      ((Rect2D.xyxy g g ((w.textures raw).width - g)
          ((w.textures raw).height - g)).contains x y = false →
        (w'.textures raw).texel 0 x y = Color3.white) := by
  refine ⟨rfl, fragmentDepth_Z_COORD, fun s => by simp [depthPasses, fragmentDepth_Z_COORD], ?_⟩
  obtain ⟨w', st, sh, hw', a1, a2, a3, a4, a5, a6, a7, -, a9, a10⟩ :=
    computeRawAO_effect env (some d) c p ps csz g w rawFb hs hfb hps
  obtain ⟨w'', sh', T, hw'', b1, b2⟩ :=
    computeRawAO_texel env d c p ps csz g w rawFb raw x y hs hfb hcol hd hps hx0 hx hy0 hy
  have e : w'' = w' := Outcome.ok.inj (hw''.symm.trans hw')
  subst e
  have esh : sh' = sh := by
    rw [a9] at b1
    exact (Option.some.inj b1).symm
  subst esh
  refine ⟨w'', st, sh', T, hw', a1,
    ⟨a2, by rw [a3, framebufferSet_depth_bounds w rawFb raw 0 (some d) hcol], a6, a5, a4, a7⟩,
    ⟨?_, ?_⟩, b2, ?_, ?_⟩
  · rw [a10]; simp [Framebuffer.set, hcol]
  · rw [a10]; simp [Framebuffer.set]
  · intro h
    rw [b2, if_neg (fun hh => h hh.2)]
  · intro h
    rw [b2, if_neg (fun hh => by rw [h] at hh; exact Bool.false_ne_true hh.1)]

theorem C26_unwritten_white_witness :
    ShadersLoaded demoReady.sao ∧ demoReady.sao.m_rawAOFramebuffer = some 1 ∧
    (demoReady.framebuffers 1).color0 = some ⟨2, 0⟩ ∧
    ∃ w', computeRawAO demoEnv (some 0) ⟨100, 99, -100⟩ ⟨1, 1, 1, 1⟩ 500 (some 4) 1 demoReady =
        .ok w' ∧
      (w'.framebuffers 1).depth = some ⟨0, 0⟩ ∧
      (w'.textures 2).texel 0 0 0 = Color3.white :=
  have h := (C26_unwritten_white demoEnv 0 ⟨100, 99, -100⟩ ⟨1, 1, 1, 1⟩ 500 (some 4) 1
    demoReady 1 2 0 0 (reloadShaders_loaded demoAllocated)
    demoReady_allocated.1.rawAOFramebuffer demoReady_allocated.2.rawColor0 (by decide)
    (fun _ => by norm_num) (le_refl 0) (by decide) (le_refl 0) (by decide)).2.2.2
  ⟨reloadShaders_loaded demoAllocated, demoReady_allocated.1.rawAOFramebuffer,
    demoReady_allocated.2.rawColor0,
    match h with
    | ⟨w', _, _, _, hw', _, _, hf, _, _, hout⟩ => ⟨w', hw', hf.2, hout rfl⟩⟩

/-- C27 fails as stated: after the first `compute` of the demo scene on depth
buffer 0 has returned, that texture is still the DEPTH attachment of the
raw-AO framebuffer of the instance and still the `DEPTH_AND_STENCIL_buffer`
argument of its reconstruction shader. -/
theorem C27_depth_reference_counterexample :
    ∃ w' rawFb sh,
      compute demoEnv (some 0) ⟨100, 99, -100⟩ ⟨1, 1, 1, 1⟩ 500 1 demoWorld = .ok w' ∧
      w'.sao.m_rawAOFramebuffer = some rawFb ∧
      (w'.framebuffers rawFb).depth = some ⟨0, 0⟩ ∧
      w'.sao.m_reconstructCSZShader = some sh ∧
      sh.args "DEPTH_AND_STENCIL_buffer" = some (.texture (some 0)) := by
  obtain ⟨w', rawFb, hFb, raw, hBlurred, csz, fbs, L, stR, shR, stH, shH, stV, shV, hw',
    ⟨hA, -⟩, -, -, -, -, -, -, hdep, sh, hsh, harg⟩ :=
    compute_passes demoEnv 0 ⟨100, 99, -100⟩ ⟨1, 1, 1, 1⟩ 500 1 demoWorld
      (consistent_new demoWorld rfl) (fun _ => ⟨Or.inr rfl, fun _ => ⟨by decide, by decide⟩⟩)
      (fun _ => by norm_num)
  exact ⟨w', rawFb, sh, hw', hA.rawAOFramebuffer, hdep, hsh, harg⟩

/-- C27, as the code has it: after a `compute` with valid arguments has
returned, the instance still refers to the caller's depth buffer in two
places: it is the DEPTH attachment of the owned raw-AO framebuffer and the
`DEPTH_AND_STENCIL_buffer` argument of the retained reconstruction shader.
The state reached satisfies the class invariant, so a later `compute` returns
as well and leaves its own depth buffer in both places. -/
theorem C27_depth_reference_retained (env : Env) (d : Nat) (c : Vector3) (p : Vector4)
    (ps : ℚ) (g : Int) (w : World) (hc : Consistent w)
    (hfirst : w.sao.m_rawAOFramebuffer = none →
      (env.ZBITS = 16 ∨ env.ZBITS = 32) ∧
        (env.debug = true → 0 < (w.textures d).width ∧ 0 < (w.textures d).height))
    (hps : env.debug = true → ps > 0) :
    ∃ w' rawFb sh, compute env (some d) c p ps g w = .ok w' ∧
      w'.sao.m_rawAOFramebuffer = some rawFb ∧
      (w'.framebuffers rawFb).depth = some ⟨d, 0⟩ ∧
      w'.sao.m_reconstructCSZShader = some sh ∧
      sh.args "DEPTH_AND_STENCIL_buffer" = some (.texture (some d)) ∧
      ∀ (d2 : Nat) (c2 : Vector3) (p2 : Vector4) (ps2 : ℚ) (g2 : Int),
        (env.debug = true → ps2 > 0) →
        ∃ w'' rawFb2 sh2, compute env (some d2) c2 p2 ps2 g2 w' = .ok w'' ∧
          w''.sao.m_rawAOFramebuffer = some rawFb2 ∧
          (w''.framebuffers rawFb2).depth = some ⟨d2, 0⟩ ∧
          w''.sao.m_reconstructCSZShader = some sh2 ∧
          sh2.args "DEPTH_AND_STENCIL_buffer" = some (.texture (some d2)) := by
  obtain ⟨w', rawFb, hFb, raw, hBlurred, csz, fbs, L, stR, shR, stH, shH, stV, shV, hw',
    ⟨hA, -⟩, -, -, -, -, -, -, hdep, sh, hsh, harg⟩ :=
    compute_passes env d c p ps g w hc hfirst hps
  obtain ⟨w1, hw1, hc1, -⟩ := compute_ok env d c p ps g w hc hfirst hps
  have e : w1 = w' := Outcome.ok.inj (hw1.symm.trans hw')
  subst e
  refine ⟨w1, rawFb, sh, hw', hA.rawAOFramebuffer, hdep, hsh, harg, ?_⟩
  intro d2 c2 p2 ps2 g2 hps2
  obtain ⟨w'', rawFb2, hFb2, raw2, hBlurred2, csz2, fbs2, L2, stR2, shR2, stH2, shH2, stV2,
    shV2, hw'', ⟨hA2, -⟩, -, -, -, -, -, -, hdep2, sh2, hsh2, harg2⟩ :=
    compute_passes env d2 c2 p2 ps2 g2 w1 hc1
      (fun hn => by rw [hA.rawAOFramebuffer] at hn; cases hn) hps2
  exact ⟨w'', rawFb2, sh2, hw'', hA2.rawAOFramebuffer, hdep2, hsh2, harg2⟩

theorem C27_depth_reference_retained_witness :
    Consistent demoWorld ∧
    ∃ w' rawFb sh,
      compute demoEnv (some 0) ⟨100, 99, -100⟩ ⟨1, 1, 1, 1⟩ 500 1 demoWorld = .ok w' ∧
      w'.sao.m_rawAOFramebuffer = some rawFb ∧
      (w'.framebuffers rawFb).depth = some ⟨0, 0⟩ ∧
      w'.sao.m_reconstructCSZShader = some sh ∧
      sh.args "DEPTH_AND_STENCIL_buffer" = some (.texture (some 0)) ∧
      ∀ (d2 : Nat) (c2 : Vector3) (p2 : Vector4) (ps2 : ℚ) (g2 : Int),
        (demoEnv.debug = true → ps2 > 0) →
        ∃ w'' rawFb2 sh2, compute demoEnv (some d2) c2 p2 ps2 g2 w' = .ok w'' ∧
          w''.sao.m_rawAOFramebuffer = some rawFb2 ∧
          (w''.framebuffers rawFb2).depth = some ⟨d2, 0⟩ ∧
          w''.sao.m_reconstructCSZShader = some sh2 ∧
          sh2.args "DEPTH_AND_STENCIL_buffer" = some (.texture (some d2)) :=
  ⟨consistent_new demoWorld rfl,
    C27_depth_reference_retained demoEnv 0 ⟨100, 99, -100⟩ ⟨1, 1, 1, 1⟩ 500 1 demoWorld
      (consistent_new demoWorld rfl) (fun _ => ⟨Or.inr rfl, fun _ => ⟨by decide, by decide⟩⟩)
      (fun _ => by norm_num)⟩

end SAO
